import Mathlib

/-!
# Certificate-provisioning mock CA service (openweave-core)

A shallow embedding of `src/test-apps/MockCAService.cpp`:
`GetCertificateRequestMessage::Decode`, `GetCertificateRequestMessage::GenerateTBSHash`,
`MockCAService::ProcessGetCertificateRequest`,
`MockCAService::GenerateServiceAssignedDeviceCert`,
`MockCAService::GenerateGetCertificateResponse`, `MockCAService::SendStatusReport` and
`MockCAService::HandleClientRequest`, and of
`src/lib/profiles/network-provisioning/WirelessRegConfig.h` and `WirelessRegConfig.cpp`:
`WirelessRegConfig::Init`,
`IsRegDomainPresent`, `IsOpLocationPresent`, `Encode`, `Decode` and `DecodeInPlace`,
together with the part of the Weave TLV reader and writer these functions drive.

Conventions of the embedding.

* A packet buffer is the sequence of encoded TLV elements it holds (`Token`): each element
  keeps the bytes of its head as they stand in the buffer, the tag / type / value the reader
  decodes from that head, and the bytes of its string payload.  Byte offsets are sums of
  the lengths of the elements that precede a position.
* Pointers into the request buffer are offsets from the start of the buffer (`BytePtr`).
* Functions that `goto exit` with an error are `Except WEAVE_ERROR`; a reader call whose
  result the caller does not test returns the error code together with the reader as it is
  left.
* Routines whose bodies live in other Weave libraries (certificate decoding, signature
  decoding, chain validation, hashing and signature verification) are fields of
  `Collaborators`; those of certificate issuance and of the exchange (random bytes, DER
  conversion, signature generation, packet buffers, sending) are fields of
  `ServiceCollaborators`; every theorem holds for every choice of them.
* What the request handler does to packet buffers and to the exchange is a list of
  `Event`s.
* `WirelessRegConfig::Decode` keeps the state it leaves on every path (`DecodeResult`), with
  the list of the stores it made into the array of supported domains.
-/

namespace Weave

/-! ## Error codes -/

/-- Modelled from the spec: the `WEAVE_ERROR` codes named in `MockCAService.cpp`
(`Weave/Core/WeaveError.h` is not part of the sources); `other` stands for any further
code a collaborator may return. -/
inductive WEAVE_ERROR
  | WEAVE_NO_ERROR
  | WEAVE_END_OF_TLV
  | WEAVE_ERROR_WRONG_TLV_TYPE
  | WEAVE_ERROR_UNEXPECTED_TLV_ELEMENT
  | WEAVE_ERROR_INVALID_ARGUMENT
  | WEAVE_ERROR_BUFFER_TOO_SMALL
  | WEAVE_ERROR_TLV_UNDERRUN
  | WEAVE_ERROR_INCORRECT_STATE
  | WEAVE_ERROR_NO_MEMORY
  | WEAVE_ERROR_INVALID_SIGNATURE
  | WEAVE_ERROR_NOT_IMPLEMENTED
  | WEAVE_ERROR_UNSUPPORTED_SIGNATURE_TYPE
  | other (code : Nat)
  deriving DecidableEq, Repr

open WEAVE_ERROR

/-- The macro `SuccessOrExit(err)`: continue when `err` is `WEAVE_NO_ERROR`, otherwise leave
with `err`. -/
def SuccessOrExit {α : Type} (x : WEAVE_ERROR × α) : Except WEAVE_ERROR α :=
  if x.1 = WEAVE_NO_ERROR then .ok x.2 else .error x.1

/-- The macro `VerifyOrExit(cond, err = e)`. -/
def VerifyOrExit (cond : Bool) (e : WEAVE_ERROR) : Except WEAVE_ERROR Unit :=
  if cond then .ok () else .error e

/-! ## TLV elements -/

/-- Modelled from the spec: TLV tags (`Weave/Core/WeaveTLVTags.h` is not part of the
sources): the anonymous tag, context-specific tags and profile-specific tags. -/
inductive Tag
  | AnonymousTag
  | ContextTag (tagNum : Nat)
  | ProfileTag (profileId : Nat) (tagNum : Nat)
  deriving DecidableEq, Repr

open Tag

/-- Modelled from the spec: the element types `TLVReader::GetType` reports
(`Weave/Core/WeaveTLVTypes.h` is not part of the sources). -/
inductive TLVType
  | kTLVType_NotSpecified
  | kTLVType_UnknownContainer
  | kTLVType_SignedInteger
  | kTLVType_UnsignedInteger
  | kTLVType_Boolean
  | kTLVType_FloatingPointNumber
  | kTLVType_UTF8String
  | kTLVType_ByteString
  | kTLVType_Null
  | kTLVType_Structure
  | kTLVType_Array
  | kTLVType_Path
  deriving DecidableEq, Repr

open TLVType

/-- Modelled from the spec: the kind of an encoded element as it stands in the buffer: a
value of one of the reported types, or the end-of-container marker that closes a structure,
array or path. -/
inductive TLVElementType
  | kTLVElementType_NotSpecified
  | kTLVElementType_SignedInteger
  | kTLVElementType_UnsignedInteger
  | kTLVElementType_Boolean
  | kTLVElementType_FloatingPointNumber
  | kTLVElementType_UTF8String
  | kTLVElementType_ByteString
  | kTLVElementType_Null
  | kTLVElementType_Structure
  | kTLVElementType_Array
  | kTLVElementType_Path
  | kTLVElementType_EndOfContainer
  deriving DecidableEq, Repr

open TLVElementType

/-- Modelled from the spec: `TLVTypeHasLength` of the TLV library: whether an element of this
kind is followed by payload bytes. -/
def TLVTypeHasLength : TLVElementType → Bool
  | kTLVElementType_UTF8String => true
  | kTLVElementType_ByteString => true
  | _ => false

/-- Modelled from the spec: `TLVTypeIsContainer` of the TLV library: whether an element of
this kind opens a container. -/
def TLVTypeIsContainer : TLVElementType → Bool
  | kTLVElementType_Structure => true
  | kTLVElementType_Array => true
  | kTLVElementType_Path => true
  | _ => false

/-- Modelled from the spec: the type `TLVReader::GetType` reports for an element kind; the
end-of-container marker is reported as `kTLVType_NotSpecified`. -/
def TLVElementType.toTLVType : TLVElementType → TLVType
  | kTLVElementType_NotSpecified => kTLVType_NotSpecified
  | kTLVElementType_SignedInteger => kTLVType_SignedInteger
  | kTLVElementType_UnsignedInteger => kTLVType_UnsignedInteger
  | kTLVElementType_Boolean => kTLVType_Boolean
  | kTLVElementType_FloatingPointNumber => kTLVType_FloatingPointNumber
  | kTLVElementType_UTF8String => kTLVType_UTF8String
  | kTLVElementType_ByteString => kTLVType_ByteString
  | kTLVElementType_Null => kTLVType_Null
  | kTLVElementType_Structure => kTLVType_Structure
  | kTLVElementType_Array => kTLVType_Array
  | kTLVElementType_Path => kTLVType_Path
  | kTLVElementType_EndOfContainer => kTLVType_NotSpecified

/-- One encoded element of a buffer: the bytes of its head (control byte, tag, length or
value field), what the reader decodes from the head, and the payload bytes that follow the
head of a string. A container is its opening element, the elements it holds and an
end-of-container element. -/
structure Token where
  head : List Nat
  elemType : TLVElementType
  tag : Tag
  val : Nat
  data : List Nat
  deriving DecidableEq, Repr

/-- The bytes an element occupies in the buffer. -/
def Token.bytes (t : Token) : List Nat :=
  t.head ++ (if TLVTypeHasLength t.elemType then t.data else [])

/-- The bytes of a run of elements. -/
def bytesOf : List Token → List Nat
  | [] => []
  | t :: ts => t.bytes ++ bytesOf ts

/-! ## The TLV reader -/

/-- Modelled from the spec: the TLV cursor `nl::Weave::TLV::TLVReader`
(`Weave/Core/WeaveTLV.h`, not part of the sources), a sequential, tag-and-type-aware reader
over a buffer that enters and exits containers, reports the tag and type of the element it
is positioned on and hands out in-place spans of string payloads.

`before` holds the elements the read point has passed, `cur` the element whose head was read
last (none after the element state is cleared), `after` the elements not yet read. The read
point is just past the head of `cur`. -/
structure TLVReader where
  before : List Token
  cur : Option Token
  after : List Token
  mContainerType : TLVType
  deriving DecidableEq, Repr

namespace TLVReader

/-- Modelled from the spec: `TLVReader::Init(PacketBuffer *)`: the reader at the start of
the buffer, outside any container. -/
def Init (msgBuf : List Token) : TLVReader :=
  { before := [], cur := none, after := msgBuf, mContainerType := kTLVType_NotSpecified }

/-- Modelled from the spec: `TLVReader::ElementType()`: the kind of the current element. -/
def ElementType (r : TLVReader) : TLVElementType :=
  match r.cur with
  | none => kTLVElementType_NotSpecified
  | some t => t.elemType

/-- Modelled from the spec: `TLVReader::GetType()`. -/
def GetType (r : TLVReader) : TLVType := r.ElementType.toTLVType

/-- Modelled from the spec: `TLVReader::GetTag()`; the anonymous tag when no element is
current. -/
def GetTag (r : TLVReader) : Tag :=
  match r.cur with
  | none => AnonymousTag
  | some t => t.tag

/-- Modelled from the spec: `TLVReader::GetLength()`: the payload length of a string
element, 0 otherwise. -/
def GetLength (r : TLVReader) : Nat :=
  match r.cur with
  | none => 0
  | some t => if TLVTypeHasLength t.elemType then t.data.length else 0

/-- Modelled from the spec: `TLVReader::GetReadPoint()`, as an offset from the start of the
buffer: just past the head of the current element. -/
def GetReadPoint (r : TLVReader) : Nat :=
  (bytesOf r.before).length + (match r.cur with | none => 0 | some t => t.head.length)

/-- Modelled from the spec: `TLVReader::Get(v)` for an integer output: the value of an
integer element, `WEAVE_ERROR_WRONG_TLV_TYPE` on any other element. -/
def Get (r : TLVReader) : Except WEAVE_ERROR Nat :=
  match r.cur with
  | none => .error WEAVE_ERROR_WRONG_TLV_TYPE
  | some t =>
    if t.elemType = kTLVElementType_UnsignedInteger ∨ t.elemType = kTLVElementType_SignedInteger
    then .ok t.val else .error WEAVE_ERROR_WRONG_TLV_TYPE

/-- Modelled from the spec: `TLVReader::GetDataPtr(p)`: the offset of the first payload byte
of a string element, `WEAVE_ERROR_WRONG_TLV_TYPE` on any other element. -/
def GetDataPtr (r : TLVReader) : Except WEAVE_ERROR Nat :=
  if TLVTypeHasLength r.ElementType then .ok r.GetReadPoint
  else .error WEAVE_ERROR_WRONG_TLV_TYPE

/-- Modelled from the spec: skipping the payload of the current element and clearing the
element state (`SkipData` followed by `ClearElementState`): the current element joins the
passed ones. -/
def ClearElement (r : TLVReader) : TLVReader :=
  { r with before := r.before ++ r.cur.toList, cur := none }

/-- Modelled from the spec: `TLVReader::ReadElement()`: read the head of the next element;
`WEAVE_END_OF_TLV` at the end of the buffer. -/
def ReadElement (r : TLVReader) : WEAVE_ERROR × TLVReader :=
  match r.after with
  | [] => (WEAVE_END_OF_TLV, r.ClearElement)
  | t :: rest => (WEAVE_NO_ERROR, { r.ClearElement with cur := some t, after := rest })

/-- Modelled from the spec: `TLVReader::EnterContainer(outerContainerType)`: the reader moves
inside the container it is positioned on; returns the enclosing container type. -/
def EnterContainer (r : TLVReader) : Except WEAVE_ERROR (TLVType × TLVReader) :=
  if TLVTypeIsContainer r.ElementType then
    .ok (r.mContainerType, { r.ClearElement with mContainerType := r.GetType })
  else .error WEAVE_ERROR_INCORRECT_STATE

/-- Modelled from the spec: the kind of an optional current element, as `ElementType()`. -/
def elementTypeOf (c : Option Token) : TLVElementType :=
  match c with
  | none => kTLVElementType_NotSpecified
  | some t => t.elemType

/-- Modelled from the spec: the nesting depth after the loop of `SkipToEndOfContainer` has
looked at an element. -/
def skipNest (elemType : TLVElementType) (nest : Nat) : Nat :=
  if elemType = kTLVElementType_EndOfContainer then nest - 1
  else if TLVTypeIsContainer elemType then nest + 1 else nest

/-- Modelled from the spec: the value of `mContainerType` after the loop of
`SkipToEndOfContainer` has looked at an element. -/
def skipContainerType (outer : TLVType) (elemType : TLVElementType) (nest : Nat)
    (ct : TLVType) : TLVType :=
  if elemType = kTLVElementType_EndOfContainer then
    (if skipNest elemType nest = 0 then outer else kTLVType_UnknownContainer)
  else if TLVTypeIsContainer elemType then elemType.toTLVType else ct

/-- Modelled from the spec: the loop of `TLVReader::SkipToEndOfContainer`: starting from the
current element `c` at nesting depth `nest`, read on until the end-of-container element of
depth 0 is current. The first argument is the part of the buffer not yet read. -/
def skipLoop (outer : TLVType) :
    List Token → Nat → List Token → Option Token → TLVType → WEAVE_ERROR × TLVReader
  | [], nest, before, c, ct =>
    if elementTypeOf c = kTLVElementType_EndOfContainer ∧ nest = 0 then
      (WEAVE_NO_ERROR, { before := before, cur := c, after := [], mContainerType := ct })
    else
      (WEAVE_END_OF_TLV,
        { before := before ++ c.toList
          cur := none
          after := []
          mContainerType := skipContainerType outer (elementTypeOf c) nest ct })
  | t :: rest, nest, before, c, ct =>
    if elementTypeOf c = kTLVElementType_EndOfContainer ∧ nest = 0 then
      (WEAVE_NO_ERROR, { before := before, cur := c, after := t :: rest, mContainerType := ct })
    else
      skipLoop outer rest (skipNest (elementTypeOf c) nest) (before ++ c.toList) (some t)
        (skipContainerType outer (elementTypeOf c) nest ct)

/-- Modelled from the spec: `TLVReader::SkipToEndOfContainer()`. -/
def SkipToEndOfContainer (r : TLVReader) : WEAVE_ERROR × TLVReader :=
  skipLoop r.mContainerType r.after 0 r.before r.cur r.mContainerType

/-- Modelled from the spec: `TLVReader::ExitContainer(outerContainerType)`: the reader moves
past the end of the container it is in. -/
def ExitContainer (r : TLVReader) (outerContainerType : TLVType) : WEAVE_ERROR × TLVReader :=
  let res := r.SkipToEndOfContainer
  if res.1 = WEAVE_NO_ERROR then
    (WEAVE_NO_ERROR, { res.2.ClearElement with mContainerType := outerContainerType })
  else res

/-- Modelled from the spec: `TLVReader::Skip()`: move past the current element, a container
with all it holds; `WEAVE_END_OF_TLV` when the current element closes the container. -/
def Skip (r : TLVReader) : WEAVE_ERROR × TLVReader :=
  if r.ElementType = kTLVElementType_EndOfContainer then (WEAVE_END_OF_TLV, r)
  else if TLVTypeIsContainer r.ElementType then
    match r.EnterContainer with
    | .error e => (e, r)
    | .ok (outerContainerType, r1) => r1.ExitContainer outerContainerType
  else (WEAVE_NO_ERROR, r.ClearElement)

/-- Modelled from the spec: `TLVReader::Next()`: skip the current element and read the head
of the one that follows; `WEAVE_END_OF_TLV` when that one is an end-of-container element. -/
def Next (r : TLVReader) : WEAVE_ERROR × TLVReader :=
  let s := r.Skip
  if s.1 = WEAVE_NO_ERROR then
    let e := s.2.ReadElement
    if e.1 = WEAVE_NO_ERROR then
      if e.2.ElementType = kTLVElementType_EndOfContainer then (WEAVE_END_OF_TLV, e.2)
      else (WEAVE_NO_ERROR, e.2)
    else e
  else s

/-- Modelled from the spec: `TLVReader::Next(expectedType, expectedTag)`: the reader advances
as `Next()` does, whatever the outcome of the comparison. -/
def NextExpect (r : TLVReader) (expectedType : TLVType) (expectedTag : Tag) :
    WEAVE_ERROR × TLVReader :=
  let n := r.Next
  if n.1 = WEAVE_NO_ERROR then
    if n.2.GetType = expectedType then
      if n.2.GetTag = expectedTag then (WEAVE_NO_ERROR, n.2)
      else (WEAVE_ERROR_UNEXPECTED_TLV_ELEMENT, n.2)
    else (WEAVE_ERROR_WRONG_TLV_TYPE, n.2)
  else n

/-- Every element of the buffer, in order: passed, current and not yet read. -/
def all (r : TLVReader) : List Token := r.before ++ r.cur.toList ++ r.after

/-- Modelled from the spec: `TLVReader::VerifyEndOfContainer()`: advances with `Next()` and
succeeds exactly when that reaches the end of the container. -/
def VerifyEndOfContainer (r : TLVReader) : WEAVE_ERROR × TLVReader :=
  let n := r.Next
  if n.1 = WEAVE_END_OF_TLV then (WEAVE_NO_ERROR, n.2)
  else if n.1 = WEAVE_NO_ERROR then (WEAVE_ERROR_UNEXPECTED_TLV_ELEMENT, n.2)
  else n

/-- The elements a container holds, when the reader is positioned on its opening element
and the buffer closes it: what a routine that enters the container, reads it through and
exits sees. -/
def containerContent (r : TLVReader) : List Token :=
  match r.Skip with
  | (WEAVE_NO_ERROR, r1) => ((r1.before.drop (r.before.length + 1)).dropLast)
  | _ => []

end TLVReader

/-! ## Data of the request message -/

/-- A byte pointer held by the message: null, a position in the request buffer (offset from
its start), the constant array `TestDevice_X509_RSA_RootCert` of the test configuration, or
any other address. -/
inductive BytePtr
  | NULL
  | msgBuf (off : Nat)
  | TestDevice_X509_RSA_RootCert
  | wild (addr : Nat)
  deriving DecidableEq, Repr

/-- The pointer difference `(p + n) - q` for two pointers into the request buffer. The
difference of pointers into different objects is not defined in C; it is 0 here. -/
def BytePtr.diff (p : BytePtr) (n : Nat) (q : BytePtr) : Nat :=
  match p, q with
  | .msgBuf a, .msgBuf b => a + n - b
  | _, _ => 0

/-- Modelled from the spec: an encoded EC public key (`Weave/Support/crypto/EllipticCurve.h`
is not part of the sources). -/
structure EncodedECPublicKey where
  ECPoint : List Nat
  deriving DecidableEq, Repr

/-- Modelled from the spec: an encoded ECDSA signature, the values r and s. -/
structure EncodedECDSASignature where
  R : List Nat
  S : List Nat
  deriving DecidableEq, Repr

/-- Modelled from the spec: an RSA signature held as a span (`ReadSignature` stores the data
pointer and length of the byte string the reader is positioned on). -/
structure EncodedRSASignature where
  Sig : BytePtr
  Len : Nat
  deriving DecidableEq, Repr

/-- Modelled from the spec: an HMAC signature held as a span, as for RSA. -/
structure EncodedHMACSignature where
  Sig : BytePtr
  Len : Nat
  deriving DecidableEq, Repr

/-- The union `ManufAttestSig` with the member written last; `zeroed` is the state the
constructor leaves with `memset`. -/
inductive ManufAttestSigUnion
  | zeroed
  | EC (sig : EncodedECDSASignature)
  | RSA (sig : EncodedRSASignature)
  | HMAC (sig : EncodedHMACSignature)
  deriving DecidableEq, Repr

/-- The attribute value of a distinguished name. -/
structure WeaveDNAttrValue where
  WeaveId : Nat
  deriving DecidableEq, Repr

/-- A distinguished name of a Weave certificate. -/
structure WeaveDN where
  AttrValue : WeaveDNAttrValue
  deriving DecidableEq, Repr

/-- A key identifier (`Id`, with `Len` the length of the list). -/
structure CertificateKeyId where
  Id : List Nat
  deriving DecidableEq, Repr

/-- The public key member of a certificate. -/
structure CertPublicKey where
  EC : EncodedECPublicKey
  deriving DecidableEq, Repr

/-- Modelled from the spec: the fields of `WeaveCertificateData`
(`Weave/Profiles/security/WeaveCert.h`, not part of the sources) that `MockCAService.cpp`
reads or writes. -/
structure WeaveCertificateData where
  SubjectDN : WeaveDN
  IssuerDN : WeaveDN
  SubjectKeyId : CertificateKeyId
  AuthKeyId : CertificateKeyId
  PubKeyAlgoOID : Nat
  PubKeyCurveId : Nat
  SigAlgoOID : Nat
  PublicKey : CertPublicKey
  TBSHash : List Nat
  deriving DecidableEq, Repr

/-- Modelled from the spec: `WeaveCertificateSet`, an ordered list of decoded certificates
with a fixed capacity; `Certs` points at the first one. A set that was never initialised has
no certificates and capacity 0. -/
structure WeaveCertificateSet where
  Certs : List WeaveCertificateData
  MaxCerts : Nat
  deriving DecidableEq, Repr

/-- An X.509 certificate held as a span of DER bytes. -/
structure X509Cert where
  Cert : BytePtr
  Len : Nat
  deriving DecidableEq, Repr

/-- The value `kManufAttestType_*` of the attestation type. -/
inductive ManufAttestTypeT
  | kManufAttestType_Undefined
  | kManufAttestType_WeaveCert
  | kManufAttestType_X509Cert
  | kManufAttestType_HMAC
  | other (v : Nat)
  deriving DecidableEq, Repr

open ManufAttestTypeT

/-- Modelled from the spec: request types of `WeaveCertProvEngine`
(`WeaveCertProvisioning.h` is not part of the sources); only their being distinct is used. -/
def kReqType_NotSpecified : Nat := 0

/-- See `kReqType_NotSpecified`. -/
def kReqType_GetInitialOpDeviceCert : Nat := 1

/-- See `kReqType_NotSpecified`. -/
def kReqType_RotateOpDeviceCert : Nat := 2

/-- Modelled from the spec: context tags of the GetCertificateRequest structure
(`WeaveSecurity.h` is not part of the sources), numbered in wire order; only their being
distinct is used. -/
def kTag_GetCertReqMsg_ReqType : Nat := 1

/-- See `kTag_GetCertReqMsg_ReqType`. -/
def kTag_GetCertReqMsg_Authorize_PairingToken : Nat := 2

/-- See `kTag_GetCertReqMsg_ReqType`. -/
def kTag_GetCertReqMsg_Authorize_PairingInitData : Nat := 3

/-- See `kTag_GetCertReqMsg_ReqType`. -/
def kTag_GetCertReqMsg_OpDeviceCert : Nat := 4

/-- See `kTag_GetCertReqMsg_ReqType`. -/
def kTag_GetCertReqMsg_OpRelatedCerts : Nat := 5

/-- See `kTag_GetCertReqMsg_ReqType`. -/
def kTag_GetCertReqMsg_ManufAttest_WeaveCert : Nat := 6

/-- See `kTag_GetCertReqMsg_ReqType`. -/
def kTag_GetCertReqMsg_ManufAttest_WeaveRelCerts : Nat := 7

/-- See `kTag_GetCertReqMsg_ReqType`. -/
def kTag_GetCertReqMsg_ManufAttest_X509Cert : Nat := 8

/-- See `kTag_GetCertReqMsg_ReqType`. -/
def kTag_GetCertReqMsg_ManufAttest_X509RelCerts : Nat := 9

/-- See `kTag_GetCertReqMsg_ReqType`. -/
def kTag_GetCertReqMsg_ManufAttest_HMACKeyId : Nat := 10

/-- See `kTag_GetCertReqMsg_ReqType`. -/
def kTag_GetCertReqMsg_ManufAttest_HMACMetaData : Nat := 11

/-- See `kTag_GetCertReqMsg_ReqType`. -/
def kTag_GetCertReqMsg_OpDeviceSigAlgo : Nat := 12

/-- See `kTag_GetCertReqMsg_ReqType`. -/
def kTag_GetCertReqMsg_OpDeviceSig_ECDSA : Nat := 13

/-- See `kTag_GetCertReqMsg_ReqType`. -/
def kTag_GetCertReqMsg_ManufAttestSigAlgo : Nat := 14

/-- See `kTag_GetCertReqMsg_ReqType`. -/
def kTag_GetCertReqMsg_ManufAttestSig_ECDSA : Nat := 15

/-- See `kTag_GetCertReqMsg_ReqType`. -/
def kTag_GetCertReqMsg_ManufAttestSig_RSA : Nat := 16

/-- See `kTag_GetCertReqMsg_ReqType`. -/
def kTag_GetCertReqMsg_ManufAttestSig_HMAC : Nat := 17

/-- Modelled from the spec: object identifiers of `Weave/Support/ASN1OID.h` (not part of the
sources); only their being distinct is used. -/
def kOID_NotSpecified : Nat := 0

/-- See `kOID_NotSpecified`. -/
def kOID_SigAlgo_ECDSAWithSHA256 : Nat := 0x0305

/-- See `kOID_NotSpecified`. -/
def kOID_SigAlgo_HMACWithSHA256 : Nat := 0x0306

/-- See `kOID_NotSpecified`. -/
def kOID_SigAlgo_SHA256WithRSAEncryption : Nat := 0x0307

/-- The class `GetCertificateRequestMessage` (declared in `MockCAService.h`): the fields
`MockCAService.cpp` uses. Lengths and offsets are natural numbers; integer narrowing done by
the typed `Get` overloads of the reader is outside the sources and is not modelled. -/
structure GetCertificateRequestMessage where
  mReqType : Nat
  mManufAttestType : ManufAttestTypeT
  AuthorizeInfoPairingToken : BytePtr
  AuthorizeInfoPairingTokenLen : Nat
  AuthorizeInfoPairingInitData : BytePtr
  AuthorizeInfoPairingInitDataLen : Nat
  OperationalCertSet : WeaveCertificateSet
  ManufAttestWeaveCertSet : WeaveCertificateSet
  ManufAttestX509CertSet : List X509Cert
  ManufAttestX509CertCount : Nat
  ManufAttestHMACKeyId : Nat
  ManufAttestHMACMetaData : BytePtr
  ManufAttestHMACMetaDataLen : Nat
  OperationalSigAlgo : Nat
  OperationalSig : EncodedECDSASignature
  ManufAttestSigAlgo : Nat
  ManufAttestSig : ManufAttestSigUnion
  mOperationalCertSetInitialized : Bool
  mManufAttestCertSetInitialized : Bool
  mTBSDataStart : BytePtr
  mTBSDataLen : Nat
  deriving DecidableEq, Repr

/-- An array element as `memset` leaves it. -/
def X509Cert.zero : X509Cert := { Cert := .NULL, Len := 0 }

/-- Element `i` of the array `ManufAttestX509CertSet`; the array is zero beyond what was
written. -/
def x509At (a : List X509Cert) (i : Nat) : X509Cert :=
  a.getD i X509Cert.zero

/-- The array `ManufAttestX509CertSet` after a store to element `i`. The declared size of
the array (in `MockCAService.h`) is not modelled: every index designates an element. -/
def x509Store (a : List X509Cert) (i : Nat) (x : X509Cert) : List X509Cert :=
  (a ++ List.replicate (i + 1 - a.length) X509Cert.zero).set i x

namespace GetCertificateRequestMessage

/-- The constructor `GetCertificateRequestMessage()`. `storage` is the object before
construction: the constructor body assigns the fields listed below and leaves
`ManufAttestHMACKeyId`, `ManufAttestHMACMetaData` and `ManufAttestHMACMetaDataLen` as they
are; the two certificate-set members are default-constructed (empty). -/
def new (storage : GetCertificateRequestMessage) : GetCertificateRequestMessage :=
  { storage with
    mReqType := kReqType_NotSpecified
    mManufAttestType := kManufAttestType_Undefined
    AuthorizeInfoPairingToken := .NULL
    AuthorizeInfoPairingTokenLen := 0
    AuthorizeInfoPairingInitData := .NULL
    AuthorizeInfoPairingInitDataLen := 0
    OperationalCertSet := { Certs := [], MaxCerts := 0 }
    ManufAttestWeaveCertSet := { Certs := [], MaxCerts := 0 }
    ManufAttestX509CertSet := []
    ManufAttestX509CertCount := 0
    OperationalSigAlgo := kOID_NotSpecified
    OperationalSig := { R := [], S := [] }
    ManufAttestSigAlgo := kOID_NotSpecified
    ManufAttestSig := .zeroed
    mOperationalCertSetInitialized := false
    mManufAttestCertSetInitialized := false
    mTBSDataStart := .NULL
    mTBSDataLen := 0 }

/-- `RequestType()`. -/
def RequestType (self : GetCertificateRequestMessage) : Nat := self.mReqType

/-- `ManufAttestType()`. -/
def ManufAttestType (self : GetCertificateRequestMessage) : ManufAttestTypeT :=
  self.mManufAttestType

/-- Modelled from the spec: `ManufAttestPresent()` (inline in `MockCAService.h`): an
attestation variant other than undefined is recorded. -/
def ManufAttestPresent (self : GetCertificateRequestMessage) : Bool :=
  self.mManufAttestType != kManufAttestType_Undefined

/-- Modelled from the spec: `AuthorizeInfoPresent()` (inline in `MockCAService.h`): a
pairing token was recorded. -/
def AuthorizeInfoPresent (self : GetCertificateRequestMessage) : Bool :=
  self.AuthorizeInfoPairingToken != .NULL && decide (0 < self.AuthorizeInfoPairingTokenLen)

end GetCertificateRequestMessage

/-! ## Collaborators -/

/-- A call made to a collaborator while a request is validated, with its arguments. -/
inductive Call
  | memcmp (p : BytePtr) (expected : List Nat) (n : Nat)
  | ValidateWeaveDeviceCert (certSet : WeaveCertificateSet)
  | ValidateX509DeviceCert (certSet : List X509Cert) (certCount : Nat)
  | SHA256 (data : BytePtr) (dataLen : Nat)
  | VerifyECDSASignature (curveOID : Nat) (msgHash : List Nat) (msgHashLen : Nat)
      (sig : EncodedECDSASignature) (pubKey : EncodedECPublicKey)
  | VerifyRSASignature (sigAlgoOID : Nat) (hash : List Nat) (hashLen : Nat)
      (sig : EncodedRSASignature) (cert : BytePtr) (certLen : Nat)
  | VerifyHMACSignature (sigAlgoOID : Nat) (data : BytePtr) (dataLen : Nat)
      (sig : EncodedHMACSignature) (key : List Nat) (keyLen : Nat)
  deriving DecidableEq, Repr

/-- Modelled from the spec: what `MockCAService.cpp` consumes from other parts of Weave and
from the test configuration (none of it part of the sources): certificate and signature
decoding, allocation results, chain validation, the SHA-256 / ECDSA / RSA / HMAC primitives,
the OpenSSL calls of `ValidateX509DeviceCert`, the configured constants `TestDevice1_*`, the
capacity `kMaxCertCount` and the attestation requirement `ManufAttestRequired()`, a constant
member function of the message (inline in `MockCAService.h`); the spec describes it as a
service-level policy flag, which is the case of a function that ignores the message. -/
structure Collaborators where
  kMaxCertCount : Nat
  ManufAttestRequired : GetCertificateRequestMessage → Bool
  WeaveCertificateSet_Init : WEAVE_ERROR
  DecodeWeaveCert : List Token → Except WEAVE_ERROR WeaveCertificateData
  DecodeWeaveCerts : List Token → Except WEAVE_ERROR (List WeaveCertificateData)
  DecodeWeaveECDSASignature : List Token → Except WEAVE_ERROR EncodedECDSASignature
  ValidateWeaveDeviceCert : WeaveCertificateSet → WEAVE_ERROR
  SHA256 : List Nat → List Nat
  kHashLength : Nat
  WeaveCurveIdToOID : Nat → Nat
  VerifyECDSASignature : Nat → List Nat → Nat → EncodedECDSASignature → EncodedECPublicKey →
    WEAVE_ERROR
  VerifyRSASignature : Nat → List Nat → Nat → List Nat → List Nat → WEAVE_ERROR
  VerifyHMACSignature : Nat → List Nat → List Nat → List Nat → WEAVE_ERROR
  WEAVE_WITH_OPENSSL : Bool
  X509_STORE_new : Bool
  BIO_new_mem_buf : List Nat → Bool
  d2i_X509_bio : List Nat → Bool
  X509_STORE_add_cert : List (List Nat) → List Nat → Bool
  X509_STORE_CTX_new : Bool
  X509_VERIFY_PARAM_new : Bool
  X509_STORE_CTX_init : List (List Nat) → List Nat → Bool
  X509_verify_cert : List (List Nat) → List Nat → Bool → Bool
  TestDevice1_PairingToken : List Nat
  TestDevice1_PairingInitData : List Nat
  TestDevice1_ManufAttest_HMACKeyId : Nat
  TestDevice1_ManufAttest_HMACMetaData : List Nat
  TestDevice1_ManufAttest_HMACKey : List Nat
  TestDevice_X509_RSA_RootCert : List Nat

/-! ## Certificate sets and signatures read from the request -/

namespace WeaveCertificateSet

/-- Modelled from the spec: `Init(maxCerts, decodeBufSize)`: an empty set of the given
capacity, or the allocation error. -/
def Init (env : Collaborators) (maxCerts : Nat) : WEAVE_ERROR × WeaveCertificateSet :=
  (env.WeaveCertificateSet_Init, { Certs := [], MaxCerts := maxCerts })

/-- Modelled from the spec: `LoadCert(reader, decodeFlags, cert)` loads one certificate from
the structure the reader is positioned on and leaves the reader past that structure. -/
def LoadCert (env : Collaborators) (set : WeaveCertificateSet) (reader : TLVReader) :
    Except WEAVE_ERROR (WeaveCertificateSet × TLVReader) := do
  VerifyOrExit (reader.GetType == kTLVType_Structure) WEAVE_ERROR_INVALID_ARGUMENT
  VerifyOrExit (decide (set.Certs.length < set.MaxCerts)) WEAVE_ERROR_NO_MEMORY
  let cert ← env.DecodeWeaveCert reader.containerContent
  let reader ← SuccessOrExit reader.Skip
  return ({ set with Certs := set.Certs ++ [cert] }, reader)

/-- Modelled from the spec: `LoadCerts(reader, decodeFlags)` loads the certificates of the
array the reader is positioned on and leaves the reader past that array. -/
def LoadCerts (env : Collaborators) (set : WeaveCertificateSet) (reader : TLVReader) :
    Except WEAVE_ERROR (WeaveCertificateSet × TLVReader) := do
  VerifyOrExit (TLVTypeIsContainer reader.ElementType) WEAVE_ERROR_INVALID_ARGUMENT
  let certs ← env.DecodeWeaveCerts reader.containerContent
  VerifyOrExit (decide (set.Certs.length + certs.length ≤ set.MaxCerts)) WEAVE_ERROR_NO_MEMORY
  let reader ← SuccessOrExit reader.Skip
  return ({ set with Certs := set.Certs ++ certs }, reader)

end WeaveCertificateSet

/-- Modelled from the spec: `DecodeWeaveECDSASignature(reader, sig)` decodes the signature
structure the reader is positioned on and leaves the reader past that structure. -/
def DecodeWeaveECDSASignature (env : Collaborators) (reader : TLVReader) :
    Except WEAVE_ERROR (EncodedECDSASignature × TLVReader) := do
  VerifyOrExit (TLVTypeIsContainer reader.ElementType) WEAVE_ERROR_WRONG_TLV_TYPE
  let sig ← env.DecodeWeaveECDSASignature reader.containerContent
  let reader ← SuccessOrExit reader.Skip
  return (sig, reader)

/-- Modelled from the spec: `ReadSignature(reader, tag)` of the RSA and HMAC signature
classes: checks that the reader is on a byte string with the given tag and returns its data
pointer and length; the reader does not move. -/
def ReadSignature (reader : TLVReader) (tag : Tag) : Except WEAVE_ERROR (BytePtr × Nat) := do
  VerifyOrExit (reader.GetType == kTLVType_ByteString) WEAVE_ERROR_WRONG_TLV_TYPE
  VerifyOrExit (reader.GetTag == tag) WEAVE_ERROR_UNEXPECTED_TLV_ELEMENT
  let p ← reader.GetDataPtr
  return (.msgBuf p, reader.GetLength)

/-! ## `GetCertificateRequestMessage::Decode` -/

/-- The message, the reader and the local `outerContainer` between the blocks of
`Decode`. -/
structure DecodeState where
  self : GetCertificateRequestMessage
  reader : TLVReader
  outerContainer : TLVType
  deriving DecidableEq, Repr

namespace GetCertificateRequestMessage

/-- `Decode`, from `reader.Init` to the end of the block "Request Type". -/
def Decode_RequestType (self : GetCertificateRequestMessage) (msgBuf : List Token) :
    Except WEAVE_ERROR DecodeState := do
  let reader := TLVReader.Init msgBuf
  let reader ← SuccessOrExit (reader.NextExpect kTLVType_Structure AnonymousTag)
  let (outerContainer, reader) ← reader.EnterContainer
  let self := { self with mTBSDataStart := .msgBuf reader.GetReadPoint }
  let reader ← SuccessOrExit
    (reader.NextExpect kTLVType_UnsignedInteger (ContextTag kTag_GetCertReqMsg_ReqType))
  let v ← reader.Get
  let self := { self with mReqType := v }
  VerifyOrExit (self.RequestType == kReqType_GetInitialOpDeviceCert ||
    self.RequestType == kReqType_RotateOpDeviceCert) WEAVE_ERROR_INVALID_ARGUMENT
  let reader ← SuccessOrExit reader.Next
  return { self := self, reader := reader, outerContainer := outerContainer }

/-- `Decode`, the block "Request authorization information": the optional pairing token and,
after it, the optional pairing init data. -/
def Decode_Authorize (s : DecodeState) : Except WEAVE_ERROR DecodeState :=
  if s.reader.GetType = kTLVType_ByteString ∧
      s.reader.GetTag = ContextTag kTag_GetCertReqMsg_Authorize_PairingToken then do
    let p ← s.reader.GetDataPtr
    let self := { s.self with
      AuthorizeInfoPairingToken := .msgBuf p
      AuthorizeInfoPairingTokenLen := s.reader.GetLength }
    let reader ← SuccessOrExit s.reader.Next
    if reader.GetType = kTLVType_ByteString ∧
        reader.GetTag = ContextTag kTag_GetCertReqMsg_Authorize_PairingInitData then do
      let p ← reader.GetDataPtr
      let self := { self with
        AuthorizeInfoPairingInitData := .msgBuf p
        AuthorizeInfoPairingInitDataLen := reader.GetLength }
      let reader ← SuccessOrExit reader.Next
      return { s with self := self, reader := reader }
    else
      return { s with self := self, reader := reader }
  else
    return s

/-- `Decode`, the block "Operational Device Certificate". -/
def Decode_OpDeviceCert (env : Collaborators) (s : DecodeState) :
    Except WEAVE_ERROR DecodeState := do
  VerifyOrExit (s.reader.GetType == kTLVType_Structure) WEAVE_ERROR_WRONG_TLV_TYPE
  VerifyOrExit (s.reader.GetTag == ContextTag kTag_GetCertReqMsg_OpDeviceCert)
    WEAVE_ERROR_UNEXPECTED_TLV_ELEMENT
  let set ← SuccessOrExit (WeaveCertificateSet.Init env env.kMaxCertCount)
  let self := { s.self with OperationalCertSet := set, mOperationalCertSetInitialized := true }
  let (set, reader) ← self.OperationalCertSet.LoadCert env s.reader
  let self := { self with OperationalCertSet := set }
  let self := { self with
    mTBSDataLen := (BytePtr.msgBuf reader.GetReadPoint).diff 0 self.mTBSDataStart }
  let reader ← SuccessOrExit reader.Next
  return { s with self := self, reader := reader }

/-- `Decode`, the block "Load intermediate certificates (optional)". -/
def Decode_OpRelatedCerts (env : Collaborators) (s : DecodeState) :
    Except WEAVE_ERROR DecodeState :=
  if s.reader.GetType = kTLVType_Array ∧
      s.reader.GetTag = ContextTag kTag_GetCertReqMsg_OpRelatedCerts then do
    VerifyOrExit (s.self.RequestType != kReqType_GetInitialOpDeviceCert)
      WEAVE_ERROR_UNEXPECTED_TLV_ELEMENT
    let (set, reader) ← s.self.OperationalCertSet.LoadCerts env s.reader
    let self := { s.self with OperationalCertSet := set }
    let self := { self with
      mTBSDataLen := (BytePtr.msgBuf reader.GetReadPoint).diff 0 self.mTBSDataStart }
    let reader ← SuccessOrExit reader.Next
    return { s with self := self, reader := reader }
  else
    return s

/-- The `while (err != WEAVE_END_OF_TLV)` loop over the array of related X.509
certificates; `err` is the result of the `Next()` call that precedes the test. The loop runs
at most once per element of the buffer; `fuel` bounds the number of iterations. -/
def Decode_X509RelCerts (env : Collaborators) :
    Nat → WEAVE_ERROR → TLVReader → GetCertificateRequestMessage →
      Except WEAVE_ERROR (TLVReader × GetCertificateRequestMessage)
  | 0, _, _, _ => .error WEAVE_ERROR_INCORRECT_STATE
  | fuel + 1, err, reader, self =>
    if err = WEAVE_END_OF_TLV then .ok (reader, self)
    else do
      let reader ← SuccessOrExit (err, reader)
      VerifyOrExit (decide (self.ManufAttestX509CertCount < env.kMaxCertCount))
        WEAVE_ERROR_BUFFER_TOO_SMALL
      let p ← reader.GetDataPtr
      let self := { self with
        ManufAttestX509CertSet := x509Store self.ManufAttestX509CertSet
          self.ManufAttestX509CertCount { Cert := .msgBuf p, Len := reader.GetLength }
        ManufAttestX509CertCount := self.ManufAttestX509CertCount + 1 }
      let n := reader.Next
      Decode_X509RelCerts env fuel n.1 n.2 self

/-- `Decode`, the block "Manufacturer Attestation Information (optional)", branch of the
Weave certificate. -/
def Decode_ManufAttest_WeaveCert (env : Collaborators) (s : DecodeState) :
    Except WEAVE_ERROR DecodeState := do
  let set ← SuccessOrExit (WeaveCertificateSet.Init env env.kMaxCertCount)
  let self := { s.self with
    ManufAttestWeaveCertSet := set, mManufAttestCertSetInitialized := true }
  let (set, reader) ← self.ManufAttestWeaveCertSet.LoadCert env s.reader
  let self := { self with ManufAttestWeaveCertSet := set }
  let self := { self with
    mTBSDataLen := (BytePtr.msgBuf reader.GetReadPoint).diff 0 self.mTBSDataStart }
  let n := reader.NextExpect kTLVType_Array
    (ContextTag kTag_GetCertReqMsg_ManufAttest_WeaveRelCerts)
  if n.1 = WEAVE_NO_ERROR then do
    let (set, reader) ← self.ManufAttestWeaveCertSet.LoadCerts env n.2
    let self := { self with ManufAttestWeaveCertSet := set }
    let self := { self with
      mTBSDataLen := (BytePtr.msgBuf reader.GetReadPoint).diff 0 self.mTBSDataStart }
    let reader ← SuccessOrExit reader.Next
    return { s with
      self := { self with mManufAttestType := kManufAttestType_WeaveCert }, reader := reader }
  else
    return { s with
      self := { self with mManufAttestType := kManufAttestType_WeaveCert }, reader := n.2 }

/-- `Decode`, the block "Manufacturer Attestation Information (optional)", branch of the
X.509 certificate. -/
def Decode_ManufAttest_X509Cert (env : Collaborators) (s : DecodeState) :
    Except WEAVE_ERROR DecodeState := do
  let p ← s.reader.GetDataPtr
  let self := { s.self with
    ManufAttestX509CertSet := x509Store s.self.ManufAttestX509CertSet
      s.self.ManufAttestX509CertCount { Cert := .msgBuf p, Len := s.reader.GetLength }
    ManufAttestX509CertCount := s.self.ManufAttestX509CertCount + 1 }
  let self := { self with
    mTBSDataLen :=
      (x509At self.ManufAttestX509CertSet 0).Cert.diff s.reader.GetLength self.mTBSDataStart }
  let n := s.reader.NextExpect kTLVType_Array
    (ContextTag kTag_GetCertReqMsg_ManufAttest_X509RelCerts)
  if n.1 = WEAVE_NO_ERROR then do
    let (outerContainer2, reader) ← n.2.EnterContainer
    let first := reader.Next
    let (reader, self) ←
      Decode_X509RelCerts env (first.2.after.length + 2) first.1 first.2 self
    let reader ← SuccessOrExit (reader.ExitContainer outerContainer2)
    let self := { self with
      mTBSDataLen := (BytePtr.msgBuf reader.GetReadPoint).diff 0 self.mTBSDataStart }
    let reader ← SuccessOrExit reader.Next
    return { s with
      self := { self with mManufAttestType := kManufAttestType_X509Cert }, reader := reader }
  else
    return { s with
      self := { self with mManufAttestType := kManufAttestType_X509Cert }, reader := n.2 }

/-- `Decode`, the block "Manufacturer Attestation Information (optional)", branch of the
HMAC key id. -/
def Decode_ManufAttest_HMAC (s : DecodeState) : Except WEAVE_ERROR DecodeState := do
  let v ← s.reader.Get
  let self := { s.self with ManufAttestHMACKeyId := v }
  let self := { self with
    mTBSDataLen := (BytePtr.msgBuf s.reader.GetReadPoint).diff 0 self.mTBSDataStart }
  let reader ← SuccessOrExit s.reader.Next
  if reader.GetType = kTLVType_ByteString ∧
      reader.GetTag = ContextTag kTag_GetCertReqMsg_ManufAttest_HMACMetaData then do
    let p ← reader.GetDataPtr
    let self := { self with
      ManufAttestHMACMetaData := .msgBuf p
      ManufAttestHMACMetaDataLen := reader.GetLength }
    let self := { self with
      mTBSDataLen :=
        self.ManufAttestHMACMetaData.diff self.ManufAttestHMACMetaDataLen self.mTBSDataStart }
    let reader ← SuccessOrExit reader.Next
    return { s with
      self := { self with mManufAttestType := kManufAttestType_HMAC }, reader := reader }
  else
    return { s with
      self := { self with mManufAttestType := kManufAttestType_HMAC }, reader := reader }

/-- `Decode`, the block "Manufacturer Attestation Information (optional)". -/
def Decode_ManufAttest (env : Collaborators) (s : DecodeState) :
    Except WEAVE_ERROR DecodeState :=
  if s.reader.GetType = kTLVType_Structure ∧
      s.reader.GetTag = ContextTag kTag_GetCertReqMsg_ManufAttest_WeaveCert then
    Decode_ManufAttest_WeaveCert env s
  else if s.reader.GetType = kTLVType_ByteString ∧
      s.reader.GetTag = ContextTag kTag_GetCertReqMsg_ManufAttest_X509Cert then
    Decode_ManufAttest_X509Cert env s
  else if s.reader.GetType = kTLVType_UnsignedInteger ∧
      s.reader.GetTag = ContextTag kTag_GetCertReqMsg_ManufAttest_HMACKeyId then
    Decode_ManufAttest_HMAC s
  else do
    VerifyOrExit (!env.ManufAttestRequired s.self) WEAVE_ERROR_INVALID_ARGUMENT
    return s

/-- `Decode`, the block "Operational Device Signature"; the result of its last `Next()` is
not tested. -/
def Decode_OpDeviceSig (env : Collaborators) (s : DecodeState) :
    Except WEAVE_ERROR DecodeState := do
  VerifyOrExit (s.reader.GetType == kTLVType_UnsignedInteger) WEAVE_ERROR_WRONG_TLV_TYPE
  VerifyOrExit (s.reader.GetTag == ContextTag kTag_GetCertReqMsg_OpDeviceSigAlgo)
    WEAVE_ERROR_UNEXPECTED_TLV_ELEMENT
  let v ← s.reader.Get
  let self := { s.self with OperationalSigAlgo := v }
  let reader ← SuccessOrExit
    (s.reader.NextExpect kTLVType_Structure (ContextTag kTag_GetCertReqMsg_OpDeviceSig_ECDSA))
  let (sig, reader) ← DecodeWeaveECDSASignature env reader
  let self := { self with OperationalSig := sig }
  return { s with self := self, reader := reader.Next.2 }

/-- `Decode`, the block "Manufacturer Attestation Signature (optional)", the algorithm
element. -/
def Decode_ManufAttestSigAlgo (s : DecodeState) : Except WEAVE_ERROR DecodeState := do
  VerifyOrExit (s.reader.GetType == kTLVType_UnsignedInteger) WEAVE_ERROR_WRONG_TLV_TYPE
  VerifyOrExit (s.reader.GetTag == ContextTag kTag_GetCertReqMsg_ManufAttestSigAlgo)
    WEAVE_ERROR_UNEXPECTED_TLV_ELEMENT
  let v ← s.reader.Get
  let self := { s.self with ManufAttestSigAlgo := v }
  let reader ← SuccessOrExit s.reader.Next
  return { s with self := self, reader := reader }

/-- `Decode`, the block "Manufacturer Attestation Signature (optional)", the signature
element; the result of the `Next()` that follows the HMAC signature is not tested. -/
def Decode_ManufAttestSigValue (env : Collaborators) (s : DecodeState) :
    Except WEAVE_ERROR DecodeState :=
  if s.reader.GetType = kTLVType_Structure ∧
      s.reader.GetTag = ContextTag kTag_GetCertReqMsg_ManufAttestSig_ECDSA then do
    VerifyOrExit (s.self.ManufAttestType == kManufAttestType_WeaveCert)
      WEAVE_ERROR_UNEXPECTED_TLV_ELEMENT
    let (sig, reader) ← DecodeWeaveECDSASignature env s.reader
    return { s with self := { s.self with ManufAttestSig := .EC sig }, reader := reader }
  else if s.reader.GetType = kTLVType_ByteString ∧
      s.reader.GetTag = ContextTag kTag_GetCertReqMsg_ManufAttestSig_RSA then do
    VerifyOrExit (s.self.ManufAttestType == kManufAttestType_X509Cert)
      WEAVE_ERROR_UNEXPECTED_TLV_ELEMENT
    let (p, len) ← ReadSignature s.reader (ContextTag kTag_GetCertReqMsg_ManufAttestSig_RSA)
    return { s with self := { s.self with ManufAttestSig := .RSA { Sig := p, Len := len } } }
  else if s.reader.GetType = kTLVType_ByteString ∧
      s.reader.GetTag = ContextTag kTag_GetCertReqMsg_ManufAttestSig_HMAC then do
    VerifyOrExit (s.self.ManufAttestType == kManufAttestType_HMAC)
      WEAVE_ERROR_UNEXPECTED_TLV_ELEMENT
    let (p, len) ← ReadSignature s.reader (ContextTag kTag_GetCertReqMsg_ManufAttestSig_HMAC)
    return { s with
      self := { s.self with ManufAttestSig := .HMAC { Sig := p, Len := len } }
      reader := s.reader.Next.2 }
  else
    .error WEAVE_ERROR_UNEXPECTED_TLV_ELEMENT

/-- `Decode`, the block "Manufacturer Attestation Signature (optional)". -/
def Decode_ManufAttestSig (env : Collaborators) (s : DecodeState) :
    Except WEAVE_ERROR DecodeState :=
  if s.self.ManufAttestPresent then do
    let s ← Decode_ManufAttestSigAlgo s
    Decode_ManufAttestSigValue env s
  else
    return s

/-- `Decode`, the tail: `VerifyEndOfContainer` and `ExitContainer(outerContainer)`. -/
def Decode_End (s : DecodeState) : Except WEAVE_ERROR DecodeState := do
  let reader ← SuccessOrExit s.reader.VerifyEndOfContainer
  let reader ← SuccessOrExit (reader.ExitContainer s.outerContainer)
  return { s with reader := reader }

/-- `Decode`, up to and including the block "Operational Device Certificate". -/
def Decode_ToOpDeviceCert (env : Collaborators) (self : GetCertificateRequestMessage)
    (msgBuf : List Token) : Except WEAVE_ERROR DecodeState := do
  let s ← Decode_RequestType self msgBuf
  let s ← Decode_Authorize s
  Decode_OpDeviceCert env s

/-- `Decode`, up to and including the block "Manufacturer Attestation Information". -/
def Decode_ToManufAttest (env : Collaborators) (self : GetCertificateRequestMessage)
    (msgBuf : List Token) : Except WEAVE_ERROR DecodeState := do
  let s ← Decode_ToOpDeviceCert env self msgBuf
  let s ← Decode_OpRelatedCerts env s
  Decode_ManufAttest env s

/-- `Decode`, up to and including the block "Operational Device Signature". -/
def Decode_ToOpDeviceSig (env : Collaborators) (self : GetCertificateRequestMessage)
    (msgBuf : List Token) : Except WEAVE_ERROR DecodeState := do
  let s ← Decode_ToManufAttest env self msgBuf
  Decode_OpDeviceSig env s

/-- `WEAVE_ERROR GetCertificateRequestMessage::Decode(PacketBuffer *msgBuf)`: the decoded
message, or the error returned. -/
def Decode (env : Collaborators) (self : GetCertificateRequestMessage) (msgBuf : List Token) :
    Except WEAVE_ERROR GetCertificateRequestMessage := do
  let s ← Decode_ToOpDeviceSig env self msgBuf
  let s ← Decode_ManufAttestSig env s
  let s ← Decode_End s
  return s.self

end GetCertificateRequestMessage

/-! ## Validation of a decoded request -/

/-- How a call ends: it returns an error code, or its behaviour is not defined because it
reads through a pointer that designates no object (a null `Certs`, an inactive member of the
union `ManufAttestSig`, bytes outside the buffer). -/
inductive Outcome
  | undefined
  | returned (err : WEAVE_ERROR)
  deriving DecidableEq, Repr

/-- The `n` bytes a pointer designates, when it designates that many: bytes of the request
buffer or of the configured root certificate. No byte is read when `n` is 0. -/
def readBytes (env : Collaborators) (msgBuf : List Token) (p : BytePtr) (n : Nat) :
    Option (List Nat) :=
  if n = 0 then some []
  else match p with
    | .msgBuf off =>
      if off + n ≤ (bytesOf msgBuf).length then some (((bytesOf msgBuf).drop off).take n)
      else none
    | .TestDevice_X509_RSA_RootCert =>
      if n ≤ env.TestDevice_X509_RSA_RootCert.length then
        some (env.TestDevice_X509_RSA_RootCert.take n)
      else none
    | _ => none

/-- The result of `ValidateX509DeviceCert` with what it built: the certificates parsed into
`cert[]` and the certificates added to the trust store, in order. -/
structure X509Validation where
  ret : Outcome
  cert : List (List Nat)
  store : List (List Nat)
  deriving DecidableEq, Repr

/-- The `for` loop of `ValidateX509DeviceCert`: `todo` iterations from index `i`. -/
def ValidateX509DeviceCert_loop (env : Collaborators) (msgBuf : List Token)
    (certSet : List X509Cert) : Nat → Nat → List (List Nat) → List (List Nat) → X509Validation
  | 0, _, cert, store => { ret := .returned WEAVE_NO_ERROR, cert := cert, store := store }
  | todo + 1, i, cert, store =>
    if (x509At certSet i).Cert ≠ .NULL ∧ 0 < (x509At certSet i).Len then
      match readBytes env msgBuf (x509At certSet i).Cert (x509At certSet i).Len with
      | none => { ret := .undefined, cert := cert, store := store }
      | some der =>
        if env.BIO_new_mem_buf der then
          if env.d2i_X509_bio der then
            if 0 < i then
              if env.X509_STORE_add_cert store der then
                ValidateX509DeviceCert_loop env msgBuf certSet todo (i + 1)
                  (cert ++ [der]) (store ++ [der])
              else
                { ret := .returned WEAVE_ERROR_NO_MEMORY, cert := cert ++ [der], store := store }
            else
              ValidateX509DeviceCert_loop env msgBuf certSet todo (i + 1) (cert ++ [der]) store
          else { ret := .returned WEAVE_ERROR_NO_MEMORY, cert := cert, store := store }
        else { ret := .returned WEAVE_ERROR_NO_MEMORY, cert := cert, store := store }
    else { ret := .returned WEAVE_ERROR_INVALID_ARGUMENT, cert := cert, store := store }

/-- `static WEAVE_ERROR ValidateX509DeviceCert(X509Cert *certSet, uint8_t certCount)`. The
verification runs with the flag `X509_V_FLAG_USE_CHECK_TIME` cleared. -/
def ValidateX509DeviceCert (env : Collaborators) (msgBuf : List Token)
    (certSet : List X509Cert) (certCount : Nat) : X509Validation :=
  if 0 < certCount ∧ certCount ≤ env.kMaxCertCount then
    if env.X509_STORE_new then
      let l := ValidateX509DeviceCert_loop env msgBuf certSet certCount 0 [] []
      if l.ret = .returned WEAVE_NO_ERROR then
        if env.X509_STORE_CTX_new then
          if env.X509_VERIFY_PARAM_new then
            if env.X509_STORE_CTX_init l.store (l.cert.headD []) then
              if env.X509_verify_cert l.store (l.cert.headD []) false then l
              else { l with ret := .returned WEAVE_ERROR_INVALID_SIGNATURE }
            else { l with ret := .returned WEAVE_ERROR_INVALID_ARGUMENT }
          else { l with ret := .returned WEAVE_ERROR_NO_MEMORY }
        else { l with ret := .returned WEAVE_ERROR_NO_MEMORY }
      else l
    else { ret := .returned WEAVE_ERROR_NO_MEMORY, cert := [], store := [] }
  else { ret := .returned WEAVE_ERROR_INVALID_ARGUMENT, cert := [], store := [] }

/-- What `ProcessGetCertificateRequest` leaves: how it ended, the message, and the calls it
made to collaborators, in order. The message is the decoded one once `Decode` has
succeeded. -/
structure ProcessResult where
  ret : Outcome
  msg : GetCertificateRequestMessage
  calls : List Call
  deriving DecidableEq, Repr

namespace MockCAService

/-- `ProcessGetCertificateRequest`, the block that compares the pairing token and the
pairing init data with the configured ones; `none` when validation goes on. -/
def Process_Authorize (env : Collaborators) (msgBuf : List Token)
    (msg : GetCertificateRequestMessage) : Option Outcome × List Call :=
  if msg.AuthorizeInfoPresent then
    if msg.AuthorizeInfoPairingTokenLen = env.TestDevice1_PairingToken.length then
      let c1 := Call.memcmp msg.AuthorizeInfoPairingToken env.TestDevice1_PairingToken
        env.TestDevice1_PairingToken.length
      match readBytes env msgBuf msg.AuthorizeInfoPairingToken
          env.TestDevice1_PairingToken.length with
      | none => (some .undefined, [c1])
      | some token =>
        if token = env.TestDevice1_PairingToken then
          if msg.AuthorizeInfoPairingInitDataLen = env.TestDevice1_PairingInitData.length then
            let c2 := Call.memcmp msg.AuthorizeInfoPairingInitData
              env.TestDevice1_PairingInitData env.TestDevice1_PairingInitData.length
            match readBytes env msgBuf msg.AuthorizeInfoPairingInitData
                env.TestDevice1_PairingInitData.length with
            | none => (some .undefined, [c1, c2])
            | some initData =>
              if initData = env.TestDevice1_PairingInitData then (none, [c1, c2])
              else (some (.returned WEAVE_ERROR_INVALID_ARGUMENT), [c1, c2])
          else (some (.returned WEAVE_ERROR_INVALID_ARGUMENT), [c1])
        else (some (.returned WEAVE_ERROR_INVALID_ARGUMENT), [c1])
    else (some (.returned WEAVE_ERROR_INVALID_ARGUMENT), [])
  else (none, [])

/-- `ProcessGetCertificateRequest`, the block "Validate Manufacturer Attestation Information
if present"; `none` when validation goes on. In its last branch `ExitNow` names an error
code without assigning it: the function leaves with `err` as the validation of the
operational certificate set it, `WEAVE_NO_ERROR`. -/
def Process_ManufAttest (env : Collaborators) (msgBuf : List Token)
    (msg : GetCertificateRequestMessage) :
    Option Outcome × GetCertificateRequestMessage × List Call :=
  if msg.ManufAttestPresent then
    if msg.ManufAttestType = kManufAttestType_WeaveCert then
      let c := Call.ValidateWeaveDeviceCert msg.ManufAttestWeaveCertSet
      if env.ValidateWeaveDeviceCert msg.ManufAttestWeaveCertSet = WEAVE_NO_ERROR then
        (none, msg, [c])
      else (some (.returned (env.ValidateWeaveDeviceCert msg.ManufAttestWeaveCertSet)), msg, [c])
    else if msg.ManufAttestType = kManufAttestType_X509Cert then
      let msg := { msg with
        ManufAttestX509CertSet := x509Store msg.ManufAttestX509CertSet
          msg.ManufAttestX509CertCount
          { Cert := .TestDevice_X509_RSA_RootCert, Len := env.TestDevice_X509_RSA_RootCert.length }
        ManufAttestX509CertCount := msg.ManufAttestX509CertCount + 1 }
      let c := Call.ValidateX509DeviceCert msg.ManufAttestX509CertSet
        msg.ManufAttestX509CertCount
      let v := ValidateX509DeviceCert env msgBuf msg.ManufAttestX509CertSet
        msg.ManufAttestX509CertCount
      if v.ret = .returned WEAVE_NO_ERROR then (none, msg, [c]) else (some v.ret, msg, [c])
    else if msg.ManufAttestType = kManufAttestType_HMAC then
      if msg.ManufAttestHMACKeyId = env.TestDevice1_ManufAttest_HMACKeyId then
        if msg.ManufAttestHMACMetaData ≠ .NULL then
          if msg.ManufAttestHMACMetaDataLen = env.TestDevice1_ManufAttest_HMACMetaData.length then
            let c := Call.memcmp msg.ManufAttestHMACMetaData
              env.TestDevice1_ManufAttest_HMACMetaData
              env.TestDevice1_ManufAttest_HMACMetaData.length
            match readBytes env msgBuf msg.ManufAttestHMACMetaData
                env.TestDevice1_ManufAttest_HMACMetaData.length with
            | none => (some .undefined, msg, [c])
            | some metaData =>
              if metaData = env.TestDevice1_ManufAttest_HMACMetaData then (none, msg, [c])
              else (some (.returned WEAVE_ERROR_INVALID_ARGUMENT), msg, [c])
          else (some (.returned WEAVE_ERROR_INVALID_ARGUMENT), msg, [])
        else (none, msg, [])
      else (some (.returned WEAVE_ERROR_INVALID_ARGUMENT), msg, [])
    else (some (.returned WEAVE_NO_ERROR), msg, [])
  else (none, msg, [])

/-- `ProcessGetCertificateRequest`, the block "Verify Manufacturer Attestation Signature if
present": the routine is chosen by `ManufAttestSigAlgo`. -/
def Process_ManufAttestSig (env : Collaborators) (msgBuf : List Token)
    (msg : GetCertificateRequestMessage) (tbsHash : List Nat) : Outcome × List Call :=
  if msg.ManufAttestPresent then
    if msg.ManufAttestSigAlgo = kOID_SigAlgo_ECDSAWithSHA256 then
      match msg.ManufAttestWeaveCertSet.Certs.head?, msg.ManufAttestSig with
      | some cert, .EC sig =>
        (.returned (env.VerifyECDSASignature (env.WeaveCurveIdToOID cert.PubKeyCurveId) tbsHash
            env.kHashLength sig cert.PublicKey.EC),
          [Call.VerifyECDSASignature (env.WeaveCurveIdToOID cert.PubKeyCurveId) tbsHash
            env.kHashLength sig cert.PublicKey.EC])
      | _, _ => (.undefined, [])
    else if msg.ManufAttestSigAlgo = kOID_SigAlgo_SHA256WithRSAEncryption then
      if env.WEAVE_WITH_OPENSSL then
        match msg.ManufAttestSig with
        | .RSA sig =>
          let c := Call.VerifyRSASignature kOID_SigAlgo_SHA256WithRSAEncryption tbsHash
            env.kHashLength sig (x509At msg.ManufAttestX509CertSet 0).Cert
            (x509At msg.ManufAttestX509CertSet 0).Len
          match readBytes env msgBuf sig.Sig sig.Len,
              readBytes env msgBuf (x509At msg.ManufAttestX509CertSet 0).Cert
                (x509At msg.ManufAttestX509CertSet 0).Len with
          | some sigBytes, some cert =>
            (.returned (env.VerifyRSASignature kOID_SigAlgo_SHA256WithRSAEncryption tbsHash
              env.kHashLength sigBytes cert), [c])
          | _, _ => (.undefined, [c])
        | _ => (.undefined, [])
      else (.returned WEAVE_ERROR_NOT_IMPLEMENTED, [])
    else if msg.ManufAttestSigAlgo = kOID_SigAlgo_HMACWithSHA256 then
      match msg.ManufAttestSig with
      | .HMAC sig =>
        let c := Call.VerifyHMACSignature kOID_SigAlgo_HMACWithSHA256 msg.mTBSDataStart
          msg.mTBSDataLen sig env.TestDevice1_ManufAttest_HMACKey
          env.TestDevice1_ManufAttest_HMACKey.length
        match readBytes env msgBuf msg.mTBSDataStart msg.mTBSDataLen,
            readBytes env msgBuf sig.Sig sig.Len with
        | some data, some sigBytes =>
          (.returned (env.VerifyHMACSignature kOID_SigAlgo_HMACWithSHA256 data sigBytes
            env.TestDevice1_ManufAttest_HMACKey), [c])
        | _, _ => (.undefined, [c])
      | _ => (.undefined, [])
    else (.returned WEAVE_ERROR_UNSUPPORTED_SIGNATURE_TYPE, [])
  else (.returned WEAVE_NO_ERROR, [])

/-- `ProcessGetCertificateRequest`, from `GenerateTBSHash` to the end: the hash of the
signed span, the test of the operational signature algorithm, the verification of the
operational signature and of the attestation signature. -/
def Process_Signatures (env : Collaborators) (msgBuf : List Token)
    (msg : GetCertificateRequestMessage) : Outcome × List Call :=
  let c0 := Call.SHA256 msg.mTBSDataStart msg.mTBSDataLen
  match readBytes env msgBuf msg.mTBSDataStart msg.mTBSDataLen with
  | none => (.undefined, [c0])
  | some tbs =>
    let tbsHash := env.SHA256 tbs
    if msg.OperationalSigAlgo = kOID_SigAlgo_ECDSAWithSHA256 then
      match msg.OperationalCertSet.Certs.head? with
      | none => (.undefined, [c0])
      | some cert =>
        let c1 := Call.VerifyECDSASignature (env.WeaveCurveIdToOID cert.PubKeyCurveId) tbsHash
          env.kHashLength msg.OperationalSig cert.PublicKey.EC
        if env.VerifyECDSASignature (env.WeaveCurveIdToOID cert.PubKeyCurveId) tbsHash
            env.kHashLength msg.OperationalSig cert.PublicKey.EC = WEAVE_NO_ERROR then
          let a := Process_ManufAttestSig env msgBuf msg tbsHash
          (a.1, [c0, c1] ++ a.2)
        else
          (.returned (env.VerifyECDSASignature (env.WeaveCurveIdToOID cert.PubKeyCurveId)
            tbsHash env.kHashLength msg.OperationalSig cert.PublicKey.EC), [c0, c1])
    else (.returned WEAVE_ERROR_INVALID_ARGUMENT, [c0])

/-- `ProcessGetCertificateRequest`, what follows a successful `Decode`. -/
def Process_Validate (env : Collaborators) (msgBuf : List Token)
    (msg : GetCertificateRequestMessage) : ProcessResult :=
  match Process_Authorize env msgBuf msg with
  | (some out, calls) => { ret := out, msg := msg, calls := calls }
  | (none, calls) =>
    let calls := calls ++ [Call.ValidateWeaveDeviceCert msg.OperationalCertSet]
    if env.ValidateWeaveDeviceCert msg.OperationalCertSet = WEAVE_NO_ERROR then
      if env.ManufAttestRequired msg ∧ ¬ msg.ManufAttestPresent then
        { ret := .returned WEAVE_ERROR_INVALID_ARGUMENT, msg := msg, calls := calls }
      else
        match Process_ManufAttest env msgBuf msg with
        | (some out, msg, calls2) => { ret := out, msg := msg, calls := calls ++ calls2 }
        | (none, msg, calls2) =>
          let sg := Process_Signatures env msgBuf msg
          { ret := sg.1, msg := msg, calls := calls ++ calls2 ++ sg.2 }
    else
      { ret := .returned (env.ValidateWeaveDeviceCert msg.OperationalCertSet), msg := msg,
        calls := calls }

/-- `WEAVE_ERROR MockCAService::ProcessGetCertificateRequest(PacketBuffer *msgBuf,
GetCertificateRequestMessage & msg)`. -/
def ProcessGetCertificateRequest (env : Collaborators) (msgBuf : List Token)
    (msg : GetCertificateRequestMessage) : ProcessResult :=
  match msg.Decode env msgBuf with
  | .error e => { ret := .returned e, msg := msg, calls := [] }
  | .ok msg => Process_Validate env msgBuf msg

end MockCAService

/-! ## Predicates used to state the properties -/

/-- The state of `Decode` is anchored in the request buffer `msgBuf`: the reader holds
exactly the elements of the buffer, it has passed the opening element of the top-level
structure and the request-type element, and `mTBSDataStart` points at the first byte of the
request-type element. -/
def DecodeState.Anchored (msgBuf : List Token) (s : DecodeState) : Prop :=
  s.reader.all = msgBuf ∧
  ∃ outer reqType more,
    s.reader.before = outer :: reqType :: more ∧
    s.self.mTBSDataStart = .msgBuf (bytesOf [outer]).length ∧
    reqType.elemType = kTLVElementType_UnsignedInteger ∧
    reqType.tag = ContextTag kTag_GetCertReqMsg_ReqType

/-- The reader `r1` is the reader `r` moved forward over the same buffer. -/
def TLVReader.Advances (r r1 : TLVReader) : Prop :=
  r1.all = r.all ∧ ∃ ext, r1.before = r.before ++ ext

/-- The signed span recorded so far ends where the current element begins. -/
def DecodeState.SpanClosed (s : DecodeState) : Prop :=
  ∃ start, s.self.mTBSDataStart = .msgBuf start ∧
    start + s.self.mTBSDataLen = (bytesOf s.reader.before).length

/-- The attestation-signature element that corresponds to an attestation variant: an ECDSA
signature structure for a Weave certificate, an RSA byte string for an X.509 certificate,
an HMAC byte string for an HMAC key. -/
def expectedManufAttestSigElement : ManufAttestTypeT → Option (TLVType × Tag)
  | kManufAttestType_WeaveCert =>
    some (kTLVType_Structure, ContextTag kTag_GetCertReqMsg_ManufAttestSig_ECDSA)
  | kManufAttestType_X509Cert =>
    some (kTLVType_ByteString, ContextTag kTag_GetCertReqMsg_ManufAttestSig_RSA)
  | kManufAttestType_HMAC =>
    some (kTLVType_ByteString, ContextTag kTag_GetCertReqMsg_ManufAttestSig_HMAC)
  | _ => none

/-- Whether a call is a signature verification. -/
def Call.isSignatureVerification : Call → Bool
  | .VerifyECDSASignature _ _ _ _ _ => true
  | .VerifyRSASignature _ _ _ _ _ _ => true
  | .VerifyHMACSignature _ _ _ _ _ _ => true
  | _ => false

/-! ## Sample requests -/

namespace Sample

/-- An unsigned-integer element with a context tag. -/
def uintElem (tagNum v : Nat) : Token :=
  { head := [0x24, tagNum, v % 256], elemType := kTLVElementType_UnsignedInteger,
    tag := ContextTag tagNum, val := v, data := [] }

/-- A byte-string element with a context tag. -/
def bytesElem (tagNum : Nat) (data : List Nat) : Token :=
  { head := [0x30, tagNum, data.length], elemType := kTLVElementType_ByteString,
    tag := ContextTag tagNum, val := 0, data := data }

/-- The opening element of a structure with a context tag. -/
def structElem (tagNum : Nat) : Token :=
  { head := [0x35, tagNum], elemType := kTLVElementType_Structure,
    tag := ContextTag tagNum, val := 0, data := [] }

/-- The opening element of an array with a context tag. -/
def arrayElem (tagNum : Nat) : Token :=
  { head := [0x36, tagNum], elemType := kTLVElementType_Array,
    tag := ContextTag tagNum, val := 0, data := [] }

/-- The opening element of an anonymous structure. -/
def anonStructElem : Token :=
  { head := [0x15], elemType := kTLVElementType_Structure, tag := AnonymousTag, val := 0,
    data := [] }

/-- An end-of-container element. -/
def endElem : Token :=
  { head := [0x18], elemType := kTLVElementType_EndOfContainer, tag := AnonymousTag, val := 0,
    data := [] }

/-- A decoded certificate. -/
def cert : WeaveCertificateData :=
  { SubjectDN := { AttrValue := { WeaveId := 7 } }
    IssuerDN := { AttrValue := { WeaveId := 7 } }
    SubjectKeyId := { Id := [1] }
    AuthKeyId := { Id := [1] }
    PubKeyAlgoOID := 1
    PubKeyCurveId := 2
    SigAlgoOID := 3
    PublicKey := { EC := { ECPoint := [4, 5] } }
    TBSHash := [] }

/-- Collaborators that accept every certificate and every signature, with the attestation
requirement as given. -/
def env (manufAttestRequired : Bool) : Collaborators :=
  { kMaxCertCount := 4
    ManufAttestRequired := fun _ => manufAttestRequired
    WeaveCertificateSet_Init := WEAVE_NO_ERROR
    DecodeWeaveCert := fun _ => .ok cert
    DecodeWeaveCerts := fun _ => .ok [cert]
    DecodeWeaveECDSASignature := fun _ => .ok { R := [1], S := [2] }
    ValidateWeaveDeviceCert := fun _ => WEAVE_NO_ERROR
    SHA256 := fun d => [d.sum % 256]
    kHashLength := 32
    WeaveCurveIdToOID := fun c => c + 100
    VerifyECDSASignature := fun _ _ _ _ _ => WEAVE_NO_ERROR
    VerifyRSASignature := fun _ _ _ _ _ => WEAVE_NO_ERROR
    VerifyHMACSignature := fun _ _ _ _ => WEAVE_NO_ERROR
    WEAVE_WITH_OPENSSL := true
    X509_STORE_new := true
    BIO_new_mem_buf := fun _ => true
    d2i_X509_bio := fun _ => true
    X509_STORE_add_cert := fun _ _ => true
    X509_STORE_CTX_new := true
    X509_VERIFY_PARAM_new := true
    X509_STORE_CTX_init := fun _ _ => true
    X509_verify_cert := fun _ _ _ => true
    TestDevice1_PairingToken := [9, 9]
    TestDevice1_PairingInitData := [8]
    TestDevice1_ManufAttest_HMACKeyId := 5
    TestDevice1_ManufAttest_HMACMetaData := [3]
    TestDevice1_ManufAttest_HMACKey := [1, 2, 3]
    TestDevice_X509_RSA_RootCert := [0x30] }

/-- Object storage before construction. -/
def storage : GetCertificateRequestMessage :=
  { mReqType := 0
    mManufAttestType := kManufAttestType_Undefined
    AuthorizeInfoPairingToken := .NULL
    AuthorizeInfoPairingTokenLen := 0
    AuthorizeInfoPairingInitData := .NULL
    AuthorizeInfoPairingInitDataLen := 0
    OperationalCertSet := { Certs := [], MaxCerts := 0 }
    ManufAttestWeaveCertSet := { Certs := [], MaxCerts := 0 }
    ManufAttestX509CertSet := []
    ManufAttestX509CertCount := 0
    ManufAttestHMACKeyId := 0
    ManufAttestHMACMetaData := .NULL
    ManufAttestHMACMetaDataLen := 0
    OperationalSigAlgo := 0
    OperationalSig := { R := [], S := [] }
    ManufAttestSigAlgo := 0
    ManufAttestSig := .zeroed
    mOperationalCertSetInitialized := false
    mManufAttestCertSetInitialized := false
    mTBSDataStart := .NULL
    mTBSDataLen := 0 }

/-- The operational device certificate element. -/
def opCert : List Token := [structElem kTag_GetCertReqMsg_OpDeviceCert, uintElem 1 1, endElem]

/-- The operational signature: algorithm element and ECDSA signature structure. -/
def opSig (algo : Nat) : List Token :=
  [uintElem kTag_GetCertReqMsg_OpDeviceSigAlgo algo,
    structElem kTag_GetCertReqMsg_OpDeviceSig_ECDSA, bytesElem 1 [1], bytesElem 2 [2], endElem]

/-- A request without attestation: request type, operational certificate, operational
signature with the given algorithm id, then the given trailing elements. -/
def requestNoAttest (reqType algo : Nat) (trailing : List Token) : List Token :=
  [anonStructElem, uintElem kTag_GetCertReqMsg_ReqType reqType] ++ opCert ++ opSig algo ++
    trailing ++ [endElem]

/-- A request with HMAC attestation (key id and meta data), the given attestation-signature
algorithm id, then the given trailing elements. -/
def requestHMAC (attestAlgo : Nat) (trailing : List Token) : List Token :=
  [anonStructElem, uintElem kTag_GetCertReqMsg_ReqType kReqType_GetInitialOpDeviceCert] ++
    opCert ++
    [uintElem kTag_GetCertReqMsg_ManufAttest_HMACKeyId 5,
      bytesElem kTag_GetCertReqMsg_ManufAttest_HMACMetaData [3]] ++
    opSig kOID_SigAlgo_ECDSAWithSHA256 ++
    [uintElem kTag_GetCertReqMsg_ManufAttestSigAlgo attestAlgo,
      bytesElem kTag_GetCertReqMsg_ManufAttestSig_HMAC [7, 7]] ++
    trailing ++ [endElem]

/-- The result of decoding a request into a freshly constructed message; the storage when
decoding fails. -/
def decoded (e : Collaborators) (msgBuf : List Token) : GetCertificateRequestMessage :=
  match GetCertificateRequestMessage.Decode e (GetCertificateRequestMessage.new storage) msgBuf with
  | .ok msg => msg
  | .error _ => storage

/-- A request of type `kReqType_GetInitialOpDeviceCert` in which an array of related
certificates follows the operational device certificate. -/
def requestInitialWithRelatedCerts : List Token :=
  [anonStructElem, uintElem kTag_GetCertReqMsg_ReqType kReqType_GetInitialOpDeviceCert] ++
    opCert ++ [arrayElem kTag_GetCertReqMsg_OpRelatedCerts, structElem 0, endElem, endElem] ++
    opSig kOID_SigAlgo_ECDSAWithSHA256 ++ [endElem]

/-- A request with HMAC attestation whose attestation signature is an RSA byte string. -/
def requestHMACWithRSASig : List Token :=
  [anonStructElem, uintElem kTag_GetCertReqMsg_ReqType kReqType_GetInitialOpDeviceCert] ++
    opCert ++ [uintElem kTag_GetCertReqMsg_ManufAttest_HMACKeyId 5] ++
    opSig kOID_SigAlgo_ECDSAWithSHA256 ++
    [uintElem kTag_GetCertReqMsg_ManufAttestSigAlgo kOID_SigAlgo_SHA256WithRSAEncryption,
      bytesElem kTag_GetCertReqMsg_ManufAttestSig_RSA [7, 7], endElem]

/-- The state a block of `Decode` leaves; an empty state when the block fails. -/
def stateOf (r : Except WEAVE_ERROR DecodeState) : DecodeState :=
  match r with
  | .ok s => s
  | .error _ =>
    { self := storage, reader := TLVReader.Init [], outerContainer := kTLVType_NotSpecified }

/-- The first signature verification `ProcessGetCertificateRequest` performs on a request
decoded into a freshly constructed message. -/
def firstVerification (e : Collaborators) (msgBuf : List Token) : Call :=
  ((MockCAService.ProcessGetCertificateRequest e msgBuf
    (GetCertificateRequestMessage.new storage)).calls.find?
      Call.isSignatureVerification).getD (Call.SHA256 .NULL 0)

end Sample

/-! ## The TLV writer -/

/-- Modelled from the spec: the bytes of a tag as the TLV writer encodes it after the control
byte (`Weave/Core/WeaveTLV.h` is not part of the sources): none for the anonymous tag, one
for a context tag, the vendor id, profile number and tag number of a fully qualified profile
tag (the writer has no implicit profile). -/
def Tag.encoding : Tag → List Nat
  | AnonymousTag => []
  | ContextTag tagNum => [tagNum % 256]
  | ProfileTag profileId tagNum =>
    [profileId / 65536 % 256, profileId / 16777216 % 256, profileId % 256, profileId / 256 % 256,
      tagNum % 256, tagNum / 256 % 256] ++
    (if tagNum < 65536 then [] else [tagNum / 65536 % 256, tagNum / 16777216 % 256])

/-- Modelled from the spec: the tag-control bits of the control byte. -/
def Tag.control : Tag → Nat
  | AnonymousTag => 0x00
  | ContextTag _ => 0x20
  | ProfileTag _ tagNum => if tagNum < 65536 then 0xC0 else 0xE0

/-- The `n` low bytes of a number, least significant first. -/
def littleEndian : Nat → Nat → List Nat
  | 0, _ => []
  | n + 1, v => v % 256 :: littleEndian n (v / 256)

/-- Modelled from the spec: the width in bytes of the field that holds an unsigned integer
value or a string length: the smallest of 1, 2, 4 and 8 that fits. -/
def fieldWidth (v : Nat) : Nat :=
  if v < 256 then 1 else if v < 65536 then 2 else if v < 4294967296 then 4 else 8

/-- Modelled from the spec: the element-type bits of the control byte for a field width. -/
def widthCode (w : Nat) : Nat :=
  if w = 1 then 0 else if w = 2 then 1 else if w = 4 then 2 else 3

/-- Modelled from the spec: `TLVWriter`, the sequential writer of the TLV library: the
elements written so far, the number of bytes still free in the buffer and the type of the
container being written. A byte is set aside for the end-of-container marker while a
container is open. -/
structure TLVWriter where
  written : List Token
  mRemainingLen : Nat
  mContainerType : TLVType
  deriving DecidableEq, Repr

namespace TLVWriter

/-- Modelled from the spec: `TLVWriter::Init(buf, maxLen)`. -/
def Init (maxLen : Nat) : TLVWriter :=
  { written := [], mRemainingLen := maxLen, mContainerType := kTLVType_NotSpecified }

/-- Modelled from the spec: `TLVWriter::GetLengthWritten()`. -/
def GetLengthWritten (w : TLVWriter) : Nat := (bytesOf w.written).length

/-- Modelled from the spec: whether the writer accepts a tag in the container it is writing:
a context tag in a structure or a path, the anonymous tag outside any container, in an array
or in a path, a profile tag anywhere. -/
def tagAllowed (containerType : TLVType) : Tag → Bool
  | AnonymousTag =>
    containerType == kTLVType_NotSpecified || containerType == kTLVType_Array ||
      containerType == kTLVType_Path
  | ContextTag _ => containerType == kTLVType_Structure || containerType == kTLVType_Path
  | ProfileTag _ _ => true

/-- Modelled from the spec: the writer's error for a tag out of place; its numeric value is
not used. -/
def WEAVE_ERROR_INVALID_TLV_TAG : WEAVE_ERROR := .other 0

/-- Modelled from the spec: writing one encoded element: `WEAVE_ERROR_INVALID_TLV_TAG` for a
tag out of place, `WEAVE_ERROR_BUFFER_TOO_SMALL` when the bytes of the element do not fit in
what is left of the buffer. -/
def WriteElement (w : TLVWriter) (t : Token) : WEAVE_ERROR × TLVWriter :=
  if tagAllowed w.mContainerType t.tag then
    if t.bytes.length ≤ w.mRemainingLen then
      (WEAVE_NO_ERROR,
        { w with written := w.written ++ [t], mRemainingLen := w.mRemainingLen - t.bytes.length })
    else (WEAVE_ERROR_BUFFER_TOO_SMALL, w)
  else (WEAVE_ERROR_INVALID_TLV_TAG, w)

/-- Modelled from the spec: the element `Put(tag, v)` writes for an unsigned integer. -/
def uintElement (tag : Tag) (v : Nat) : Token :=
  { head := [tag.control + 0x04 + widthCode (fieldWidth v)] ++ tag.encoding ++
      littleEndian (fieldWidth v) v
    elemType := kTLVElementType_UnsignedInteger, tag := tag, val := v, data := [] }

/-- Modelled from the spec: the element `PutBytes(tag, buf, len)` writes. -/
def bytesElement (tag : Tag) (data : List Nat) : Token :=
  { head := [tag.control + 0x10 + widthCode (fieldWidth data.length)] ++ tag.encoding ++
      littleEndian (fieldWidth data.length) data.length
    elemType := kTLVElementType_ByteString, tag := tag, val := 0, data := data }

/-- Modelled from the spec: the element `PutBoolean(tag, v)` writes. -/
def booleanElement (tag : Tag) (v : Bool) : Token :=
  { head := [tag.control + (if v then 0x09 else 0x08)] ++ tag.encoding
    elemType := kTLVElementType_Boolean, tag := tag, val := if v then 1 else 0, data := [] }

/-- The element kind that opens a container of a given type. -/
def containerElementType : TLVType → TLVElementType
  | kTLVType_Structure => kTLVElementType_Structure
  | kTLVType_Array => kTLVElementType_Array
  | kTLVType_Path => kTLVElementType_Path
  | _ => kTLVElementType_NotSpecified

/-- Modelled from the spec: the element `StartContainer(tag, containerType, outer)` writes. -/
def containerElement (tag : Tag) (containerType : TLVType) : Token :=
  { head := [tag.control +
      (match containerType with
        | kTLVType_Structure => 0x15
        | kTLVType_Array => 0x16
        | _ => 0x17)] ++ tag.encoding
    elemType := containerElementType containerType, tag := tag, val := 0, data := [] }

/-- Modelled from the spec: the end-of-container marker `EndContainer` writes. -/
def endOfContainerElement : Token :=
  { head := [0x18], elemType := kTLVElementType_EndOfContainer, tag := AnonymousTag, val := 0,
    data := [] }

/-- Modelled from the spec: `TLVWriter::Put(tag, v)` for an unsigned integer. -/
def Put (w : TLVWriter) (tag : Tag) (v : Nat) : WEAVE_ERROR × TLVWriter :=
  w.WriteElement (uintElement tag v)

/-- Modelled from the spec: `TLVWriter::PutBytes(tag, buf, len)`. -/
def PutBytes (w : TLVWriter) (tag : Tag) (data : List Nat) : WEAVE_ERROR × TLVWriter :=
  w.WriteElement (bytesElement tag data)

/-- Modelled from the spec: `TLVWriter::PutBoolean(tag, v)`. -/
def PutBoolean (w : TLVWriter) (tag : Tag) (v : Bool) : WEAVE_ERROR × TLVWriter :=
  w.WriteElement (booleanElement tag v)

/-- Modelled from the spec: `TLVWriter::StartContainer(tag, containerType, outerContainerType)`:
sets a byte aside for the end-of-container marker, writes the opening element and returns the
type of the enclosing container. -/
def StartContainer (w : TLVWriter) (tag : Tag) (containerType : TLVType) :
    WEAVE_ERROR × TLVType × TLVWriter :=
  if TLVTypeIsContainer (containerElementType containerType) then
    if 1 ≤ w.mRemainingLen then
      let r := { w with mRemainingLen := w.mRemainingLen - 1 }.WriteElement
        (containerElement tag containerType)
      if r.1 = WEAVE_NO_ERROR then
        (WEAVE_NO_ERROR, w.mContainerType, { r.2 with mContainerType := containerType })
      else (r.1, w.mContainerType, w)
    else (WEAVE_ERROR_BUFFER_TOO_SMALL, w.mContainerType, w)
  else (WEAVE_ERROR_WRONG_TLV_TYPE, w.mContainerType, w)

/-- Modelled from the spec: `TLVWriter::EndContainer(outerContainerType)`: writes the
end-of-container marker into the byte set aside for it and goes back to the enclosing
container. -/
def EndContainer (w : TLVWriter) (outerContainerType : TLVType) : WEAVE_ERROR × TLVWriter :=
  if TLVTypeIsContainer (containerElementType w.mContainerType) then
    (WEAVE_NO_ERROR,
      { written := w.written ++ [endOfContainerElement], mRemainingLen := w.mRemainingLen,
        mContainerType := outerContainerType })
  else (WEAVE_ERROR_INCORRECT_STATE, w)

/-- Modelled from the spec: `TLVWriter::CopyContainer(tag, encodedContainer, len)`: a reader
over the encoded bytes is moved onto the container they hold; the writer writes its opening
element under the new tag, then the bytes that follow it as they are. -/
def CopyContainer (w : TLVWriter) (tag : Tag) (encodedContainer : List Token) :
    WEAVE_ERROR × TLVWriter :=
  let n := (TLVReader.Init encodedContainer).Next
  if n.1 = WEAVE_NO_ERROR then
    if TLVTypeIsContainer n.2.ElementType then
      let h := w.WriteElement (containerElement tag n.2.GetType)
      if h.1 = WEAVE_NO_ERROR then
        if (bytesOf n.2.after).length ≤ h.2.mRemainingLen then
          (WEAVE_NO_ERROR,
            { h.2 with written := h.2.written ++ n.2.after,
                       mRemainingLen := h.2.mRemainingLen - (bytesOf n.2.after).length })
        else (WEAVE_ERROR_BUFFER_TOO_SMALL, h.2)
      else h
    else (WEAVE_ERROR_INVALID_ARGUMENT, w)
  else (n.1, w)

/-- Modelled from the spec: `TLVWriter::Finalize()`. -/
def Finalize (w : TLVWriter) : WEAVE_ERROR × TLVWriter := (WEAVE_NO_ERROR, w)

end TLVWriter

/-! ## Constants of the certificate format and of the exchange -/

/-- Modelled from the spec: `kWeaveProfile_Common` (`Weave/Profiles/WeaveProfiles.h` is not
part of the sources); of the profile ids, message types and status codes below only their
being distinct is used. -/
def kWeaveProfile_Common : Nat := 0

/-- See `kWeaveProfile_Common`. -/
def kWeaveProfile_Security : Nat := 4

/-- See `kWeaveProfile_Common`. -/
def kMsgType_StatusReport : Nat := 1

/-- See `kWeaveProfile_Common`. -/
def kMsgType_GetCertificateRequest : Nat := 40

/-- See `kWeaveProfile_Common`. -/
def kMsgType_GetCertificateResponse : Nat := 41

/-- See `kWeaveProfile_Common`. -/
def kStatusCode_NoNewCertRequired : Nat := 17

/-- See `kWeaveProfile_Common`. -/
def kStatusCode_UnathorizedGetCertRequest : Nat := 18

/-- Modelled from the spec: context tags of the GetCertificateResponse structure. -/
def kTag_GetCertRespMsg_OpDeviceCert : Nat := 1

/-- See `kTag_GetCertRespMsg_OpDeviceCert`. -/
def kTag_GetCertRespMsg_RelatedCerts : Nat := 2

/-- Modelled from the spec: tags of the Weave certificate structure
(`Weave/Profiles/security/WeaveSecurity.h` is not part of the sources); only their being
distinct within a container is used. -/
def kTag_WeaveCertificate : Nat := 1

/-- See `kTag_WeaveCertificate`. -/
def kTag_SerialNumber : Nat := 1

/-- See `kTag_WeaveCertificate`. -/
def kTag_SignatureAlgorithm : Nat := 2

/-- See `kTag_WeaveCertificate`. -/
def kTag_Issuer : Nat := 3

/-- See `kTag_WeaveCertificate`. -/
def kTag_NotBefore : Nat := 4

/-- See `kTag_WeaveCertificate`. -/
def kTag_NotAfter : Nat := 5

/-- See `kTag_WeaveCertificate`. -/
def kTag_Subject : Nat := 6

/-- See `kTag_WeaveCertificate`. -/
def kTag_PublicKeyAlgorithm : Nat := 7

/-- See `kTag_WeaveCertificate`. -/
def kTag_EllipticCurveIdentifier : Nat := 8

/-- See `kTag_WeaveCertificate`. -/
def kTag_EllipticCurvePublicKey : Nat := 10

/-- See `kTag_WeaveCertificate`. -/
def kTag_ECDSASignature : Nat := 12

/-- See `kTag_WeaveCertificate`. -/
def kTag_AuthorityKeyIdentifier : Nat := 128

/-- See `kTag_WeaveCertificate`. -/
def kTag_SubjectKeyIdentifier : Nat := 129

/-- See `kTag_WeaveCertificate`. -/
def kTag_KeyUsage : Nat := 130

/-- See `kTag_WeaveCertificate`. -/
def kTag_BasicConstraints : Nat := 131

/-- See `kTag_WeaveCertificate`. -/
def kTag_ExtendedKeyUsage : Nat := 132

/-- See `kTag_WeaveCertificate`. -/
def kTag_AuthorityKeyIdentifier_KeyIdentifier : Nat := 2

/-- See `kTag_WeaveCertificate`. -/
def kTag_SubjectKeyIdentifier_KeyIdentifier : Nat := 2

/-- See `kTag_WeaveCertificate`. -/
def kTag_KeyUsage_Critical : Nat := 1

/-- See `kTag_WeaveCertificate`. -/
def kTag_KeyUsage_KeyUsage : Nat := 2

/-- See `kTag_WeaveCertificate`. -/
def kTag_BasicConstraints_Critical : Nat := 1

/-- See `kTag_WeaveCertificate`. -/
def kTag_ExtendedKeyUsage_Critical : Nat := 1

/-- See `kTag_WeaveCertificate`. -/
def kTag_ExtendedKeyUsage_KeyPurposes : Nat := 2

/-- See `kTag_WeaveCertificate`. -/
def kTag_ECDSASignature_r : Nat := 1

/-- See `kTag_WeaveCertificate`. -/
def kTag_ECDSASignature_s : Nat := 2

/-- Modelled from the spec: the masks of `Weave/Support/ASN1OID.h` that split an object
identifier into its category and its number within the category. -/
def kOIDCategory_Mask : Nat := 0x0F00

/-- See `kOIDCategory_Mask`. -/
def kOID_Mask : Nat := 0x00FF

/-- Modelled from the spec: object identifiers written into the certificate; see
`kOID_NotSpecified`. -/
def kOID_AttributeType_WeaveDeviceId : Nat := 0x0411

/-- See `kOID_AttributeType_WeaveDeviceId`. -/
def kOID_KeyPurpose_ServerAuth : Nat := 0x0701

/-- See `kOID_AttributeType_WeaveDeviceId`. -/
def kOID_KeyPurpose_ClientAuth : Nat := 0x0702

/-- Modelled from the spec: key-usage flags of `Weave/Profiles/security/WeaveCert.h`. -/
def kKeyUsageFlag_DigitalSignature : Nat := 0x0001

/-- See `kKeyUsageFlag_DigitalSignature`. -/
def kKeyUsageFlag_KeyEncipherment : Nat := 0x0004

/-- The enumerators declared in the block "Certificate serial number" of
`GenerateServiceAssignedDeviceCert`. -/
def kCertSerialNumber_Length : Nat := 8

/-- See `kCertSerialNumber_Length`. -/
def kCertSerialNumber_FirstByteMask : Nat := 0x7F

/-- See `kCertSerialNumber_Length`. -/
def kCertSerialNumber_FirstBytePrefix : Nat := 0x40

/-- The enumerator `kCertDecodeBufferSize` of `GenerateServiceAssignedDeviceCert`. -/
def kCertDecodeBufferSize : Nat := 1024

/-- Modelled from the spec: `ASN1UniversalTime`. -/
structure ASN1UniversalTime where
  Year : Nat
  Month : Nat
  Day : Nat
  Hour : Nat
  Minute : Nat
  Second : Nat
  deriving DecidableEq, Repr

/-! ## The service, its collaborators and the exchange -/

/-- A packet buffer: the inbound request, or a buffer `PacketBuffer::New()` returned; the
number tells allocations apart (it is the number of events that precede the allocation). -/
inductive Buffer
  | reqMsg
  | allocated (n : Nat)
  deriving DecidableEq, Repr

/-- Modelled from the spec: `StatusReporting::StatusReport`, the two fields the service
sets. -/
structure StatusReport where
  mProfileId : Nat
  mStatusCode : Nat
  deriving DecidableEq, Repr

/-- What a packet buffer handed to `SendMessage` holds: a TLV encoding or a packed status
report. -/
inductive Payload
  | tlv (elements : List Token)
  | statusReport (report : StatusReport)
  deriving DecidableEq, Repr

/-- What `HandleClientRequest` does to packet buffers and to the exchange, in order:
allocations with their result (`none` for a null pointer), releases, and the calls of
`ExchangeContext::SendMessage` with their arguments and result. A buffer handed to
`SendMessage` belongs to the exchange from then on. -/
inductive Event
  | PacketBuffer_New (buf : Option Buffer)
  | PacketBuffer_Free (buf : Buffer)
  | SendMessage (profileId msgType : Nat) (buf : Buffer) (payload : Payload) (ret : WEAVE_ERROR)
  deriving DecidableEq, Repr

/-- Modelled from the spec: what certificate issuance and the request handler consume from
other parts of Weave and from the test configuration (none of it part of the sources): the
identity and keys of the test CA, the capacity `kTestCertBufSize`, secure random bytes, the
packing of certificate times, the conversion of the to-be-signed part of a certificate to
DER, the decoding of the CA private key, ECDSA signature generation, packet-buffer allocation
and capacity, the packing of a status report and the sending of a message. The results of
allocation and sending may depend on what happened before: they take the events so far. -/
structure ServiceCollaborators where
  sTestCert_CA_Id : Nat
  sTestCert_CA_SubjectKeyId : List Nat
  sTestCert_CA_Weave : List Token
  sTestCert_CA_PrivateKey_Weave : List Nat
  kTestCertBufSize : Nat
  GetSecureRandomData : Nat → WEAVE_ERROR × List Nat
  PackCertTime : ASN1UniversalTime → WEAVE_ERROR × Nat
  DecodeConvertTBSCert : List Token → WEAVE_ERROR × List Nat
  ASN1Writer_Finalize : List Nat → WEAVE_ERROR × List Nat
  DecodeWeaveECPrivateKey : List Nat → WEAVE_ERROR × Nat × EncodedECPublicKey × List Nat
  kMaxValueLength : Nat
  GenerateECDSASignature : Nat → List Nat → Nat → List Nat → Nat →
    WEAVE_ERROR × EncodedECDSASignature
  PacketBuffer_New : List Event → Bool
  PacketBuffer_MaxDataLength : Nat
  StatusReport_pack : StatusReport → WEAVE_ERROR
  SendMessage : List Event → Nat → Nat → Payload → WEAVE_ERROR

/-- The class `MockCAService` (declared in `MockCAService.h`): the members
`MockCAService.cpp` uses. -/
structure MockCAService where
  mLogMessageData : Bool
  mIncludeRelatedCerts : Bool
  mDoNotRotateCert : Bool
  mCACert : List Token
  mCAPrivateKey : List Nat
  deriving DecidableEq, Repr

namespace MockCAService

/-- The constructor `MockCAService()`. -/
def new (svc : ServiceCollaborators) : MockCAService :=
  { mLogMessageData := false
    mIncludeRelatedCerts := false
    mDoNotRotateCert := false
    mCACert := svc.sTestCert_CA_Weave
    mCAPrivateKey := svc.sTestCert_CA_PrivateKey_Weave }

/-- The array `certSerialNumber` after the two statements that follow
`GetSecureRandomData`: `certSerialNumber[0] &= kCertSerialNumber_FirstByteMask` and
`certSerialNumber[0] |= kCertSerialNumber_FirstBytePrefix`. -/
def certSerialNumber (random : List Nat) : List Nat :=
  match random with
  | [] => []
  | b :: rest =>
    ((b &&& kCertSerialNumber_FirstByteMask) ||| kCertSerialNumber_FirstBytePrefix) :: rest

/-- `GenerateServiceAssignedDeviceCert`, the block "Certificate serial number". The random
generator fills the array it is given: its output is the array. -/
def Generate_SerialNumber (svc : ServiceCollaborators) (writer : TLVWriter) :
    Except WEAVE_ERROR TLVWriter := do
  let random ← SuccessOrExit (svc.GetSecureRandomData kCertSerialNumber_Length)
  SuccessOrExit (writer.PutBytes (ContextTag kTag_SerialNumber) (certSerialNumber random))

/-- The value of `x & ~mask`. -/
def andNot (x mask : Nat) : Nat := x ^^^ (x &&& mask)

/-- `GenerateServiceAssignedDeviceCert`, "Weave signature algorithm" and the block
"Certificate issuer Id". -/
def Generate_Issuer (certData : WeaveCertificateData) (writer : TLVWriter) :
    Except WEAVE_ERROR TLVWriter := do
  let writer ← SuccessOrExit (writer.Put (ContextTag kTag_SignatureAlgorithm)
    (andNot certData.SigAlgoOID kOIDCategory_Mask % 256))
  let (containerType2, writer) ← SuccessOrExit
    (writer.StartContainer (ContextTag kTag_Issuer) kTLVType_Path)
  let writer ← SuccessOrExit
    (writer.Put (ContextTag (kOID_AttributeType_WeaveDeviceId &&& kOID_Mask))
      certData.IssuerDN.AttrValue.WeaveId)
  SuccessOrExit (writer.EndContainer containerType2)

/-- `GenerateServiceAssignedDeviceCert`, the block "Certificate validity times". -/
def Generate_Validity (svc : ServiceCollaborators) (writer : TLVWriter) :
    Except WEAVE_ERROR TLVWriter := do
  let validTime : ASN1UniversalTime :=
    { Year := 2019, Month := 8, Day := 1, Hour := 14, Minute := 11, Second := 54 }
  let packedNotBeforeTime ← SuccessOrExit (svc.PackCertTime validTime)
  let validTime := { validTime with Year := validTime.Year + 10 }
  let packedNotAfterTime ← SuccessOrExit (svc.PackCertTime validTime)
  let writer ← SuccessOrExit (writer.Put (ContextTag kTag_NotBefore) packedNotBeforeTime)
  SuccessOrExit (writer.Put (ContextTag kTag_NotAfter) packedNotAfterTime)

/-- `GenerateServiceAssignedDeviceCert`, the block "Certificate subject Id". -/
def Generate_Subject (certData : WeaveCertificateData) (writer : TLVWriter) :
    Except WEAVE_ERROR TLVWriter := do
  let (containerType2, writer) ← SuccessOrExit
    (writer.StartContainer (ContextTag kTag_Subject) kTLVType_Path)
  let writer ← SuccessOrExit
    (writer.Put (ContextTag (kOID_AttributeType_WeaveDeviceId &&& kOID_Mask))
      certData.SubjectDN.AttrValue.WeaveId)
  SuccessOrExit (writer.EndContainer containerType2)

/-- `GenerateServiceAssignedDeviceCert`, "EC public key algorithm", "EC public key curve Id"
and "EC public key". -/
def Generate_PublicKey (certData : WeaveCertificateData) (writer : TLVWriter) :
    Except WEAVE_ERROR TLVWriter := do
  let writer ← SuccessOrExit (writer.Put (ContextTag kTag_PublicKeyAlgorithm)
    ((certData.PubKeyAlgoOID &&& kOID_Mask) % 256))
  let writer ← SuccessOrExit (writer.Put (ContextTag kTag_EllipticCurveIdentifier)
    (certData.PubKeyCurveId % 4294967296))
  SuccessOrExit (writer.PutBytes (ContextTag kTag_EllipticCurvePublicKey)
    certData.PublicKey.EC.ECPoint)

end MockCAService

namespace MockCAService

/-- `GenerateServiceAssignedDeviceCert`, the blocks "Certificate extension: basic
constraints" and "Certificate extension: key usage". -/
def Generate_BasicConstraints_KeyUsage (writer : TLVWriter) : Except WEAVE_ERROR TLVWriter := do
  let (containerType2, writer) ← SuccessOrExit
    (writer.StartContainer (ContextTag kTag_BasicConstraints) kTLVType_Structure)
  let writer ← SuccessOrExit
    (writer.PutBoolean (ContextTag kTag_BasicConstraints_Critical) true)
  let writer ← SuccessOrExit (writer.EndContainer containerType2)
  let (containerType2, writer) ← SuccessOrExit
    (writer.StartContainer (ContextTag kTag_KeyUsage) kTLVType_Structure)
  let writer ← SuccessOrExit (writer.PutBoolean (ContextTag kTag_KeyUsage_Critical) true)
  let writer ← SuccessOrExit (writer.Put (ContextTag kTag_KeyUsage_KeyUsage)
    ((kKeyUsageFlag_DigitalSignature ||| kKeyUsageFlag_KeyEncipherment) % 65536))
  SuccessOrExit (writer.EndContainer containerType2)

/-- `GenerateServiceAssignedDeviceCert`, the block "Certificate extension: extended key
usage". -/
def Generate_ExtendedKeyUsage (writer : TLVWriter) : Except WEAVE_ERROR TLVWriter := do
  let (containerType2, writer) ← SuccessOrExit
    (writer.StartContainer (ContextTag kTag_ExtendedKeyUsage) kTLVType_Structure)
  let writer ← SuccessOrExit
    (writer.PutBoolean (ContextTag kTag_ExtendedKeyUsage_Critical) true)
  let (containerType3, writer) ← SuccessOrExit
    (writer.StartContainer (ContextTag kTag_ExtendedKeyUsage_KeyPurposes) kTLVType_Array)
  let writer ← SuccessOrExit
    (writer.Put AnonymousTag ((kOID_KeyPurpose_ClientAuth &&& kOID_Mask) % 256))
  let writer ← SuccessOrExit
    (writer.Put AnonymousTag ((kOID_KeyPurpose_ServerAuth &&& kOID_Mask) % 256))
  let writer ← SuccessOrExit (writer.EndContainer containerType3)
  SuccessOrExit (writer.EndContainer containerType2)

/-- `GenerateServiceAssignedDeviceCert`, the blocks "Certificate extension: subject key
identifier" and "Certificate extension: authority key identifier". -/
def Generate_KeyIdentifiers (certData : WeaveCertificateData) (writer : TLVWriter) :
    Except WEAVE_ERROR TLVWriter := do
  let (containerType2, writer) ← SuccessOrExit
    (writer.StartContainer (ContextTag kTag_SubjectKeyIdentifier) kTLVType_Structure)
  let writer ← SuccessOrExit
    (writer.PutBytes (ContextTag kTag_SubjectKeyIdentifier_KeyIdentifier)
      certData.SubjectKeyId.Id)
  let writer ← SuccessOrExit (writer.EndContainer containerType2)
  let (containerType2, writer) ← SuccessOrExit
    (writer.StartContainer (ContextTag kTag_AuthorityKeyIdentifier) kTLVType_Structure)
  let writer ← SuccessOrExit
    (writer.PutBytes (ContextTag kTag_AuthorityKeyIdentifier_KeyIdentifier)
      certData.AuthKeyId.Id)
  SuccessOrExit (writer.EndContainer containerType2)

/-- `GenerateServiceAssignedDeviceCert`, from `writer.Init` to the opening of the
ECDSASignature structure: the to-be-signed part of the certificate, then the opening element
of the signature structure. Returns the writer together with the locals `containerType` and
`containerType2`. -/
def Generate_TBS (svc : ServiceCollaborators) (certData : WeaveCertificateData)
    (certBufSize : Nat) : Except WEAVE_ERROR (TLVType × TLVType × TLVWriter) := do
  let writer := TLVWriter.Init certBufSize
  let (containerType, writer) ← SuccessOrExit
    (writer.StartContainer (ProfileTag kWeaveProfile_Security kTag_WeaveCertificate)
      kTLVType_Structure)
  let writer ← Generate_SerialNumber svc writer
  let writer ← Generate_Issuer certData writer
  let writer ← Generate_Validity svc writer
  let writer ← Generate_Subject certData writer
  let writer ← Generate_PublicKey certData writer
  let writer ← Generate_BasicConstraints_KeyUsage writer
  let writer ← Generate_ExtendedKeyUsage writer
  let writer ← Generate_KeyIdentifiers certData writer
  let (containerType2, writer) ← SuccessOrExit
    (writer.StartContainer (ContextTag kTag_ECDSASignature) kTLVType_Structure)
  return (containerType, containerType2, writer)

/-- `GenerateServiceAssignedDeviceCert`, the conversion of what was written so far: a reader
over the certificate buffer enters the certificate structure, `DecodeConvertTBSCert` converts
the elements it finds there to DER in `certDecodeBuf`, and `Finalize` completes the
encoding. The result is the content of `certDecodeBuf`, `GetLengthWritten()` bytes. -/
def Generate_ConvertTBS (svc : ServiceCollaborators) (cert : List Token) :
    Except WEAVE_ERROR (List Nat) := do
  let reader := TLVReader.Init cert
  let reader ← SuccessOrExit
    (reader.NextExpect kTLVType_Structure (ProfileTag kWeaveProfile_Security kTag_WeaveCertificate))
  let (_, reader) ← reader.EnterContainer
  let der ← SuccessOrExit (svc.DecodeConvertTBSCert reader.after)
  SuccessOrExit (svc.ASN1Writer_Finalize der)

/-- `GenerateServiceAssignedDeviceCert`, from the decoding of the CA private key to
`writer.Finalize`: the signature over the hash is generated and its two values are written
into the signature structure, which is closed, then the certificate structure. -/
def Generate_Sign (env : Collaborators) (svc : ServiceCollaborators) (self : MockCAService)
    (tbsHash : List Nat) (containerType containerType2 : TLVType) (writer : TLVWriter) :
    Except WEAVE_ERROR TLVWriter := do
  let (caCurveId, _, caPrivKey) ← SuccessOrExit (svc.DecodeWeaveECPrivateKey self.mCAPrivateKey)
  let ecdsaSig ← SuccessOrExit (svc.GenerateECDSASignature (env.WeaveCurveIdToOID caCurveId)
    tbsHash env.kHashLength caPrivKey svc.kMaxValueLength)
  let writer ← SuccessOrExit (writer.PutBytes (ContextTag kTag_ECDSASignature_r) ecdsaSig.R)
  let writer ← SuccessOrExit (writer.PutBytes (ContextTag kTag_ECDSASignature_s) ecdsaSig.S)
  let writer ← SuccessOrExit (writer.EndContainer containerType2)
  let writer ← SuccessOrExit (writer.EndContainer containerType)
  SuccessOrExit writer.Finalize

/-- What `GenerateServiceAssignedDeviceCert` leaves: the error code, the certificate data of
the caller, and, when the call succeeds, the elements written to `cert` with the length
assigned to `certLen` (on an error `cert` is left partly written and `certLen` is not
assigned). -/
structure GenerateResult where
  err : WEAVE_ERROR
  certData : WeaveCertificateData
  issued : Option (List Token × Nat)
  deriving DecidableEq, Repr

/-- `WEAVE_ERROR MockCAService::GenerateServiceAssignedDeviceCert(WeaveCertificateData&
certData, uint8_t *cert, uint16_t certBufSize, uint16_t& certLen)`. -/
def GenerateServiceAssignedDeviceCert (env : Collaborators) (svc : ServiceCollaborators)
    (self : MockCAService) (certData : WeaveCertificateData) (certBufSize : Nat) :
    GenerateResult :=
  let certData := { certData with
    IssuerDN := { AttrValue := { WeaveId := svc.sTestCert_CA_Id } }
    AuthKeyId := { Id := svc.sTestCert_CA_SubjectKeyId }
    SigAlgoOID := kOID_SigAlgo_ECDSAWithSHA256 }
  match Generate_TBS svc certData certBufSize with
  | .error e => { err := e, certData := certData, issued := none }
  | .ok (containerType, containerType2, writer) =>
    match Generate_ConvertTBS svc writer.written with
    | .error e => { err := e, certData := certData, issued := none }
    | .ok certDecodeBuf =>
      let certData := { certData with TBSHash := env.SHA256 certDecodeBuf }
      match Generate_Sign env svc self certData.TBSHash containerType containerType2 writer with
      | .error e => { err := e, certData := certData, issued := none }
      | .ok writer =>
        { err := WEAVE_NO_ERROR, certData := certData,
          issued := some (writer.written, writer.GetLengthWritten % 65536) }

end MockCAService

/-- The elements that lie entirely within the first `len` bytes of an encoding. -/
def takeBytes : Nat → List Token → List Token
  | _, [] => []
  | len, t :: ts => if t.bytes.length ≤ len then t :: takeBytes (len - t.bytes.length) ts else []

/-- The step `err = f(writer); SuccessOrExit(err)` on a writer that is looked at after the
exit: the writer as the failing call left it. -/
def TLVWriter.andThen (x : WEAVE_ERROR × TLVWriter) (f : TLVWriter → WEAVE_ERROR × TLVWriter) :
    WEAVE_ERROR × TLVWriter :=
  if x.1 = WEAVE_NO_ERROR then f x.2 else x

/-- What `GenerateGetCertificateResponse` leaves: the error code, what was written to the
response buffer, and the certificate data of the caller. -/
structure ResponseResult where
  err : WEAVE_ERROR
  msgBuf : List Token
  certData : WeaveCertificateData
  deriving DecidableEq, Repr

namespace MockCAService

/-- `GenerateGetCertificateResponse`, the block guarded by `mIncludeRelatedCerts`. -/
def Response_RelatedCerts (self : MockCAService) (writer : TLVWriter) :
    WEAVE_ERROR × TLVWriter :=
  if self.mIncludeRelatedCerts then
    let s := writer.StartContainer (ContextTag kTag_GetCertRespMsg_RelatedCerts) kTLVType_Array
    TLVWriter.andThen
      (TLVWriter.andThen (s.1, s.2.2) (fun w => w.CopyContainer AnonymousTag self.mCACert))
      (fun w => w.EndContainer s.2.1)
  else (WEAVE_NO_ERROR, writer)

/-- `WEAVE_ERROR MockCAService::GenerateGetCertificateResponse(PacketBuffer *msgBuf,
WeaveCertificateData& currentOpDeviceCert)`. The size of the local `certBuf` is passed as a
`uint16_t`. -/
def GenerateGetCertificateResponse (env : Collaborators) (svc : ServiceCollaborators)
    (self : MockCAService) (currentOpDeviceCert : WeaveCertificateData) : ResponseResult :=
  let g := self.GenerateServiceAssignedDeviceCert env svc currentOpDeviceCert
    (svc.kTestCertBufSize % 65536)
  match g.issued with
  | none => { err := g.err, msgBuf := [], certData := g.certData }
  | some (certBuf, certLen) =>
    if g.err = WEAVE_NO_ERROR then
      let writer := TLVWriter.Init svc.PacketBuffer_MaxDataLength
      let s := writer.StartContainer AnonymousTag kTLVType_Structure
      let r :=
        TLVWriter.andThen
          (TLVWriter.andThen
            (TLVWriter.andThen
              (TLVWriter.andThen (s.1, s.2.2)
                (fun w => w.CopyContainer (ContextTag kTag_GetCertRespMsg_OpDeviceCert)
                  (takeBytes certLen certBuf)))
              (fun w => self.Response_RelatedCerts w))
            (fun w => w.EndContainer s.2.1))
          (fun w => w.Finalize)
      { err := r.1, msgBuf := r.2.written, certData := g.certData }
    else { err := g.err, msgBuf := [], certData := g.certData }

/-- `WEAVE_ERROR MockCAService::SendStatusReport(nl::Weave::ExchangeContext *ec, uint16_t
statusCode)`: the error code and the events of the call; `history` holds the events that
precede it. -/
def SendStatusReport (svc : ServiceCollaborators) (history : List Event) (statusCode : Nat) :
    WEAVE_ERROR × List Event :=
  if svc.PacketBuffer_New history then
    let statusMsg := Buffer.allocated history.length
    let statusReport : StatusReport :=
      { mProfileId := kWeaveProfile_Security, mStatusCode := statusCode % 65536 }
    if svc.StatusReport_pack statusReport = WEAVE_NO_ERROR then
      let err := svc.SendMessage (history ++ [Event.PacketBuffer_New (some statusMsg)])
        kWeaveProfile_Common kMsgType_StatusReport (.statusReport statusReport)
      (err, [Event.PacketBuffer_New (some statusMsg),
        Event.SendMessage kWeaveProfile_Common kMsgType_StatusReport statusMsg
          (.statusReport statusReport) err])
    else
      (svc.StatusReport_pack statusReport,
        [Event.PacketBuffer_New (some statusMsg), Event.PacketBuffer_Free statusMsg])
  else (WEAVE_ERROR_NO_MEMORY, [Event.PacketBuffer_New none])

end MockCAService

namespace MockCAService

/-- `HandleClientRequest`, from the label `exit` on: a status report with the code
`kStatusCode_UnathorizedGetCertRequest` when `err` is an error, then the release of the
request buffer and of the response buffer when the handler still holds one. `events` are the
events that precede the label. -/
def HandleClientRequest_exit (svc : ServiceCollaborators) (err : WEAVE_ERROR)
    (events : List Event) (respMsg : Option Buffer) : List Event :=
  events ++
    (if err ≠ WEAVE_NO_ERROR then
      (SendStatusReport svc events kStatusCode_UnathorizedGetCertRequest).2 else []) ++
    [Event.PacketBuffer_Free Buffer.reqMsg] ++
    (match respMsg with
      | none => []
      | some buf => [Event.PacketBuffer_Free buf])

/-- `HandleClientRequest`, the branch that issues a certificate: allocation of the response
buffer, `GenerateGetCertificateResponse` on the first certificate of the operational
certificate set, `SendMessage`. `none` when that set holds no certificate (the handler reads
through `OperationalCertSet.Certs`). -/
def HandleClientRequest_respond (env : Collaborators) (svc : ServiceCollaborators)
    (server : MockCAService) (getCertMsg : GetCertificateRequestMessage) :
    Option (List Event) :=
  if svc.PacketBuffer_New [] then
    let respMsg := Buffer.allocated 0
    match getCertMsg.OperationalCertSet.Certs.head? with
    | none => none
    | some cert =>
      let g := server.GenerateGetCertificateResponse env svc cert
      if g.err = WEAVE_NO_ERROR then
        let err := svc.SendMessage [Event.PacketBuffer_New (some respMsg)]
          kWeaveProfile_Security kMsgType_GetCertificateResponse (.tlv g.msgBuf)
        some (HandleClientRequest_exit svc err
          [Event.PacketBuffer_New (some respMsg),
            Event.SendMessage kWeaveProfile_Security kMsgType_GetCertificateResponse respMsg
              (.tlv g.msgBuf) err] none)
      else
        some (HandleClientRequest_exit svc g.err [Event.PacketBuffer_New (some respMsg)]
          (some respMsg))
  else
    some (HandleClientRequest_exit svc WEAVE_ERROR_NO_MEMORY [Event.PacketBuffer_New none] none)

/-- `void MockCAService::HandleClientRequest(ExchangeContext *ec, const IPPacketInfo
*pktInfo, const WeaveMessageInfo *msgInfo, uint32_t profileId, uint8_t msgType, PacketBuffer
*reqMsg)`: the events of the call, `none` when its behaviour is not defined. `storage` is the
memory of the local `getCertMsg` before its constructor runs. -/
def HandleClientRequest (env : Collaborators) (svc : ServiceCollaborators)
    (server : MockCAService) (storage : GetCertificateRequestMessage)
    (profileId msgType : Nat) (reqMsg : List Token) : Option (List Event) :=
  if profileId = kWeaveProfile_Security ∧ msgType = kMsgType_GetCertificateRequest then
    let p := ProcessGetCertificateRequest env reqMsg (GetCertificateRequestMessage.new storage)
    match p.ret with
    | .undefined => none
    | .returned err =>
      if err = WEAVE_NO_ERROR then
        if p.msg.RequestType = kReqType_RotateOpDeviceCert ∧ server.mDoNotRotateCert = true then
          let s := SendStatusReport svc [] kStatusCode_NoNewCertRequired
          some (HandleClientRequest_exit svc s.1 s.2 none)
        else
          HandleClientRequest_respond env svc server p.msg
      else some (HandleClientRequest_exit svc err [] none)
  else some (HandleClientRequest_exit svc WEAVE_ERROR_NO_MEMORY [] none)

end MockCAService

namespace Sample

/-- Collaborators of the service under which every step of issuance succeeds, every buffer
is allocated and every message is sent; `random` is the output of the random generator. -/
def svc (random : List Nat) : ServiceCollaborators :=
  { sTestCert_CA_Id := 0xCA
    sTestCert_CA_SubjectKeyId := [0x44, 0xE3]
    sTestCert_CA_Weave := [anonStructElem, uintElem 1 1, endElem]
    sTestCert_CA_PrivateKey_Weave := [0x11]
    kTestCertBufSize := 2048
    GetSecureRandomData := fun _ => (WEAVE_NO_ERROR, random)
    PackCertTime := fun t => (WEAVE_NO_ERROR, t.Year * 400 + t.Month * 31 + t.Day)
    DecodeConvertTBSCert := fun ts => (WEAVE_NO_ERROR, bytesOf ts)
    ASN1Writer_Finalize := fun der => (WEAVE_NO_ERROR, der)
    DecodeWeaveECPrivateKey := fun k => (WEAVE_NO_ERROR, 21, { ECPoint := [6] }, k)
    kMaxValueLength := 32
    GenerateECDSASignature := fun _ hash _ key _ => (WEAVE_NO_ERROR, { R := hash, S := key })
    PacketBuffer_New := fun _ => true
    PacketBuffer_MaxDataLength := 1024
    StatusReport_pack := fun _ => WEAVE_NO_ERROR
    SendMessage := fun _ _ _ _ => WEAVE_NO_ERROR }

/-- The service as constructed, with rotation refused or not. -/
def server (doNotRotateCert : Bool) : MockCAService :=
  { MockCAService.new (svc [1, 2, 3, 4, 5, 6, 7, 8]) with mDoNotRotateCert := doNotRotateCert }

/-- A request with attestation by a Weave certificate and the given attestation-signature
algorithm id; the attestation signature is an ECDSA signature structure. -/
def requestWeaveCert (attestAlgo : Nat) : List Token :=
  [anonStructElem, uintElem kTag_GetCertReqMsg_ReqType kReqType_GetInitialOpDeviceCert] ++
    opCert ++
    [structElem kTag_GetCertReqMsg_ManufAttest_WeaveCert, uintElem 1 1, endElem] ++
    opSig kOID_SigAlgo_ECDSAWithSHA256 ++
    [uintElem kTag_GetCertReqMsg_ManufAttestSigAlgo attestAlgo,
      structElem kTag_GetCertReqMsg_ManufAttestSig_ECDSA, bytesElem 1 [1], bytesElem 2 [2],
      endElem, endElem]

/-- A request with HMAC attestation that carries a key id and no meta data. -/
def requestHMACNoMetaData : List Token :=
  [anonStructElem, uintElem kTag_GetCertReqMsg_ReqType kReqType_GetInitialOpDeviceCert] ++
    opCert ++ [uintElem kTag_GetCertReqMsg_ManufAttest_HMACKeyId 5] ++
    opSig kOID_SigAlgo_ECDSAWithSHA256 ++
    [uintElem kTag_GetCertReqMsg_ManufAttestSigAlgo kOID_SigAlgo_HMACWithSHA256,
      bytesElem kTag_GetCertReqMsg_ManufAttestSig_HMAC [7, 7], endElem]

/-- A request without attestation that carries a pairing token and pairing init data. -/
def requestAuthorized (token initData : List Nat) : List Token :=
  [anonStructElem, uintElem kTag_GetCertReqMsg_ReqType kReqType_GetInitialOpDeviceCert,
    bytesElem kTag_GetCertReqMsg_Authorize_PairingToken token,
    bytesElem kTag_GetCertReqMsg_Authorize_PairingInitData initData] ++
    opCert ++ opSig kOID_SigAlgo_ECDSAWithSHA256 ++ [endElem]

/-- The events of a call, none when the behaviour of the call is not defined. -/
def eventsOf (r : Option (List Event)) : List Event := r.getD []

end Sample

/-! ## Predicates used to state the properties of issuance and of the handler -/

/-- The elements an issued certificate holds between the opening element of the certificate
structure and the opening element of the signature structure, for given certificate data:
serial number, signature algorithm, issuer, validity, subject, public key, extensions. -/
def issuedFields (svc : ServiceCollaborators) (certData : WeaveCertificateData) : List Token :=
  [TLVWriter.bytesElement (ContextTag kTag_SerialNumber)
      (MockCAService.certSerialNumber (svc.GetSecureRandomData kCertSerialNumber_Length).2),
    TLVWriter.uintElement (ContextTag kTag_SignatureAlgorithm)
      (MockCAService.andNot certData.SigAlgoOID kOIDCategory_Mask % 256),
    TLVWriter.containerElement (ContextTag kTag_Issuer) kTLVType_Path,
    TLVWriter.uintElement (ContextTag (kOID_AttributeType_WeaveDeviceId &&& kOID_Mask))
      certData.IssuerDN.AttrValue.WeaveId,
    TLVWriter.endOfContainerElement,
    TLVWriter.uintElement (ContextTag kTag_NotBefore)
      (svc.PackCertTime
        { Year := 2019, Month := 8, Day := 1, Hour := 14, Minute := 11, Second := 54 }).2,
    TLVWriter.uintElement (ContextTag kTag_NotAfter)
      (svc.PackCertTime
        { Year := 2019 + 10, Month := 8, Day := 1, Hour := 14, Minute := 11, Second := 54 }).2,
    TLVWriter.containerElement (ContextTag kTag_Subject) kTLVType_Path,
    TLVWriter.uintElement (ContextTag (kOID_AttributeType_WeaveDeviceId &&& kOID_Mask))
      certData.SubjectDN.AttrValue.WeaveId,
    TLVWriter.endOfContainerElement,
    TLVWriter.uintElement (ContextTag kTag_PublicKeyAlgorithm)
      ((certData.PubKeyAlgoOID &&& kOID_Mask) % 256),
    TLVWriter.uintElement (ContextTag kTag_EllipticCurveIdentifier)
      (certData.PubKeyCurveId % 4294967296),
    TLVWriter.bytesElement (ContextTag kTag_EllipticCurvePublicKey)
      certData.PublicKey.EC.ECPoint,
    TLVWriter.containerElement (ContextTag kTag_BasicConstraints) kTLVType_Structure,
    TLVWriter.booleanElement (ContextTag kTag_BasicConstraints_Critical) true,
    TLVWriter.endOfContainerElement,
    TLVWriter.containerElement (ContextTag kTag_KeyUsage) kTLVType_Structure,
    TLVWriter.booleanElement (ContextTag kTag_KeyUsage_Critical) true,
    TLVWriter.uintElement (ContextTag kTag_KeyUsage_KeyUsage)
      ((kKeyUsageFlag_DigitalSignature ||| kKeyUsageFlag_KeyEncipherment) % 65536),
    TLVWriter.endOfContainerElement,
    TLVWriter.containerElement (ContextTag kTag_ExtendedKeyUsage) kTLVType_Structure,
    TLVWriter.booleanElement (ContextTag kTag_ExtendedKeyUsage_Critical) true,
    TLVWriter.containerElement (ContextTag kTag_ExtendedKeyUsage_KeyPurposes) kTLVType_Array,
    TLVWriter.uintElement AnonymousTag ((kOID_KeyPurpose_ClientAuth &&& kOID_Mask) % 256),
    TLVWriter.uintElement AnonymousTag ((kOID_KeyPurpose_ServerAuth &&& kOID_Mask) % 256),
    TLVWriter.endOfContainerElement,
    TLVWriter.endOfContainerElement,
    TLVWriter.containerElement (ContextTag kTag_SubjectKeyIdentifier) kTLVType_Structure,
    TLVWriter.bytesElement (ContextTag kTag_SubjectKeyIdentifier_KeyIdentifier)
      certData.SubjectKeyId.Id,
    TLVWriter.endOfContainerElement,
    TLVWriter.containerElement (ContextTag kTag_AuthorityKeyIdentifier) kTLVType_Structure,
    TLVWriter.bytesElement (ContextTag kTag_AuthorityKeyIdentifier_KeyIdentifier)
      certData.AuthKeyId.Id,
    TLVWriter.endOfContainerElement]

/-- The certificate data as `GenerateServiceAssignedDeviceCert` updates it on entry: issuer,
authority key identifier and signature algorithm of the test CA. -/
def issuedCertData (svc : ServiceCollaborators) (certData : WeaveCertificateData) :
    WeaveCertificateData :=
  { certData with
    IssuerDN := { AttrValue := { WeaveId := svc.sTestCert_CA_Id } }
    AuthKeyId := { Id := svc.sTestCert_CA_SubjectKeyId }
    SigAlgoOID := kOID_SigAlgo_ECDSAWithSHA256 }

/-- Whether an event is a call of `SendMessage`. -/
def Event.isSendMessage : Event → Bool
  | .SendMessage _ _ _ _ _ => true
  | _ => false

/-- Whether an event is a call of `SendMessage` that hands over a GetCertificateResponse. -/
def Event.isCertificateResponse : Event → Bool
  | .SendMessage profileId msgType _ _ _ =>
    profileId == kWeaveProfile_Security && msgType == kMsgType_GetCertificateResponse
  | _ => false

/-- Whether an event is a call of `SendMessage` that hands over a status report of the
security profile with the given status code. -/
def Event.isStatusReport (statusCode : Nat) : Event → Bool
  | .SendMessage profileId msgType _ payload _ =>
    profileId == kWeaveProfile_Common && msgType == kMsgType_StatusReport &&
      payload == .statusReport { mProfileId := kWeaveProfile_Security, mStatusCode := statusCode }
  | _ => false

/-- Whether an event is a call of `SendMessage` that returned `WEAVE_NO_ERROR`: the message
was sent. -/
def Event.isSent : Event → Bool
  | .SendMessage _ _ _ _ ret => ret == WEAVE_NO_ERROR
  | _ => false

/-- The status report `SendStatusReport` packs for a status code. -/
def statusReportOf (statusCode : Nat) : StatusReport :=
  { mProfileId := kWeaveProfile_Security, mStatusCode := statusCode % 65536 }

/-- A request fails in `HandleClientRequest`: its profile id or message type is not that of
GetCertificateRequest, or `ProcessGetCertificateRequest` (decoding, then validation) returns
an error, or the request is to be answered with a certificate and the response buffer cannot
be allocated or `GenerateGetCertificateResponse` returns an error. -/
def MockCAService.RequestFails (env : Collaborators) (svc : ServiceCollaborators)
    (server : MockCAService) (storage : GetCertificateRequestMessage)
    (profileId msgType : Nat) (reqMsg : List Token) : Prop :=
  ¬ (profileId = kWeaveProfile_Security ∧ msgType = kMsgType_GetCertificateRequest) ∨
  (∃ e, e ≠ WEAVE_NO_ERROR ∧
    (MockCAService.ProcessGetCertificateRequest env reqMsg
      (GetCertificateRequestMessage.new storage)).ret = .returned e) ∨
  ((MockCAService.ProcessGetCertificateRequest env reqMsg
      (GetCertificateRequestMessage.new storage)).ret = .returned WEAVE_NO_ERROR ∧
    ¬ ((MockCAService.ProcessGetCertificateRequest env reqMsg
        (GetCertificateRequestMessage.new storage)).msg.RequestType = kReqType_RotateOpDeviceCert ∧
      server.mDoNotRotateCert = true) ∧
    (svc.PacketBuffer_New [] = false ∨
      ∃ cert, (MockCAService.ProcessGetCertificateRequest env reqMsg
          (GetCertificateRequestMessage.new storage)).msg.OperationalCertSet.Certs.head? =
            some cert ∧
        (server.GenerateGetCertificateResponse env svc cert).err ≠ WEAVE_NO_ERROR))

/-- The four members of the message that hold the pairing authorization. -/
def GetCertificateRequestMessage.authorizeInfo (m : GetCertificateRequestMessage) :
    BytePtr × Nat × BytePtr × Nat :=
  (m.AuthorizeInfoPairingToken, m.AuthorizeInfoPairingTokenLen,
    m.AuthorizeInfoPairingInitData, m.AuthorizeInfoPairingInitDataLen)

/-- A pointer and a length designate the payload `data` of a string element of the
buffer. -/
def SpanOfElement (msgBuf : List Token) (p : BytePtr) (n : Nat) (data : List Nat) : Prop :=
  ∃ pre t post, msgBuf = pre ++ t :: post ∧ TLVTypeHasLength t.elemType = true ∧
    p = .msgBuf ((bytesOf pre).length + t.head.length) ∧ n = t.data.length ∧ data = t.data

/-- Whether a call is a comparison of bytes. -/
def Call.isMemcmp : Call → Bool
  | .memcmp _ _ _ => true
  | _ => false

namespace Sample

/-- The certificate issued for the sample certificate when the random generator gives
`random`, with its length; empty when issuance fails. -/
def issued (random : List Nat) : List Token × Nat :=
  (((server false).GenerateServiceAssignedDeviceCert (env false) (svc random) cert
    2048).issued).getD ([], 0)

end Sample

namespace Sample

/-- The output of the random generator used in the samples. -/
def random : List Nat := [1, 2, 3, 4, 5, 6, 7, 8]

/-- Collaborators that accept every certificate and reject every ECDSA signature. -/
def envInvalidSignature : Collaborators :=
  { env false with VerifyECDSASignature := fun _ _ _ _ _ => WEAVE_ERROR_INVALID_SIGNATURE }

/-- Collaborators of the service with no packet buffer left. -/
def svcNoBuffer : ServiceCollaborators :=
  { svc random with PacketBuffer_New := fun _ => false }

/-- Collaborators of the service under which every send fails. -/
def svcSendFails : ServiceCollaborators :=
  { svc random with SendMessage := fun _ _ _ _ => WEAVE_ERROR_INCORRECT_STATE }

/-- A rotation request without attestation, well formed. -/
def requestRotate : List Token :=
  requestNoAttest kReqType_RotateOpDeviceCert kOID_SigAlgo_ECDSAWithSHA256 []

/-- An initial request without attestation, well formed. -/
def requestInitial : List Token :=
  requestNoAttest kReqType_GetInitialOpDeviceCert kOID_SigAlgo_ECDSAWithSHA256 []

/-- The events of `HandleClientRequest` on a GetCertificateRequest message. -/
def handle (e : Collaborators) (s : ServiceCollaborators) (server : MockCAService)
    (reqMsg : List Token) : List Event :=
  eventsOf (MockCAService.HandleClientRequest e s server storage kWeaveProfile_Security
    kMsgType_GetCertificateRequest reqMsg)

end Sample

namespace Sample

/-- Object storage in which the bytes of `ManufAttestHMACMetaData` and
`ManufAttestHMACMetaDataLen` hold what an earlier use of the memory left there. -/
def storageUsed : GetCertificateRequestMessage :=
  { storage with ManufAttestHMACMetaData := .wild 1, ManufAttestHMACMetaDataLen := 1 }

end Sample

namespace Sample

/-- Collaborators of the service under which the CA private key cannot be decoded. -/
def svcKeyDecodeFails : ServiceCollaborators :=
  { svc random with
    DecodeWeaveECPrivateKey := fun k => (WEAVE_ERROR_INVALID_ARGUMENT, 0, { ECPoint := [] }, k) }

end Sample

/-- Every entry of `ManufAttestX509CertSet` below `ManufAttestX509CertCount` is a pointer and
a length that designate the payload of a string element of the buffer. -/
def GetCertificateRequestMessage.X509CertsInBuffer (msgBuf : List Token)
    (m : GetCertificateRequestMessage) : Prop :=
  ∀ i, i < m.ManufAttestX509CertCount →
    ∃ data, SpanOfElement msgBuf (x509At m.ManufAttestX509CertSet i).Cert
      (x509At m.ManufAttestX509CertSet i).Len data
namespace Sample

/-- An anonymous byte-string element, as the elements of an array are. -/
def anonBytesElem (data : List Nat) : Token :=
  { head := [0x10, data.length], elemType := kTLVElementType_ByteString, tag := AnonymousTag,
    val := 0, data := data }

/-- A request with attestation by an X.509 certificate: the leaf certificate, an array of
`related` related certificates, the given attestation-signature algorithm id and an RSA
signature. -/
def requestX509 (related attestAlgo : Nat) : List Token :=
  [anonStructElem, uintElem kTag_GetCertReqMsg_ReqType kReqType_GetInitialOpDeviceCert] ++
    opCert ++
    [bytesElem kTag_GetCertReqMsg_ManufAttest_X509Cert [0x30, 0],
      arrayElem kTag_GetCertReqMsg_ManufAttest_X509RelCerts] ++
    (List.range related).map (fun i => anonBytesElem [0x30, i + 1]) ++ [endElem] ++
    opSig kOID_SigAlgo_ECDSAWithSHA256 ++
    [uintElem kTag_GetCertReqMsg_ManufAttestSigAlgo attestAlgo,
      bytesElem kTag_GetCertReqMsg_ManufAttestSig_RSA [7, 7], endElem]

end Sample

/-! ## `WirelessRegConfig` -/

/-- Modelled from the spec: the reader's and the profile's error for an element that is out
of place or of the wrong kind; its numeric value is not used. -/
def WEAVE_ERROR_INVALID_TLV_ELEMENT : WEAVE_ERROR := .other 1

/-- Modelled from the spec: the tag numbers of the elements of an encoded wireless regulatory
configuration (`NetworkProvisioning.h` is not part of the sources); only that they differ is
used. -/
def kTag_WirelessRegConfig_SupportedRegulatoryDomains : Nat := 1

/-- Modelled from the spec: see `kTag_WirelessRegConfig_SupportedRegulatoryDomains`. -/
def kTag_WirelessRegConfig_RegulatoryDomain : Nat := 2

/-- Modelled from the spec: see `kTag_WirelessRegConfig_SupportedRegulatoryDomains`. -/
def kTag_WirelessRegConfig_OperatingLocation : Nat := 3

/-- Modelled from the spec: the element `PutString(tag, buf, len)` writes: a UTF-8 string
holding the `len` bytes of `buf`. -/
def TLVWriter.stringElement (tag : Tag) (data : List Nat) : Token :=
  { head := [tag.control + 0x0C + widthCode (fieldWidth data.length)] ++ tag.encoding ++
      littleEndian (fieldWidth data.length) data.length
    elemType := kTLVElementType_UTF8String, tag := tag, val := 0, data := data }

/-- Modelled from the spec: `TLVWriter::PutString(tag, buf, len)`. -/
def TLVWriter.PutString (w : TLVWriter) (tag : Tag) (data : List Nat) :
    WEAVE_ERROR × TLVWriter :=
  w.WriteElement (TLVWriter.stringElement tag data)

/-- Modelled from the spec: `TLVReader::GetBytes(buf, bufSize)`: the payload of the string
element the reader is positioned on, copied to `buf`; `WEAVE_ERROR_WRONG_TLV_TYPE` on any
other element, `WEAVE_ERROR_BUFFER_TOO_SMALL` when the payload is longer than `bufSize`. -/
def TLVReader.GetBytes (r : TLVReader) (bufSize : Nat) : Except WEAVE_ERROR (List Nat) :=
  match r.cur with
  | none => .error WEAVE_ERROR_WRONG_TLV_TYPE
  | some t =>
    if TLVTypeHasLength t.elemType then
      if t.data.length ≤ bufSize then .ok t.data else .error WEAVE_ERROR_BUFFER_TOO_SMALL
    else .error WEAVE_ERROR_WRONG_TLV_TYPE

/-- Modelled from the spec: `TLVReader::Get(uint8_t & v)`: the 64-bit value is read and `v`
is assigned its low 8 bits; on an error `v` is assigned 0. -/
def TLVReader.GetUInt8 (r : TLVReader) : WEAVE_ERROR × Nat :=
  match r.Get with
  | .ok v => (WEAVE_NO_ERROR, v % 256)
  | .error e => (e, 0)

/-- `struct WirelessRegDomain`: the two characters of `Code`. -/
structure WirelessRegDomain where
  Code : Nat × Nat
  deriving DecidableEq, Repr

/-- The bytes of `Code`, as handed to `PutString` with `sizeof(Code)`. -/
def WirelessRegDomain.bytes (d : WirelessRegDomain) : List Nat := [d.Code.1, d.Code.2]

/-- The domain whose `Code` holds the first two of the given bytes, as `GetBytes` leaves it
(0 where a byte is missing). -/
def WirelessRegDomain.ofBytes (data : List Nat) : WirelessRegDomain :=
  { Code := (data.getD 0 0, data.getD 1 0) }

/-- `class WirelessRegConfig`. `SupportedRegDomains` holds the elements of the array the
pointer designates. -/
structure WirelessRegConfig where
  SupportedRegDomains : List WirelessRegDomain
  NumSupportedRegDomains : Nat
  RegDomain : WirelessRegDomain
  OpLocation : Nat
  deriving DecidableEq, Repr

/-- Element `i` of the array `SupportedRegDomains`; zero beyond what the list holds. -/
def regDomainAt (a : List WirelessRegDomain) (i : Nat) : WirelessRegDomain :=
  a.getD i { Code := (0, 0) }

/-- The array `SupportedRegDomains` after a store to element `i`. The size of the memory the
pointer designates is not modelled: every index designates an element. -/
def regDomainStore (a : List WirelessRegDomain) (i : Nat) (x : WirelessRegDomain) :
    List WirelessRegDomain :=
  (a ++ List.replicate (i + 1 - a.length) ({ Code := (0, 0) } : WirelessRegDomain)).set i x

/-- The array of domains that overlays a run of bytes, two bytes per element. -/
def regDomainsOfBytes : List Nat → List WirelessRegDomain
  | a :: b :: rest => { Code := (a, b) } :: regDomainsOfBytes rest
  | _ => []

namespace WirelessRegConfig

/-- `void WirelessRegConfig::Init(void)`: `memset(this, 0, sizeof(*this))`. -/
def Init (_self : WirelessRegConfig) : WirelessRegConfig :=
  { SupportedRegDomains := [], NumSupportedRegDomains := 0, RegDomain := { Code := (0, 0) },
    OpLocation := 0 }

/-- `bool WirelessRegConfig::IsRegDomainPresent(void) const`. -/
def IsRegDomainPresent (self : WirelessRegConfig) : Bool := self.RegDomain.Code.1 != 0

/-- `bool WirelessRegConfig::IsOpLocationPresent(void) const`. -/
def IsOpLocationPresent (self : WirelessRegConfig) : Bool := self.OpLocation != 0

/-- `Encode`, the loop `for (uint8_t i = 0; i < NumSupportedRegDomains; i++)`: `i` is a
`uint8_t`, its increment wraps at 256. The first argument bounds the number of iterations;
each iteration that goes on has written at least one byte, so the bound
`writer.mRemainingLen + 1` is not reached. -/
def Encode_SupportedRegDomains (self : WirelessRegConfig) :
    Nat → Nat → TLVWriter → Except WEAVE_ERROR TLVWriter
  | 0, _, _ => .error WEAVE_ERROR_BUFFER_TOO_SMALL
  | fuel + 1, i, writer =>
    if i < self.NumSupportedRegDomains then do
      let writer ← SuccessOrExit
        (writer.PutString AnonymousTag (regDomainAt self.SupportedRegDomains i).bytes)
      Encode_SupportedRegDomains self fuel ((i + 1) % 256) writer
    else .ok writer

/-- `Encode`, the block `if (IsRegDomainPresent())`. -/
def Encode_RegDomain (self : WirelessRegConfig) (writer : TLVWriter) :
    Except WEAVE_ERROR TLVWriter :=
  if self.IsRegDomainPresent then
    SuccessOrExit (writer.PutString (ContextTag kTag_WirelessRegConfig_RegulatoryDomain)
      self.RegDomain.bytes)
  else .ok writer

/-- `Encode`, the block `if (IsOpLocationPresent())`. -/
def Encode_OpLocation (self : WirelessRegConfig) (writer : TLVWriter) :
    Except WEAVE_ERROR TLVWriter :=
  if self.IsOpLocationPresent then
    SuccessOrExit (writer.Put (ContextTag kTag_WirelessRegConfig_OperatingLocation)
      self.OpLocation)
  else .ok writer

/-- `Encode`, the block `if (NumSupportedRegDomains > 0)`. -/
def Encode_SupportedRegDomainsArray (self : WirelessRegConfig) (writer : TLVWriter) :
    Except WEAVE_ERROR TLVWriter :=
  if 0 < self.NumSupportedRegDomains then do
    let (outerContainer2, writer) ← SuccessOrExit
      (writer.StartContainer (ContextTag kTag_WirelessRegConfig_SupportedRegulatoryDomains)
        kTLVType_Array)
    let writer ← Encode_SupportedRegDomains self (writer.mRemainingLen + 1) 0 writer
    SuccessOrExit (writer.EndContainer outerContainer2)
  else .ok writer

/-- `WEAVE_ERROR WirelessRegConfig::Encode(TLVWriter & writer) const`: the writer after a
successful call, or the error returned. -/
def Encode (self : WirelessRegConfig) (writer : TLVWriter) : Except WEAVE_ERROR TLVWriter := do
  let (outerContainer, writer) ← SuccessOrExit
    (writer.StartContainer AnonymousTag kTLVType_Structure)
  let writer ← Encode_RegDomain self writer
  let writer ← Encode_OpLocation self writer
  let writer ← Encode_SupportedRegDomainsArray self writer
  SuccessOrExit (writer.EndContainer outerContainer)

/-- What `Decode` leaves: the error code, the configuration, the reader, and the stores it
made into the array `SupportedRegDomains`, in order: for each the index of the element
stored to and the offset in the buffer of the first byte copied. -/
structure DecodeResult where
  err : WEAVE_ERROR
  self : WirelessRegConfig
  reader : TLVReader
  stores : List (Nat × Nat)
  deriving DecidableEq, Repr

/-- `Decode`, the inner loop `while ((err = reader.Next()) == WEAVE_NO_ERROR)` over the
elements of the array of supported domains: `.error` when the function leaves through
`exit`, `.ok` when the loop ends (the value of `err` is then overwritten by the caller). The
first argument bounds the number of iterations; each iteration reads an element, so the
bound `reader.after.length + 1` is not reached. -/
def Decode_SupportedRegDomains (maxSupportedRegDomains : Nat) :
    Nat → WirelessRegConfig → TLVReader → List (Nat × Nat) →
      Except DecodeResult (WirelessRegConfig × TLVReader × List (Nat × Nat))
  | 0, self, reader, stores =>
    .error { err := WEAVE_ERROR_INCORRECT_STATE, self := self, reader := reader,
             stores := stores }
  | fuel + 1, self, reader, stores =>
    let n := reader.Next
    if n.1 = WEAVE_NO_ERROR then
      let reader := n.2
      if ¬ self.NumSupportedRegDomains < maxSupportedRegDomains then
        .error { err := WEAVE_ERROR_BUFFER_TOO_SMALL, self := self, reader := reader,
                 stores := stores }
      else if reader.GetType ≠ kTLVType_UTF8String then
        .error { err := WEAVE_ERROR_INVALID_TLV_ELEMENT, self := self, reader := reader,
                 stores := stores }
      else if reader.GetLength ≠ 2 then
        .error { err := WEAVE_ERROR_INVALID_ARGUMENT, self := self, reader := reader,
                 stores := stores }
      else
        match reader.GetBytes 2 with
        | .error e => .error { err := e, self := self, reader := reader, stores := stores }
        | .ok data =>
          Decode_SupportedRegDomains maxSupportedRegDomains fuel
            { self with
              SupportedRegDomains := regDomainStore self.SupportedRegDomains
                self.NumSupportedRegDomains (WirelessRegDomain.ofBytes data)
              NumSupportedRegDomains := self.NumSupportedRegDomains + 1 }
            reader (stores ++ [(self.NumSupportedRegDomains, reader.GetReadPoint)])
    else .ok (self, n.2, stores)

/-- `Decode`, the loop `while ((err = reader.Next()) == WEAVE_NO_ERROR)` over the elements of
the structure: `.error` when the function leaves through `exit`, `.ok` when the loop ends
(the value of `err` is then overwritten). The first argument bounds the number of
iterations; each iteration reads an element, so the bound `reader.after.length + 1` is not
reached. -/
def Decode_elements (maxSupportedRegDomains : Nat) :
    Nat → WirelessRegConfig → TLVReader → List (Nat × Nat) →
      Except DecodeResult (WirelessRegConfig × TLVReader × List (Nat × Nat))
  | 0, self, reader, stores =>
    .error { err := WEAVE_ERROR_INCORRECT_STATE, self := self, reader := reader,
             stores := stores }
  | fuel + 1, self, reader, stores =>
    let n := reader.Next
    if n.1 = WEAVE_NO_ERROR then
      let reader := n.2
      match reader.GetTag with
      | ContextTag tagNum =>
        if tagNum = kTag_WirelessRegConfig_RegulatoryDomain then
          if reader.GetType ≠ kTLVType_UTF8String then
            .error { err := WEAVE_ERROR_INVALID_TLV_ELEMENT, self := self, reader := reader,
                     stores := stores }
          else if self.IsRegDomainPresent then
            .error { err := WEAVE_ERROR_INVALID_TLV_ELEMENT, self := self, reader := reader,
                     stores := stores }
          else if reader.GetLength ≠ 2 then
            .error { err := WEAVE_ERROR_INVALID_ARGUMENT, self := self, reader := reader,
                     stores := stores }
          else
            match reader.GetBytes 2 with
            | .error e => .error { err := e, self := self, reader := reader, stores := stores }
            | .ok data =>
              Decode_elements maxSupportedRegDomains fuel
                { self with RegDomain := WirelessRegDomain.ofBytes data } reader stores
        else if tagNum = kTag_WirelessRegConfig_OperatingLocation then
          if self.IsOpLocationPresent then
            .error { err := WEAVE_ERROR_INVALID_TLV_ELEMENT, self := self, reader := reader,
                     stores := stores }
          else
            let g := reader.GetUInt8
            let self := { self with OpLocation := g.2 }
            if g.1 ≠ WEAVE_NO_ERROR then
              .error { err := g.1, self := self, reader := reader, stores := stores }
            else if self.OpLocation = 0 then
              .error { err := WEAVE_ERROR_INVALID_ARGUMENT, self := self, reader := reader,
                       stores := stores }
            else Decode_elements maxSupportedRegDomains fuel self reader stores
        else if tagNum = kTag_WirelessRegConfig_SupportedRegulatoryDomains then
          if reader.GetType ≠ kTLVType_Array then
            .error { err := WEAVE_ERROR_INVALID_TLV_ELEMENT, self := self, reader := reader,
                     stores := stores }
          else if self.NumSupportedRegDomains ≠ 0 then
            .error { err := WEAVE_ERROR_INVALID_TLV_ELEMENT, self := self, reader := reader,
                     stores := stores }
          else
            match reader.EnterContainer with
            | .error e => .error { err := e, self := self, reader := reader, stores := stores }
            | .ok (outerContainer2, reader) =>
              match Decode_SupportedRegDomains maxSupportedRegDomains
                  (reader.after.length + 1) self reader stores with
              | .error r => .error r
              | .ok (self, reader, stores) =>
                let x := reader.ExitContainer outerContainer2
                if x.1 ≠ WEAVE_NO_ERROR then
                  .error { err := x.1, self := self, reader := x.2, stores := stores }
                else Decode_elements maxSupportedRegDomains fuel self x.2 stores
        else Decode_elements maxSupportedRegDomains fuel self reader stores
      | _ => Decode_elements maxSupportedRegDomains fuel self reader stores
    else .ok (self, n.2, stores)

/-- `WEAVE_ERROR WirelessRegConfig::Decode(TLVReader & reader)`. -/
def Decode (self : WirelessRegConfig) (reader : TLVReader) : DecodeResult :=
  let maxSupportedRegDomains := self.NumSupportedRegDomains
  let self := { self with NumSupportedRegDomains := 0 }
  let first := if reader.GetType = kTLVType_NotSpecified then reader.Next
    else (WEAVE_NO_ERROR, reader)
  if first.1 ≠ WEAVE_NO_ERROR then
    { err := first.1, self := self, reader := first.2, stores := [] }
  else
    let reader := first.2
    if reader.GetType ≠ kTLVType_Structure then
      { err := WEAVE_ERROR_WRONG_TLV_TYPE, self := self, reader := reader, stores := [] }
    else
      match reader.EnterContainer with
      | .error e => { err := e, self := self, reader := reader, stores := [] }
      | .ok (outerContainer, reader) =>
        match Decode_elements maxSupportedRegDomains (reader.after.length + 1) self reader
            [] with
        | .error r => r
        | .ok (self, reader, stores) =>
          let x := reader.ExitContainer outerContainer
          { err := x.1, self := self, reader := x.2, stores := stores }

/-- `WEAVE_ERROR WirelessRegConfig::DecodeInPlace(PacketBuffer * buf)`: `buf` holds the
encoded elements from `buf->Start()` on, `maxDataLength` is `buf->MaxDataLength()`. The
array of supported domains is laid over the bytes of the buffer, two bytes per element, and
the reader reads the elements of the buffer as they were on entry. -/
def DecodeInPlace (self : WirelessRegConfig) (buf : List Token) (maxDataLength : Nat) :
    DecodeResult :=
  Decode
    { self with
      SupportedRegDomains := regDomainsOfBytes (bytesOf buf)
      NumSupportedRegDomains := maxDataLength / 2 % 65536 }
    (TLVReader.Init buf)

end WirelessRegConfig

namespace Sample

/-- A configuration with a regulatory domain, the given operating location and two supported
domains. -/
def regConfig (opLocation : Nat) : WirelessRegConfig :=
  { SupportedRegDomains := [{ Code := (0x55, 0x53) }, { Code := (0x43, 0x41) }]
    NumSupportedRegDomains := 2
    RegDomain := { Code := (0x55, 0x53) }
    OpLocation := opLocation }

/-- The elements `Encode` writes for a configuration into a buffer of 64 bytes; empty when
it fails. -/
def encoded (c : WirelessRegConfig) : List Token :=
  match c.Encode (TLVWriter.Init 64) with
  | .ok w => w.written
  | .error _ => []

end Sample
/-- A store of `Decode` into element `s.1` of the array laid over the buffer copies from the
offset `s.2`: the two bytes of the element, at offsets `2 * s.1` and `2 * s.1 + 1`, lie before
the first byte copied, and the bytes copied are the payload of a UTF-8 string element of the
buffer that holds two bytes. -/
def WirelessRegConfig.StoreInPlace (buf : List Token) (s : Nat × Nat) : Prop :=
  2 * s.1 + 2 ≤ s.2 ∧
  ∃ pre t post, buf = pre ++ t :: post ∧ t.elemType = kTLVElementType_UTF8String ∧
    t.data.length = 2 ∧ s.2 = (bytesOf pre).length + t.head.length

/-- The bytes of the buffer the reader has read once the payload of the current element is
read. -/
def TLVReader.bytesRead (r : TLVReader) : Nat :=
  (bytesOf r.before).length + (bytesOf r.cur.toList).length

/-- Whether an event is the allocation of the given buffer. -/
def Event.allocates (b : Buffer) : Event → Bool
  | .PacketBuffer_New (some b1) => b1 == b
  | _ => false

/-- Whether an event is the release of the given buffer. -/
def Event.frees (b : Buffer) : Event → Bool
  | .PacketBuffer_Free b1 => b1 == b
  | _ => false

/-- Whether an event is a call of `SendMessage` that hands over the given buffer. -/
def Event.handsOver (b : Buffer) : Event → Bool
  | .SendMessage _ _ b1 _ _ => b1 == b
  | _ => false

/-- The elements of the container whose body starts the list: the elements met at nesting
depth 0, each by its opening element, up to the end-of-container element that closes the
container. `depth` is the number of containers opened inside it and not yet closed. -/
def containerElements : Nat → List Token → List Token
  | _, [] => []
  | depth, t :: ts =>
    if t.elemType = kTLVElementType_EndOfContainer then
      (if depth = 0 then [] else containerElements (depth - 1) ts)
    else
      (if depth = 0 then [t] else []) ++
        containerElements (if TLVTypeIsContainer t.elemType then depth + 1 else depth) ts

/-- The number of elements of the supported-domains array of an encoded configuration whose
body (what follows the opening element of the structure) starts the list: for each element
of the structure that is an array with the context tag of the supported regulatory
domains, the number of elements of that array; 0 when the structure holds no such array.
`depth` is the number of containers opened inside the structure and not yet closed. -/
def numSupportedRegDomainElements : Nat → List Token → Nat
  | _, [] => 0
  | depth, t :: ts =>
    if t.elemType = kTLVElementType_EndOfContainer then
      (if depth = 0 then 0 else numSupportedRegDomainElements (depth - 1) ts)
    else
      (if depth = 0 ∧ t.tag = ContextTag kTag_WirelessRegConfig_SupportedRegulatoryDomains ∧
          t.elemType = kTLVElementType_Array then (containerElements 0 ts).length else 0) +
        numSupportedRegDomainElements
          (if TLVTypeIsContainer t.elemType then depth + 1 else depth) ts


/-- What the loop of `Decode` over the elements of the structure does with a run of elements
none of which is a container, as a recursion on the run: the regulatory domain and the
operating location are stored when the element is of the expected kind and the field is not
yet present, an element with another tag is passed over; none when `Decode` leaves with an
error at one of the elements, or when one of them carries the tag of the supported
domains. -/
def WirelessRegConfig.Decode_fields (self : WirelessRegConfig) :
    List Token → Option WirelessRegConfig
  | [] => some self
  | t :: ts =>
    match t.tag with
    | ContextTag tagNum =>
      if tagNum = kTag_WirelessRegConfig_RegulatoryDomain then
        if t.elemType = kTLVElementType_UTF8String ∧ self.IsRegDomainPresent = false ∧
            t.data.length = 2 then
          WirelessRegConfig.Decode_fields
            { self with RegDomain := WirelessRegDomain.ofBytes t.data } ts
        else none
      else if tagNum = kTag_WirelessRegConfig_OperatingLocation then
        if self.IsOpLocationPresent = false ∧
            (t.elemType = kTLVElementType_UnsignedInteger ∨
              t.elemType = kTLVElementType_SignedInteger) ∧ t.val % 256 ≠ 0 then
          WirelessRegConfig.Decode_fields { self with OpLocation := t.val % 256 } ts
        else none
      else if tagNum = kTag_WirelessRegConfig_SupportedRegulatoryDomains then none
      else WirelessRegConfig.Decode_fields self ts
    | _ => WirelessRegConfig.Decode_fields self ts


/-- The elements `Encode` writes for the regulatory domain and the operating location: each
when present. -/
def WirelessRegConfig.encodingFields (c : WirelessRegConfig) : List Token :=
  (if c.IsRegDomainPresent then
    [TLVWriter.stringElement (ContextTag kTag_WirelessRegConfig_RegulatoryDomain)
      c.RegDomain.bytes] else []) ++
  (if c.IsOpLocationPresent then
    [TLVWriter.uintElement (ContextTag kTag_WirelessRegConfig_OperatingLocation)
      c.OpLocation] else [])

/-- The elements `Encode` writes for the supported domains: none when there is no supported
domain, otherwise the array, one UTF-8 string for each domain in the order of the array
`SupportedRegDomains`, and the end of the array. -/
def WirelessRegConfig.encodingArray (c : WirelessRegConfig) : List Token :=
  if 0 < c.NumSupportedRegDomains then
    TLVWriter.containerElement
      (ContextTag kTag_WirelessRegConfig_SupportedRegulatoryDomains) kTLVType_Array ::
    (List.range c.NumSupportedRegDomains).map
      (fun k => TLVWriter.stringElement AnonymousTag
        (regDomainAt c.SupportedRegDomains k).bytes) ++
    [TLVWriter.endOfContainerElement]
  else []

/-- The elements `Encode` writes for a configuration, as the source lays them out: the
structure, the regulatory domain and the operating location, the array of the supported
domains, and the end of the structure. -/
def WirelessRegConfig.encoding (c : WirelessRegConfig) : List Token :=
  TLVWriter.containerElement AnonymousTag kTLVType_Structure ::
    (c.encodingFields ++ c.encodingArray ++ [TLVWriter.endOfContainerElement])

namespace Sample

/-- A configuration with 256 supported domains. -/
def regConfig256 : WirelessRegConfig :=
  { SupportedRegDomains := List.replicate 256 { Code := (0x55, 0x53) }
    NumSupportedRegDomains := 256
    RegDomain := { Code := (0x55, 0x53) }
    OpLocation := 1 }

end Sample

end Weave

namespace Weave

open WEAVE_ERROR Tag TLVType TLVElementType ManufAttestTypeT
open GetCertificateRequestMessage MockCAService

/-! ## Auxiliary facts -/

theorem bind_eq_ok {ε α β : Type} (x : Except ε α) (f : α → Except ε β) (b : β) :
    (x >>= f) = .ok b ↔ ∃ a, x = .ok a ∧ f a = .ok b := by
  cases x with
  | error e => simp [bind, Except.bind]
  | ok a => simp [bind, Except.bind]

theorem SuccessOrExit_eq_ok {α : Type} (x : WEAVE_ERROR × α) (a : α) :
    SuccessOrExit x = .ok a ↔ x.1 = WEAVE_NO_ERROR ∧ x.2 = a := by
  unfold SuccessOrExit
  split <;> simp_all

theorem VerifyOrExit_eq_ok (c : Bool) (e : WEAVE_ERROR) (u : Unit) :
    VerifyOrExit c e = .ok u ↔ c = true := by
  unfold VerifyOrExit
  split <;> simp_all

theorem bytesOf_append (xs ys : List Token) : bytesOf (xs ++ ys) = bytesOf xs ++ bytesOf ys := by
  induction xs with
  | nil => simp [bytesOf]
  | cons x xs ih => simp [bytesOf, ih]

theorem all_ClearElement (r : TLVReader) : r.ClearElement.all = r.all := by
  cases r with
  | mk b c a ct => cases c <;> simp [TLVReader.ClearElement, TLVReader.all]

theorem skipLoop_spec (outer : TLVType) (after : List Token) :
    ∀ (nest : Nat) (before : List Token) (c : Option Token) (ct : TLVType),
      (TLVReader.skipLoop outer after nest before c ct).2.all = before ++ c.toList ++ after ∧
      (∃ ext, (TLVReader.skipLoop outer after nest before c ct).2.before = before ++ ext) ∧
      ((TLVReader.skipLoop outer after nest before c ct).1 = WEAVE_NO_ERROR →
        ∃ t, (TLVReader.skipLoop outer after nest before c ct).2.cur = some t) := by
  induction after with
  | nil =>
    intro nest before c ct
    by_cases h : TLVReader.elementTypeOf c = kTLVElementType_EndOfContainer ∧ nest = 0
    · simp only [TLVReader.skipLoop, h, and_self, if_true]
      refine ⟨by simp [TLVReader.all], ⟨[], by simp⟩, fun _ => ?_⟩
      cases c with
      | none => simp [TLVReader.elementTypeOf] at h
      | some t => exact ⟨t, rfl⟩
    · simp only [TLVReader.skipLoop, h, if_false]
      refine ⟨by simp [TLVReader.all], ⟨c.toList, by simp⟩, fun h => ?_⟩
      simp at h
  | cons t rest ih =>
    intro nest before c ct
    by_cases h : TLVReader.elementTypeOf c = kTLVElementType_EndOfContainer ∧ nest = 0
    · simp only [TLVReader.skipLoop, h, and_self, if_true]
      refine ⟨by simp [TLVReader.all], ⟨[], by simp⟩, fun _ => ?_⟩
      cases c with
      | none => simp [TLVReader.elementTypeOf] at h
      | some t => exact ⟨t, rfl⟩
    · simp only [TLVReader.skipLoop, h, if_false]
      obtain ⟨h1, ⟨ext, h2⟩, h3⟩ := ih (TLVReader.skipNest (TLVReader.elementTypeOf c) nest)
        (before ++ c.toList) (some t)
        (TLVReader.skipContainerType outer (TLVReader.elementTypeOf c) nest ct)
      refine ⟨by simp [h1], ⟨c.toList ++ ext, by simp [h2]⟩, h3⟩

/-! ## The reader moves forward over the buffer -/

theorem ElementType_eq (r : TLVReader) : r.ElementType = TLVReader.elementTypeOf r.cur := by
  cases r with
  | mk b c a ct => cases c <;> rfl

theorem ExitContainer_spec (r : TLVReader) (o : TLVType) :
    (r.ExitContainer o).2.all = r.all ∧
    (∃ ext, (r.ExitContainer o).2.before = r.before ++ ext) ∧
    ((r.ExitContainer o).1 = WEAVE_NO_ERROR → (r.ExitContainer o).2.cur = none) := by
  obtain ⟨h1, ⟨ext, h2⟩, h3⟩ := skipLoop_spec r.mContainerType r.after 0 r.before r.cur
    r.mContainerType
  unfold TLVReader.ExitContainer TLVReader.SkipToEndOfContainer
  by_cases h : (TLVReader.skipLoop r.mContainerType r.after 0 r.before r.cur
      r.mContainerType).1 = WEAVE_NO_ERROR
  · obtain ⟨t, ht⟩ := h3 h
    simp only [h, if_true]
    refine ⟨?_, ⟨ext ++ [t], ?_⟩, fun _ => rfl⟩
    · have := all_ClearElement (TLVReader.skipLoop r.mContainerType r.after 0 r.before r.cur
        r.mContainerType).2
      simp only [TLVReader.all, TLVReader.ClearElement] at this h1 ⊢
      rw [this, h1]
    · simp [TLVReader.ClearElement, h2, ht]
  · simp only [h, if_false]
    exact ⟨by simpa [TLVReader.all] using h1, ⟨ext, h2⟩, fun h' => h'.elim⟩

theorem Skip_spec (r : TLVReader) :
    r.Skip.2.all = r.all ∧ (∃ ext, r.Skip.2.before = r.before ++ ext) ∧
    (r.Skip.1 = WEAVE_NO_ERROR → r.Skip.2.cur = none) := by
  unfold TLVReader.Skip
  by_cases h1 : r.ElementType = kTLVElementType_EndOfContainer
  · simp only [h1, if_true]
    exact ⟨trivial, ⟨[], by simp⟩, fun h => by simp at h⟩
  · simp only [h1, if_false]
    by_cases h2 : TLVTypeIsContainer r.ElementType = true
    · simp only [h2, if_true, TLVReader.EnterContainer]
      obtain ⟨e1, ⟨ext, e2⟩, e3⟩ := ExitContainer_spec
        { r.ClearElement with mContainerType := r.GetType } r.mContainerType
      refine ⟨?_, ⟨r.cur.toList ++ ext, ?_⟩, e3⟩
      · rw [e1]
        have := all_ClearElement r
        simp [TLVReader.all, TLVReader.ClearElement]
      · rw [e2]
        simp [TLVReader.ClearElement]
    · simp only [h2]
      exact ⟨all_ClearElement r, ⟨r.cur.toList, rfl⟩, fun _ => rfl⟩

theorem Skip_of_none (r : TLVReader) (h : r.cur = none) : r.Skip = (WEAVE_NO_ERROR, r) := by
  cases r with
  | mk b c a ct =>
    simp only at h
    subst h
    simp [TLVReader.Skip, TLVReader.ElementType, TLVTypeIsContainer, TLVReader.ClearElement]

theorem Skip_of_leaf (r : TLVReader) (t : Token) (h : r.cur = some t)
    (h1 : t.elemType ≠ kTLVElementType_EndOfContainer) (h2 : TLVTypeIsContainer t.elemType = false) :
    r.Skip = (WEAVE_NO_ERROR, { r with before := r.before ++ [t], cur := none }) := by
  cases r with
  | mk b c a ct =>
    simp only at h
    subst h
    simp [TLVReader.Skip, TLVReader.ElementType, h1, h2, TLVReader.ClearElement]

theorem ReadElement_spec (r : TLVReader) :
    r.ReadElement.2.all = r.all ∧ r.ReadElement.2.before = r.before ++ r.cur.toList ∧
    (r.ReadElement.1 = WEAVE_NO_ERROR → ∃ t, r.ReadElement.2.cur = some t) := by
  cases r with
  | mk b c a ct =>
    cases a with
    | nil => cases c <;> simp [TLVReader.ReadElement, TLVReader.ClearElement, TLVReader.all]
    | cons t rest => cases c <;> simp [TLVReader.ReadElement, TLVReader.ClearElement, TLVReader.all]

theorem Next_eq (r : TLVReader) :
    r.Next.2 = (if r.Skip.1 = WEAVE_NO_ERROR then r.Skip.2.ReadElement.2 else r.Skip.2) := by
  unfold TLVReader.Next
  by_cases h : r.Skip.1 = WEAVE_NO_ERROR
  · simp only [h, if_true]
    split
    · split <;> rfl
    · rfl
  · simp only [h, if_false]

theorem Next_spec (r : TLVReader) :
    r.Next.2.all = r.all ∧ (∃ ext, r.Next.2.before = r.before ++ ext) ∧
    (r.Next.1 = WEAVE_NO_ERROR → ∃ t, r.Next.2.cur = some t ∧
      t.elemType ≠ kTLVElementType_EndOfContainer) := by
  obtain ⟨s1, ⟨ext, s2⟩, s3⟩ := Skip_spec r
  obtain ⟨e1, e2, e3⟩ := ReadElement_spec r.Skip.2
  refine ⟨?_, ?_, ?_⟩
  · rw [Next_eq]
    split
    · rw [e1, s1]
    · exact s1
  · rw [Next_eq]
    split
    · rename_i h
      exact ⟨ext, by rw [e2, s3 h, s2]; simp⟩
    · exact ⟨ext, s2⟩
  · unfold TLVReader.Next
    by_cases h : r.Skip.1 = WEAVE_NO_ERROR
    · simp only [h, if_true]
      by_cases h' : r.Skip.2.ReadElement.1 = WEAVE_NO_ERROR
      · simp only [h', if_true]
        by_cases h'' : r.Skip.2.ReadElement.2.ElementType = kTLVElementType_EndOfContainer
        · simp [h'']
        · simp only [h'', if_false]
          intro _
          obtain ⟨t, ht⟩ := e3 h'
          refine ⟨t, ht, ?_⟩
          simpa [TLVReader.ElementType, ht] using h''
      · simp only [h', if_false]
        intro hh; exact hh.elim
    · simp only [h, if_false]
      intro hh; exact hh.elim

theorem Next_before_of_none (r : TLVReader) (h : r.cur = none) : r.Next.2.before = r.before := by
  rw [Next_eq, Skip_of_none r h]
  simp [(ReadElement_spec r).2.1, h]

theorem Next_before_of_leaf (r : TLVReader) (t : Token) (h : r.cur = some t)
    (h1 : t.elemType ≠ kTLVElementType_EndOfContainer) (h2 : TLVTypeIsContainer t.elemType = false) :
    r.Next.2.before = r.before ++ [t] := by
  rw [Next_eq, Skip_of_leaf r t h h1 h2]
  simp [(ReadElement_spec _).2.1]

theorem NextExpect_snd (r : TLVReader) (ty : TLVType) (tg : Tag) :
    (r.NextExpect ty tg).2 = r.Next.2 := by
  unfold TLVReader.NextExpect
  simp only []
  split
  · split
    · split <;> rfl
    · rfl
  · rfl

theorem NextExpect_ok (r : TLVReader) (ty : TLVType) (tg : Tag)
    (h : (r.NextExpect ty tg).1 = WEAVE_NO_ERROR) :
    r.Next.1 = WEAVE_NO_ERROR ∧ r.Next.2.GetType = ty ∧ r.Next.2.GetTag = tg := by
  unfold TLVReader.NextExpect at h
  simp only [] at h
  by_cases h1 : r.Next.1 = WEAVE_NO_ERROR
  · simp only [h1, if_true] at h
    by_cases h2 : r.Next.2.GetType = ty
    · simp only [h2, if_true] at h
      by_cases h3 : r.Next.2.GetTag = tg
      · exact ⟨h1, h2, h3⟩
      · simp [h3] at h
    · simp [h2] at h
  · simp only [h1, if_false] at h

/-! ## The blocks of `Decode`: request type to related certificates -/

theorem toTLVType_eq_UnsignedInteger (e : TLVElementType)
    (h : e.toTLVType = kTLVType_UnsignedInteger) : e = kTLVElementType_UnsignedInteger := by
  cases e <;> simp [TLVElementType.toTLVType] at h ⊢

theorem toTLVType_eq_ByteString (e : TLVElementType)
    (h : e.toTLVType = kTLVType_ByteString) : e = kTLVElementType_ByteString := by
  cases e <;> simp [TLVElementType.toTLVType] at h ⊢

theorem toTLVType_eq_Structure (e : TLVElementType)
    (h : e.toTLVType = kTLVType_Structure) : e = kTLVElementType_Structure := by
  cases e <;> simp [TLVElementType.toTLVType] at h ⊢

theorem toTLVType_eq_Array (e : TLVElementType)
    (h : e.toTLVType = kTLVType_Array) : e = kTLVElementType_Array := by
  cases e <;> simp [TLVElementType.toTLVType] at h ⊢

/-- What a reader positioned by a successful `Next` on an element of a given type and tag
holds. -/
theorem cur_of_GetType (r : TLVReader) (ty : TLVType) (h : r.GetType = ty)
    (hty : ty ≠ kTLVType_NotSpecified) :
    ∃ t, r.cur = some t ∧ t.elemType.toTLVType = ty ∧ r.GetTag = t.tag := by
  cases r with
  | mk b c a ct =>
    cases c with
    | none =>
      simp [TLVReader.GetType, TLVReader.ElementType, TLVElementType.toTLVType] at h
      exact absurd h.symm hty
    | some t => exact ⟨t, rfl, h, rfl⟩

theorem LoadCert_ok (env : Collaborators) (set set' : WeaveCertificateSet) (r r' : TLVReader)
    (h : set.LoadCert env r = .ok (set', r')) :
    r'.all = r.all ∧ (∃ ext, r'.before = r.before ++ ext) ∧ r'.cur = none ∧
    ∃ cert, set'.Certs = set.Certs ++ [cert] := by
  simp only [WeaveCertificateSet.LoadCert, bind_eq_ok, VerifyOrExit_eq_ok, SuccessOrExit_eq_ok,
    pure, Except.pure, Except.ok.injEq, Prod.mk.injEq] at h
  obtain ⟨_, _, _, _, cert, _, r1, ⟨hs, rfl⟩, rfl, rfl⟩ := h
  obtain ⟨s1, s2, s3⟩ := Skip_spec r
  exact ⟨s1, s2, s3 hs, cert, rfl⟩

theorem LoadCerts_ok (env : Collaborators) (set set' : WeaveCertificateSet) (r r' : TLVReader)
    (h : set.LoadCerts env r = .ok (set', r')) :
    r'.all = r.all ∧ (∃ ext, r'.before = r.before ++ ext) ∧ r'.cur = none := by
  simp only [WeaveCertificateSet.LoadCerts, bind_eq_ok, VerifyOrExit_eq_ok, SuccessOrExit_eq_ok,
    pure, Except.pure, Except.ok.injEq, Prod.mk.injEq] at h
  obtain ⟨_, _, certs, _, _, _, r1, ⟨hs, rfl⟩, rfl, rfl⟩ := h
  obtain ⟨s1, s2, s3⟩ := Skip_spec r
  exact ⟨s1, s2, s3 hs⟩

theorem DecodeWeaveECDSASignature_ok (env : Collaborators) (sig : EncodedECDSASignature)
    (r r' : TLVReader) (h : DecodeWeaveECDSASignature env r = .ok (sig, r')) :
    r'.all = r.all ∧ (∃ ext, r'.before = r.before ++ ext) ∧ r'.cur = none := by
  simp only [DecodeWeaveECDSASignature, bind_eq_ok, VerifyOrExit_eq_ok, SuccessOrExit_eq_ok,
    pure, Except.pure, Except.ok.injEq, Prod.mk.injEq] at h
  obtain ⟨_, _, sg, _, r1, ⟨hs, rfl⟩, rfl, rfl⟩ := h
  obtain ⟨s1, s2, s3⟩ := Skip_spec r
  exact ⟨s1, s2, s3 hs⟩

theorem Advances_refl (r : TLVReader) : r.Advances r := ⟨rfl, [], by simp⟩

theorem Advances_trans {r r1 r2 : TLVReader} (h1 : r.Advances r1) (h2 : r1.Advances r2) :
    r.Advances r2 := by
  obtain ⟨a1, e1, b1⟩ := h1
  obtain ⟨a2, e2, b2⟩ := h2
  exact ⟨a2.trans a1, e1 ++ e2, by rw [b2, b1]; simp⟩

theorem EnterContainer_ok (r r' : TLVReader) (o : TLVType)
    (h : r.EnterContainer = .ok (o, r')) :
    ∃ t, r.cur = some t ∧ TLVTypeIsContainer t.elemType = true ∧
      r'.before = r.before ++ [t] ∧ r'.cur = none ∧ r.Advances r' ∧
      o = r.mContainerType := by
  unfold TLVReader.EnterContainer at h
  split at h
  · rename_i hc
    simp only [Except.ok.injEq, Prod.mk.injEq] at h
    obtain ⟨rfl, rfl⟩ := h
    cases r with
    | mk b c a ct =>
      cases c with
      | none => simp [TLVReader.ElementType, TLVTypeIsContainer] at hc
      | some t =>
        exact ⟨t, rfl, hc, rfl, rfl, ⟨by simp [TLVReader.all, TLVReader.ClearElement],
          [t], by simp [TLVReader.ClearElement]⟩, rfl⟩
  · simp at h

theorem Next_advances (r : TLVReader) : r.Advances r.Next.2 :=
  ⟨(Next_spec r).1, (Next_spec r).2.1⟩

theorem Next_rel (r r1 : TLVReader) (h1 : r.Next.1 = WEAVE_NO_ERROR) (h2 : r.Next.2 = r1) :
    r.Advances r1 ∧
    (∃ t, r1.cur = some t ∧ t.elemType ≠ kTLVElementType_EndOfContainer) ∧
    (r.cur = none → r1.before = r.before) ∧
    (∀ t0, r.cur = some t0 → t0.elemType ≠ kTLVElementType_EndOfContainer →
      TLVTypeIsContainer t0.elemType = false → r1.before = r.before ++ [t0]) := by
  subst h2
  exact ⟨Next_advances r, (Next_spec r).2.2 h1, Next_before_of_none r, Next_before_of_leaf r⟩

theorem NextExpect_rel (r r1 : TLVReader) (ty : TLVType) (tg : Tag)
    (hty : ty ≠ kTLVType_NotSpecified)
    (h1 : (r.NextExpect ty tg).1 = WEAVE_NO_ERROR) (h2 : (r.NextExpect ty tg).2 = r1) :
    r.Advances r1 ∧
    (∃ t, r1.cur = some t ∧ t.elemType.toTLVType = ty ∧ t.tag = tg) ∧
    (r.cur = none → r1.before = r.before) ∧
    (∀ t0, r.cur = some t0 → t0.elemType ≠ kTLVElementType_EndOfContainer →
      TLVTypeIsContainer t0.elemType = false → r1.before = r.before ++ [t0]) := by
  rw [NextExpect_snd] at h2
  obtain ⟨n1, n2, n3⟩ := NextExpect_ok _ _ _ h1
  obtain ⟨a, _, d, e⟩ := Next_rel r r1 n1 h2
  subst h2
  obtain ⟨t, ht, hty', htg⟩ := cur_of_GetType _ ty n2 hty
  exact ⟨a, ⟨t, ht, hty', by rw [← htg, n3]⟩, d, e⟩

theorem Get_ok (r : TLVReader) (v : Nat) (t : Token) (ht : r.cur = some t)
    (h : r.Get = .ok v) : v = t.val := by
  unfold TLVReader.Get at h
  rw [ht] at h
  simp only at h
  split at h <;> simp_all

theorem Anchored_step (msgBuf : List Token) (s s' : DecodeState) (h : s.Anchored msgBuf)
    (ha : s.reader.Advances s'.reader) (hs : s'.self.mTBSDataStart = s.self.mTBSDataStart) :
    s'.Anchored msgBuf := by
  obtain ⟨h1, outer, reqType, more, h2, h3, h4, h5⟩ := h
  obtain ⟨a1, ext, a2⟩ := ha
  exact ⟨a1.trans h1, outer, reqType, more ++ ext, by rw [a2, h2]; simp, hs.trans h3, h4, h5⟩

theorem RequestType_ok (self : GetCertificateRequestMessage) (msgBuf : List Token)
    (s : DecodeState) (h : Decode_RequestType self msgBuf = .ok s) :
    s.Anchored msgBuf ∧
    (s.self.mReqType = kReqType_GetInitialOpDeviceCert ∨
      s.self.mReqType = kReqType_RotateOpDeviceCert) ∧
    s.self.mManufAttestType = self.mManufAttestType ∧
    s.self.ManufAttestX509CertCount = self.ManufAttestX509CertCount := by
  simp only [Decode_RequestType, bind_eq_ok, VerifyOrExit_eq_ok, SuccessOrExit_eq_ok,
    pure, Except.pure, Except.ok.injEq, Prod.mk.injEq] at h
  obtain ⟨r1, ⟨h1, h1'⟩, ⟨o, r2⟩, h2, r3, ⟨h3, h3'⟩, v, hv, _, hreq, r4, ⟨h4, h4'⟩, rfl⟩ := h
  obtain ⟨a1, ⟨outer, c1, _, _⟩, b1, _⟩ := NextExpect_rel _ _ _ _ (by decide) h1 h1'
  obtain ⟨t, ht, hct, e1, e2, a2, _⟩ := EnterContainer_ok _ _ _ h2
  rw [c1] at ht
  cases ht
  have hb2 : r2.before = [outer] := by rw [e1, b1 rfl]; rfl
  obtain ⟨a3, ⟨reqType, c3, ty3, tg3⟩, b3, _⟩ := NextExpect_rel _ _ _ _ (by decide) h3 h3'
  have ty3' := toTLVType_eq_UnsignedInteger _ ty3
  obtain ⟨a4, _, _, b4⟩ := Next_rel _ _ h4 h4'
  have hb4 : r4.before = [outer, reqType] := by
    rw [b4 reqType c3 (by rw [ty3']; decide) (by rw [ty3']; rfl), b3 e2, hb2]; rfl
  have hv' := Get_ok _ _ _ c3 hv
  have hall := (Advances_trans (Advances_trans (Advances_trans a1 a2) a3) a4).1
  refine ⟨⟨?_, outer, reqType, [], hb4, ?_, ty3', tg3⟩, ?_, rfl, rfl⟩
  · rw [show ({ self := _, reader := r4, outerContainer := o } : DecodeState).reader = r4 from rfl,
      hall]
    simp [TLVReader.all, TLVReader.Init]
  · show BytePtr.msgBuf r2.GetReadPoint = _
    simp [TLVReader.GetReadPoint, hb2, e2]
  · simpa [GetCertificateRequestMessage.RequestType] using hreq

theorem GetType_GetTag (r : TLVReader) (ty : TLVType) (tg : Tag)
    (h : r.GetType = ty ∧ r.GetTag = tg) (hty : ty ≠ kTLVType_NotSpecified) :
    ∃ t, r.cur = some t ∧ t.elemType.toTLVType = ty ∧ t.tag = tg := by
  obtain ⟨t, h1, h2, h3⟩ := cur_of_GetType r ty h.1 hty
  exact ⟨t, h1, h2, by rw [← h3, h.2]⟩

theorem Authorize_ok (s s' : DecodeState) (h : Decode_Authorize s = .ok s') :
    s.reader.Advances s'.reader ∧ s'.outerContainer = s.outerContainer ∧
    s'.self.mTBSDataStart = s.self.mTBSDataStart ∧
    s'.self.mReqType = s.self.mReqType ∧
    s'.self.mManufAttestType = s.self.mManufAttestType ∧
    s'.self.ManufAttestX509CertCount = s.self.ManufAttestX509CertCount := by
  unfold Decode_Authorize at h
  split at h
  · simp only [bind_eq_ok, VerifyOrExit_eq_ok, SuccessOrExit_eq_ok,
      pure, Except.pure, Except.ok.injEq, Prod.mk.injEq] at h
    obtain ⟨p, _, r1, ⟨_, h1'⟩, h⟩ := h
    have a1 : s.reader.Advances r1 := h1' ▸ Next_advances _
    split at h
    · simp only [bind_eq_ok, VerifyOrExit_eq_ok, SuccessOrExit_eq_ok,
        pure, Except.pure, Except.ok.injEq, Prod.mk.injEq] at h
      obtain ⟨p2, _, r2, ⟨_, h2'⟩, rfl⟩ := h
      have a2 : r1.Advances r2 := h2' ▸ Next_advances _
      exact ⟨Advances_trans a1 a2, rfl, rfl, rfl, rfl, rfl⟩
    · simp only [pure, Except.pure, Except.ok.injEq] at h
      subst h
      exact ⟨a1, rfl, rfl, rfl, rfl, rfl⟩
  · simp only [pure, Except.pure, Except.ok.injEq] at h
    subst h
    exact ⟨Advances_refl _, rfl, rfl, rfl, rfl, rfl⟩

theorem SpanClosed_of (msgBuf : List Token) (s : DecodeState) (self : GetCertificateRequestMessage)
    (r r1 : TLVReader) (o : TLVType) (h : s.Anchored msgBuf) (ha : s.reader.Advances r)
    (hb : r1.before = r.before) (hc : r.cur = none)
    (hs : self.mTBSDataStart = s.self.mTBSDataStart)
    (hl : self.mTBSDataLen = (BytePtr.msgBuf r.GetReadPoint).diff 0 self.mTBSDataStart) :
    DecodeState.SpanClosed { self := self, reader := r1, outerContainer := o } := by
  obtain ⟨h1, outer, reqType, more, h2, h3, h4, h5⟩ := h
  obtain ⟨_, ext, a2⟩ := ha
  refine ⟨(bytesOf [outer]).length, hs.trans h3, ?_⟩
  show _ + self.mTBSDataLen = (bytesOf r1.before).length
  rw [hl, hs, h3, hb]
  simp only [BytePtr.diff, TLVReader.GetReadPoint, hc, a2, h2]
  simp [bytesOf, bytesOf_append]

theorem OpDeviceCert_ok (env : Collaborators) (msgBuf : List Token) (s s' : DecodeState)
    (h : Decode_OpDeviceCert env s = .ok s') :
    s.reader.Advances s'.reader ∧ s'.outerContainer = s.outerContainer ∧
    s'.self.mTBSDataStart = s.self.mTBSDataStart ∧
    s'.self.mReqType = s.self.mReqType ∧
    s'.self.mManufAttestType = s.self.mManufAttestType ∧
    s'.self.ManufAttestX509CertCount = s.self.ManufAttestX509CertCount ∧
    (s.Anchored msgBuf → s'.SpanClosed) := by
  simp only [Decode_OpDeviceCert, bind_eq_ok, VerifyOrExit_eq_ok, SuccessOrExit_eq_ok,
    pure, Except.pure, Except.ok.injEq, Prod.mk.injEq] at h
  obtain ⟨_, _, _, _, set, _, ⟨set', r1⟩, hl, r2, ⟨h2, h2'⟩, rfl⟩ := h
  obtain ⟨l1, l2, l3, _⟩ := LoadCert_ok _ _ _ _ _ hl
  obtain ⟨a2, _, b2, _⟩ := Next_rel _ _ h2 h2'
  have a1 : s.reader.Advances r1 := ⟨l1, l2⟩
  refine ⟨Advances_trans a1 a2, rfl, rfl, rfl, rfl, rfl, fun hA => ?_⟩
  exact SpanClosed_of msgBuf s _ r1 r2 _ hA a1 (b2 l3) l3 rfl rfl

theorem OpRelatedCerts_ok (env : Collaborators) (msgBuf : List Token) (s s' : DecodeState)
    (h : Decode_OpRelatedCerts env s = .ok s') :
    s.reader.Advances s'.reader ∧ s'.outerContainer = s.outerContainer ∧
    s'.self.mTBSDataStart = s.self.mTBSDataStart ∧
    s'.self.mReqType = s.self.mReqType ∧
    s'.self.mManufAttestType = s.self.mManufAttestType ∧
    s'.self.ManufAttestX509CertCount = s.self.ManufAttestX509CertCount ∧
    (s.Anchored msgBuf → s.SpanClosed → s'.SpanClosed) := by
  unfold Decode_OpRelatedCerts at h
  split at h
  · simp only [bind_eq_ok, VerifyOrExit_eq_ok, SuccessOrExit_eq_ok,
      pure, Except.pure, Except.ok.injEq, Prod.mk.injEq] at h
    obtain ⟨_, _, ⟨set', r1⟩, hl, r2, ⟨h2, h2'⟩, rfl⟩ := h
    obtain ⟨l1, l2, l3⟩ := LoadCerts_ok _ _ _ _ _ hl
    obtain ⟨a2, _, b2, _⟩ := Next_rel _ _ h2 h2'
    have a1 : s.reader.Advances r1 := ⟨l1, l2⟩
    refine ⟨Advances_trans a1 a2, rfl, rfl, rfl, rfl, rfl, fun hA _ => ?_⟩
    exact SpanClosed_of msgBuf s _ r1 r2 _ hA a1 (b2 l3) l3 rfl rfl
  · simp only [pure, Except.pure, Except.ok.injEq] at h
    subst h
    exact ⟨Advances_refl _, rfl, rfl, rfl, rfl, rfl, fun _ hc => hc⟩

/-! ## The loop over the related X.509 certificates terminates within its bound -/

theorem skipLoop_after (outer : TLVType) (after : List Token) :
    ∀ (nest : Nat) (before : List Token) (c : Option Token) (ct : TLVType),
      (TLVReader.skipLoop outer after nest before c ct).2.after.length ≤ after.length := by
  induction after with
  | nil =>
    intro nest before c ct
    by_cases h : TLVReader.elementTypeOf c = kTLVElementType_EndOfContainer ∧ nest = 0
    · simp [TLVReader.skipLoop, h]
    · simp [TLVReader.skipLoop, h]
  | cons t rest ih =>
    intro nest before c ct
    by_cases h : TLVReader.elementTypeOf c = kTLVElementType_EndOfContainer ∧ nest = 0
    · simp [TLVReader.skipLoop, h]
    · simp only [TLVReader.skipLoop, h, if_false]
      exact Nat.le_trans (ih _ _ _ _) (by simp)

theorem Skip_after (r : TLVReader) : r.Skip.2.after.length ≤ r.after.length := by
  unfold TLVReader.Skip
  by_cases h1 : r.ElementType = kTLVElementType_EndOfContainer
  · simp [h1]
  · by_cases h2 : TLVTypeIsContainer r.ElementType = true
    · simp only [h1, if_false, h2, if_true, TLVReader.EnterContainer, TLVReader.ExitContainer,
        TLVReader.SkipToEndOfContainer]
      split
      · exact skipLoop_after _ _ _ _ _ _
      · exact skipLoop_after _ _ _ _ _ _
    · simp [h1, h2, TLVReader.ClearElement]

theorem Next_after_lt (r : TLVReader) (h : r.Next.1 = WEAVE_NO_ERROR) :
    r.Next.2.after.length < r.after.length := by
  have hs := Skip_after r
  unfold TLVReader.Next at h ⊢
  simp only [] at h ⊢
  by_cases h1 : r.Skip.1 = WEAVE_NO_ERROR
  · simp only [h1, if_true] at h ⊢
    cases ha : r.Skip.2.after with
    | nil => simp [TLVReader.ReadElement, ha] at h
    | cons t rest =>
      rw [ha] at hs
      simp only [List.length_cons] at hs
      simp only [TLVReader.ReadElement, ha, TLVReader.ClearElement]
      repeat' split
      all_goals (show rest.length < _; omega)
  · simp [h1] at h

theorem X509RelCerts_fuel_step (env : Collaborators) (fuel : Nat) :
    ∀ (err : WEAVE_ERROR) (r : TLVReader) (self : GetCertificateRequestMessage),
      (err = WEAVE_NO_ERROR → r.after.length + 2 ≤ fuel) →
      (err ≠ WEAVE_NO_ERROR → 1 ≤ fuel) →
      Decode_X509RelCerts env (fuel + 1) err r self = Decode_X509RelCerts env fuel err r self := by
  induction fuel with
  | zero =>
    intro err r self h1 h2
    by_cases he : err = WEAVE_NO_ERROR
    · have := h1 he
      omega
    · have := h2 he
      omega
  | succ n ih =>
    intro err r self h1 h2
    rw [Decode_X509RelCerts, Decode_X509RelCerts]
    by_cases hend : err = WEAVE_END_OF_TLV
    · simp [hend]
    · simp only [hend, if_false]
      by_cases he : err = WEAVE_NO_ERROR
      · have hlen := h1 he
        have hrec : ∀ self', Decode_X509RelCerts env (n + 1) r.Next.1 r.Next.2 self' =
            Decode_X509RelCerts env n r.Next.1 r.Next.2 self' := by
          intro self'
          refine ih _ _ _ (fun hn => ?_) (fun _ => by omega)
          have := Next_after_lt r hn
          omega
        simp only [he, SuccessOrExit, if_true, bind, Except.bind, hrec]
      · simp [SuccessOrExit, he, bind, Except.bind]

/-- The bound on the iterations of the loop over the related X.509 certificates is never
what ends it: any larger bound gives the same result. -/
theorem X509RelCerts_fuel (env : Collaborators) (err : WEAVE_ERROR) (r : TLVReader)
    (self : GetCertificateRequestMessage) (k : Nat) :
    Decode_X509RelCerts env (r.after.length + 2 + k) err r self =
      Decode_X509RelCerts env (r.after.length + 2) err r self := by
  induction k with
  | zero => rfl
  | succ k ih =>
    rw [← ih]
    exact X509RelCerts_fuel_step env (r.after.length + 2 + k) err r self
      (fun _ => by omega) (fun _ => by omega)

/-! ## The blocks of `Decode`: attestation -/

theorem SpanClosed_of_leaf (msgBuf : List Token) (s : DecodeState)
    (self : GetCertificateRequestMessage) (r r1 : TLVReader) (o : TLVType) (t : Token) (n : Nat)
    (h : s.Anchored msgBuf) (ha : s.reader.Advances r) (hc : r.cur = some t)
    (hb : r1.before = r.before ++ [t])
    (hn : n = if TLVTypeHasLength t.elemType then t.data.length else 0)
    (hs : self.mTBSDataStart = s.self.mTBSDataStart)
    (hl : self.mTBSDataLen = (BytePtr.msgBuf r.GetReadPoint).diff n self.mTBSDataStart) :
    DecodeState.SpanClosed { self := self, reader := r1, outerContainer := o } := by
  obtain ⟨h1, outer, reqType, more, h2, h3, h4, h5⟩ := h
  obtain ⟨_, ext, a2⟩ := ha
  refine ⟨(bytesOf [outer]).length, hs.trans h3, ?_⟩
  show _ + self.mTBSDataLen = (bytesOf r1.before).length
  rw [hl, hs, h3, hb, hn]
  simp only [BytePtr.diff, TLVReader.GetReadPoint, hc, a2, h2]
  by_cases hh : TLVTypeHasLength t.elemType = true
  · simp [bytesOf, bytesOf_append, Token.bytes, hh]
    omega
  · simp [bytesOf, bytesOf_append, Token.bytes, hh]
    omega

theorem GetDataPtr_ok (r : TLVReader) (p : Nat) (h : r.GetDataPtr = .ok p) :
    p = r.GetReadPoint ∧ ∃ t, r.cur = some t ∧ TLVTypeHasLength t.elemType = true ∧
      r.GetLength = t.data.length := by
  unfold TLVReader.GetDataPtr at h
  split at h
  · rename_i hc
    simp only [Except.ok.injEq] at h
    refine ⟨h.symm, ?_⟩
    cases r with
    | mk b c a ct =>
      cases c with
      | none => simp [TLVReader.ElementType, TLVTypeHasLength] at hc
      | some t =>
        refine ⟨t, rfl, hc, ?_⟩
        simp only [TLVReader.ElementType] at hc
        simp [TLVReader.GetLength, hc]
  · simp at h

theorem leaf_of_HasLength (t : Token) (h : TLVTypeHasLength t.elemType = true) :
    t.elemType ≠ kTLVElementType_EndOfContainer ∧ TLVTypeIsContainer t.elemType = false := by
  cases ht : t.elemType <;> simp [ht, TLVTypeHasLength, TLVTypeIsContainer] at h ⊢

theorem x509At_x509Store_zero (a : List X509Cert) (x : X509Cert) :
    x509At (x509Store a 0 x) 0 = x := by
  cases a with
  | nil => simp [x509At, x509Store]
  | cons y ys => simp [x509At, x509Store]

theorem X509RelCerts_ok (env : Collaborators) (fuel : Nat) :
    ∀ (err : WEAVE_ERROR) (r r' : TLVReader) (self self' : GetCertificateRequestMessage),
      Decode_X509RelCerts env fuel err r self = .ok (r', self') →
      r.Advances r' ∧ self'.mTBSDataStart = self.mTBSDataStart ∧
      self'.mReqType = self.mReqType ∧ self'.mTBSDataLen = self.mTBSDataLen ∧
      self'.mManufAttestType = self.mManufAttestType := by
  induction fuel with
  | zero => intro err r r' self self' h; simp [Decode_X509RelCerts] at h
  | succ n ih =>
    intro err r r' self self' h
    unfold Decode_X509RelCerts at h
    split at h
    · simp only [Except.ok.injEq, Prod.mk.injEq] at h
      obtain ⟨rfl, rfl⟩ := h
      exact ⟨Advances_refl _, rfl, rfl, rfl, rfl⟩
    · simp only [bind_eq_ok, VerifyOrExit_eq_ok, SuccessOrExit_eq_ok,
        pure, Except.pure, Except.ok.injEq, Prod.mk.injEq] at h
      obtain ⟨r1, ⟨_, h1⟩, _, _, p, _, h⟩ := h
      subst h1
      obtain ⟨a, b, c, d, e⟩ := ih _ _ _ _ _ h
      exact ⟨Advances_trans (Next_advances _) a, b, c, d, e⟩

theorem ManufAttest_WeaveCert_ok (env : Collaborators) (msgBuf : List Token)
    (s s' : DecodeState) (h : Decode_ManufAttest_WeaveCert env s = .ok s') :
    s.reader.Advances s'.reader ∧ s'.outerContainer = s.outerContainer ∧
    s'.self.mTBSDataStart = s.self.mTBSDataStart ∧
    s'.self.mReqType = s.self.mReqType ∧
    s'.self.mManufAttestType = kManufAttestType_WeaveCert ∧
    (s.Anchored msgBuf → s'.SpanClosed) := by
  simp only [Decode_ManufAttest_WeaveCert, bind_eq_ok, VerifyOrExit_eq_ok, SuccessOrExit_eq_ok,
    pure, Except.pure, Except.ok.injEq, Prod.mk.injEq] at h
  obtain ⟨set, _, ⟨set', r1⟩, hl, h⟩ := h
  obtain ⟨l1, l2, l3, _⟩ := LoadCert_ok _ _ _ _ _ hl
  have a1 : s.reader.Advances r1 := ⟨l1, l2⟩
  try simp only at h
  split at h
  · simp only [bind_eq_ok, VerifyOrExit_eq_ok, SuccessOrExit_eq_ok,
      pure, Except.pure, Except.ok.injEq, Prod.mk.injEq] at h
    obtain ⟨⟨set2, r2⟩, hl2, r3, ⟨h3, h3'⟩, rfl⟩ := h
    obtain ⟨m1, m2, m3⟩ := LoadCerts_ok _ _ _ _ _ hl2
    obtain ⟨a3, _, b3, _⟩ := Next_rel _ _ h3 h3'
    have a2 : r1.Advances r2 :=
      Advances_trans (by rw [NextExpect_snd]; exact Next_advances _) ⟨m1, m2⟩
    refine ⟨Advances_trans (Advances_trans a1 a2) a3, rfl, rfl, rfl, rfl, fun hA => ?_⟩
    exact SpanClosed_of msgBuf s _ r2 r3 _ hA (Advances_trans a1 a2) (b3 m3) m3 rfl rfl
  · simp only [Except.ok.injEq] at h
    subst h
    have a2 : r1.Advances (r1.NextExpect kTLVType_Array
        (ContextTag kTag_GetCertReqMsg_ManufAttest_WeaveRelCerts)).2 := by
      rw [NextExpect_snd]; exact Next_advances _
    refine ⟨Advances_trans a1 a2, rfl, rfl, rfl, rfl, fun hA => ?_⟩
    refine SpanClosed_of msgBuf s _ r1 _ _ hA a1 ?_ l3 rfl rfl
    rw [NextExpect_snd]
    exact Next_before_of_none _ l3

theorem ManufAttest_X509Cert_ok (env : Collaborators) (msgBuf : List Token)
    (s s' : DecodeState) (h : Decode_ManufAttest_X509Cert env s = .ok s') :
    s.reader.Advances s'.reader ∧ s'.outerContainer = s.outerContainer ∧
    s'.self.mTBSDataStart = s.self.mTBSDataStart ∧
    s'.self.mReqType = s.self.mReqType ∧
    s'.self.mManufAttestType = kManufAttestType_X509Cert ∧
    (s.Anchored msgBuf → s.self.ManufAttestX509CertCount = 0 → s'.SpanClosed) := by
  simp only [Decode_ManufAttest_X509Cert, bind_eq_ok, VerifyOrExit_eq_ok, SuccessOrExit_eq_ok,
    pure, Except.pure, Except.ok.injEq, Prod.mk.injEq] at h
  obtain ⟨p, hp, h⟩ := h
  obtain ⟨hp1, t, ht, hlen, hgl⟩ := GetDataPtr_ok _ _ hp
  obtain ⟨lf1, lf2⟩ := leaf_of_HasLength t hlen
  have a1 : s.reader.Advances (s.reader.NextExpect kTLVType_Array
      (ContextTag kTag_GetCertReqMsg_ManufAttest_X509RelCerts)).2 := by
    rw [NextExpect_snd]; exact Next_advances _
  try simp only at h
  split at h
  · simp only [bind_eq_ok, VerifyOrExit_eq_ok, SuccessOrExit_eq_ok,
      pure, Except.pure, Except.ok.injEq, Prod.mk.injEq] at h
    obtain ⟨⟨o2, r2⟩, h2, ⟨r3, self3⟩, h3, r4, ⟨h4, h4'⟩, r5, ⟨h5, h5'⟩, rfl⟩ := h
    obtain ⟨_, _, _, _, _, a2, _⟩ := EnterContainer_ok _ _ _ h2
    obtain ⟨a3, st3, rq3, _, ty3⟩ := X509RelCerts_ok _ _ _ _ _ _ _ h3
    have a4 : r3.Advances r4 := by
      subst h4'
      exact ⟨(ExitContainer_spec _ _).1, (ExitContainer_spec _ _).2.1⟩
    have c4 : r4.cur = none := by
      subst h4'
      exact (ExitContainer_spec _ _).2.2 h4
    obtain ⟨a5, _, b5, _⟩ := Next_rel _ _ h5 h5'
    have a14 : s.reader.Advances r4 :=
      Advances_trans (Advances_trans (Advances_trans (Advances_trans a1 a2)
        (Next_advances _)) a3) a4
    refine ⟨Advances_trans a14 a5, rfl, st3, rq3, rfl, fun hA _ => ?_⟩
    exact SpanClosed_of msgBuf s _ r4 r5 _ hA a14 (b5 c4) c4 st3 (by simp only [st3])
  · simp only [Except.ok.injEq] at h
    subst h
    refine ⟨a1, rfl, rfl, rfl, rfl, fun hA h0 => ?_⟩
    refine SpanClosed_of_leaf msgBuf s _ s.reader _ _ t t.data.length hA (Advances_refl _) ht ?_
      (by simp [hlen]) rfl ?_
    · rw [NextExpect_snd]
      exact Next_before_of_leaf _ t ht lf1 lf2
    · simp only [h0, x509At_x509Store_zero, hp1, hgl]

theorem ManufAttest_HMAC_ok (msgBuf : List Token) (s s' : DecodeState)
    (hty : s.reader.GetType = kTLVType_UnsignedInteger)
    (h : Decode_ManufAttest_HMAC s = .ok s') :
    s.reader.Advances s'.reader ∧ s'.outerContainer = s.outerContainer ∧
    s'.self.mTBSDataStart = s.self.mTBSDataStart ∧
    s'.self.mReqType = s.self.mReqType ∧
    s'.self.mManufAttestType = kManufAttestType_HMAC ∧
    (s.Anchored msgBuf → s'.SpanClosed) := by
  obtain ⟨t, ht, hty', _⟩ := cur_of_GetType _ _ hty (by decide)
  have hty'' := toTLVType_eq_UnsignedInteger _ hty'
  simp only [Decode_ManufAttest_HMAC, bind_eq_ok, VerifyOrExit_eq_ok, SuccessOrExit_eq_ok,
    pure, Except.pure, Except.ok.injEq, Prod.mk.injEq] at h
  obtain ⟨v, _, r1, ⟨h1, h1'⟩, h⟩ := h
  obtain ⟨a1, _, _, b1⟩ := Next_rel _ _ h1 h1'
  have hb1 := b1 t ht (by rw [hty'']; decide) (by rw [hty'']; rfl)
  split at h
  · simp only [bind_eq_ok, VerifyOrExit_eq_ok, SuccessOrExit_eq_ok,
      pure, Except.pure, Except.ok.injEq, Prod.mk.injEq] at h
    obtain ⟨p, hp, r2, ⟨h2, h2'⟩, rfl⟩ := h
    obtain ⟨hp1, t1, ht1, hlen, hgl⟩ := GetDataPtr_ok _ _ hp
    obtain ⟨lf1, lf2⟩ := leaf_of_HasLength t1 hlen
    obtain ⟨a2, _, _, b2⟩ := Next_rel _ _ h2 h2'
    refine ⟨Advances_trans a1 a2, rfl, rfl, rfl, rfl, fun hA => ?_⟩
    exact SpanClosed_of_leaf msgBuf s _ r1 r2 _ t1 t1.data.length hA a1 ht1
      (b2 t1 ht1 lf1 lf2) (by simp [hlen]) rfl (by simp only [hp1, hgl])
  · simp only [Except.ok.injEq] at h
    subst h
    refine ⟨a1, rfl, rfl, rfl, rfl, fun hA => ?_⟩
    exact SpanClosed_of_leaf msgBuf s _ s.reader r1 _ t 0 hA (Advances_refl _) ht hb1
      (by rw [hty'']; rfl) rfl rfl

theorem ManufAttest_ok (env : Collaborators) (msgBuf : List Token) (s s' : DecodeState)
    (h : Decode_ManufAttest env s = .ok s') :
    s.reader.Advances s'.reader ∧ s'.outerContainer = s.outerContainer ∧
    s'.self.mTBSDataStart = s.self.mTBSDataStart ∧
    s'.self.mReqType = s.self.mReqType ∧
    (s'.self.mManufAttestType = kManufAttestType_WeaveCert ∨
      s'.self.mManufAttestType = kManufAttestType_X509Cert ∨
      s'.self.mManufAttestType = kManufAttestType_HMAC ∨
      (s' = s ∧ env.ManufAttestRequired s.self = false)) ∧
    (s.Anchored msgBuf → s.SpanClosed → s.self.ManufAttestX509CertCount = 0 →
      s'.SpanClosed) := by
  unfold Decode_ManufAttest at h
  split at h
  · obtain ⟨a, b, c, d, e, f⟩ := ManufAttest_WeaveCert_ok env msgBuf s s' h
    exact ⟨a, b, c, d, Or.inl e, fun hA _ _ => f hA⟩
  · split at h
    · obtain ⟨a, b, c, d, e, f⟩ := ManufAttest_X509Cert_ok env msgBuf s s' h
      exact ⟨a, b, c, d, Or.inr (Or.inl e), fun hA _ h0 => f hA h0⟩
    · split at h
      · rename_i hc
        obtain ⟨a, b, c, d, e, f⟩ := ManufAttest_HMAC_ok msgBuf s s' hc.1 h
        exact ⟨a, b, c, d, Or.inr (Or.inr (Or.inl e)), fun hA _ _ => f hA⟩
      · simp only [bind_eq_ok, VerifyOrExit_eq_ok, pure, Except.pure, Except.ok.injEq] at h
        obtain ⟨_, hr, rfl⟩ := h
        refine ⟨Advances_refl _, rfl, rfl, rfl, Or.inr (Or.inr (Or.inr ⟨rfl, ?_⟩)),
          fun _ hc _ => hc⟩
        simpa using hr

/-! ## The blocks of `Decode`: signatures, and the whole -/

theorem OpDeviceSig_ok (env : Collaborators) (s s' : DecodeState)
    (h : Decode_OpDeviceSig env s = .ok s') :
    s.reader.Advances s'.reader ∧ s'.outerContainer = s.outerContainer ∧
    s'.self.mTBSDataStart = s.self.mTBSDataStart ∧
    s'.self.mTBSDataLen = s.self.mTBSDataLen ∧
    s'.self.mReqType = s.self.mReqType ∧
    s'.self.mManufAttestType = s.self.mManufAttestType ∧
    ∃ sigAlgo sigStruct rest,
      s.reader.cur = some sigAlgo ∧
      sigAlgo.elemType = kTLVElementType_UnsignedInteger ∧
      sigAlgo.tag = ContextTag kTag_GetCertReqMsg_OpDeviceSigAlgo ∧
      s'.self.OperationalSigAlgo = sigAlgo.val ∧
      s.reader.after = sigStruct :: rest ∧
      sigStruct.elemType = kTLVElementType_Structure ∧
      sigStruct.tag = ContextTag kTag_GetCertReqMsg_OpDeviceSig_ECDSA := by
  simp only [Decode_OpDeviceSig, bind_eq_ok, VerifyOrExit_eq_ok, SuccessOrExit_eq_ok,
    pure, Except.pure, Except.ok.injEq, Prod.mk.injEq, beq_iff_eq] at h
  obtain ⟨_, hty, _, htg, v, hv, r1, ⟨h1, h1'⟩, ⟨sig, r2⟩, hd, rfl⟩ := h
  obtain ⟨t, ht, hty', htg'⟩ := GetType_GetTag _ _ _ ⟨hty, htg⟩ (by decide)
  have hty'' := toTLVType_eq_UnsignedInteger _ hty'
  obtain ⟨a1, ⟨t1, c1, ty1, tg1⟩, _, b1⟩ := NextExpect_rel _ _ _ _ (by decide) h1 h1'
  have hb1 := b1 t ht (by rw [hty'']; decide) (by rw [hty'']; rfl)
  obtain ⟨d1, d2, _⟩ := DecodeWeaveECDSASignature_ok _ _ _ _ hd
  refine ⟨Advances_trans (Advances_trans a1 ⟨d1, d2⟩) (Next_advances _), rfl, rfl, rfl, rfl,
    rfl, t, t1, r1.after, ht, hty'', htg', Get_ok _ _ _ ht hv, ?_,
    toTLVType_eq_Structure _ ty1, tg1⟩
  have hall := a1.1
  simp only [TLVReader.all, ht, c1, hb1] at hall
  simpa using hall.symm

theorem ManufAttestSig_ok (env : Collaborators) (s s' : DecodeState)
    (h : Decode_ManufAttestSig env s = .ok s') :
    s'.outerContainer = s.outerContainer ∧
    s'.self.mTBSDataStart = s.self.mTBSDataStart ∧
    s'.self.mTBSDataLen = s.self.mTBSDataLen ∧
    s'.self.mReqType = s.self.mReqType ∧
    s'.self.mManufAttestType = s.self.mManufAttestType ∧
    s'.self.OperationalSigAlgo = s.self.OperationalSigAlgo := by
  unfold Decode_ManufAttestSig at h
  split at h
  · simp only [bind_eq_ok] at h
    obtain ⟨s1, h1, h2⟩ := h
    simp only [Decode_ManufAttestSigAlgo, bind_eq_ok, VerifyOrExit_eq_ok, SuccessOrExit_eq_ok,
      pure, Except.pure, Except.ok.injEq, Prod.mk.injEq] at h1
    obtain ⟨_, _, _, _, v, _, r1, _, rfl⟩ := h1
    unfold Decode_ManufAttestSigValue at h2
    split at h2
    · simp only [bind_eq_ok, VerifyOrExit_eq_ok, SuccessOrExit_eq_ok,
        pure, Except.pure, Except.ok.injEq, Prod.mk.injEq] at h2
      obtain ⟨_, _, ⟨sig, r2⟩, _, rfl⟩ := h2
      exact ⟨rfl, rfl, rfl, rfl, rfl, rfl⟩
    · split at h2
      · simp only [bind_eq_ok, VerifyOrExit_eq_ok, SuccessOrExit_eq_ok,
          pure, Except.pure, Except.ok.injEq, Prod.mk.injEq] at h2
        obtain ⟨_, _, ⟨p, len⟩, _, rfl⟩ := h2
        exact ⟨rfl, rfl, rfl, rfl, rfl, rfl⟩
      · split at h2
        · simp only [bind_eq_ok, VerifyOrExit_eq_ok, SuccessOrExit_eq_ok,
            pure, Except.pure, Except.ok.injEq, Prod.mk.injEq] at h2
          obtain ⟨_, _, ⟨p, len⟩, _, rfl⟩ := h2
          exact ⟨rfl, rfl, rfl, rfl, rfl, rfl⟩
        · simp at h2
  · simp only [pure, Except.pure, Except.ok.injEq] at h
    subst h
    exact ⟨rfl, rfl, rfl, rfl, rfl, rfl⟩

theorem End_ok (s s' : DecodeState) (h : Decode_End s = .ok s') : s'.self = s.self := by
  simp only [Decode_End, bind_eq_ok, SuccessOrExit_eq_ok, pure, Except.pure,
    Except.ok.injEq] at h
  obtain ⟨_, _, _, _, rfl⟩ := h
  rfl

theorem ToManufAttest_ok (env : Collaborators) (self : GetCertificateRequestMessage)
    (msgBuf : List Token) (s : DecodeState)
    (h : Decode_ToManufAttest env self msgBuf = .ok s) :
    s.Anchored msgBuf ∧
    (self.ManufAttestX509CertCount = 0 → s.SpanClosed) ∧
    (s.self.mReqType = kReqType_GetInitialOpDeviceCert ∨
      s.self.mReqType = kReqType_RotateOpDeviceCert) ∧
    (s.self.mManufAttestType = kManufAttestType_WeaveCert ∨
      s.self.mManufAttestType = kManufAttestType_X509Cert ∨
      s.self.mManufAttestType = kManufAttestType_HMAC ∨
      (s.self.mManufAttestType = self.mManufAttestType ∧
        env.ManufAttestRequired s.self = false)) := by
  simp only [Decode_ToManufAttest, Decode_ToOpDeviceCert, bind_eq_ok] at h
  obtain ⟨s3, ⟨s1, h1, s2, h2, h3⟩, s4, h4, h5⟩ := h
  obtain ⟨A1, q1, t1, c1⟩ := RequestType_ok _ _ _ h1
  obtain ⟨a2, _, st2, q2, t2, c2⟩ := Authorize_ok _ _ h2
  have A2 := Anchored_step _ _ _ A1 a2 st2
  obtain ⟨a3, _, st3, q3, t3, c3, S3⟩ := OpDeviceCert_ok env msgBuf _ _ h3
  have A3 := Anchored_step _ _ _ A2 a3 st3
  obtain ⟨a4, _, st4, q4, t4, c4, S4⟩ := OpRelatedCerts_ok env msgBuf _ _ h4
  have A4 := Anchored_step _ _ _ A3 a4 st4
  obtain ⟨a5, _, st5, q5, t5, S5⟩ := ManufAttest_ok env msgBuf _ _ h5
  have A5 := Anchored_step _ _ _ A4 a5 st5
  refine ⟨A5, fun h0 => S5 A4 (S4 A3 (S3 A2)) (by rw [c4, c3, c2, c1, h0]), ?_, ?_⟩
  · rw [q5, q4, q3, q2]; exact q1
  · rcases t5 with t5 | t5 | t5 | ⟨rfl, t5⟩
    · exact Or.inl t5
    · exact Or.inr (Or.inl t5)
    · exact Or.inr (Or.inr (Or.inl t5))
    · exact Or.inr (Or.inr (Or.inr ⟨by rw [t4, t3, t2, t1], t5⟩))

theorem Decode_ok (env : Collaborators) (self : GetCertificateRequestMessage)
    (msgBuf : List Token) (msg : GetCertificateRequestMessage)
    (h : Decode env self msgBuf = .ok msg) :
    ∃ s s', Decode_ToManufAttest env self msgBuf = .ok s ∧ Decode_OpDeviceSig env s = .ok s' ∧
      msg.mTBSDataStart = s.self.mTBSDataStart ∧ msg.mTBSDataLen = s.self.mTBSDataLen ∧
      msg.mReqType = s.self.mReqType ∧ msg.mManufAttestType = s.self.mManufAttestType ∧
      msg.OperationalSigAlgo = s'.self.OperationalSigAlgo := by
  simp only [Decode, Decode_ToOpDeviceSig, bind_eq_ok, pure, Except.pure, Except.ok.injEq] at h
  obtain ⟨s6, ⟨s5, h5, h6⟩, s7, h7, s8, h8, rfl⟩ := h
  obtain ⟨_, _, st6, l6, q6, t6, _⟩ := OpDeviceSig_ok _ _ _ h6
  obtain ⟨_, st7, l7, q7, t7, o7⟩ := ManufAttestSig_ok _ _ _ h7
  have e8 := End_ok _ _ h8
  refine ⟨s5, s6, h5, h6, ?_, ?_, ?_, ?_, ?_⟩
  · rw [e8, st7, st6]
  · rw [e8, l7, l6]
  · rw [e8, q7, q6]
  · rw [e8, t7, t6]
  · rw [e8, o7]

/-! ## The signed span -/

theorem Decode_span_of_new (env : Collaborators) (storage : GetCertificateRequestMessage)
    (msgBuf : List Token) (msg : GetCertificateRequestMessage)
    (h : Decode env (GetCertificateRequestMessage.new storage) msgBuf = .ok msg) :
    ∃ outer reqType body sigAlgo sigStruct rest,
      msgBuf = outer :: reqType :: body ++ sigAlgo :: sigStruct :: rest ∧
      reqType.elemType = kTLVElementType_UnsignedInteger ∧
      reqType.tag = ContextTag kTag_GetCertReqMsg_ReqType ∧
      sigAlgo.elemType = kTLVElementType_UnsignedInteger ∧
      sigAlgo.tag = ContextTag kTag_GetCertReqMsg_OpDeviceSigAlgo ∧
      sigStruct.elemType = kTLVElementType_Structure ∧
      sigStruct.tag = ContextTag kTag_GetCertReqMsg_OpDeviceSig_ECDSA ∧
      msg.mTBSDataStart = .msgBuf (bytesOf [outer]).length ∧
      msg.mTBSDataLen = (bytesOf (reqType :: body)).length ∧
      readBytes env msgBuf msg.mTBSDataStart msg.mTBSDataLen =
        some (bytesOf (reqType :: body)) := by
  obtain ⟨s, s', h5, h6, st, ln, _, _, _⟩ := Decode_ok _ _ _ _ h
  obtain ⟨⟨hall, outer, reqType, more, hb, hst, hty, htg⟩, hsc, _, _⟩ :=
    ToManufAttest_ok _ _ _ _ h5
  obtain ⟨start, hs1, hs2⟩ := hsc rfl
  obtain ⟨_, _, _, _, _, _, sigAlgo, sigStruct, rest, hc, sty, stg, _, haf, tty, ttg⟩ :=
    OpDeviceSig_ok _ _ _ h6
  have hstart : start = (bytesOf [outer]).length := by
    rw [hst] at hs1
    injection hs1 with hs1
    exact hs1.symm
  have hbuf : msgBuf = outer :: reqType :: more ++ sigAlgo :: sigStruct :: rest := by
    rw [← hall]
    simp [TLVReader.all, hb, hc, haf]
  have hlen : msg.mTBSDataLen = (bytesOf (reqType :: more)).length := by
    rw [ln]
    rw [hb, hstart] at hs2
    simp only [bytesOf, List.length_append, List.append_nil] at hs2 ⊢
    omega
  refine ⟨outer, reqType, more, sigAlgo, sigStruct, rest, hbuf, hty, htg, sty, stg, tty, ttg,
    st.trans hst, hlen, ?_⟩
  rw [st, hst, hlen]
  unfold readBytes
  split
  · rename_i h0
    rw [List.length_eq_zero.mp h0]
  · have hb2 : bytesOf msgBuf = bytesOf [outer] ++ (bytesOf (reqType :: more) ++
        bytesOf (sigAlgo :: sigStruct :: rest)) := by
      rw [hbuf]
      simp [bytesOf, bytesOf_append]
    simp only [hb2]
    rw [if_pos (by simp)]
    simp

/-- C1: on every request buffer that `Decode` accepts (decoding into a freshly constructed
message), the buffer is the opening element of the top-level structure, the request-type
element, further elements `body`, the operational-signature-algorithm element and the
operational ECDSA signature structure, in this order; `mTBSDataStart` is the offset of the
first byte of the request-type element, `mTBSDataLen` is the number of bytes from there to
the first byte of the operational-signature-algorithm element, and the recorded span holds
exactly the bytes of the request-type element and of `body`, so no byte of a signature. -/
theorem Decode_TBS_span (env : Collaborators) (storage : GetCertificateRequestMessage)
    (msgBuf : List Token) (msg : GetCertificateRequestMessage)
    (h : Decode env (GetCertificateRequestMessage.new storage) msgBuf = .ok msg) :
    ∃ outer reqType body sigAlgo sigStruct rest,
      msgBuf = outer :: reqType :: body ++ sigAlgo :: sigStruct :: rest ∧
      reqType.elemType = kTLVElementType_UnsignedInteger ∧
      reqType.tag = ContextTag kTag_GetCertReqMsg_ReqType ∧
      sigAlgo.elemType = kTLVElementType_UnsignedInteger ∧
      sigAlgo.tag = ContextTag kTag_GetCertReqMsg_OpDeviceSigAlgo ∧
      sigStruct.elemType = kTLVElementType_Structure ∧
      sigStruct.tag = ContextTag kTag_GetCertReqMsg_OpDeviceSig_ECDSA ∧
      msg.mTBSDataStart = .msgBuf (bytesOf [outer]).length ∧
      msg.mTBSDataLen = (bytesOf (reqType :: body)).length ∧
      readBytes env msgBuf msg.mTBSDataStart msg.mTBSDataLen =
        some (bytesOf (reqType :: body)) :=
  Decode_span_of_new env storage msgBuf msg h

/-- The signed span of a sample request with HMAC attestation. -/
theorem Decode_TBS_span_witness :
    ∃ outer reqType body sigAlgo sigStruct rest,
      Sample.requestHMAC kOID_SigAlgo_HMACWithSHA256 [] =
        outer :: reqType :: body ++ sigAlgo :: sigStruct :: rest ∧
      reqType.elemType = kTLVElementType_UnsignedInteger ∧
      reqType.tag = ContextTag kTag_GetCertReqMsg_ReqType ∧
      sigAlgo.elemType = kTLVElementType_UnsignedInteger ∧
      sigAlgo.tag = ContextTag kTag_GetCertReqMsg_OpDeviceSigAlgo ∧
      sigStruct.elemType = kTLVElementType_Structure ∧
      sigStruct.tag = ContextTag kTag_GetCertReqMsg_OpDeviceSig_ECDSA ∧
      (Sample.decoded (Sample.env false)
        (Sample.requestHMAC kOID_SigAlgo_HMACWithSHA256 [])).mTBSDataStart =
          .msgBuf (bytesOf [outer]).length ∧
      (Sample.decoded (Sample.env false)
        (Sample.requestHMAC kOID_SigAlgo_HMACWithSHA256 [])).mTBSDataLen =
          (bytesOf (reqType :: body)).length ∧
      readBytes (Sample.env false) (Sample.requestHMAC kOID_SigAlgo_HMACWithSHA256 [])
        (Sample.decoded (Sample.env false)
          (Sample.requestHMAC kOID_SigAlgo_HMACWithSHA256 [])).mTBSDataStart
        (Sample.decoded (Sample.env false)
          (Sample.requestHMAC kOID_SigAlgo_HMACWithSHA256 [])).mTBSDataLen =
        some (bytesOf (reqType :: body)) :=
  Decode_TBS_span (Sample.env false) Sample.storage
    (Sample.requestHMAC kOID_SigAlgo_HMACWithSHA256 [])
    (Sample.decoded (Sample.env false) (Sample.requestHMAC kOID_SigAlgo_HMACWithSHA256 []))
    (by rfl)

/-! ## The operational signature verification -/

theorem find?_append_of_all_false {α : Type} (p : α → Bool) (l1 l2 : List α)
    (h : ∀ c ∈ l1, p c = false) : (l1 ++ l2).find? p = l2.find? p := by
  induction l1 with
  | nil => rfl
  | cons x xs ih =>
    have hx : p x = false := h x (List.mem_cons_self _ _)
    simp only [List.cons_append, List.find?, hx]
    exact ih (fun c hc => h c (List.mem_cons_of_mem _ hc))

theorem Process_Authorize_calls (env : Collaborators) (msgBuf : List Token)
    (msg : GetCertificateRequestMessage) :
    ∀ c ∈ (Process_Authorize env msgBuf msg).2, c.isSignatureVerification = false := by
  unfold Process_Authorize
  intro c hc
  repeat' split at hc
  all_goals simp at hc
  all_goals (rcases hc with rfl | rfl <;> rfl)

theorem Process_ManufAttest_spec (env : Collaborators) (msgBuf : List Token)
    (msg : GetCertificateRequestMessage) :
    (∀ c ∈ (Process_ManufAttest env msgBuf msg).2.2, c.isSignatureVerification = false) ∧
    (Process_ManufAttest env msgBuf msg).2.1.mTBSDataStart = msg.mTBSDataStart ∧
    (Process_ManufAttest env msgBuf msg).2.1.mTBSDataLen = msg.mTBSDataLen ∧
    (Process_ManufAttest env msgBuf msg).2.1.OperationalCertSet = msg.OperationalCertSet ∧
    (Process_ManufAttest env msgBuf msg).2.1.OperationalSig = msg.OperationalSig ∧
    (Process_ManufAttest env msgBuf msg).2.1.OperationalSigAlgo = msg.OperationalSigAlgo ∧
    (Process_ManufAttest env msgBuf msg).2.1.mManufAttestType = msg.mManufAttestType ∧
    (Process_ManufAttest env msgBuf msg).2.1.ManufAttestSigAlgo = msg.ManufAttestSigAlgo ∧
    (Process_ManufAttest env msgBuf msg).2.1.ManufAttestSig = msg.ManufAttestSig ∧
    (Process_ManufAttest env msgBuf msg).2.1.ManufAttestWeaveCertSet =
      msg.ManufAttestWeaveCertSet := by
  unfold Process_ManufAttest
  simp only []
  repeat' split
  all_goals simp [Call.isSignatureVerification]

theorem Process_Signatures_first (env : Collaborators) (msgBuf : List Token)
    (msg : GetCertificateRequestMessage) (c : Call)
    (h : (Process_Signatures env msgBuf msg).2.find? Call.isSignatureVerification = some c) :
    ∃ tbs cert, readBytes env msgBuf msg.mTBSDataStart msg.mTBSDataLen = some tbs ∧
      msg.OperationalCertSet.Certs.head? = some cert ∧
      msg.OperationalSigAlgo = kOID_SigAlgo_ECDSAWithSHA256 ∧
      c = Call.VerifyECDSASignature (env.WeaveCurveIdToOID cert.PubKeyCurveId) (env.SHA256 tbs)
        env.kHashLength msg.OperationalSig cert.PublicKey.EC := by
  unfold Process_Signatures at h
  simp only [] at h
  split at h
  · simp [List.find?, Call.isSignatureVerification] at h
  · rename_i tbs htbs
    split at h
    · rename_i halgo
      split at h
      · simp [List.find?, Call.isSignatureVerification] at h
      · rename_i cert hcert
        split at h
        · simp only [List.cons_append, List.find?, Call.isSignatureVerification,
            Option.some.injEq] at h
          exact ⟨tbs, cert, htbs, hcert, halgo, h.symm⟩
        · simp only [List.find?, Call.isSignatureVerification, Option.some.injEq] at h
          exact ⟨tbs, cert, htbs, hcert, halgo, h.symm⟩
    · simp [List.find?, Call.isSignatureVerification] at h

theorem Process_Validate_first (env : Collaborators) (msgBuf : List Token)
    (msg : GetCertificateRequestMessage) (c : Call)
    (h : (Process_Validate env msgBuf msg).calls.find? Call.isSignatureVerification = some c) :
    ∃ tbs cert, readBytes env msgBuf msg.mTBSDataStart msg.mTBSDataLen = some tbs ∧
      msg.OperationalCertSet.Certs.head? = some cert ∧
      msg.OperationalSigAlgo = kOID_SigAlgo_ECDSAWithSHA256 ∧
      c = Call.VerifyECDSASignature (env.WeaveCurveIdToOID cert.PubKeyCurveId) (env.SHA256 tbs)
        env.kHashLength msg.OperationalSig cert.PublicKey.EC := by
  have hA := Process_Authorize_calls env msgBuf msg
  obtain ⟨hM, m1, m2, m3, m4, m5, _⟩ := Process_ManufAttest_spec env msgBuf msg
  unfold Process_Validate at h
  split at h
  · rename_i out calls heq
    rw [heq] at hA
    simp only at h hA
    rw [← List.append_nil calls, find?_append_of_all_false _ _ _ hA] at h
    simp at h
  · rename_i calls heq
    rw [heq] at hA
    simp only at h hA
    have hA' : ∀ c ∈ calls ++ [Call.ValidateWeaveDeviceCert msg.OperationalCertSet],
        c.isSignatureVerification = false := by
      intro c hc
      rcases List.mem_append.mp hc with hc | hc
      · exact hA c hc
      · simp only [List.mem_singleton] at hc
        subst hc
        rfl
    split at h
    · split at h
      · simp only at h
        rw [← List.append_nil (calls ++ _), find?_append_of_all_false _ _ _ hA'] at h
        simp at h
      · split at h
        · rename_i out msg' calls2 heq2
          rw [heq2] at hM
          simp only at h hM
          rw [← List.append_nil (calls ++ _ ++ calls2), List.append_assoc (calls ++ _),
            find?_append_of_all_false _ _ _ hA', find?_append_of_all_false _ _ _ hM] at h
          simp at h
        · rename_i msg' calls2 heq2
          rw [heq2] at hM m1 m2 m3 m4 m5
          simp only at h hM m1 m2 m3 m4 m5
          rw [List.append_assoc (calls ++ _),
            find?_append_of_all_false _ _ _ hA', find?_append_of_all_false _ _ _ hM] at h
          obtain ⟨tbs, cert, e1, e2, e3, e4⟩ := Process_Signatures_first _ _ _ _ h
          rw [m1, m2] at e1
          rw [m3] at e2
          rw [m5] at e3
          rw [m4] at e4
          exact ⟨tbs, cert, e1, e2, e3, e4⟩
    · simp only at h
      rw [← List.append_nil (calls ++ _), find?_append_of_all_false _ _ _ hA'] at h
      simp at h

/-- C2: for every request that `Decode` accepts and for which
`ProcessGetCertificateRequest` verifies a signature, the first verification, the
operational one, is the ECDSA verification whose hash argument is the SHA-256 of the bytes
of the span (`mTBSDataStart`, `mTBSDataLen`) recorded by `Decode`, and whose curve and public
key are those of the first certificate of the operational certificate set. -/
theorem Process_operational_signature (env : Collaborators) (msgBuf : List Token)
    (msg0 msg : GetCertificateRequestMessage) (c : Call)
    (hd : msg0.Decode env msgBuf = .ok msg)
    (hc : (ProcessGetCertificateRequest env msgBuf msg0).calls.find?
      Call.isSignatureVerification = some c) :
    ∃ tbs cert, readBytes env msgBuf msg.mTBSDataStart msg.mTBSDataLen = some tbs ∧
      msg.OperationalCertSet.Certs.head? = some cert ∧
      c = Call.VerifyECDSASignature (env.WeaveCurveIdToOID cert.PubKeyCurveId) (env.SHA256 tbs)
        env.kHashLength msg.OperationalSig cert.PublicKey.EC := by
  unfold ProcessGetCertificateRequest at hc
  rw [hd] at hc
  obtain ⟨tbs, cert, e1, e2, _, e4⟩ := Process_Validate_first _ _ _ _ hc
  exact ⟨tbs, cert, e1, e2, e4⟩

/-! ## The request type -/

theorem bind_error {ε α β : Type} (x : Except ε α) (f : α → Except ε β) (e : ε)
    (h : x = .error e) : (x >>= f) = .error e := by
  subst h
  rfl

theorem Decode_of_RequestType_error (env : Collaborators) (self : GetCertificateRequestMessage)
    (msgBuf : List Token) (e : WEAVE_ERROR) (h : Decode_RequestType self msgBuf = .error e) :
    Decode env self msgBuf = .error e := by
  unfold Decode Decode_ToOpDeviceSig Decode_ToManufAttest Decode_ToOpDeviceCert
  exact bind_error _ _ _ (bind_error _ _ _ (bind_error _ _ _ (bind_error _ _ _ h)))

theorem RequestType_invalid (self : GetCertificateRequestMessage) (outer reqType : Token)
    (rest : List Token)
    (ho : outer.elemType = kTLVElementType_Structure) (hot : outer.tag = AnonymousTag)
    (hr : reqType.elemType = kTLVElementType_UnsignedInteger)
    (hrt : reqType.tag = ContextTag kTag_GetCertReqMsg_ReqType)
    (hv : reqType.val ≠ kReqType_GetInitialOpDeviceCert ∧
      reqType.val ≠ kReqType_RotateOpDeviceCert) :
    Decode_RequestType self (outer :: reqType :: rest) = .error WEAVE_ERROR_INVALID_ARGUMENT := by
  simp [Decode_RequestType, TLVReader.Init, TLVReader.NextExpect, TLVReader.Next,
    TLVReader.Skip, TLVReader.ElementType, TLVReader.ClearElement, TLVReader.ReadElement,
    TLVReader.GetType, TLVReader.GetTag, TLVReader.EnterContainer, TLVReader.Get,
    TLVTypeIsContainer, TLVElementType.toTLVType, ho, hot, hr, hrt, SuccessOrExit, VerifyOrExit,
    bind, Except.bind, GetCertificateRequestMessage.RequestType, hv.1, hv.2]

/-- C6: a request whose request-type element holds a value other than
`kReqType_GetInitialOpDeviceCert` and `kReqType_RotateOpDeviceCert` makes `Decode` return
`WEAVE_ERROR_INVALID_ARGUMENT`, whatever follows that element in the buffer; and on every
successful `Decode` the stored request type is one of the two. -/
theorem Decode_request_type (env : Collaborators) (self : GetCertificateRequestMessage) :
    (∀ outer reqType rest,
      outer.elemType = kTLVElementType_Structure → outer.tag = AnonymousTag →
      reqType.elemType = kTLVElementType_UnsignedInteger →
      reqType.tag = ContextTag kTag_GetCertReqMsg_ReqType →
      reqType.val ≠ kReqType_GetInitialOpDeviceCert →
      reqType.val ≠ kReqType_RotateOpDeviceCert →
      self.Decode env (outer :: reqType :: rest) = .error WEAVE_ERROR_INVALID_ARGUMENT) ∧
    (∀ msgBuf msg, self.Decode env msgBuf = .ok msg →
      msg.RequestType = kReqType_GetInitialOpDeviceCert ∨
      msg.RequestType = kReqType_RotateOpDeviceCert) := by
  refine ⟨fun outer reqType rest ho hot hr hrt h1 h2 => ?_, fun msgBuf msg h => ?_⟩
  · exact Decode_of_RequestType_error _ _ _ _
      (RequestType_invalid self outer reqType rest ho hot hr hrt ⟨h1, h2⟩)
  · obtain ⟨s, s', h5, _, _, _, hq, _, _⟩ := Decode_ok _ _ _ _ h
    obtain ⟨_, _, hreq, _⟩ := ToManufAttest_ok _ _ _ _ h5
    unfold GetCertificateRequestMessage.RequestType
    rw [hq]
    exact hreq

/-- A sample request of type 3 is rejected; a sample request of type 1 is stored as such. -/
theorem Decode_request_type_witness :
    (GetCertificateRequestMessage.new Sample.storage).Decode (Sample.env false)
        (Sample.anonStructElem :: Sample.uintElem kTag_GetCertReqMsg_ReqType 3 ::
          Sample.opCert) = .error WEAVE_ERROR_INVALID_ARGUMENT ∧
    ((Sample.decoded (Sample.env false)
        (Sample.requestNoAttest 1 kOID_SigAlgo_ECDSAWithSHA256 [])).RequestType =
        kReqType_GetInitialOpDeviceCert ∨
      (Sample.decoded (Sample.env false)
        (Sample.requestNoAttest 1 kOID_SigAlgo_ECDSAWithSHA256 [])).RequestType =
        kReqType_RotateOpDeviceCert) :=
  ⟨(Decode_request_type (Sample.env false) (GetCertificateRequestMessage.new Sample.storage)).1
      Sample.anonStructElem (Sample.uintElem kTag_GetCertReqMsg_ReqType 3) Sample.opCert
      rfl rfl rfl rfl (by decide) (by decide),
    (Decode_request_type (Sample.env false) (GetCertificateRequestMessage.new Sample.storage)).2
      (Sample.requestNoAttest 1 kOID_SigAlgo_ECDSAWithSHA256 [])
      (Sample.decoded (Sample.env false)
        (Sample.requestNoAttest 1 kOID_SigAlgo_ECDSAWithSHA256 [])) (by rfl)⟩

/-! ## Related certificates in an initial request -/

/-- C4: when the request type is `kReqType_GetInitialOpDeviceCert` and the element that
follows the operational device certificate is an array tagged
`kTag_GetCertReqMsg_OpRelatedCerts`, `Decode` returns an error
(`WEAVE_ERROR_UNEXPECTED_TLV_ELEMENT`). -/
theorem Decode_initial_request_with_related_certs (env : Collaborators)
    (self : GetCertificateRequestMessage) (msgBuf : List Token) (s : DecodeState)
    (h : Decode_ToOpDeviceCert env self msgBuf = .ok s)
    (hreq : s.self.RequestType = kReqType_GetInitialOpDeviceCert)
    (hty : s.reader.GetType = kTLVType_Array)
    (htg : s.reader.GetTag = ContextTag kTag_GetCertReqMsg_OpRelatedCerts) :
    self.Decode env msgBuf = .error WEAVE_ERROR_UNEXPECTED_TLV_ELEMENT := by
  unfold Decode Decode_ToOpDeviceSig Decode_ToManufAttest
  rw [h]
  refine bind_error _ _ _ (bind_error _ _ _ ?_)
  show (Decode_OpRelatedCerts env s >>= _) = _
  refine bind_error _ _ _ ?_
  simp [Decode_OpRelatedCerts, hty, htg, hreq, VerifyOrExit, bind, Except.bind]

/-! ## The attestation signature element -/

/-- A sample request of the initial type with a related-certificates array is rejected. -/
theorem Decode_initial_request_with_related_certs_witness :
    (GetCertificateRequestMessage.new Sample.storage).Decode (Sample.env false)
      Sample.requestInitialWithRelatedCerts = .error WEAVE_ERROR_UNEXPECTED_TLV_ELEMENT :=
  Decode_initial_request_with_related_certs (Sample.env false)
    (GetCertificateRequestMessage.new Sample.storage) Sample.requestInitialWithRelatedCerts
    (Sample.stateOf (Decode_ToOpDeviceCert (Sample.env false)
      (GetCertificateRequestMessage.new Sample.storage) Sample.requestInitialWithRelatedCerts))
    (by rfl) (by rfl) (by rfl) (by rfl)

/-- The operational signature verification of a sample request with HMAC attestation. -/
theorem Process_operational_signature_witness :
    ∃ tbs cert,
      readBytes (Sample.env false) (Sample.requestHMAC kOID_SigAlgo_HMACWithSHA256 [])
        (Sample.decoded (Sample.env false)
          (Sample.requestHMAC kOID_SigAlgo_HMACWithSHA256 [])).mTBSDataStart
        (Sample.decoded (Sample.env false)
          (Sample.requestHMAC kOID_SigAlgo_HMACWithSHA256 [])).mTBSDataLen = some tbs ∧
      (Sample.decoded (Sample.env false)
        (Sample.requestHMAC kOID_SigAlgo_HMACWithSHA256 [])).OperationalCertSet.Certs.head? =
          some cert ∧
      Sample.firstVerification (Sample.env false)
          (Sample.requestHMAC kOID_SigAlgo_HMACWithSHA256 []) =
        Call.VerifyECDSASignature ((Sample.env false).WeaveCurveIdToOID cert.PubKeyCurveId)
          ((Sample.env false).SHA256 tbs) (Sample.env false).kHashLength
          (Sample.decoded (Sample.env false)
            (Sample.requestHMAC kOID_SigAlgo_HMACWithSHA256 [])).OperationalSig
          cert.PublicKey.EC :=
  Process_operational_signature (Sample.env false)
    (Sample.requestHMAC kOID_SigAlgo_HMACWithSHA256 [])
    (GetCertificateRequestMessage.new Sample.storage)
    (Sample.decoded (Sample.env false) (Sample.requestHMAC kOID_SigAlgo_HMACWithSHA256 []))
    (Sample.firstVerification (Sample.env false)
      (Sample.requestHMAC kOID_SigAlgo_HMACWithSHA256 []))
    (by rfl) (by rfl)

theorem bind_ok {ε α β : Type} (a : α) (f : α → Except ε β) :
    ((Except.ok a : Except ε α) >>= f) = f a := rfl

/-- C7: for a request with an attestation variant present, once the
attestation-signature-algorithm element is read, `Decode` returns an error
(`WEAVE_ERROR_UNEXPECTED_TLV_ELEMENT`) unless the type and tag of the element that follows
are those of the signature of the recorded variant: an ECDSA signature structure for a Weave
certificate, an RSA byte string for an X.509 certificate, an HMAC byte string for an HMAC
key. -/
theorem Decode_attestation_signature_element (env : Collaborators)
    (self : GetCertificateRequestMessage) (msgBuf : List Token) (s s2 : DecodeState)
    (h1 : Decode_ToOpDeviceSig env self msgBuf = .ok s)
    (h2 : s.self.ManufAttestPresent = true)
    (h3 : Decode_ManufAttestSigAlgo s = .ok s2)
    (h4 : expectedManufAttestSigElement s2.self.ManufAttestType ≠
      some (s2.reader.GetType, s2.reader.GetTag)) :
    self.Decode env msgBuf = .error WEAVE_ERROR_UNEXPECTED_TLV_ELEMENT := by
  unfold Decode
  rw [h1, bind_ok]
  refine bind_error _ _ _ ?_
  unfold Decode_ManufAttestSig
  rw [if_pos h2, h3, bind_ok]
  unfold Decode_ManufAttestSigValue
  unfold GetCertificateRequestMessage.ManufAttestType at h4 ⊢
  split
  · rename_i hc
    refine bind_error _ _ _ ?_
    unfold VerifyOrExit
    rw [if_neg]
    intro ht
    simp only [beq_iff_eq] at ht
    rw [ht, hc.1, hc.2] at h4
    exact h4 rfl
  · split
    · rename_i hc
      refine bind_error _ _ _ ?_
      unfold VerifyOrExit
      rw [if_neg]
      intro ht
      simp only [beq_iff_eq] at ht
      rw [ht, hc.1, hc.2] at h4
      exact h4 rfl
    · split
      · rename_i hc
        refine bind_error _ _ _ ?_
        unfold VerifyOrExit
        rw [if_neg]
        intro ht
        simp only [beq_iff_eq] at ht
        rw [ht, hc.1, hc.2] at h4
        exact h4 rfl
      · rfl

/-- A sample request with HMAC attestation and an RSA signature element is rejected. -/
theorem Decode_attestation_signature_element_witness :
    (GetCertificateRequestMessage.new Sample.storage).Decode (Sample.env false)
      Sample.requestHMACWithRSASig = .error WEAVE_ERROR_UNEXPECTED_TLV_ELEMENT :=
  Decode_attestation_signature_element (Sample.env false)
    (GetCertificateRequestMessage.new Sample.storage) Sample.requestHMACWithRSASig
    (Sample.stateOf (Decode_ToOpDeviceSig (Sample.env false)
      (GetCertificateRequestMessage.new Sample.storage) Sample.requestHMACWithRSASig))
    (Sample.stateOf (Decode_ManufAttestSigAlgo
      (Sample.stateOf (Decode_ToOpDeviceSig (Sample.env false)
        (GetCertificateRequestMessage.new Sample.storage) Sample.requestHMACWithRSASig))))
    (by rfl) (by rfl) (by rfl) (by decide)

/-! ## The operational signature algorithm -/

theorem Decode_new_ManufAttestType (env : Collaborators) (storage : GetCertificateRequestMessage)
    (msgBuf : List Token) (msg : GetCertificateRequestMessage)
    (h : (GetCertificateRequestMessage.new storage).Decode env msgBuf = .ok msg) :
    msg.mManufAttestType = kManufAttestType_WeaveCert ∨
    msg.mManufAttestType = kManufAttestType_X509Cert ∨
    msg.mManufAttestType = kManufAttestType_HMAC ∨
    (msg.mManufAttestType = kManufAttestType_Undefined ∧
      ∃ m, m.mReqType = msg.mReqType ∧ env.ManufAttestRequired m = false) := by
  obtain ⟨s, s', h5, _, _, _, hq, ht, _⟩ := Decode_ok _ _ _ _ h
  obtain ⟨_, _, _, hty⟩ := ToManufAttest_ok _ _ _ _ h5
  rw [ht]
  rcases hty with t | t | t | ⟨t, hr⟩
  · exact Or.inl t
  · exact Or.inr (Or.inl t)
  · exact Or.inr (Or.inr (Or.inl t))
  · exact Or.inr (Or.inr (Or.inr ⟨t, s.self, hq.symm, hr⟩))

theorem Process_Authorize_ret (env : Collaborators) (msgBuf : List Token)
    (msg : GetCertificateRequestMessage) :
    (Process_Authorize env msgBuf msg).1 ≠ some (.returned WEAVE_NO_ERROR) := by
  unfold Process_Authorize
  simp only []
  repeat' split
  all_goals simp

theorem Process_ManufAttest_ret (env : Collaborators) (msgBuf : List Token)
    (msg : GetCertificateRequestMessage)
    (h : msg.mManufAttestType = kManufAttestType_WeaveCert ∨
      msg.mManufAttestType = kManufAttestType_X509Cert ∨
      msg.mManufAttestType = kManufAttestType_HMAC ∨
      msg.mManufAttestType = kManufAttestType_Undefined) :
    (Process_ManufAttest env msgBuf msg).1 ≠ some (.returned WEAVE_NO_ERROR) := by
  unfold Process_ManufAttest
  simp only [GetCertificateRequestMessage.ManufAttestPresent,
    GetCertificateRequestMessage.ManufAttestType]
  repeat' split
  all_goals simp_all

theorem Process_Signatures_ret (env : Collaborators) (msgBuf : List Token)
    (msg : GetCertificateRequestMessage)
    (h : msg.OperationalSigAlgo ≠ kOID_SigAlgo_ECDSAWithSHA256) :
    (Process_Signatures env msgBuf msg).1 ≠ .returned WEAVE_NO_ERROR := by
  unfold Process_Signatures
  simp only [h, if_false]
  split <;> simp

theorem Process_Validate_ret (env : Collaborators) (msgBuf : List Token)
    (msg : GetCertificateRequestMessage)
    (hty : msg.mManufAttestType = kManufAttestType_WeaveCert ∨
      msg.mManufAttestType = kManufAttestType_X509Cert ∨
      msg.mManufAttestType = kManufAttestType_HMAC ∨
      msg.mManufAttestType = kManufAttestType_Undefined)
    (h : msg.OperationalSigAlgo ≠ kOID_SigAlgo_ECDSAWithSHA256) :
    (Process_Validate env msgBuf msg).ret ≠ .returned WEAVE_NO_ERROR := by
  have hA := Process_Authorize_ret env msgBuf msg
  have hM := Process_ManufAttest_ret env msgBuf msg hty
  obtain ⟨_, _, _, _, _, m5, _⟩ := Process_ManufAttest_spec env msgBuf msg
  unfold Process_Validate
  split
  · rename_i out calls heq
    rw [heq] at hA
    simpa using hA
  · simp only []
    split
    · split
      · simp
      · split
        · rename_i out msg' calls2 heq2
          rw [heq2] at hM
          simpa using hM
        · rename_i msg' calls2 heq2
          rw [heq2] at m5
          exact Process_Signatures_ret env msgBuf msg' (by rw [m5]; exact h)
    · rename_i hv
      simpa using hv

theorem Process_Signatures_other_algorithm (env : Collaborators) (msgBuf : List Token)
    (msg : GetCertificateRequestMessage) (tbs : List Nat)
    (h : msg.OperationalSigAlgo ≠ kOID_SigAlgo_ECDSAWithSHA256)
    (ht : readBytes env msgBuf msg.mTBSDataStart msg.mTBSDataLen = some tbs) :
    Process_Signatures env msgBuf msg =
      (.returned WEAVE_ERROR_INVALID_ARGUMENT,
        [Call.SHA256 msg.mTBSDataStart msg.mTBSDataLen]) := by
  unfold Process_Signatures
  simp only [ht, h, if_false]

/-- C9 as amended: `Decode` records the operational-signature algorithm id without testing
it; for every request `Decode` accepts whose id is not ECDSA-with-SHA-256,
`ProcessGetCertificateRequest` does not return `WEAVE_NO_ERROR` and verifies no signature,
and its block that follows the validation of the certificates, once the hash of the signed
span is generated, returns `WEAVE_ERROR_INVALID_ARGUMENT`. -/
theorem Process_rejects_operational_algorithm (env : Collaborators)
    (storage : GetCertificateRequestMessage) (msgBuf : List Token)
    (msg : GetCertificateRequestMessage)
    (hd : (GetCertificateRequestMessage.new storage).Decode env msgBuf = .ok msg)
    (h : msg.OperationalSigAlgo ≠ kOID_SigAlgo_ECDSAWithSHA256) :
    (ProcessGetCertificateRequest env msgBuf (GetCertificateRequestMessage.new storage)).ret ≠
      .returned WEAVE_NO_ERROR ∧
    (∀ c ∈ (ProcessGetCertificateRequest env msgBuf
      (GetCertificateRequestMessage.new storage)).calls, c.isSignatureVerification = false) ∧
    Process_Signatures env msgBuf msg =
      (.returned WEAVE_ERROR_INVALID_ARGUMENT,
        [Call.SHA256 msg.mTBSDataStart msg.mTBSDataLen]) := by
  have hty := Decode_new_ManufAttestType env storage msgBuf msg hd
  obtain ⟨_, _, body, _, _, _, _, _, _, _, _, _, _, _, _, hread⟩ :=
    Decode_span_of_new env storage msgBuf msg hd
  refine ⟨?_, ?_, Process_Signatures_other_algorithm env msgBuf msg _ h hread⟩
  · unfold ProcessGetCertificateRequest
    rw [hd]
    refine Process_Validate_ret env msgBuf msg ?_ h
    rcases hty with t | t | t | ⟨t, _⟩
    · exact Or.inl t
    · exact Or.inr (Or.inl t)
    · exact Or.inr (Or.inr (Or.inl t))
    · exact Or.inr (Or.inr (Or.inr t))
  · intro c hc
    unfold ProcessGetCertificateRequest at hc
    rw [hd] at hc
    cases hf : (Process_Validate env msgBuf msg).calls.find? Call.isSignatureVerification with
    | none =>
      have := List.find?_eq_none.mp hf c hc
      simpa using this
    | some c' =>
      obtain ⟨_, _, _, _, e3, _⟩ := Process_Validate_first _ _ _ _ hf
      exact absurd e3 h

/-- C9, counterexample: a request whose operational-signature algorithm id is 0, not
ECDSA-with-SHA-256, is accepted by `Decode`. -/
theorem Decode_accepts_other_operational_algorithm :
    ∃ msg, (GetCertificateRequestMessage.new Sample.storage).Decode (Sample.env false)
        (Sample.requestNoAttest kReqType_GetInitialOpDeviceCert 0 []) = .ok msg ∧
      msg.OperationalSigAlgo = 0 ∧ msg.OperationalSigAlgo ≠ kOID_SigAlgo_ECDSAWithSHA256 :=
  ⟨Sample.decoded (Sample.env false)
    (Sample.requestNoAttest kReqType_GetInitialOpDeviceCert 0 []), by rfl, by rfl, by decide⟩

/-- A sample request with operational-signature algorithm id 0 is not validated. -/
theorem Process_rejects_operational_algorithm_witness :
    (ProcessGetCertificateRequest (Sample.env false)
      (Sample.requestNoAttest kReqType_GetInitialOpDeviceCert 0 [])
      (GetCertificateRequestMessage.new Sample.storage)).ret ≠ .returned WEAVE_NO_ERROR ∧
    (∀ c ∈ (ProcessGetCertificateRequest (Sample.env false)
      (Sample.requestNoAttest kReqType_GetInitialOpDeviceCert 0 [])
      (GetCertificateRequestMessage.new Sample.storage)).calls,
      c.isSignatureVerification = false) ∧
    Process_Signatures (Sample.env false)
      (Sample.requestNoAttest kReqType_GetInitialOpDeviceCert 0 [])
      (Sample.decoded (Sample.env false)
        (Sample.requestNoAttest kReqType_GetInitialOpDeviceCert 0 [])) =
      (.returned WEAVE_ERROR_INVALID_ARGUMENT,
        [Call.SHA256
          (Sample.decoded (Sample.env false)
            (Sample.requestNoAttest kReqType_GetInitialOpDeviceCert 0 [])).mTBSDataStart
          (Sample.decoded (Sample.env false)
            (Sample.requestNoAttest kReqType_GetInitialOpDeviceCert 0 [])).mTBSDataLen]) :=
  Process_rejects_operational_algorithm (Sample.env false) Sample.storage
    (Sample.requestNoAttest kReqType_GetInitialOpDeviceCert 0 [])
    (Sample.decoded (Sample.env false)
      (Sample.requestNoAttest kReqType_GetInitialOpDeviceCert 0 []))
    (by rfl) (by decide)

/-! ## The attestation requirement -/

theorem ToOpDeviceCert_flag (env : Collaborators) (g : GetCertificateRequestMessage → Bool)
    (self : GetCertificateRequestMessage) (msgBuf : List Token) :
    Decode_ToOpDeviceCert { env with ManufAttestRequired := g } self msgBuf =
      Decode_ToOpDeviceCert env self msgBuf := rfl

theorem OpRelatedCerts_flag (env : Collaborators) (g : GetCertificateRequestMessage → Bool)
    (s : DecodeState) :
    Decode_OpRelatedCerts { env with ManufAttestRequired := g } s =
      Decode_OpRelatedCerts env s := rfl

theorem ManufAttest_required (env : Collaborators) (g : GetCertificateRequestMessage → Bool)
    (s s' : DecodeState)
    (h : Decode_ManufAttest env s = .ok s')
    (hnone : s'.self.mManufAttestType = kManufAttestType_Undefined)
    (hg : g s'.self = true) :
    Decode_ManufAttest { env with ManufAttestRequired := g } s =
      .error WEAVE_ERROR_INVALID_ARGUMENT := by
  unfold Decode_ManufAttest at h ⊢
  split at h
  · obtain ⟨_, _, _, _, e, _⟩ := ManufAttest_WeaveCert_ok _ [] s s' h
    rw [e] at hnone
    cases hnone
  · split at h
    · obtain ⟨_, _, _, _, e, _⟩ := ManufAttest_X509Cert_ok _ [] s s' h
      rw [e] at hnone
      cases hnone
    · split at h
      · rename_i hc
        obtain ⟨_, _, _, _, e, _⟩ := ManufAttest_HMAC_ok [] s s' hc.1 h
        rw [e] at hnone
        cases hnone
      · rename_i h1 h2 h3
        simp only [bind_eq_ok, VerifyOrExit_eq_ok, pure, Except.pure, Except.ok.injEq] at h
        obtain ⟨_, _, rfl⟩ := h
        rw [if_neg h1, if_neg h2, if_neg h3]
        simp [VerifyOrExit, hg, bind, Except.bind]

/-- C10 as amended: the attestation requirement is enforced by `Decode`. A request that
`Decode` accepts with attestation variant undefined is rejected by `Decode` with
`WEAVE_ERROR_INVALID_ARGUMENT` as soon as `ManufAttestRequired()` is true (for the messages
of its request type); and when `ManufAttestRequired()` is true every request `Decode` accepts
has an attestation variant. -/
theorem Decode_attestation_requirement (env : Collaborators)
    (storage : GetCertificateRequestMessage) (msgBuf : List Token)
    (msg : GetCertificateRequestMessage)
    (h : (GetCertificateRequestMessage.new storage).Decode env msgBuf = .ok msg) :
    (msg.ManufAttestType = kManufAttestType_Undefined →
      ∀ g : GetCertificateRequestMessage → Bool, (∀ m, m.mReqType = msg.mReqType → g m = true) →
        (GetCertificateRequestMessage.new storage).Decode
          { env with ManufAttestRequired := g } msgBuf =
            .error WEAVE_ERROR_INVALID_ARGUMENT) ∧
    ((∀ m, m.mReqType = msg.mReqType → env.ManufAttestRequired m = true) →
      msg.ManufAttestPresent = true) := by
  refine ⟨fun hnone g hg => ?_, fun hreq => ?_⟩
  · obtain ⟨s, s', h5, _, _, _, hq, ht, _⟩ := Decode_ok _ _ _ _ h
    simp only [Decode_ToManufAttest, bind_eq_ok] at h5
    obtain ⟨s3, h3, s4, h4, h5⟩ := h5
    have h5' := ManufAttest_required env g s4 s h5 (by rw [← ht]; exact hnone) (hg _ hq.symm)
    unfold Decode Decode_ToOpDeviceSig Decode_ToManufAttest
    rw [ToOpDeviceCert_flag, h3, bind_ok, OpRelatedCerts_flag, h4, bind_ok, h5']
    rfl
  · rcases Decode_new_ManufAttestType _ storage msgBuf msg h with t | t | t | ⟨_, m, hm, t⟩
    · simp [GetCertificateRequestMessage.ManufAttestPresent, t]
    · simp [GetCertificateRequestMessage.ManufAttestPresent, t]
    · simp [GetCertificateRequestMessage.ManufAttestPresent, t]
    · rw [hreq m hm] at t
      cases t

/-- C10, counterexample: a request of the initial type with an operational certificate, a
valid operational signature and no attestation field is accepted by `Decode` with variant
undefined when `ManufAttestRequired()` is false, yet rejected by `Decode` itself when
`ManufAttestRequired()` is true. -/
theorem Decode_enforces_attestation_requirement :
    (∃ msg, (GetCertificateRequestMessage.new Sample.storage).Decode (Sample.env false)
        (Sample.requestNoAttest kReqType_GetInitialOpDeviceCert kOID_SigAlgo_ECDSAWithSHA256 [])
          = .ok msg ∧ msg.ManufAttestType = kManufAttestType_Undefined) ∧
    (GetCertificateRequestMessage.new Sample.storage).Decode (Sample.env true)
      (Sample.requestNoAttest kReqType_GetInitialOpDeviceCert kOID_SigAlgo_ECDSAWithSHA256 [])
        = .error WEAVE_ERROR_INVALID_ARGUMENT :=
  ⟨⟨Sample.decoded (Sample.env false)
    (Sample.requestNoAttest kReqType_GetInitialOpDeviceCert kOID_SigAlgo_ECDSAWithSHA256 []),
    by rfl, by rfl⟩, by rfl⟩

/-- A sample request without attestation, accepted when attestation is not required, is
rejected when it is required for initial requests; a sample request with HMAC attestation,
accepted when attestation is required, has its variant present. -/
theorem Decode_attestation_requirement_witness :
    (GetCertificateRequestMessage.new Sample.storage).Decode
      { Sample.env false with
        ManufAttestRequired := fun m => m.mReqType == kReqType_GetInitialOpDeviceCert }
      (Sample.requestNoAttest kReqType_GetInitialOpDeviceCert kOID_SigAlgo_ECDSAWithSHA256 [])
        = .error WEAVE_ERROR_INVALID_ARGUMENT ∧
    (Sample.decoded (Sample.env true)
      (Sample.requestHMAC kOID_SigAlgo_HMACWithSHA256 [])).ManufAttestPresent = true :=
  ⟨(Decode_attestation_requirement (Sample.env false) Sample.storage
      (Sample.requestNoAttest kReqType_GetInitialOpDeviceCert kOID_SigAlgo_ECDSAWithSHA256 [])
      (Sample.decoded (Sample.env false)
        (Sample.requestNoAttest kReqType_GetInitialOpDeviceCert kOID_SigAlgo_ECDSAWithSHA256 []))
      (by rfl)).1 (by rfl)
      (fun m => m.mReqType == kReqType_GetInitialOpDeviceCert)
      (fun m hm => by simpa using hm),
    (Decode_attestation_requirement (Sample.env true) Sample.storage
      (Sample.requestHMAC kOID_SigAlgo_HMACWithSHA256 [])
      (Sample.decoded (Sample.env true) (Sample.requestHMAC kOID_SigAlgo_HMACWithSHA256 []))
      (by rfl)).2 (fun _ _ => rfl)⟩

/-! ## Attestation variants and trailing elements -/

/-- When the attestation-signature algorithm id is HMAC-with-SHA-256, the only call the
attestation-signature block makes is `VerifyHMACSignature` on the span
(`mTBSDataStart`, `mTBSDataLen`) with the configured key, and its result is that of the MAC
check on the bytes of the span, not on their hash. -/
theorem Process_ManufAttestSig_HMAC (env : Collaborators) (msgBuf : List Token)
    (msg : GetCertificateRequestMessage) (tbsHash : List Nat)
    (halgo : msg.ManufAttestSigAlgo = kOID_SigAlgo_HMACWithSHA256) :
    (∀ c ∈ (Process_ManufAttestSig env msgBuf msg tbsHash).2, ∃ sig,
      msg.ManufAttestSig = .HMAC sig ∧
      c = Call.VerifyHMACSignature kOID_SigAlgo_HMACWithSHA256 msg.mTBSDataStart
        msg.mTBSDataLen sig env.TestDevice1_ManufAttest_HMACKey
        env.TestDevice1_ManufAttest_HMACKey.length) ∧
    (∀ data sig sigBytes, msg.ManufAttestPresent = true →
      msg.ManufAttestSig = .HMAC sig →
      readBytes env msgBuf msg.mTBSDataStart msg.mTBSDataLen = some data →
      readBytes env msgBuf sig.Sig sig.Len = some sigBytes →
      (Process_ManufAttestSig env msgBuf msg tbsHash).1 =
        .returned (env.VerifyHMACSignature kOID_SigAlgo_HMACWithSHA256 data sigBytes
          env.TestDevice1_ManufAttest_HMACKey)) := by
  have h1 : kOID_SigAlgo_HMACWithSHA256 ≠ kOID_SigAlgo_ECDSAWithSHA256 := by decide
  have h2 : kOID_SigAlgo_HMACWithSHA256 ≠ kOID_SigAlgo_SHA256WithRSAEncryption := by decide
  refine ⟨fun c hc => ?_, fun data sig sigBytes hp hs hd hb => ?_⟩
  · unfold Process_ManufAttestSig at hc
    rw [halgo, if_neg h1, if_neg h2, if_pos rfl] at hc
    split at hc
    · split at hc
      · rename_i sig hs
        refine ⟨sig, hs, ?_⟩
        split at hc <;> simpa using hc
      · simp at hc
    · simp at hc
  · unfold Process_ManufAttestSig
    rw [halgo, if_neg h1, if_neg h2, if_pos rfl, if_pos hp]
    simp only [hs, hd, hb]

/-- C3, the failing request: HMAC attestation (key id, meta data, HMAC signature byte
string) with the attestation-signature algorithm id of ECDSA-with-SHA-256. `Decode` accepts
it with variant HMAC; `ProcessGetCertificateRequest` verifies the operational signature,
then selects the attestation routine by the algorithm id: it makes no `VerifyHMACSignature`
call, and ends reading the never-initialised `ManufAttestWeaveCertSet`. -/
theorem Process_HMAC_request_with_ECDSA_algorithm_id :
    (ProcessGetCertificateRequest (Sample.env false)
      (Sample.requestHMAC kOID_SigAlgo_ECDSAWithSHA256 [])
      (GetCertificateRequestMessage.new Sample.storage)).msg.ManufAttestType =
        kManufAttestType_HMAC ∧
    (ProcessGetCertificateRequest (Sample.env false)
      (Sample.requestHMAC kOID_SigAlgo_ECDSAWithSHA256 [])
      (GetCertificateRequestMessage.new Sample.storage)).calls.filter
        Call.isSignatureVerification =
      [Call.VerifyECDSASignature 102 [15] 32 { R := [1], S := [2] } { ECPoint := [4, 5] }] ∧
    (ProcessGetCertificateRequest (Sample.env false)
      (Sample.requestHMAC kOID_SigAlgo_ECDSAWithSHA256 [])
      (GetCertificateRequestMessage.new Sample.storage)).ret = .undefined := by
  refine ⟨by rfl, by rfl, by rfl⟩

/-- After the attestation block, whatever variant it recorded, the current element has to be
the operational-signature-algorithm element: a field of another attestation variant in
that place makes `Decode` fail. -/
theorem Decode_second_variant_in_place (env : Collaborators)
    (self : GetCertificateRequestMessage) (msgBuf : List Token) (s : DecodeState)
    (h : Decode_ToManufAttest env self msgBuf = .ok s)
    (hne : s.reader.GetTag ≠ ContextTag kTag_GetCertReqMsg_OpDeviceSigAlgo) :
    ∃ e, self.Decode env msgBuf = .error e := by
  unfold Decode Decode_ToOpDeviceSig
  rw [h, bind_ok]
  by_cases hty : s.reader.GetType = kTLVType_UnsignedInteger
  · refine ⟨WEAVE_ERROR_UNEXPECTED_TLV_ELEMENT, bind_error _ _ _ ?_⟩
    simp [Decode_OpDeviceSig, VerifyOrExit, hty, hne, bind, Except.bind]
  · refine ⟨WEAVE_ERROR_WRONG_TLV_TYPE, bind_error _ _ _ ?_⟩
    simp [Decode_OpDeviceSig, VerifyOrExit, hty, bind, Except.bind]

/-- C5, the failing request: HMAC attestation, the two signatures, then a structure tagged
`kTag_GetCertReqMsg_ManufAttest_WeaveCert` as last element of the top-level structure.
`Decode` accepts it and records the variant HMAC. -/
theorem Decode_accepts_trailing_second_variant :
    ∃ msg, (GetCertificateRequestMessage.new Sample.storage).Decode (Sample.env false)
        (Sample.requestHMAC kOID_SigAlgo_HMACWithSHA256
          [Sample.structElem kTag_GetCertReqMsg_ManufAttest_WeaveCert, Sample.uintElem 1 1,
            Sample.endElem]) = .ok msg ∧
      msg.ManufAttestType = kManufAttestType_HMAC :=
  ⟨Sample.decoded (Sample.env false) (Sample.requestHMAC kOID_SigAlgo_HMACWithSHA256
    [Sample.structElem kTag_GetCertReqMsg_ManufAttest_WeaveCert, Sample.uintElem 1 1,
      Sample.endElem]),
    by rfl, by rfl⟩

/-- C8, the failing request: no attestation, and one more element (an unsigned integer with
context tag 99) after the operational signature. `Decode` accepts it; with two such
elements it fails. -/
theorem Decode_accepts_trailing_element :
    (∃ msg, (GetCertificateRequestMessage.new Sample.storage).Decode (Sample.env false)
        (Sample.requestNoAttest kReqType_GetInitialOpDeviceCert kOID_SigAlgo_ECDSAWithSHA256
          [Sample.uintElem 99 1]) = .ok msg) ∧
    (GetCertificateRequestMessage.new Sample.storage).Decode (Sample.env false)
        (Sample.requestNoAttest kReqType_GetInitialOpDeviceCert kOID_SigAlgo_ECDSAWithSHA256
          [Sample.uintElem 99 1, Sample.uintElem 98 1]) =
      .error WEAVE_ERROR_UNEXPECTED_TLV_ELEMENT :=
  ⟨⟨Sample.decoded (Sample.env false)
    (Sample.requestNoAttest kReqType_GetInitialOpDeviceCert kOID_SigAlgo_ECDSAWithSHA256
      [Sample.uintElem 99 1]), by rfl⟩, by rfl⟩

/-! ## The TLV writer appends the elements it is given -/

theorem WriteElement_ok (w w' : TLVWriter) (t : Token)
    (h1 : (w.WriteElement t).1 = WEAVE_NO_ERROR) (h2 : (w.WriteElement t).2 = w') :
    w'.written = w.written ++ [t] ∧ w'.mContainerType = w.mContainerType := by
  unfold TLVWriter.WriteElement at h1 h2
  split at h1
  · split at h1
    · rename_i ha hb
      simp only [ha, hb, if_true] at h2
      subst h2
      exact ⟨rfl, rfl⟩
    · cases h1
  · cases h1

theorem Put_ok (w w' : TLVWriter) (tag : Tag) (v : Nat)
    (h : SuccessOrExit (w.Put tag v) = .ok w') :
    w'.written = w.written ++ [TLVWriter.uintElement tag v] ∧
      w'.mContainerType = w.mContainerType := by
  rw [SuccessOrExit_eq_ok] at h
  exact WriteElement_ok _ _ _ h.1 h.2

theorem PutBytes_ok (w w' : TLVWriter) (tag : Tag) (data : List Nat)
    (h : SuccessOrExit (w.PutBytes tag data) = .ok w') :
    w'.written = w.written ++ [TLVWriter.bytesElement tag data] ∧
      w'.mContainerType = w.mContainerType := by
  rw [SuccessOrExit_eq_ok] at h
  exact WriteElement_ok _ _ _ h.1 h.2

theorem PutBoolean_ok (w w' : TLVWriter) (tag : Tag) (v : Bool)
    (h : SuccessOrExit (w.PutBoolean tag v) = .ok w') :
    w'.written = w.written ++ [TLVWriter.booleanElement tag v] ∧
      w'.mContainerType = w.mContainerType := by
  rw [SuccessOrExit_eq_ok] at h
  exact WriteElement_ok _ _ _ h.1 h.2

theorem StartContainer_ok (w w' : TLVWriter) (tag : Tag) (ty outer : TLVType)
    (h : SuccessOrExit (w.StartContainer tag ty) = .ok (outer, w')) :
    w'.written = w.written ++ [TLVWriter.containerElement tag ty] ∧
      w'.mContainerType = ty ∧ outer = w.mContainerType := by
  rw [SuccessOrExit_eq_ok] at h
  obtain ⟨h1, h2⟩ := h
  unfold TLVWriter.StartContainer at h1 h2
  split at h1
  · split at h1
    · simp only [] at h1 h2
      split at h1
      · rename_i ha hb hc
        simp only [ha, hb, hc, if_true, Prod.mk.injEq] at h2
        obtain ⟨rfl, rfl⟩ := h2
        obtain ⟨e1, _⟩ := WriteElement_ok _ _ _ hc rfl
        exact ⟨e1, rfl, rfl⟩
      · rename_i hc
        exact absurd h1 hc
    · cases h1
  · cases h1

theorem EndContainer_ok (w w' : TLVWriter) (outer : TLVType)
    (h : SuccessOrExit (w.EndContainer outer) = .ok w') :
    w'.written = w.written ++ [TLVWriter.endOfContainerElement] ∧
      w'.mContainerType = outer := by
  rw [SuccessOrExit_eq_ok] at h
  obtain ⟨h1, h2⟩ := h
  unfold TLVWriter.EndContainer at h1 h2
  split at h1
  · rename_i ha
    simp only [ha, if_true] at h2
    subst h2
    exact ⟨rfl, rfl⟩
  · cases h1

/-! ## What the blocks of `GenerateServiceAssignedDeviceCert` write -/

theorem Generate_SerialNumber_ok (svc : ServiceCollaborators) (w w' : TLVWriter)
    (h : Generate_SerialNumber svc w = .ok w') :
    w'.written = w.written ++ [TLVWriter.bytesElement (ContextTag kTag_SerialNumber)
      (certSerialNumber (svc.GetSecureRandomData kCertSerialNumber_Length).2)] ∧
    w'.mContainerType = w.mContainerType := by
  simp only [Generate_SerialNumber, bind_eq_ok] at h
  obtain ⟨random, h1, h2⟩ := h
  rw [SuccessOrExit_eq_ok] at h1
  rw [h1.2]
  exact PutBytes_ok _ _ _ _ h2

theorem Generate_Issuer_ok (certData : WeaveCertificateData) (w w' : TLVWriter)
    (h : Generate_Issuer certData w = .ok w') :
    w'.written = w.written ++
      [TLVWriter.uintElement (ContextTag kTag_SignatureAlgorithm)
          (andNot certData.SigAlgoOID kOIDCategory_Mask % 256),
        TLVWriter.containerElement (ContextTag kTag_Issuer) kTLVType_Path,
        TLVWriter.uintElement (ContextTag (kOID_AttributeType_WeaveDeviceId &&& kOID_Mask))
          certData.IssuerDN.AttrValue.WeaveId,
        TLVWriter.endOfContainerElement] ∧
    w'.mContainerType = w.mContainerType := by
  simp only [Generate_Issuer, bind_eq_ok] at h
  obtain ⟨w1, h1, ⟨c2, w2⟩, h2, w3, h3, h4⟩ := h
  obtain ⟨a1, b1⟩ := Put_ok _ _ _ _ h1
  obtain ⟨a2, b2, c2'⟩ := StartContainer_ok _ _ _ _ _ h2
  obtain ⟨a3, b3⟩ := Put_ok _ _ _ _ h3
  obtain ⟨a4, b4⟩ := EndContainer_ok _ _ _ h4
  refine ⟨?_, ?_⟩
  · rw [a4, a3, a2, a1]; simp
  · rw [b4, c2', b1]

theorem Generate_Validity_ok (svc : ServiceCollaborators) (w w' : TLVWriter)
    (h : Generate_Validity svc w = .ok w') :
    w'.written = w.written ++
      [TLVWriter.uintElement (ContextTag kTag_NotBefore)
          (svc.PackCertTime
            { Year := 2019, Month := 8, Day := 1, Hour := 14, Minute := 11, Second := 54 }).2,
        TLVWriter.uintElement (ContextTag kTag_NotAfter)
          (svc.PackCertTime
            { Year := 2019 + 10, Month := 8, Day := 1, Hour := 14, Minute := 11,
              Second := 54 }).2] ∧
    w'.mContainerType = w.mContainerType := by
  simp only [Generate_Validity, bind_eq_ok] at h
  obtain ⟨t1, h1, t2, h2, w1, h3, h4⟩ := h
  rw [SuccessOrExit_eq_ok] at h1 h2
  obtain ⟨a3, b3⟩ := Put_ok _ _ _ _ h3
  obtain ⟨a4, b4⟩ := Put_ok _ _ _ _ h4
  refine ⟨?_, ?_⟩
  · rw [a4, a3, ← h1.2, ← h2.2]; simp
  · rw [b4, b3]

theorem Generate_Subject_ok (certData : WeaveCertificateData) (w w' : TLVWriter)
    (h : Generate_Subject certData w = .ok w') :
    w'.written = w.written ++
      [TLVWriter.containerElement (ContextTag kTag_Subject) kTLVType_Path,
        TLVWriter.uintElement (ContextTag (kOID_AttributeType_WeaveDeviceId &&& kOID_Mask))
          certData.SubjectDN.AttrValue.WeaveId,
        TLVWriter.endOfContainerElement] ∧
    w'.mContainerType = w.mContainerType := by
  simp only [Generate_Subject, bind_eq_ok] at h
  obtain ⟨⟨c2, w2⟩, h2, w3, h3, h4⟩ := h
  obtain ⟨a2, b2, c2'⟩ := StartContainer_ok _ _ _ _ _ h2
  obtain ⟨a3, b3⟩ := Put_ok _ _ _ _ h3
  obtain ⟨a4, b4⟩ := EndContainer_ok _ _ _ h4
  refine ⟨?_, ?_⟩
  · rw [a4, a3, a2]; simp
  · rw [b4, c2']

theorem Generate_PublicKey_ok (certData : WeaveCertificateData) (w w' : TLVWriter)
    (h : Generate_PublicKey certData w = .ok w') :
    w'.written = w.written ++
      [TLVWriter.uintElement (ContextTag kTag_PublicKeyAlgorithm)
          ((certData.PubKeyAlgoOID &&& kOID_Mask) % 256),
        TLVWriter.uintElement (ContextTag kTag_EllipticCurveIdentifier)
          (certData.PubKeyCurveId % 4294967296),
        TLVWriter.bytesElement (ContextTag kTag_EllipticCurvePublicKey)
          certData.PublicKey.EC.ECPoint] ∧
    w'.mContainerType = w.mContainerType := by
  simp only [Generate_PublicKey, bind_eq_ok] at h
  obtain ⟨w1, h1, w2, h2, h3⟩ := h
  obtain ⟨a1, b1⟩ := Put_ok _ _ _ _ h1
  obtain ⟨a2, b2⟩ := Put_ok _ _ _ _ h2
  obtain ⟨a3, b3⟩ := PutBytes_ok _ _ _ _ h3
  refine ⟨?_, ?_⟩
  · rw [a3, a2, a1]; simp
  · rw [b3, b2, b1]

theorem Generate_BasicConstraints_KeyUsage_ok (w w' : TLVWriter)
    (h : Generate_BasicConstraints_KeyUsage w = .ok w') :
    w'.written = w.written ++
      [TLVWriter.containerElement (ContextTag kTag_BasicConstraints) kTLVType_Structure,
        TLVWriter.booleanElement (ContextTag kTag_BasicConstraints_Critical) true,
        TLVWriter.endOfContainerElement,
        TLVWriter.containerElement (ContextTag kTag_KeyUsage) kTLVType_Structure,
        TLVWriter.booleanElement (ContextTag kTag_KeyUsage_Critical) true,
        TLVWriter.uintElement (ContextTag kTag_KeyUsage_KeyUsage)
          ((kKeyUsageFlag_DigitalSignature ||| kKeyUsageFlag_KeyEncipherment) % 65536),
        TLVWriter.endOfContainerElement] ∧
    w'.mContainerType = w.mContainerType := by
  simp only [Generate_BasicConstraints_KeyUsage, bind_eq_ok] at h
  obtain ⟨⟨c1, w1⟩, h1, w2, h2, w3, h3, ⟨c4, w4⟩, h4, w5, h5, w6, h6, h7⟩ := h
  obtain ⟨a1, b1, c1'⟩ := StartContainer_ok _ _ _ _ _ h1
  obtain ⟨a2, b2⟩ := PutBoolean_ok _ _ _ _ h2
  obtain ⟨a3, b3⟩ := EndContainer_ok _ _ _ h3
  obtain ⟨a4, b4, c4'⟩ := StartContainer_ok _ _ _ _ _ h4
  obtain ⟨a5, b5⟩ := PutBoolean_ok _ _ _ _ h5
  obtain ⟨a6, b6⟩ := Put_ok _ _ _ _ h6
  obtain ⟨a7, b7⟩ := EndContainer_ok _ _ _ h7
  refine ⟨?_, ?_⟩
  · rw [a7, a6, a5, a4, a3, a2, a1]; simp
  · rw [b7, c4', b3, c1']

theorem Generate_ExtendedKeyUsage_ok (w w' : TLVWriter)
    (h : Generate_ExtendedKeyUsage w = .ok w') :
    w'.written = w.written ++
      [TLVWriter.containerElement (ContextTag kTag_ExtendedKeyUsage) kTLVType_Structure,
        TLVWriter.booleanElement (ContextTag kTag_ExtendedKeyUsage_Critical) true,
        TLVWriter.containerElement (ContextTag kTag_ExtendedKeyUsage_KeyPurposes) kTLVType_Array,
        TLVWriter.uintElement AnonymousTag ((kOID_KeyPurpose_ClientAuth &&& kOID_Mask) % 256),
        TLVWriter.uintElement AnonymousTag ((kOID_KeyPurpose_ServerAuth &&& kOID_Mask) % 256),
        TLVWriter.endOfContainerElement,
        TLVWriter.endOfContainerElement] ∧
    w'.mContainerType = w.mContainerType := by
  simp only [Generate_ExtendedKeyUsage, bind_eq_ok] at h
  obtain ⟨⟨c1, w1⟩, h1, w2, h2, ⟨c3, w3⟩, h3, w4, h4, w5, h5, w6, h6, h7⟩ := h
  obtain ⟨a1, b1, c1'⟩ := StartContainer_ok _ _ _ _ _ h1
  obtain ⟨a2, b2⟩ := PutBoolean_ok _ _ _ _ h2
  obtain ⟨a3, b3, c3'⟩ := StartContainer_ok _ _ _ _ _ h3
  obtain ⟨a4, b4⟩ := Put_ok _ _ _ _ h4
  obtain ⟨a5, b5⟩ := Put_ok _ _ _ _ h5
  obtain ⟨a6, b6⟩ := EndContainer_ok _ _ _ h6
  obtain ⟨a7, b7⟩ := EndContainer_ok _ _ _ h7
  refine ⟨?_, ?_⟩
  · rw [a7, a6, a5, a4, a3, a2, a1]; simp
  · rw [b7, c1']

theorem Generate_KeyIdentifiers_ok (certData : WeaveCertificateData) (w w' : TLVWriter)
    (h : Generate_KeyIdentifiers certData w = .ok w') :
    w'.written = w.written ++
      [TLVWriter.containerElement (ContextTag kTag_SubjectKeyIdentifier) kTLVType_Structure,
        TLVWriter.bytesElement (ContextTag kTag_SubjectKeyIdentifier_KeyIdentifier)
          certData.SubjectKeyId.Id,
        TLVWriter.endOfContainerElement,
        TLVWriter.containerElement (ContextTag kTag_AuthorityKeyIdentifier) kTLVType_Structure,
        TLVWriter.bytesElement (ContextTag kTag_AuthorityKeyIdentifier_KeyIdentifier)
          certData.AuthKeyId.Id,
        TLVWriter.endOfContainerElement] ∧
    w'.mContainerType = w.mContainerType := by
  simp only [Generate_KeyIdentifiers, bind_eq_ok] at h
  obtain ⟨⟨c1, w1⟩, h1, w2, h2, w3, h3, ⟨c4, w4⟩, h4, w5, h5, h6⟩ := h
  obtain ⟨a1, b1, c1'⟩ := StartContainer_ok _ _ _ _ _ h1
  obtain ⟨a2, b2⟩ := PutBytes_ok _ _ _ _ h2
  obtain ⟨a3, b3⟩ := EndContainer_ok _ _ _ h3
  obtain ⟨a4, b4, c4'⟩ := StartContainer_ok _ _ _ _ _ h4
  obtain ⟨a5, b5⟩ := PutBytes_ok _ _ _ _ h5
  obtain ⟨a6, b6⟩ := EndContainer_ok _ _ _ h6
  refine ⟨?_, ?_⟩
  · rw [a6, a5, a4, a3, a2, a1]; simp
  · rw [b6, c4', b3, c1']

theorem Generate_TBS_ok (svc : ServiceCollaborators) (certData : WeaveCertificateData)
    (certBufSize : Nat) (c c2 : TLVType) (w : TLVWriter)
    (h : Generate_TBS svc certData certBufSize = .ok (c, c2, w)) :
    w.written =
      TLVWriter.containerElement (ProfileTag kWeaveProfile_Security kTag_WeaveCertificate)
          kTLVType_Structure :: issuedFields svc certData ++
        [TLVWriter.containerElement (ContextTag kTag_ECDSASignature) kTLVType_Structure] ∧
    w.mContainerType = kTLVType_Structure ∧ c2 = kTLVType_Structure ∧
    c = kTLVType_NotSpecified := by
  simp only [Generate_TBS, bind_eq_ok, pure, Except.pure, Except.ok.injEq, Prod.mk.injEq] at h
  obtain ⟨⟨c0, w0⟩, h0, w1, h1, w2, h2, w3, h3, w4, h4, w5, h5, w6, h6, w7, h7, w8, h8,
    ⟨c9, w9⟩, h9, rfl, rfl, rfl⟩ := h
  obtain ⟨a0, b0, c0'⟩ := StartContainer_ok _ _ _ _ _ h0
  obtain ⟨a1, b1⟩ := Generate_SerialNumber_ok _ _ _ h1
  obtain ⟨a2, b2⟩ := Generate_Issuer_ok _ _ _ h2
  obtain ⟨a3, b3⟩ := Generate_Validity_ok _ _ _ h3
  obtain ⟨a4, b4⟩ := Generate_Subject_ok _ _ _ h4
  obtain ⟨a5, b5⟩ := Generate_PublicKey_ok _ _ _ h5
  obtain ⟨a6, b6⟩ := Generate_BasicConstraints_KeyUsage_ok _ _ h6
  obtain ⟨a7, b7⟩ := Generate_ExtendedKeyUsage_ok _ _ h7
  obtain ⟨a8, b8⟩ := Generate_KeyIdentifiers_ok _ _ _ h8
  obtain ⟨a9, b9, c9'⟩ := StartContainer_ok _ _ _ _ _ h9
  refine ⟨?_, b9, ?_, ?_⟩
  · rw [a9, a8, a7, a6, a5, a4, a3, a2, a1, a0]
    simp [TLVWriter.Init, issuedFields]
  · rw [c9', b8, b7, b6, b5, b4, b3, b2, b1, b0]
  · rw [c0']; rfl

theorem Generate_Sign_ok (env : Collaborators) (svc : ServiceCollaborators)
    (self : MockCAService) (tbsHash : List Nat) (c c2 : TLVType) (w w' : TLVWriter)
    (h : Generate_Sign env svc self tbsHash c c2 w = .ok w') :
    (svc.DecodeWeaveECPrivateKey self.mCAPrivateKey).1 = WEAVE_NO_ERROR ∧
    (svc.GenerateECDSASignature
      (env.WeaveCurveIdToOID (svc.DecodeWeaveECPrivateKey self.mCAPrivateKey).2.1) tbsHash
      env.kHashLength (svc.DecodeWeaveECPrivateKey self.mCAPrivateKey).2.2.2
      svc.kMaxValueLength).1 = WEAVE_NO_ERROR ∧
    w'.written = w.written ++
      [TLVWriter.bytesElement (ContextTag kTag_ECDSASignature_r)
          (svc.GenerateECDSASignature
            (env.WeaveCurveIdToOID (svc.DecodeWeaveECPrivateKey self.mCAPrivateKey).2.1) tbsHash
            env.kHashLength (svc.DecodeWeaveECPrivateKey self.mCAPrivateKey).2.2.2
            svc.kMaxValueLength).2.R,
        TLVWriter.bytesElement (ContextTag kTag_ECDSASignature_s)
          (svc.GenerateECDSASignature
            (env.WeaveCurveIdToOID (svc.DecodeWeaveECPrivateKey self.mCAPrivateKey).2.1) tbsHash
            env.kHashLength (svc.DecodeWeaveECPrivateKey self.mCAPrivateKey).2.2.2
            svc.kMaxValueLength).2.S,
        TLVWriter.endOfContainerElement, TLVWriter.endOfContainerElement] := by
  simp only [Generate_Sign, bind_eq_ok] at h
  obtain ⟨⟨curve, pub, priv⟩, h1, sig, h2, w1, h3, w2, h4, w3, h5, w4, h6, h7⟩ := h
  rw [SuccessOrExit_eq_ok] at h1 h2 h7
  obtain ⟨a3, _⟩ := PutBytes_ok _ _ _ _ h3
  obtain ⟨a4, _⟩ := PutBytes_ok _ _ _ _ h4
  obtain ⟨a5, _⟩ := EndContainer_ok _ _ _ h5
  obtain ⟨a6, _⟩ := EndContainer_ok _ _ _ h6
  obtain ⟨h1a, h1b⟩ := h1
  rw [h1b]
  simp only at h2 ⊢
  obtain ⟨h2a, h2b⟩ := h2
  refine ⟨h1a, h2a, ?_⟩
  rw [h2b, ← h7.2]
  simp only [TLVWriter.Finalize]
  rw [a6, a5, a4, a3]
  simp

theorem certSerialNumber_first (b : Nat) :
    0x40 ≤ ((b &&& kCertSerialNumber_FirstByteMask) ||| kCertSerialNumber_FirstBytePrefix) ∧
    ((b &&& kCertSerialNumber_FirstByteMask) ||| kCertSerialNumber_FirstBytePrefix) < 0x80 ∧
    ((b &&& kCertSerialNumber_FirstByteMask) ||| kCertSerialNumber_FirstBytePrefix) / 16 =
      4 + b / 16 % 4 := by
  have hm : b &&& kCertSerialNumber_FirstByteMask = b % 128 :=
    Nat.and_pow_two_sub_one_eq_mod b 7
  rw [hm]
  have hlt : b % 128 < 128 := Nat.mod_lt _ (by decide)
  have hd : b / 16 % 4 = b % 128 / 16 % 4 := by omega
  rw [hd]
  generalize b % 128 = n at hlt
  unfold kCertSerialNumber_FirstBytePrefix
  interval_cases n <;> decide

theorem Generate_issued (env : Collaborators) (svc : ServiceCollaborators)
    (self : MockCAService) (certData : WeaveCertificateData) (certBufSize : Nat)
    (cert : List Token) (certLen : Nat)
    (h : (self.GenerateServiceAssignedDeviceCert env svc certData certBufSize).issued =
      some (cert, certLen)) :
    ∃ r s, cert =
      TLVWriter.containerElement (ProfileTag kWeaveProfile_Security kTag_WeaveCertificate)
          kTLVType_Structure :: issuedFields svc (issuedCertData svc certData) ++
        [TLVWriter.containerElement (ContextTag kTag_ECDSASignature) kTLVType_Structure,
          TLVWriter.bytesElement (ContextTag kTag_ECDSASignature_r) r,
          TLVWriter.bytesElement (ContextTag kTag_ECDSASignature_s) s,
          TLVWriter.endOfContainerElement, TLVWriter.endOfContainerElement] := by
  unfold GenerateServiceAssignedDeviceCert at h
  simp only [] at h
  split at h
  · cases h
  · rename_i c c2 w hT
    split at h
    · cases h
    · split at h
      · cases h
      · rename_i w' hS
        simp only [Option.some.injEq, Prod.mk.injEq] at h
        obtain ⟨aT, _⟩ := Generate_TBS_ok _ _ _ _ _ _ hT
        obtain ⟨_, _, aS⟩ := Generate_Sign_ok _ _ _ _ _ _ _ _ hS
        generalize (svc.GenerateECDSASignature _ _ _ _ _).2 = sig at aS
        refine ⟨sig.R, sig.S, ?_⟩
        rw [← h.1, aS, aT]
        simp [issuedCertData]

theorem Generate_certData (env : Collaborators) (svc : ServiceCollaborators)
    (self : MockCAService) (certData : WeaveCertificateData) (certBufSize : Nat) :
    (self.GenerateServiceAssignedDeviceCert env svc certData certBufSize).certData.SubjectDN =
      certData.SubjectDN ∧
    (self.GenerateServiceAssignedDeviceCert env svc certData certBufSize).certData.PublicKey =
      certData.PublicKey ∧
    (self.GenerateServiceAssignedDeviceCert env svc certData certBufSize).certData.PubKeyCurveId =
      certData.PubKeyCurveId ∧
    (self.GenerateServiceAssignedDeviceCert env svc certData certBufSize).certData.PubKeyAlgoOID =
      certData.PubKeyAlgoOID ∧
    (self.GenerateServiceAssignedDeviceCert env svc certData certBufSize).certData.SubjectKeyId =
      certData.SubjectKeyId := by
  unfold GenerateServiceAssignedDeviceCert
  simp only []
  repeat' split
  all_goals exact ⟨rfl, rfl, rfl, rfl, rfl⟩

/-! ## The serial number of an issued certificate -/

/-- C18: whenever `GenerateServiceAssignedDeviceCert` issues a certificate and the random
generator gave 8 bytes, the element that follows the opening of the certificate structure is
the serial number, a byte string of 8 bytes whose first byte is non-zero and below 0x80 and
whose bytes 1 to 7 are bytes 1 to 7 of the random output. -/
theorem Generate_serial_number (env : Collaborators) (svc : ServiceCollaborators)
    (self : MockCAService) (certData : WeaveCertificateData) (certBufSize : Nat)
    (cert : List Token) (certLen : Nat)
    (hlen : (svc.GetSecureRandomData kCertSerialNumber_Length).2.length = 8)
    (h : (self.GenerateServiceAssignedDeviceCert env svc certData certBufSize).issued =
      some (cert, certLen)) :
    ∃ serial first,
      cert[1]? = some (TLVWriter.bytesElement (ContextTag kTag_SerialNumber) serial) ∧
      serial.length = 8 ∧ serial.head? = some first ∧ first ≠ 0 ∧ first < 0x80 ∧
      serial.drop 1 = (svc.GetSecureRandomData kCertSerialNumber_Length).2.drop 1 := by
  obtain ⟨r, s, rfl⟩ := Generate_issued _ _ _ _ _ _ _ h
  simp only [issuedFields, List.cons_append, List.getElem?_cons_succ, List.getElem?_cons_zero]
  generalize (svc.GetSecureRandomData kCertSerialNumber_Length).2 = random at hlen
  match random, hlen with
  | b :: rest, hlen =>
    obtain ⟨h1, h2, _⟩ := certSerialNumber_first b
    refine ⟨certSerialNumber (b :: rest), _, rfl, ?_, rfl, ?_, h2, rfl⟩
    · simpa [certSerialNumber] using hlen
    · omega

/-- The serial number of the certificate issued in the sample configuration when the random
generator gives the bytes 0xFF, 2, 3, 4, 5, 6, 7, 8. -/
theorem Generate_serial_number_witness :
    ∃ serial first,
      (Sample.issued [0xFF, 2, 3, 4, 5, 6, 7, 8]).1[1]? =
        some (TLVWriter.bytesElement (ContextTag kTag_SerialNumber) serial) ∧
      serial.length = 8 ∧ serial.head? = some first ∧ first ≠ 0 ∧ first < 0x80 ∧
      serial.drop 1 =
        ((Sample.svc [0xFF, 2, 3, 4, 5, 6, 7, 8]).GetSecureRandomData
          kCertSerialNumber_Length).2.drop 1 :=
  Generate_serial_number (Sample.env false) (Sample.svc [0xFF, 2, 3, 4, 5, 6, 7, 8])
    (Sample.server false) Sample.cert 2048 (Sample.issued [0xFF, 2, 3, 4, 5, 6, 7, 8]).1
    (Sample.issued [0xFF, 2, 3, 4, 5, 6, 7, 8]).2 (by rfl) (by rfl)

/-- C19, the failing input: when the first random byte is 0x30 the first byte of the serial
number of the issued certificate is 0x70, whose upper four bits are 0111 and not 0100: the
mask 0x7F keeps bits 5 and 4 of the random byte. -/
theorem Generate_serial_number_top_nibble :
    (Sample.issued [0x30, 2, 3, 4, 5, 6, 7, 8]).1[1]? =
      some (TLVWriter.bytesElement (ContextTag kTag_SerialNumber)
        [0x70, 2, 3, 4, 5, 6, 7, 8]) ∧
    0x70 / 16 = 7 := by
  refine ⟨by rfl, by decide⟩

/-! ## Subject, issuer and public key of an issued certificate -/

/-- C20: whenever `GenerateServiceAssignedDeviceCert` issues a certificate for certificate
data `certData` (whose curve id is a `uint32_t`), the issuer path of the certificate holds
the Weave device id attribute with the id of the CA, its subject path holds the Weave device
id attribute with the subject id of `certData`, and the public-key algorithm (the number of
the object identifier within its category), the curve id and the bytes of the EC public key
are those of `certData`; every call, issuing or not, leaves the subject, the public key and
the curve id of `certData` as they were. -/
theorem Generate_identity_fields (env : Collaborators) (svc : ServiceCollaborators)
    (self : MockCAService) (certData : WeaveCertificateData) (certBufSize : Nat)
    (cert : List Token) (certLen : Nat)
    (hcurve : certData.PubKeyCurveId < 4294967296)
    (h : (self.GenerateServiceAssignedDeviceCert env svc certData certBufSize).issued =
      some (cert, certLen)) :
    cert[3]? = some (TLVWriter.containerElement (ContextTag kTag_Issuer) kTLVType_Path) ∧
    cert[4]? = some (TLVWriter.uintElement
      (ContextTag (kOID_AttributeType_WeaveDeviceId &&& kOID_Mask)) svc.sTestCert_CA_Id) ∧
    cert[5]? = some TLVWriter.endOfContainerElement ∧
    cert[8]? = some (TLVWriter.containerElement (ContextTag kTag_Subject) kTLVType_Path) ∧
    cert[9]? = some (TLVWriter.uintElement
      (ContextTag (kOID_AttributeType_WeaveDeviceId &&& kOID_Mask))
      certData.SubjectDN.AttrValue.WeaveId) ∧
    cert[10]? = some TLVWriter.endOfContainerElement ∧
    cert[11]? = some (TLVWriter.uintElement (ContextTag kTag_PublicKeyAlgorithm)
      (certData.PubKeyAlgoOID &&& kOID_Mask)) ∧
    cert[12]? = some (TLVWriter.uintElement (ContextTag kTag_EllipticCurveIdentifier)
      certData.PubKeyCurveId) ∧
    cert[13]? = some (TLVWriter.bytesElement (ContextTag kTag_EllipticCurvePublicKey)
      certData.PublicKey.EC.ECPoint) ∧
    (self.GenerateServiceAssignedDeviceCert env svc certData certBufSize).certData.SubjectDN =
      certData.SubjectDN ∧
    (self.GenerateServiceAssignedDeviceCert env svc certData certBufSize).certData.PublicKey =
      certData.PublicKey ∧
    (self.GenerateServiceAssignedDeviceCert env svc certData certBufSize).certData.PubKeyCurveId =
      certData.PubKeyCurveId := by
  obtain ⟨r, s, rfl⟩ := Generate_issued _ _ _ _ _ _ _ h
  obtain ⟨c1, c2, c3, _⟩ := Generate_certData env svc self certData certBufSize
  have hm : (certData.PubKeyAlgoOID &&& kOID_Mask) % 256 = certData.PubKeyAlgoOID &&& kOID_Mask :=
    Nat.mod_eq_of_lt (Nat.and_lt_two_pow _ (by decide : kOID_Mask < 2 ^ 8))
  have hc : certData.PubKeyCurveId % 4294967296 = certData.PubKeyCurveId :=
    Nat.mod_eq_of_lt hcurve
  refine ⟨?_, ?_, ?_, ?_, ?_, ?_, ?_, ?_, ?_, c1, c2, c3⟩
  all_goals simp only [issuedFields, issuedCertData, List.cons_append,
    List.getElem?_cons_succ, List.getElem?_cons_zero, hm, hc]

/-- The identity fields of the certificate issued for the sample certificate. -/
theorem Generate_identity_fields_witness :
    (Sample.issued [1, 2, 3, 4, 5, 6, 7, 8]).1[3]? =
      some (TLVWriter.containerElement (ContextTag kTag_Issuer) kTLVType_Path) ∧
    (Sample.issued [1, 2, 3, 4, 5, 6, 7, 8]).1[4]? = some (TLVWriter.uintElement
      (ContextTag (kOID_AttributeType_WeaveDeviceId &&& kOID_Mask))
      (Sample.svc [1, 2, 3, 4, 5, 6, 7, 8]).sTestCert_CA_Id) ∧
    (Sample.issued [1, 2, 3, 4, 5, 6, 7, 8]).1[5]? = some TLVWriter.endOfContainerElement ∧
    (Sample.issued [1, 2, 3, 4, 5, 6, 7, 8]).1[8]? =
      some (TLVWriter.containerElement (ContextTag kTag_Subject) kTLVType_Path) ∧
    (Sample.issued [1, 2, 3, 4, 5, 6, 7, 8]).1[9]? = some (TLVWriter.uintElement
      (ContextTag (kOID_AttributeType_WeaveDeviceId &&& kOID_Mask))
      Sample.cert.SubjectDN.AttrValue.WeaveId) ∧
    (Sample.issued [1, 2, 3, 4, 5, 6, 7, 8]).1[10]? = some TLVWriter.endOfContainerElement ∧
    (Sample.issued [1, 2, 3, 4, 5, 6, 7, 8]).1[11]? =
      some (TLVWriter.uintElement (ContextTag kTag_PublicKeyAlgorithm)
        (Sample.cert.PubKeyAlgoOID &&& kOID_Mask)) ∧
    (Sample.issued [1, 2, 3, 4, 5, 6, 7, 8]).1[12]? =
      some (TLVWriter.uintElement (ContextTag kTag_EllipticCurveIdentifier)
        Sample.cert.PubKeyCurveId) ∧
    (Sample.issued [1, 2, 3, 4, 5, 6, 7, 8]).1[13]? =
      some (TLVWriter.bytesElement (ContextTag kTag_EllipticCurvePublicKey)
        Sample.cert.PublicKey.EC.ECPoint) ∧
    ((Sample.server false).GenerateServiceAssignedDeviceCert (Sample.env false)
      (Sample.svc [1, 2, 3, 4, 5, 6, 7, 8]) Sample.cert 2048).certData.SubjectDN =
        Sample.cert.SubjectDN ∧
    ((Sample.server false).GenerateServiceAssignedDeviceCert (Sample.env false)
      (Sample.svc [1, 2, 3, 4, 5, 6, 7, 8]) Sample.cert 2048).certData.PublicKey =
        Sample.cert.PublicKey ∧
    ((Sample.server false).GenerateServiceAssignedDeviceCert (Sample.env false)
      (Sample.svc [1, 2, 3, 4, 5, 6, 7, 8]) Sample.cert 2048).certData.PubKeyCurveId =
        Sample.cert.PubKeyCurveId :=
  Generate_identity_fields (Sample.env false) (Sample.svc [1, 2, 3, 4, 5, 6, 7, 8])
    (Sample.server false) Sample.cert 2048 (Sample.issued [1, 2, 3, 4, 5, 6, 7, 8]).1
    (Sample.issued [1, 2, 3, 4, 5, 6, 7, 8]).2 (by decide) (by rfl)

/-! ## The messages `HandleClientRequest` hands to the exchange -/

theorem SendStatusReport_sends (svc : ServiceCollaborators) (history : List Event)
    (statusCode : Nat) :
    ((SendStatusReport svc history statusCode).2.filter Event.isSendMessage = [] ∧
      (SendStatusReport svc history statusCode).1 ≠ WEAVE_NO_ERROR ∧
      ¬ (svc.PacketBuffer_New history = true ∧
        svc.StatusReport_pack (statusReportOf statusCode) = WEAVE_NO_ERROR)) ∨
    (svc.PacketBuffer_New history = true ∧
      svc.StatusReport_pack (statusReportOf statusCode) = WEAVE_NO_ERROR ∧
      (SendStatusReport svc history statusCode).2.filter Event.isSendMessage =
        [Event.SendMessage kWeaveProfile_Common kMsgType_StatusReport
          (Buffer.allocated history.length) (.statusReport (statusReportOf statusCode))
          (SendStatusReport svc history statusCode).1] ∧
      (SendStatusReport svc history statusCode).1 =
        svc.SendMessage (history ++ [Event.PacketBuffer_New (some (Buffer.allocated history.length))])
          kWeaveProfile_Common kMsgType_StatusReport
          (.statusReport (statusReportOf statusCode))) := by
  unfold SendStatusReport statusReportOf
  by_cases h1 : svc.PacketBuffer_New history = true
  · by_cases h2 : svc.StatusReport_pack
        { mProfileId := kWeaveProfile_Security, mStatusCode := statusCode % 65536 } =
          WEAVE_NO_ERROR
    · right
      simp [h1, h2, Event.isSendMessage]
    · left
      simp [h1, h2, Event.isSendMessage]
  · left
    simp [h1, Event.isSendMessage]

theorem SendStatusReport_no_response (svc : ServiceCollaborators) (history : List Event)
    (statusCode : Nat) :
    ∀ e ∈ (SendStatusReport svc history statusCode).2, e.isCertificateResponse = false := by
  unfold SendStatusReport
  intro e he
  by_cases h1 : svc.PacketBuffer_New history = true
  · by_cases h2 : svc.StatusReport_pack
        { mProfileId := kWeaveProfile_Security, mStatusCode := statusCode % 65536 } =
          WEAVE_NO_ERROR
    · simp only [h1, h2, if_true, List.mem_cons, List.mem_singleton, List.not_mem_nil,
        or_false] at he
      rcases he with rfl | rfl
      · rfl
      · simp [Event.isCertificateResponse, kWeaveProfile_Common, kWeaveProfile_Security]
    · simp only [h1, h2, if_true, if_false, List.mem_cons, List.mem_singleton,
        List.not_mem_nil, or_false] at he
      rcases he with rfl | rfl <;> rfl
  · simp only [h1, if_false, List.mem_singleton, Bool.false_eq_true] at he
    subst he
    rfl

theorem exit_sends (svc : ServiceCollaborators) (err : WEAVE_ERROR) (events : List Event)
    (respMsg : Option Buffer) :
    (HandleClientRequest_exit svc err events respMsg).filter Event.isSendMessage =
      events.filter Event.isSendMessage ++
        (if err ≠ WEAVE_NO_ERROR then
          (SendStatusReport svc events kStatusCode_UnathorizedGetCertRequest).2.filter
            Event.isSendMessage
        else []) := by
  unfold HandleClientRequest_exit
  cases respMsg <;> by_cases h : err = WEAVE_NO_ERROR <;>
    simp [h, List.filter_append, Event.isSendMessage]

theorem exit_failure (svc : ServiceCollaborators) (err : WEAVE_ERROR) (pre : List Event)
    (respMsg : Option Buffer) (herr : err ≠ WEAVE_NO_ERROR)
    (hpre : ∀ e ∈ pre, e.isSendMessage = false) :
    (∀ e ∈ HandleClientRequest_exit svc err pre respMsg, e.isCertificateResponse = false) ∧
    (HandleClientRequest_exit svc err pre respMsg).filter Event.isSendMessage =
      (SendStatusReport svc pre kStatusCode_UnathorizedGetCertRequest).2.filter
        Event.isSendMessage ∧
    (svc.PacketBuffer_New pre = true →
      svc.StatusReport_pack (statusReportOf kStatusCode_UnathorizedGetCertRequest) =
        WEAVE_NO_ERROR →
      ∃ ret, (HandleClientRequest_exit svc err pre respMsg).filter Event.isSendMessage =
        [Event.SendMessage kWeaveProfile_Common kMsgType_StatusReport
          (Buffer.allocated pre.length)
          (.statusReport (statusReportOf kStatusCode_UnathorizedGetCertRequest)) ret]) := by
  have hf : pre.filter Event.isSendMessage = [] := by
    rw [List.filter_eq_nil_iff]
    intro e he
    simp [hpre e he]
  have hs : (HandleClientRequest_exit svc err pre respMsg).filter Event.isSendMessage =
      (SendStatusReport svc pre kStatusCode_UnathorizedGetCertRequest).2.filter
        Event.isSendMessage := by
    rw [exit_sends, hf, if_pos herr, List.nil_append]
  refine ⟨?_, hs, ?_⟩
  · intro e he
    unfold HandleClientRequest_exit at he
    rw [if_pos herr] at he
    simp only [List.mem_append, List.mem_singleton] at he
    rcases he with ((he | he) | he) | he
    · have := hpre e he
      cases e <;> first | rfl | (simp [Event.isSendMessage] at this)
    · exact SendStatusReport_no_response _ _ _ e he
    · subst he; rfl
    · cases respMsg with
      | none => simp at he
      | some b =>
        simp only [List.mem_singleton] at he
        subst he; rfl
  · intro h1 h2
    rcases SendStatusReport_sends svc pre kStatusCode_UnathorizedGetCertRequest with
      ⟨_, _, h⟩ | ⟨_, _, h, _⟩
    · exact absurd ⟨h1, h2⟩ h
    · exact ⟨_, hs.trans h⟩

theorem Handle_of_failure (env : Collaborators) (svc : ServiceCollaborators)
    (server : MockCAService) (storage : GetCertificateRequestMessage)
    (profileId msgType : Nat) (reqMsg : List Token)
    (h : RequestFails env svc server storage profileId msgType reqMsg) :
    ∃ err pre respMsg, err ≠ WEAVE_NO_ERROR ∧ (∀ e ∈ pre, e.isSendMessage = false) ∧
      HandleClientRequest env svc server storage profileId msgType reqMsg =
        some (HandleClientRequest_exit svc err pre respMsg) := by
  unfold HandleClientRequest
  rcases h with h | ⟨e, he, hp⟩ | ⟨hp, hr, h⟩
  · exact ⟨WEAVE_ERROR_NO_MEMORY, [], none, by decide, by simp, by rw [if_neg h]⟩
  · by_cases hc : profileId = kWeaveProfile_Security ∧ msgType = kMsgType_GetCertificateRequest
    · refine ⟨e, [], none, he, by simp, ?_⟩
      rw [if_pos hc]
      simp only [hp, if_neg he]
    · exact ⟨WEAVE_ERROR_NO_MEMORY, [], none, by decide, by simp, by rw [if_neg hc]⟩
  · by_cases hc : profileId = kWeaveProfile_Security ∧ msgType = kMsgType_GetCertificateRequest
    · rw [if_pos hc]
      simp only [hp, if_true, if_neg hr]
      unfold HandleClientRequest_respond
      rcases h with h | ⟨cert, hcert, hg⟩
      · refine ⟨WEAVE_ERROR_NO_MEMORY, [Event.PacketBuffer_New none], none, by decide, ?_, ?_⟩
        · intro e he
          simp only [List.mem_singleton] at he
          subst he; rfl
        · simp [h]
      · by_cases hn : svc.PacketBuffer_New [] = true
        · refine ⟨_, [Event.PacketBuffer_New (some (Buffer.allocated 0))],
            some (Buffer.allocated 0), hg, ?_, ?_⟩
          · intro e he
            simp only [List.mem_singleton] at he
            subst he; rfl
          · simp only [hn, if_true, hcert, if_neg hg]
        · refine ⟨WEAVE_ERROR_NO_MEMORY, [Event.PacketBuffer_New none], none, by decide, ?_, ?_⟩
          · intro e he
            simp only [List.mem_singleton] at he
            subst he; rfl
          · simp [hn]
    · exact ⟨WEAVE_ERROR_NO_MEMORY, [], none, by decide, by simp, by rw [if_neg hc]⟩

/-- C14: for every request that fails in `HandleClientRequest` (profile id or message type
not that of GetCertificateRequest, error of `ProcessGetCertificateRequest`, no response
buffer, error of `GenerateGetCertificateResponse`) the handler returns, hands no
GetCertificateResponse to `SendMessage`, and the only messages it hands over are those of
`SendStatusReport(ec, kStatusCode_UnathorizedGetCertRequest)`: as soon as a buffer for the
report is allocated and the report is packed, exactly one message, the status report that
carries the security profile id and that status code. -/
theorem Handle_failure_status_report (env : Collaborators) (svc : ServiceCollaborators)
    (server : MockCAService) (storage : GetCertificateRequestMessage)
    (profileId msgType : Nat) (reqMsg : List Token)
    (h : RequestFails env svc server storage profileId msgType reqMsg) :
    ∃ events pre,
      HandleClientRequest env svc server storage profileId msgType reqMsg = some events ∧
      (∀ e ∈ events, e.isCertificateResponse = false) ∧
      events.filter Event.isSendMessage =
        (SendStatusReport svc pre kStatusCode_UnathorizedGetCertRequest).2.filter
          Event.isSendMessage ∧
      (svc.PacketBuffer_New pre = true →
        svc.StatusReport_pack (statusReportOf kStatusCode_UnathorizedGetCertRequest) =
          WEAVE_NO_ERROR →
        ∃ ret, events.filter Event.isSendMessage =
          [Event.SendMessage kWeaveProfile_Common kMsgType_StatusReport
            (Buffer.allocated pre.length)
            (.statusReport { mProfileId := kWeaveProfile_Security,
                             mStatusCode := kStatusCode_UnathorizedGetCertRequest }) ret]) := by
  obtain ⟨err, pre, respMsg, herr, hpre, hev⟩ := Handle_of_failure _ _ _ _ _ _ _ h
  obtain ⟨a, b, c⟩ := exit_failure svc err pre respMsg herr hpre
  exact ⟨_, pre, hev, a, b, c⟩

/-- A request that `Decode` accepts with attestation variant undefined is rejected by
`Decode` once `ManufAttestRequired()` is true for the messages of its request type. -/
theorem Decode_required_rejects (env : Collaborators) (storage : GetCertificateRequestMessage)
    (msgBuf : List Token) (msg : GetCertificateRequestMessage)
    (h : (GetCertificateRequestMessage.new storage).Decode env msgBuf = .ok msg)
    (hnone : msg.ManufAttestType = kManufAttestType_Undefined)
    (g : GetCertificateRequestMessage → Bool) (hg : ∀ m, m.mReqType = msg.mReqType → g m = true) :
    (GetCertificateRequestMessage.new storage).Decode
      { env with ManufAttestRequired := g } msgBuf = .error WEAVE_ERROR_INVALID_ARGUMENT := by
  obtain ⟨s, s', h5, _, _, _, hq, ht, _⟩ := Decode_ok _ _ _ _ h
  simp only [Decode_ToManufAttest, bind_eq_ok] at h5
  obtain ⟨s3, h3, s4, h4, h5⟩ := h5
  have h5' := ManufAttest_required env g s4 s h5 (by rw [← ht]; exact hnone) (hg _ hq.symm)
  unfold Decode Decode_ToOpDeviceSig Decode_ToManufAttest
  rw [ToOpDeviceCert_flag, h3, bind_ok, OpRelatedCerts_flag, h4, bind_ok, h5']
  rfl

/-- C11: a request without an attestation variant (one that `Decode` accepts with variant
undefined when attestation is not required), handled when `ManufAttestRequired()` is true for
its request type, makes `ProcessGetCertificateRequest` return
`WEAVE_ERROR_INVALID_ARGUMENT`; `HandleClientRequest` then hands no GetCertificateResponse
to `SendMessage` and runs `SendStatusReport(ec, kStatusCode_UnathorizedGetCertRequest)`: as
soon as a buffer for the report is allocated and the report is packed, the one message it
hands over is the status report with the security profile id and that code. -/
theorem Handle_attestation_required (env : Collaborators) (svc : ServiceCollaborators)
    (server : MockCAService) (storage : GetCertificateRequestMessage) (reqMsg : List Token)
    (msg : GetCertificateRequestMessage)
    (hd : (GetCertificateRequestMessage.new storage).Decode env reqMsg = .ok msg)
    (hnone : msg.ManufAttestType = kManufAttestType_Undefined)
    (g : GetCertificateRequestMessage → Bool)
    (hg : ∀ m, m.mReqType = msg.mReqType → g m = true) :
    (ProcessGetCertificateRequest { env with ManufAttestRequired := g } reqMsg
      (GetCertificateRequestMessage.new storage)).ret =
        .returned WEAVE_ERROR_INVALID_ARGUMENT ∧
    ∃ events,
      HandleClientRequest { env with ManufAttestRequired := g } svc server storage
        kWeaveProfile_Security kMsgType_GetCertificateRequest reqMsg = some events ∧
      (∀ e ∈ events, e.isCertificateResponse = false) ∧
      events.filter Event.isSendMessage =
        (SendStatusReport svc [] kStatusCode_UnathorizedGetCertRequest).2.filter
          Event.isSendMessage ∧
      (svc.PacketBuffer_New [] = true →
        svc.StatusReport_pack (statusReportOf kStatusCode_UnathorizedGetCertRequest) =
          WEAVE_NO_ERROR →
        ∃ ret, events.filter Event.isSendMessage =
          [Event.SendMessage kWeaveProfile_Common kMsgType_StatusReport (Buffer.allocated 0)
            (.statusReport { mProfileId := kWeaveProfile_Security,
                             mStatusCode := kStatusCode_UnathorizedGetCertRequest }) ret]) := by
  have hdec := Decode_required_rejects env storage reqMsg msg hd hnone g hg
  have hp : (ProcessGetCertificateRequest { env with ManufAttestRequired := g } reqMsg
      (GetCertificateRequestMessage.new storage)).ret =
        .returned WEAVE_ERROR_INVALID_ARGUMENT := by
    unfold ProcessGetCertificateRequest
    rw [hdec]
  refine ⟨hp, HandleClientRequest_exit svc WEAVE_ERROR_INVALID_ARGUMENT [] none, ?_, ?_⟩
  · unfold HandleClientRequest
    rw [if_pos ⟨rfl, rfl⟩]
    simp only [hp]
    rfl
  · exact exit_failure svc WEAVE_ERROR_INVALID_ARGUMENT [] none (by decide) (by simp)

theorem Handle_shape (env : Collaborators) (svc : ServiceCollaborators)
    (server : MockCAService) (storage : GetCertificateRequestMessage)
    (profileId msgType : Nat) (reqMsg : List Token) (events : List Event)
    (h : HandleClientRequest env svc server storage profileId msgType reqMsg = some events) :
    ∃ err pre respMsg, events = HandleClientRequest_exit svc err pre respMsg ∧
      ((pre.filter Event.isSendMessage = [] ∧ err ≠ WEAVE_NO_ERROR) ∨
        ∃ p m b pl history, pre.filter Event.isSendMessage = [Event.SendMessage p m b pl err] ∧
          err = svc.SendMessage history p m pl) := by
  unfold HandleClientRequest at h
  split at h
  · simp only [] at h
    split at h
    · cases h
    · rename_i err hret
      split at h
      · split at h
        · simp only [Option.some.injEq] at h
          refine ⟨_, _, none, h.symm, ?_⟩
          rcases SendStatusReport_sends svc [] kStatusCode_NoNewCertRequired with
            ⟨a, b, _⟩ | ⟨_, _, c, d⟩
          · exact Or.inl ⟨a, b⟩
          · exact Or.inr ⟨_, _, _, _, _, c, d⟩
        · unfold HandleClientRequest_respond at h
          split at h
          · simp only [] at h
            split at h
            · cases h
            · split at h
              · simp only [Option.some.injEq] at h
                exact ⟨_, _, none, h.symm, Or.inr ⟨kWeaveProfile_Security,
                  kMsgType_GetCertificateResponse, Buffer.allocated 0, _, _, rfl, rfl⟩⟩
              · rename_i hg
                simp only [Option.some.injEq] at h
                exact ⟨_, _, _, h.symm, Or.inl ⟨by simp [Event.isSendMessage], hg⟩⟩
          · simp only [Option.some.injEq] at h
            exact ⟨_, _, none, h.symm, Or.inl ⟨by simp [Event.isSendMessage], by decide⟩⟩
      · rename_i herr
        simp only [Option.some.injEq] at h
        exact ⟨_, _, none, h.symm, Or.inl ⟨by simp, herr⟩⟩
  · simp only [Option.some.injEq] at h
    exact ⟨_, _, none, h.symm, Or.inl ⟨by simp, by decide⟩⟩

/-- C13 as amended: for every request handled by `HandleClientRequest`, at most one message
is sent (handed to `SendMessage` with result `WEAVE_NO_ERROR`); a second message is handed to
`SendMessage` only after the send of the first returned an error, it is the status report
with the code `kStatusCode_UnathorizedGetCertRequest`, and no third one follows; when every
allocation of a packet buffer and the packing of that status report succeed at least one
message is handed over, and when every send succeeds as well exactly one is, and it is
sent. -/
theorem Handle_one_response (env : Collaborators) (svc : ServiceCollaborators)
    (server : MockCAService) (storage : GetCertificateRequestMessage)
    (profileId msgType : Nat) (reqMsg : List Token) (events : List Event)
    (h : HandleClientRequest env svc server storage profileId msgType reqMsg = some events) :
    (events.filter Event.isSent).length ≤ 1 ∧
    (∀ e1 e2 rest, events.filter Event.isSendMessage = e1 :: e2 :: rest →
      rest = [] ∧ e1.isSent = false ∧
        e2.isStatusReport kStatusCode_UnathorizedGetCertRequest = true) ∧
    ((∀ history, svc.PacketBuffer_New history = true) →
      svc.StatusReport_pack (statusReportOf kStatusCode_UnathorizedGetCertRequest) =
        WEAVE_NO_ERROR →
      1 ≤ (events.filter Event.isSendMessage).length ∧
      ((∀ history p m pl, svc.SendMessage history p m pl = WEAVE_NO_ERROR) →
        ∃ e, events.filter Event.isSendMessage = [e] ∧ e.isSent = true)) := by
  obtain ⟨err, pre, respMsg, rfl, hpre⟩ := Handle_shape _ _ _ _ _ _ _ _ h
  have hsent : ∀ l : List Event, l.filter Event.isSent =
      (l.filter Event.isSendMessage).filter Event.isSent := by
    intro l
    rw [List.filter_filter]
    congr 1
    funext e
    cases e <;> simp [Event.isSent, Event.isSendMessage]
  rw [hsent, exit_sends]
  have hS := SendStatusReport_sends svc pre kStatusCode_UnathorizedGetCertRequest
  rcases hpre with ⟨hp, herr⟩ | ⟨p, m, b, pl, history, hp, hret⟩
  · rw [hp, if_pos herr, List.nil_append]
    rcases hS with ⟨h0, _, hno⟩ | ⟨_, _, h1, h2⟩
    · rw [h0]
      refine ⟨by simp, ?_, fun hn hk => absurd ⟨hn pre, hk⟩ hno⟩
      intro _ _ _ hc
      simp at hc
    · rw [h1]
      refine ⟨(List.length_filter_le _ _).trans (by simp), ?_,
        fun _ _ => ⟨by simp, fun hs => ⟨_, rfl, ?_⟩⟩⟩
      · intro _ _ _ hc
        simp at hc
      · simp [Event.isSent, h2, hs]
  · rw [hp]
    by_cases herr : err = WEAVE_NO_ERROR
    · have hne : ¬ (err ≠ WEAVE_NO_ERROR) := by simpa using herr
      rw [if_neg hne, List.append_nil]
      refine ⟨(List.length_filter_le _ _).trans (by simp), ?_,
        fun _ _ => ⟨by simp, fun _ => ⟨_, rfl, ?_⟩⟩⟩
      · intro _ _ _ hc
        simp at hc
      · simp [Event.isSent, herr]
    · rw [if_pos herr]
      have hfirst : (Event.SendMessage p m b pl err).isSent = false := by
        simp [Event.isSent, herr]
      rcases hS with ⟨h0, _, hno⟩ | ⟨_, _, h1, _⟩
      · rw [h0]
        refine ⟨by simp [hfirst], ?_, fun hn hk => absurd ⟨hn pre, hk⟩ hno⟩
        intro _ _ _ hc
        simp at hc
      · rw [h1]
        refine ⟨?_, ?_, fun _ _ => ⟨by simp, fun hs => ?_⟩⟩
        · rw [List.singleton_append, List.filter_cons_of_neg (by simp [hfirst])]
          exact (List.length_filter_le _ _).trans (le_of_eq rfl)
        · intro e1 e2 rest hc
          simp only [List.singleton_append, List.cons.injEq] at hc
          obtain ⟨rfl, rfl, rfl⟩ := hc
          refine ⟨rfl, hfirst, ?_⟩
          simp only [Event.isStatusReport, statusReportOf]
          decide
        · exact absurd (hret.trans (hs _ _ _ _)) herr

theorem exit_no_response (svc : ServiceCollaborators) (err : WEAVE_ERROR) (pre : List Event)
    (respMsg : Option Buffer) (hpre : ∀ e ∈ pre, e.isCertificateResponse = false) :
    ∀ e ∈ HandleClientRequest_exit svc err pre respMsg, e.isCertificateResponse = false := by
  intro e he
  unfold HandleClientRequest_exit at he
  simp only [List.mem_append, List.mem_singleton] at he
  rcases he with ((he | he) | he) | he
  · exact hpre e he
  · split at he
    · exact SendStatusReport_no_response _ _ _ e he
    · simp at he
  · subst he; rfl
  · cases respMsg with
    | none => simp at he
    | some b =>
      simp only [List.mem_singleton] at he
      subst he; rfl

theorem SendStatusReport_other_code (svc : ServiceCollaborators) (history : List Event)
    (statusCode other : Nat) (hne : statusCode % 65536 ≠ other) :
    ∀ e ∈ (SendStatusReport svc history statusCode).2, e.isStatusReport other = false := by
  unfold SendStatusReport
  intro e he
  by_cases h1 : svc.PacketBuffer_New history = true
  · by_cases h2 : svc.StatusReport_pack
        { mProfileId := kWeaveProfile_Security, mStatusCode := statusCode % 65536 } =
          WEAVE_NO_ERROR
    · simp only [h1, h2, if_true, List.mem_cons, List.mem_singleton, List.not_mem_nil,
        or_false] at he
      rcases he with rfl | rfl
      · rfl
      · simp [Event.isStatusReport, hne]
    · simp only [h1, h2, if_true, if_false, List.mem_cons, List.mem_singleton,
        List.not_mem_nil, or_false] at he
      rcases he with rfl | rfl <;> rfl
  · simp only [h1, if_false, List.mem_singleton, Bool.false_eq_true] at he
    subst he
    rfl

/-- C12 as amended: when the service refuses rotations, every rotation request for which
`ProcessGetCertificateRequest` returns no error is answered with the status
`kStatusCode_NoNewCertRequired` (the first message handed to `SendMessage` as soon as the
buffer of the report is allocated and the report packed, and the only one when that send
succeeds) and no GetCertificateResponse is handed over; the refusal is tested only after
`ProcessGetCertificateRequest` has returned without error: a request for which it returns an
error is answered with the status `kStatusCode_UnathorizedGetCertRequest` and never with
`kStatusCode_NoNewCertRequired`. -/
theorem Handle_rotation_refused (env : Collaborators) (svc : ServiceCollaborators)
    (server : MockCAService) (storage : GetCertificateRequestMessage) (reqMsg : List Token)
    (hrefuse : server.mDoNotRotateCert = true) :
    ((ProcessGetCertificateRequest env reqMsg (GetCertificateRequestMessage.new storage)).ret =
        .returned WEAVE_NO_ERROR →
      (ProcessGetCertificateRequest env reqMsg
        (GetCertificateRequestMessage.new storage)).msg.RequestType =
          kReqType_RotateOpDeviceCert →
      ∃ events,
        HandleClientRequest env svc server storage kWeaveProfile_Security
          kMsgType_GetCertificateRequest reqMsg = some events ∧
        (∀ e ∈ events, e.isCertificateResponse = false) ∧
        (svc.PacketBuffer_New [] = true →
          svc.StatusReport_pack (statusReportOf kStatusCode_NoNewCertRequired) =
            WEAVE_NO_ERROR →
          ∃ ret rest, events.filter Event.isSendMessage =
            Event.SendMessage kWeaveProfile_Common kMsgType_StatusReport (Buffer.allocated 0)
              (.statusReport { mProfileId := kWeaveProfile_Security,
                               mStatusCode := kStatusCode_NoNewCertRequired }) ret :: rest ∧
            (ret = WEAVE_NO_ERROR → rest = []))) ∧
    (∀ err, err ≠ WEAVE_NO_ERROR →
      (ProcessGetCertificateRequest env reqMsg (GetCertificateRequestMessage.new storage)).ret =
        .returned err →
      ∃ events,
        HandleClientRequest env svc server storage kWeaveProfile_Security
          kMsgType_GetCertificateRequest reqMsg = some events ∧
        (∀ e ∈ events, e.isCertificateResponse = false) ∧
        (∀ e ∈ events, e.isStatusReport kStatusCode_NoNewCertRequired = false) ∧
        (svc.PacketBuffer_New [] = true →
          svc.StatusReport_pack (statusReportOf kStatusCode_UnathorizedGetCertRequest) =
            WEAVE_NO_ERROR →
          ∃ ret, events.filter Event.isSendMessage =
            [Event.SendMessage kWeaveProfile_Common kMsgType_StatusReport (Buffer.allocated 0)
              (.statusReport { mProfileId := kWeaveProfile_Security,
                               mStatusCode := kStatusCode_UnathorizedGetCertRequest }) ret])) := by
  refine ⟨fun hp hrot => ?_, fun err herr hp => ?_⟩
  · refine ⟨HandleClientRequest_exit svc
      (SendStatusReport svc [] kStatusCode_NoNewCertRequired).1
      (SendStatusReport svc [] kStatusCode_NoNewCertRequired).2 none, ?_, ?_, ?_⟩
    · unfold HandleClientRequest
      rw [if_pos ⟨rfl, rfl⟩]
      simp only [hp, if_true, if_pos (And.intro hrot hrefuse)]
    · exact exit_no_response _ _ _ _ (SendStatusReport_no_response _ _ _)
    · intro hn hk
      rw [exit_sends]
      rcases SendStatusReport_sends svc [] kStatusCode_NoNewCertRequired with
        ⟨_, _, hno⟩ | ⟨_, _, h1, _⟩
      · exact absurd ⟨hn, hk⟩ hno
      · rw [h1]
        refine ⟨_, _, rfl, fun h0 => ?_⟩
        rw [if_neg (by simpa using h0)]
        rfl
  · refine ⟨HandleClientRequest_exit svc err [] none, ?_, ?_, ?_, ?_⟩
    · unfold HandleClientRequest
      rw [if_pos ⟨rfl, rfl⟩]
      simp only [hp, if_neg herr]
    · exact exit_no_response _ _ _ _ (by simp)
    · intro e he
      unfold HandleClientRequest_exit at he
      rw [if_pos herr] at he
      simp only [List.nil_append, List.append_nil, List.mem_append, List.mem_singleton] at he
      rcases he with he | he
      · exact SendStatusReport_other_code svc [] _ _ (by decide) e he
      · subst he; rfl
    · exact (exit_failure svc err [] none herr (by simp)).2.2

/-- A sample request without attestation, handled when attestation is required for initial
requests. -/
theorem Handle_attestation_required_witness :
    (ProcessGetCertificateRequest
      { Sample.env false with
        ManufAttestRequired := fun m => m.mReqType == kReqType_GetInitialOpDeviceCert }
      Sample.requestInitial (GetCertificateRequestMessage.new Sample.storage)).ret =
        .returned WEAVE_ERROR_INVALID_ARGUMENT ∧
    ∃ events,
      HandleClientRequest
        { Sample.env false with
          ManufAttestRequired := fun m => m.mReqType == kReqType_GetInitialOpDeviceCert }
        (Sample.svc Sample.random) (Sample.server false) Sample.storage
        kWeaveProfile_Security kMsgType_GetCertificateRequest Sample.requestInitial =
          some events ∧
      (∀ e ∈ events, e.isCertificateResponse = false) ∧
      events.filter Event.isSendMessage =
        (SendStatusReport (Sample.svc Sample.random) []
          kStatusCode_UnathorizedGetCertRequest).2.filter Event.isSendMessage ∧
      ((Sample.svc Sample.random).PacketBuffer_New [] = true →
        (Sample.svc Sample.random).StatusReport_pack
          (statusReportOf kStatusCode_UnathorizedGetCertRequest) = WEAVE_NO_ERROR →
        ∃ ret, events.filter Event.isSendMessage =
          [Event.SendMessage kWeaveProfile_Common kMsgType_StatusReport (Buffer.allocated 0)
            (.statusReport { mProfileId := kWeaveProfile_Security,
                             mStatusCode := kStatusCode_UnathorizedGetCertRequest }) ret]) :=
  Handle_attestation_required (Sample.env false) (Sample.svc Sample.random)
    (Sample.server false) Sample.storage Sample.requestInitial
    (Sample.decoded (Sample.env false) Sample.requestInitial) (by rfl) (by rfl)
    (fun m => m.mReqType == kReqType_GetInitialOpDeviceCert) (fun m hm => by simpa using hm)

/-- C12, counterexample: the service refuses rotations and receives a well-formed rotation
request whose operational signature does not verify; the message it sends is the status
report with the code `kStatusCode_UnathorizedGetCertRequest`, not
`kStatusCode_NoNewCertRequired`. -/
theorem Handle_rotation_request_failing_validation :
    (Sample.server true).mDoNotRotateCert = true ∧
    (Sample.decoded Sample.envInvalidSignature Sample.requestRotate).RequestType =
      kReqType_RotateOpDeviceCert ∧
    HandleClientRequest Sample.envInvalidSignature (Sample.svc Sample.random)
      (Sample.server true) Sample.storage kWeaveProfile_Security
      kMsgType_GetCertificateRequest Sample.requestRotate =
      some [Event.PacketBuffer_New (some (Buffer.allocated 0)),
        Event.SendMessage kWeaveProfile_Common kMsgType_StatusReport (Buffer.allocated 0)
          (.statusReport { mProfileId := kWeaveProfile_Security,
                           mStatusCode := kStatusCode_UnathorizedGetCertRequest })
          WEAVE_NO_ERROR,
        Event.PacketBuffer_Free Buffer.reqMsg] := by
  refine ⟨by rfl, by rfl, by rfl⟩

/-- A sample rotation request that passes validation, handled by a service that refuses
rotations. -/
theorem Handle_rotation_refused_witness :
    ∃ events,
      HandleClientRequest (Sample.env false) (Sample.svc Sample.random) (Sample.server true)
        Sample.storage kWeaveProfile_Security kMsgType_GetCertificateRequest
        Sample.requestRotate = some events ∧
      (∀ e ∈ events, e.isCertificateResponse = false) ∧
      ((Sample.svc Sample.random).PacketBuffer_New [] = true →
        (Sample.svc Sample.random).StatusReport_pack
          (statusReportOf kStatusCode_NoNewCertRequired) = WEAVE_NO_ERROR →
        ∃ ret rest, events.filter Event.isSendMessage =
          Event.SendMessage kWeaveProfile_Common kMsgType_StatusReport (Buffer.allocated 0)
            (.statusReport { mProfileId := kWeaveProfile_Security,
                             mStatusCode := kStatusCode_NoNewCertRequired }) ret :: rest ∧
          (ret = WEAVE_NO_ERROR → rest = [])) :=
  (Handle_rotation_refused (Sample.env false) (Sample.svc Sample.random) (Sample.server true)
    Sample.storage Sample.requestRotate (by rfl)).1 (by rfl) (by rfl)

set_option maxRecDepth 100000 in
/-- C13, counterexample: a message of another type handled when no packet buffer is left is
answered with no message at all; a well-formed initial request handled when every send fails
makes the handler hand two messages to `SendMessage`, a GetCertificateResponse and then a
status report. -/
theorem Handle_not_exactly_one_response :
    HandleClientRequest (Sample.env false) Sample.svcNoBuffer (Sample.server false)
      Sample.storage kWeaveProfile_Security 0 Sample.requestInitial =
        some [Event.PacketBuffer_New none, Event.PacketBuffer_Free Buffer.reqMsg] ∧
    ((Sample.handle (Sample.env false) Sample.svcSendFails (Sample.server false)
      Sample.requestInitial).filter Event.isSendMessage).map
        (fun e => (e.isCertificateResponse,
          e.isStatusReport kStatusCode_UnathorizedGetCertRequest)) =
      [(true, false), (false, true)] := by
  refine ⟨by rfl, by rfl⟩

set_option maxRecDepth 100000 in
/-- A sample initial request handled when every allocation and every send succeeds. -/
theorem Handle_one_response_witness :
    ((Sample.handle (Sample.env false) (Sample.svc Sample.random) (Sample.server false)
      Sample.requestInitial).filter Event.isSent).length ≤ 1 ∧
    ((∀ history, (Sample.svc Sample.random).PacketBuffer_New history = true) →
      (Sample.svc Sample.random).StatusReport_pack
        (statusReportOf kStatusCode_UnathorizedGetCertRequest) = WEAVE_NO_ERROR →
      1 ≤ ((Sample.handle (Sample.env false) (Sample.svc Sample.random) (Sample.server false)
        Sample.requestInitial).filter Event.isSendMessage).length ∧
      ((∀ history p m pl,
          (Sample.svc Sample.random).SendMessage history p m pl = WEAVE_NO_ERROR) →
        ∃ e, (Sample.handle (Sample.env false) (Sample.svc Sample.random)
          (Sample.server false) Sample.requestInitial).filter Event.isSendMessage = [e] ∧
          e.isSent = true)) :=
  ⟨(Handle_one_response (Sample.env false) (Sample.svc Sample.random) (Sample.server false)
      Sample.storage kWeaveProfile_Security kMsgType_GetCertificateRequest
      Sample.requestInitial _ (by rfl)).1,
    (Handle_one_response (Sample.env false) (Sample.svc Sample.random) (Sample.server false)
      Sample.storage kWeaveProfile_Security kMsgType_GetCertificateRequest
      Sample.requestInitial _ (by rfl)).2.2⟩

/-- A sample rotation request whose operational signature does not verify fails in
`HandleClientRequest` and is answered with the status report. -/
theorem Handle_failure_status_report_witness :
    RequestFails Sample.envInvalidSignature (Sample.svc Sample.random) (Sample.server false)
      Sample.storage kWeaveProfile_Security kMsgType_GetCertificateRequest
      Sample.requestRotate ∧
    ∃ events pre,
      HandleClientRequest Sample.envInvalidSignature (Sample.svc Sample.random)
        (Sample.server false) Sample.storage kWeaveProfile_Security
        kMsgType_GetCertificateRequest Sample.requestRotate = some events ∧
      (∀ e ∈ events, e.isCertificateResponse = false) ∧
      events.filter Event.isSendMessage =
        (SendStatusReport (Sample.svc Sample.random) pre
          kStatusCode_UnathorizedGetCertRequest).2.filter Event.isSendMessage ∧
      ((Sample.svc Sample.random).PacketBuffer_New pre = true →
        (Sample.svc Sample.random).StatusReport_pack
          (statusReportOf kStatusCode_UnathorizedGetCertRequest) = WEAVE_NO_ERROR →
        ∃ ret, events.filter Event.isSendMessage =
          [Event.SendMessage kWeaveProfile_Common kMsgType_StatusReport
            (Buffer.allocated pre.length)
            (.statusReport { mProfileId := kWeaveProfile_Security,
                             mStatusCode := kStatusCode_UnathorizedGetCertRequest }) ret]) :=
  ⟨Or.inr (Or.inl ⟨WEAVE_ERROR_INVALID_SIGNATURE, by decide, by rfl⟩),
    Handle_failure_status_report Sample.envInvalidSignature (Sample.svc Sample.random)
      (Sample.server false) Sample.storage kWeaveProfile_Security
      kMsgType_GetCertificateRequest Sample.requestRotate
      (Or.inr (Or.inl ⟨WEAVE_ERROR_INVALID_SIGNATURE, by decide, by rfl⟩))⟩

/-! ## The pairing authorization recorded by `Decode` -/

theorem readBytes_span (env : Collaborators) (msgBuf : List Token) (p : BytePtr) (n : Nat)
    (data : List Nat) (h : SpanOfElement msgBuf p n data) :
    readBytes env msgBuf p n = some data := by
  obtain ⟨pre, t, post, rfl, hlen, rfl, rfl, rfl⟩ := h
  unfold readBytes
  split
  · rename_i h0
    simp [List.length_eq_zero.mp h0]
  · have hb : bytesOf (pre ++ t :: post) = bytesOf pre ++ (t.head ++ (t.data ++ bytesOf post)) := by
      rw [bytesOf_append]
      simp [bytesOf, Token.bytes, hlen]
    simp only [hb]
    rw [if_pos (by simp; omega)]
    congr 1
    rw [← List.append_assoc, List.drop_left' (by simp), List.take_left' rfl]

theorem span_of_GetDataPtr (msgBuf : List Token) (r : TLVReader) (p : Nat)
    (hall : r.all = msgBuf) (h : r.GetDataPtr = .ok p) :
    ∃ data, SpanOfElement msgBuf (.msgBuf p) r.GetLength data := by
  obtain ⟨hp, t, ht, hlen, hgl⟩ := GetDataPtr_ok _ _ h
  refine ⟨t.data, r.before, t, r.after, ?_, hlen, ?_, hgl, rfl⟩
  · rw [← hall]; simp [TLVReader.all, ht]
  · rw [hp]; simp [TLVReader.GetReadPoint, ht]

theorem RequestType_authorizeInfo (self : GetCertificateRequestMessage) (msgBuf : List Token)
    (s : DecodeState) (h : Decode_RequestType self msgBuf = .ok s) :
    s.self.authorizeInfo = self.authorizeInfo := by
  simp only [Decode_RequestType, bind_eq_ok, VerifyOrExit_eq_ok, SuccessOrExit_eq_ok,
    pure, Except.pure, Except.ok.injEq, Prod.mk.injEq] at h
  obtain ⟨r1, _, ⟨o, r2⟩, _, r3, _, v, _, _, _, r4, _, rfl⟩ := h
  rfl

theorem Authorize_authorizeInfo (msgBuf : List Token) (s s' : DecodeState)
    (hall : s.reader.all = msgBuf) (h0 : s.self.authorizeInfo = (.NULL, 0, .NULL, 0))
    (h : Decode_Authorize s = .ok s') :
    s'.self.authorizeInfo = (.NULL, 0, .NULL, 0) ∨
    ∃ token, SpanOfElement msgBuf s'.self.AuthorizeInfoPairingToken
        s'.self.AuthorizeInfoPairingTokenLen token ∧
      ((s'.self.AuthorizeInfoPairingInitData = .NULL ∧
          s'.self.AuthorizeInfoPairingInitDataLen = 0) ∨
        ∃ initData, SpanOfElement msgBuf s'.self.AuthorizeInfoPairingInitData
          s'.self.AuthorizeInfoPairingInitDataLen initData) := by
  simp only [GetCertificateRequestMessage.authorizeInfo, Prod.mk.injEq] at h0
  obtain ⟨_, _, i1, i2⟩ := h0
  unfold Decode_Authorize at h
  split at h
  · simp only [bind_eq_ok, VerifyOrExit_eq_ok, SuccessOrExit_eq_ok,
      pure, Except.pure, Except.ok.injEq, Prod.mk.injEq] at h
    obtain ⟨p, hp, r1, ⟨_, h1'⟩, h⟩ := h
    have a1 : s.reader.Advances r1 := h1' ▸ Next_advances _
    obtain ⟨token, htoken⟩ := span_of_GetDataPtr msgBuf _ _ hall hp
    right
    split at h
    · simp only [bind_eq_ok, VerifyOrExit_eq_ok, SuccessOrExit_eq_ok,
        pure, Except.pure, Except.ok.injEq, Prod.mk.injEq] at h
      obtain ⟨p2, hp2, r2, _, rfl⟩ := h
      obtain ⟨initData, hinit⟩ :=
        span_of_GetDataPtr msgBuf _ _ (a1.1.trans hall) hp2
      exact ⟨token, htoken, Or.inr ⟨initData, hinit⟩⟩
    · simp only [pure, Except.pure, Except.ok.injEq] at h
      subst h
      exact ⟨token, htoken, Or.inl ⟨i1, i2⟩⟩
  · simp only [pure, Except.pure, Except.ok.injEq] at h
    subst h
    left
    simp [GetCertificateRequestMessage.authorizeInfo, *]

theorem OpDeviceCert_authorizeInfo (env : Collaborators) (s s' : DecodeState)
    (h : Decode_OpDeviceCert env s = .ok s') :
    s'.self.authorizeInfo = s.self.authorizeInfo := by
  simp only [Decode_OpDeviceCert, bind_eq_ok, VerifyOrExit_eq_ok, SuccessOrExit_eq_ok,
    pure, Except.pure, Except.ok.injEq, Prod.mk.injEq] at h
  obtain ⟨_, _, _, _, set, _, ⟨set', r1⟩, hl, r2, _, rfl⟩ := h
  rfl

theorem OpRelatedCerts_authorizeInfo (env : Collaborators) (s s' : DecodeState)
    (h : Decode_OpRelatedCerts env s = .ok s') :
    s'.self.authorizeInfo = s.self.authorizeInfo := by
  unfold Decode_OpRelatedCerts at h
  split at h
  · simp only [bind_eq_ok, VerifyOrExit_eq_ok, SuccessOrExit_eq_ok,
      pure, Except.pure, Except.ok.injEq, Prod.mk.injEq] at h
    obtain ⟨_, _, ⟨set', r1⟩, hl, r2, _, rfl⟩ := h
    rfl
  · simp only [pure, Except.pure, Except.ok.injEq] at h
    subst h
    rfl

theorem X509RelCerts_authorizeInfo (env : Collaborators) (fuel : Nat) :
    ∀ (err : WEAVE_ERROR) (r r' : TLVReader) (self self' : GetCertificateRequestMessage),
      Decode_X509RelCerts env fuel err r self = .ok (r', self') →
      self'.authorizeInfo = self.authorizeInfo := by
  induction fuel with
  | zero => intro err r r' self self' h; simp [Decode_X509RelCerts] at h
  | succ n ih =>
    intro err r r' self self' h
    unfold Decode_X509RelCerts at h
    split at h
    · simp only [Except.ok.injEq, Prod.mk.injEq] at h
      obtain ⟨rfl, rfl⟩ := h
      rfl
    · simp only [bind_eq_ok, VerifyOrExit_eq_ok, SuccessOrExit_eq_ok,
        pure, Except.pure, Except.ok.injEq, Prod.mk.injEq] at h
      obtain ⟨r1, ⟨_, h1⟩, _, _, p, _, h⟩ := h
      have e := ih _ _ _ _ _ h
      simp only [GetCertificateRequestMessage.authorizeInfo] at e ⊢
      exact e

theorem ManufAttest_authorizeInfo (env : Collaborators) (s s' : DecodeState)
    (h : Decode_ManufAttest env s = .ok s') :
    s'.self.authorizeInfo = s.self.authorizeInfo := by
  unfold Decode_ManufAttest at h
  split at h
  · simp only [Decode_ManufAttest_WeaveCert, bind_eq_ok, VerifyOrExit_eq_ok,
      SuccessOrExit_eq_ok, pure, Except.pure, Except.ok.injEq, Prod.mk.injEq] at h
    obtain ⟨set, _, ⟨set', r1⟩, hl, h⟩ := h
    try simp only at h
    split at h
    · simp only [bind_eq_ok, VerifyOrExit_eq_ok, SuccessOrExit_eq_ok,
        pure, Except.pure, Except.ok.injEq, Prod.mk.injEq] at h
      obtain ⟨⟨set2, r2⟩, hl2, r3, _, rfl⟩ := h
      rfl
    · simp only [Except.ok.injEq] at h
      subst h
      rfl
  · split at h
    · simp only [Decode_ManufAttest_X509Cert, bind_eq_ok, VerifyOrExit_eq_ok,
        SuccessOrExit_eq_ok, pure, Except.pure, Except.ok.injEq, Prod.mk.injEq] at h
      obtain ⟨p, hp, h⟩ := h
      try simp only at h
      split at h
      · simp only [bind_eq_ok, VerifyOrExit_eq_ok, SuccessOrExit_eq_ok,
          pure, Except.pure, Except.ok.injEq, Prod.mk.injEq] at h
        obtain ⟨⟨o2, r2⟩, h2, ⟨r3, self3⟩, h3, r4, _, r5, _, rfl⟩ := h
        have e := X509RelCerts_authorizeInfo _ _ _ _ _ _ _ h3
        simp only [GetCertificateRequestMessage.authorizeInfo] at e ⊢
        exact e
      · simp only [Except.ok.injEq] at h
        subst h
        rfl
    · split at h
      · simp only [Decode_ManufAttest_HMAC, bind_eq_ok, VerifyOrExit_eq_ok,
          SuccessOrExit_eq_ok, pure, Except.pure, Except.ok.injEq, Prod.mk.injEq] at h
        obtain ⟨v, _, r1, _, h⟩ := h
        split at h
        · simp only [bind_eq_ok, VerifyOrExit_eq_ok, SuccessOrExit_eq_ok,
            pure, Except.pure, Except.ok.injEq, Prod.mk.injEq] at h
          obtain ⟨p, hp, r2, _, rfl⟩ := h
          rfl
        · simp only [Except.ok.injEq] at h
          subst h
          rfl
      · simp only [bind_eq_ok, VerifyOrExit_eq_ok, pure, Except.pure, Except.ok.injEq] at h
        obtain ⟨_, _, rfl⟩ := h
        rfl

theorem OpDeviceSig_authorizeInfo (env : Collaborators) (s s' : DecodeState)
    (h : Decode_OpDeviceSig env s = .ok s') :
    s'.self.authorizeInfo = s.self.authorizeInfo := by
  simp only [Decode_OpDeviceSig, bind_eq_ok, VerifyOrExit_eq_ok, SuccessOrExit_eq_ok,
    pure, Except.pure, Except.ok.injEq, Prod.mk.injEq, beq_iff_eq] at h
  obtain ⟨_, _, _, _, v, _, r1, _, ⟨sig, r2⟩, _, rfl⟩ := h
  rfl

theorem ManufAttestSig_authorizeInfo (env : Collaborators) (s s' : DecodeState)
    (h : Decode_ManufAttestSig env s = .ok s') :
    s'.self.authorizeInfo = s.self.authorizeInfo := by
  unfold Decode_ManufAttestSig at h
  split at h
  · simp only [bind_eq_ok] at h
    obtain ⟨s1, h1, h2⟩ := h
    simp only [Decode_ManufAttestSigAlgo, bind_eq_ok, VerifyOrExit_eq_ok, SuccessOrExit_eq_ok,
      pure, Except.pure, Except.ok.injEq, Prod.mk.injEq] at h1
    obtain ⟨_, _, _, _, v, _, r1, _, rfl⟩ := h1
    unfold Decode_ManufAttestSigValue at h2
    split at h2
    · simp only [bind_eq_ok, VerifyOrExit_eq_ok, SuccessOrExit_eq_ok,
        pure, Except.pure, Except.ok.injEq, Prod.mk.injEq] at h2
      obtain ⟨_, _, ⟨sig, r2⟩, _, rfl⟩ := h2
      rfl
    · split at h2
      · simp only [bind_eq_ok, VerifyOrExit_eq_ok, SuccessOrExit_eq_ok,
          pure, Except.pure, Except.ok.injEq, Prod.mk.injEq] at h2
        obtain ⟨_, _, ⟨p, len⟩, _, rfl⟩ := h2
        rfl
      · split at h2
        · simp only [bind_eq_ok, VerifyOrExit_eq_ok, SuccessOrExit_eq_ok,
            pure, Except.pure, Except.ok.injEq, Prod.mk.injEq] at h2
          obtain ⟨_, _, ⟨p, len⟩, _, rfl⟩ := h2
          rfl
        · simp at h2
  · simp only [pure, Except.pure, Except.ok.injEq] at h
    subst h
    rfl

theorem Decode_authorizeInfo (env : Collaborators) (storage : GetCertificateRequestMessage)
    (msgBuf : List Token) (msg : GetCertificateRequestMessage)
    (h : (GetCertificateRequestMessage.new storage).Decode env msgBuf = .ok msg) :
    msg.authorizeInfo = (.NULL, 0, .NULL, 0) ∨
    ∃ token, SpanOfElement msgBuf msg.AuthorizeInfoPairingToken
        msg.AuthorizeInfoPairingTokenLen token ∧
      ((msg.AuthorizeInfoPairingInitData = .NULL ∧ msg.AuthorizeInfoPairingInitDataLen = 0) ∨
        ∃ initData, SpanOfElement msgBuf msg.AuthorizeInfoPairingInitData
          msg.AuthorizeInfoPairingInitDataLen initData) := by
  simp only [Decode, Decode_ToOpDeviceSig, Decode_ToManufAttest, Decode_ToOpDeviceCert,
    bind_eq_ok, pure, Except.pure, Except.ok.injEq] at h
  obtain ⟨s6, ⟨s5, ⟨s3, ⟨s1, h1, s2, h2, h3⟩, s4, h4, h5⟩, h6⟩, s7, h7, s8, h8, rfl⟩ := h
  obtain ⟨A1, _⟩ := RequestType_ok _ _ _ h1
  have e1 := RequestType_authorizeInfo _ _ _ h1
  have e2 := Authorize_authorizeInfo msgBuf s1 s2 A1.1 (e1.trans rfl) h2
  have e3 := OpDeviceCert_authorizeInfo _ _ _ h3
  have e4 := OpRelatedCerts_authorizeInfo _ _ _ h4
  have e5 := ManufAttest_authorizeInfo _ _ _ h5
  have e6 := OpDeviceSig_authorizeInfo _ _ _ h6
  have e7 := ManufAttestSig_authorizeInfo _ _ _ h7
  have e8 := End_ok _ _ h8
  have e : s8.self.authorizeInfo = s2.self.authorizeInfo := by
    rw [e8, e7, e6, e5, e4, e3]
  simp only [GetCertificateRequestMessage.authorizeInfo, Prod.mk.injEq] at e e2 ⊢
  obtain ⟨q1, q2, q3, q4⟩ := e
  rw [q1, q2, q3, q4]
  exact e2

theorem Process_Authorize_spec (env : Collaborators) (msgBuf : List Token)
    (msg : GetCertificateRequestMessage) (token initData : List Nat)
    (hp : msg.AuthorizeInfoPresent = true)
    (ht : readBytes env msgBuf msg.AuthorizeInfoPairingToken msg.AuthorizeInfoPairingTokenLen =
      some token)
    (htl : token.length = msg.AuthorizeInfoPairingTokenLen)
    (hi : readBytes env msgBuf msg.AuthorizeInfoPairingInitData
      msg.AuthorizeInfoPairingInitDataLen = some initData)
    (hil : initData.length = msg.AuthorizeInfoPairingInitDataLen) :
    (∀ c ∈ (Process_Authorize env msgBuf msg).2, c.isMemcmp = true) ∧
    (token = env.TestDevice1_PairingToken ∧ initData = env.TestDevice1_PairingInitData →
      (Process_Authorize env msgBuf msg).1 = none) ∧
    (¬ (token = env.TestDevice1_PairingToken ∧ initData = env.TestDevice1_PairingInitData) →
      (Process_Authorize env msgBuf msg).1 = some (.returned WEAVE_ERROR_INVALID_ARGUMENT)) := by
  unfold Process_Authorize
  rw [if_pos hp]
  by_cases h1 : msg.AuthorizeInfoPairingTokenLen = env.TestDevice1_PairingToken.length
  · rw [if_pos h1, ← h1, ht]
    simp only []
    by_cases h2 : token = env.TestDevice1_PairingToken
    · rw [if_pos h2]
      by_cases h3 : msg.AuthorizeInfoPairingInitDataLen = env.TestDevice1_PairingInitData.length
      · rw [if_pos h3, ← h3, hi]
        simp only []
        by_cases h4 : initData = env.TestDevice1_PairingInitData
        · rw [if_pos h4]
          exact ⟨by simp [Call.isMemcmp], fun _ => rfl, fun hn => absurd ⟨h2, h4⟩ hn⟩
        · rw [if_neg h4]
          exact ⟨by simp [Call.isMemcmp], fun hc => absurd hc.2 h4, fun _ => rfl⟩
      · rw [if_neg h3]
        refine ⟨by simp [Call.isMemcmp], fun hc => ?_, fun _ => rfl⟩
        exact absurd (by rw [← hil, hc.2]) h3
    · rw [if_neg h2]
      exact ⟨by simp [Call.isMemcmp], fun hc => absurd hc.1 h2, fun _ => rfl⟩
  · rw [if_neg h1]
    refine ⟨by simp, fun hc => ?_, fun _ => rfl⟩
    exact absurd (by rw [← htl, hc.1]) h1

/-- C16: for every request `Decode` accepts in which pairing authorization is present
(`AuthorizeInfoPresent()`), the token and the init data recorded by `Decode` are spans of
the request buffer, and unless the token is the configured token and the init data is the
configured init data, in length and in bytes, `ProcessGetCertificateRequest` returns
`WEAVE_ERROR_INVALID_ARGUMENT` having made no call but byte comparisons: no certificate chain
is validated and no signature verified. -/
theorem Process_pairing_authorization (env : Collaborators)
    (storage : GetCertificateRequestMessage) (msgBuf : List Token)
    (msg : GetCertificateRequestMessage)
    (hd : (GetCertificateRequestMessage.new storage).Decode env msgBuf = .ok msg)
    (hp : msg.AuthorizeInfoPresent = true) :
    ∃ token initData,
      readBytes env msgBuf msg.AuthorizeInfoPairingToken msg.AuthorizeInfoPairingTokenLen =
        some token ∧
      readBytes env msgBuf msg.AuthorizeInfoPairingInitData
        msg.AuthorizeInfoPairingInitDataLen = some initData ∧
      token.length = msg.AuthorizeInfoPairingTokenLen ∧
      initData.length = msg.AuthorizeInfoPairingInitDataLen ∧
      (¬ (token = env.TestDevice1_PairingToken ∧ initData = env.TestDevice1_PairingInitData) →
        (ProcessGetCertificateRequest env msgBuf
          (GetCertificateRequestMessage.new storage)).ret =
            .returned WEAVE_ERROR_INVALID_ARGUMENT ∧
        ∀ c ∈ (ProcessGetCertificateRequest env msgBuf
          (GetCertificateRequestMessage.new storage)).calls, c.isMemcmp = true) ∧
      ((ProcessGetCertificateRequest env msgBuf
          (GetCertificateRequestMessage.new storage)).ret = .returned WEAVE_NO_ERROR →
        token = env.TestDevice1_PairingToken ∧ initData = env.TestDevice1_PairingInitData) := by
  have key : ∃ token initData,
      readBytes env msgBuf msg.AuthorizeInfoPairingToken msg.AuthorizeInfoPairingTokenLen =
        some token ∧
      readBytes env msgBuf msg.AuthorizeInfoPairingInitData
        msg.AuthorizeInfoPairingInitDataLen = some initData ∧
      token.length = msg.AuthorizeInfoPairingTokenLen ∧
      initData.length = msg.AuthorizeInfoPairingInitDataLen := by
    rcases Decode_authorizeInfo env storage msgBuf msg hd with h0 | ⟨token, ht, hi⟩
    · simp only [GetCertificateRequestMessage.authorizeInfo, Prod.mk.injEq] at h0
      simp [GetCertificateRequestMessage.AuthorizeInfoPresent, h0.1] at hp
    · have htl : token.length = msg.AuthorizeInfoPairingTokenLen := by
        obtain ⟨_, _, _, _, _, _, e1, e2⟩ := ht
        rw [e1, e2]
      rcases hi with ⟨i1, i2⟩ | ⟨initData, hi⟩
      · exact ⟨token, [], readBytes_span _ _ _ _ _ ht, by rw [i2]; rfl, htl, by rw [i2]; rfl⟩
      · have hil : initData.length = msg.AuthorizeInfoPairingInitDataLen := by
          obtain ⟨_, _, _, _, _, _, e1, e2⟩ := hi
          rw [e1, e2]
        exact ⟨token, initData, readBytes_span _ _ _ _ _ ht, readBytes_span _ _ _ _ _ hi,
          htl, hil⟩
  obtain ⟨token, initData, ht, hi, htl, hil⟩ := key
  obtain ⟨hc, _, hbad⟩ := Process_Authorize_spec env msgBuf msg token initData hp ht htl hi hil
  have hfail : ¬ (token = env.TestDevice1_PairingToken ∧
      initData = env.TestDevice1_PairingInitData) →
      (ProcessGetCertificateRequest env msgBuf
        (GetCertificateRequestMessage.new storage)).ret =
          .returned WEAVE_ERROR_INVALID_ARGUMENT ∧
      ∀ c ∈ (ProcessGetCertificateRequest env msgBuf
        (GetCertificateRequestMessage.new storage)).calls, c.isMemcmp = true := by
    intro hn
    have hb := hbad hn
    unfold ProcessGetCertificateRequest
    rw [hd]
    simp only []
    unfold Process_Validate
    split
    · rename_i out calls heq
      rw [heq] at hb hc
      simp only [Option.some.injEq] at hb
      exact ⟨by rw [← hb], hc⟩
    · rename_i calls heq
      rw [heq] at hb
      cases hb
  refine ⟨token, initData, ht, hi, htl, hil, hfail, fun hok => ?_⟩
  by_contra hn
  rw [(hfail hn).1] at hok
  cases hok

/-- A sample request with a pairing token equal to the configured one and pairing init data
that differ from the configured ones. -/
theorem Process_pairing_authorization_witness :
    ∃ token initData,
      readBytes (Sample.env false) (Sample.requestAuthorized [9, 9] [7])
        (Sample.decoded (Sample.env false)
          (Sample.requestAuthorized [9, 9] [7])).AuthorizeInfoPairingToken
        (Sample.decoded (Sample.env false)
          (Sample.requestAuthorized [9, 9] [7])).AuthorizeInfoPairingTokenLen = some token ∧
      readBytes (Sample.env false) (Sample.requestAuthorized [9, 9] [7])
        (Sample.decoded (Sample.env false)
          (Sample.requestAuthorized [9, 9] [7])).AuthorizeInfoPairingInitData
        (Sample.decoded (Sample.env false)
          (Sample.requestAuthorized [9, 9] [7])).AuthorizeInfoPairingInitDataLen =
            some initData ∧
      token.length = (Sample.decoded (Sample.env false)
        (Sample.requestAuthorized [9, 9] [7])).AuthorizeInfoPairingTokenLen ∧
      initData.length = (Sample.decoded (Sample.env false)
        (Sample.requestAuthorized [9, 9] [7])).AuthorizeInfoPairingInitDataLen ∧
      (¬ (token = (Sample.env false).TestDevice1_PairingToken ∧
          initData = (Sample.env false).TestDevice1_PairingInitData) →
        (ProcessGetCertificateRequest (Sample.env false) (Sample.requestAuthorized [9, 9] [7])
          (GetCertificateRequestMessage.new Sample.storage)).ret =
            .returned WEAVE_ERROR_INVALID_ARGUMENT ∧
        ∀ c ∈ (ProcessGetCertificateRequest (Sample.env false)
          (Sample.requestAuthorized [9, 9] [7])
          (GetCertificateRequestMessage.new Sample.storage)).calls, c.isMemcmp = true) ∧
      ((ProcessGetCertificateRequest (Sample.env false) (Sample.requestAuthorized [9, 9] [7])
          (GetCertificateRequestMessage.new Sample.storage)).ret = .returned WEAVE_NO_ERROR →
        token = (Sample.env false).TestDevice1_PairingToken ∧
          initData = (Sample.env false).TestDevice1_PairingInitData) :=
  Process_pairing_authorization (Sample.env false) Sample.storage
    (Sample.requestAuthorized [9, 9] [7])
    (Sample.decoded (Sample.env false) (Sample.requestAuthorized [9, 9] [7])) (by rfl) (by rfl)

/-! ## The attestation-signature routine and the HMAC meta data -/

/-- C15, the failing request: attestation by a Weave certificate, an ECDSA signature
structure as attestation signature, and the attestation-signature algorithm id of
HMAC-with-SHA-256. `Decode` accepts it with variant WeaveCert; `ProcessGetCertificateRequest`
verifies the operational signature, then takes the branch of the algorithm id, the HMAC
one, which reads the HMAC member of the union that holds the ECDSA signature: the ECDSA
verification with the key of the attestation certificate is never made. With the algorithm
id of ECDSA-with-SHA-256 the same request is verified with that key. -/
theorem Process_WeaveCert_request_with_HMAC_algorithm_id :
    (ProcessGetCertificateRequest (Sample.env false)
      (Sample.requestWeaveCert kOID_SigAlgo_HMACWithSHA256)
      (GetCertificateRequestMessage.new Sample.storage)).msg.ManufAttestType =
        kManufAttestType_WeaveCert ∧
    (ProcessGetCertificateRequest (Sample.env false)
      (Sample.requestWeaveCert kOID_SigAlgo_HMACWithSHA256)
      (GetCertificateRequestMessage.new Sample.storage)).calls.filter
        Call.isSignatureVerification =
      [Call.VerifyECDSASignature 102 [22] 32 { R := [1], S := [2] } { ECPoint := [4, 5] }] ∧
    (ProcessGetCertificateRequest (Sample.env false)
      (Sample.requestWeaveCert kOID_SigAlgo_HMACWithSHA256)
      (GetCertificateRequestMessage.new Sample.storage)).ret = .undefined ∧
    (ProcessGetCertificateRequest (Sample.env false)
      (Sample.requestWeaveCert kOID_SigAlgo_ECDSAWithSHA256)
      (GetCertificateRequestMessage.new Sample.storage)).calls.filter
        Call.isSignatureVerification =
      [Call.VerifyECDSASignature 102 [22] 32 { R := [1], S := [2] } { ECPoint := [4, 5] },
        Call.VerifyECDSASignature 102 [22] 32 { R := [1], S := [2] } { ECPoint := [4, 5] }] := by
  refine ⟨by rfl, by rfl, by rfl, by rfl⟩

/-- C17, the failing request: HMAC attestation with the configured key id and no meta data
field, decoded into a message object whose memory held a non-null `ManufAttestHMACMetaData`
before construction. The constructor and `Decode` leave that member as it was, and
`ProcessGetCertificateRequest` compares meta data the request never carried, reading through
the stale pointer. On memory that held a null pointer the same request is validated without
any comparison. -/
theorem Process_HMAC_request_without_meta_data :
    (Sample.decoded (Sample.env false) Sample.requestHMACNoMetaData).ManufAttestType =
      kManufAttestType_HMAC ∧
    (ProcessGetCertificateRequest (Sample.env false) Sample.requestHMACNoMetaData
      (GetCertificateRequestMessage.new Sample.storageUsed)).calls.filter Call.isMemcmp =
        [Call.memcmp (.wild 1) [3] 1] ∧
    (ProcessGetCertificateRequest (Sample.env false) Sample.requestHMACNoMetaData
      (GetCertificateRequestMessage.new Sample.storageUsed)).ret = .undefined ∧
    (ProcessGetCertificateRequest (Sample.env false) Sample.requestHMACNoMetaData
      (GetCertificateRequestMessage.new Sample.storage)).calls.filter Call.isMemcmp = [] ∧
    (ProcessGetCertificateRequest (Sample.env false) Sample.requestHMACNoMetaData
      (GetCertificateRequestMessage.new Sample.storage)).ret = .returned WEAVE_NO_ERROR := by
  refine ⟨by rfl, by rfl, by rfl, by rfl, by rfl⟩

/-! ## The signature of an issued certificate -/

theorem Generate_ConvertTBS_of_structure (svc : ServiceCollaborators) (rest : List Token) :
    Generate_ConvertTBS svc
      (TLVWriter.containerElement (ProfileTag kWeaveProfile_Security kTag_WeaveCertificate)
        kTLVType_Structure :: rest) =
      (SuccessOrExit (svc.DecodeConvertTBSCert rest)).bind
        (fun der => SuccessOrExit (svc.ASN1Writer_Finalize der)) := by
  rfl

theorem Generate_signed (env : Collaborators) (svc : ServiceCollaborators)
    (self : MockCAService) (certData : WeaveCertificateData) (certBufSize : Nat)
    (cert : List Token) (certLen : Nat)
    (h : (self.GenerateServiceAssignedDeviceCert env svc certData certBufSize).issued =
      some (cert, certLen)) :
    ∃ der,
      (svc.DecodeConvertTBSCert (issuedFields svc (issuedCertData svc certData) ++
        [TLVWriter.containerElement (ContextTag kTag_ECDSASignature) kTLVType_Structure])).1 =
        WEAVE_NO_ERROR ∧
      svc.ASN1Writer_Finalize
        (svc.DecodeConvertTBSCert (issuedFields svc (issuedCertData svc certData) ++
          [TLVWriter.containerElement (ContextTag kTag_ECDSASignature) kTLVType_Structure])).2 =
        (WEAVE_NO_ERROR, der) ∧
      (self.GenerateServiceAssignedDeviceCert env svc certData certBufSize).certData.TBSHash =
        env.SHA256 der ∧
      (svc.DecodeWeaveECPrivateKey self.mCAPrivateKey).1 = WEAVE_NO_ERROR ∧
      (svc.GenerateECDSASignature
        (env.WeaveCurveIdToOID (svc.DecodeWeaveECPrivateKey self.mCAPrivateKey).2.1)
        (env.SHA256 der) env.kHashLength (svc.DecodeWeaveECPrivateKey self.mCAPrivateKey).2.2.2
        svc.kMaxValueLength).1 = WEAVE_NO_ERROR ∧
      cert =
        TLVWriter.containerElement (ProfileTag kWeaveProfile_Security kTag_WeaveCertificate)
            kTLVType_Structure :: issuedFields svc (issuedCertData svc certData) ++
          [TLVWriter.containerElement (ContextTag kTag_ECDSASignature) kTLVType_Structure,
            TLVWriter.bytesElement (ContextTag kTag_ECDSASignature_r)
              (svc.GenerateECDSASignature
                (env.WeaveCurveIdToOID (svc.DecodeWeaveECPrivateKey self.mCAPrivateKey).2.1)
                (env.SHA256 der) env.kHashLength
                (svc.DecodeWeaveECPrivateKey self.mCAPrivateKey).2.2.2 svc.kMaxValueLength).2.R,
            TLVWriter.bytesElement (ContextTag kTag_ECDSASignature_s)
              (svc.GenerateECDSASignature
                (env.WeaveCurveIdToOID (svc.DecodeWeaveECPrivateKey self.mCAPrivateKey).2.1)
                (env.SHA256 der) env.kHashLength
                (svc.DecodeWeaveECPrivateKey self.mCAPrivateKey).2.2.2 svc.kMaxValueLength).2.S,
            TLVWriter.endOfContainerElement, TLVWriter.endOfContainerElement] := by
  unfold GenerateServiceAssignedDeviceCert at h
  simp only [] at h
  split at h
  · cases h
  · rename_i c c2 w hT
    split at h
    · cases h
    · rename_i der hC
      split at h
      · cases h
      · rename_i w' hS
        have hH : (self.GenerateServiceAssignedDeviceCert env svc certData
            certBufSize).certData.TBSHash = env.SHA256 der := by
          simp only [GenerateServiceAssignedDeviceCert, hT, hC, hS]
        simp only [Option.some.injEq, Prod.mk.injEq] at h
        obtain ⟨aT, _⟩ := Generate_TBS_ok _ _ _ _ _ _ hT
        obtain ⟨k1, k2, aS⟩ := Generate_Sign_ok _ _ _ _ _ _ _ _ hS
        rw [aT, List.cons_append, Generate_ConvertTBS_of_structure] at hC
        simp only [Except.bind, bind_eq_ok] at hC
        have hC' : ∃ d, SuccessOrExit (svc.DecodeConvertTBSCert
            (issuedFields svc (issuedCertData svc certData) ++
              [TLVWriter.containerElement (ContextTag kTag_ECDSASignature)
                kTLVType_Structure])) = .ok d ∧
            SuccessOrExit (svc.ASN1Writer_Finalize d) = .ok der := by
          revert hC
          simp only [issuedCertData]
          cases SuccessOrExit (svc.DecodeConvertTBSCert _) with
          | error e => intro hC; cases hC
          | ok d => intro hC; exact ⟨d, rfl, hC⟩
        obtain ⟨d, hd, hf⟩ := hC'
        rw [SuccessOrExit_eq_ok] at hd hf
        refine ⟨der, hd.1, ?_, hH, k1, k2, ?_⟩
        · rw [hd.2]; exact Prod.ext hf.1 hf.2
        · rw [← h.1, aS, aT]
          simp [issuedCertData]

theorem Generate_Validity_packed (svc : ServiceCollaborators) (w w' : TLVWriter)
    (h : Generate_Validity svc w = .ok w') :
    (svc.PackCertTime
      { Year := 2019, Month := 8, Day := 1, Hour := 14, Minute := 11, Second := 54 }).1 =
      WEAVE_NO_ERROR ∧
    (svc.PackCertTime
      { Year := 2029, Month := 8, Day := 1, Hour := 14, Minute := 11, Second := 54 }).1 =
      WEAVE_NO_ERROR := by
  simp only [Generate_Validity, bind_eq_ok] at h
  obtain ⟨t1, h1, t2, h2, _⟩ := h
  rw [SuccessOrExit_eq_ok] at h1 h2
  exact ⟨h1.1, h2.1⟩

theorem Generate_TBS_packed (svc : ServiceCollaborators) (certData : WeaveCertificateData)
    (certBufSize : Nat) (c c2 : TLVType) (w : TLVWriter)
    (h : Generate_TBS svc certData certBufSize = .ok (c, c2, w)) :
    (svc.PackCertTime
      { Year := 2019, Month := 8, Day := 1, Hour := 14, Minute := 11, Second := 54 }).1 =
      WEAVE_NO_ERROR ∧
    (svc.PackCertTime
      { Year := 2029, Month := 8, Day := 1, Hour := 14, Minute := 11, Second := 54 }).1 =
      WEAVE_NO_ERROR := by
  simp only [Generate_TBS, bind_eq_ok, pure, Except.pure, Except.ok.injEq, Prod.mk.injEq] at h
  obtain ⟨⟨c0, w0⟩, h0, w1, h1, w2, h2, w3, h3, _⟩ := h
  exact Generate_Validity_packed _ _ _ h3

theorem Generate_stages (env : Collaborators) (svc : ServiceCollaborators)
    (self : MockCAService) (certData : WeaveCertificateData) (certBufSize : Nat)
    (cert : List Token) (certLen : Nat)
    (h : (self.GenerateServiceAssignedDeviceCert env svc certData certBufSize).issued =
      some (cert, certLen)) :
    ∃ c c2 w, Generate_TBS svc (issuedCertData svc certData) certBufSize = .ok (c, c2, w) := by
  unfold GenerateServiceAssignedDeviceCert at h
  simp only [] at h
  split at h
  · cases h
  · rename_i c c2 w hT
    exact ⟨c, c2, w, hT⟩

/-! ## The validity window of an issued certificate -/

/-- C22: whenever `GenerateServiceAssignedDeviceCert` issues a certificate, whatever the
certificate data, the service, the collaborators and the size of the buffer, the two elements
that follow the issuer path are the not-before and the not-after times, and their values are
what `PackCertTime`, which succeeded, gives for the constant dates 2019-08-01 14:11:54 and
2029-08-01 14:11:54: the same month, day, hour, minute and second, the year ten later. -/
theorem Generate_validity_window (env : Collaborators) (svc : ServiceCollaborators)
    (self : MockCAService) (certData : WeaveCertificateData) (certBufSize : Nat)
    (cert : List Token) (certLen : Nat)
    (h : (self.GenerateServiceAssignedDeviceCert env svc certData certBufSize).issued =
      some (cert, certLen)) :
    ∃ notBefore notAfter,
      svc.PackCertTime
        { Year := 2019, Month := 8, Day := 1, Hour := 14, Minute := 11, Second := 54 } =
        (WEAVE_NO_ERROR, notBefore) ∧
      svc.PackCertTime
        { Year := 2029, Month := 8, Day := 1, Hour := 14, Minute := 11, Second := 54 } =
        (WEAVE_NO_ERROR, notAfter) ∧
      cert[6]? = some (TLVWriter.uintElement (ContextTag kTag_NotBefore) notBefore) ∧
      cert[7]? = some (TLVWriter.uintElement (ContextTag kTag_NotAfter) notAfter) := by
  obtain ⟨c, c2, w, hT⟩ := Generate_stages _ _ _ _ _ _ _ h
  obtain ⟨p1, p2⟩ := Generate_TBS_packed _ _ _ _ _ _ hT
  obtain ⟨r, s, rfl⟩ := Generate_issued _ _ _ _ _ _ _ h
  refine ⟨_, _, Prod.ext p1 rfl, Prod.ext p2 rfl, ?_, ?_⟩
  all_goals simp only [issuedFields, List.cons_append, List.getElem?_cons_succ,
    List.getElem?_cons_zero]

/-- The validity window of the certificate issued in the sample configuration, whose
`PackCertTime` gives 400 times the year plus 31 times the month plus the day. -/
theorem Generate_validity_window_witness :
    ∃ notBefore notAfter,
      (Sample.svc Sample.random).PackCertTime
        { Year := 2019, Month := 8, Day := 1, Hour := 14, Minute := 11, Second := 54 } =
        (WEAVE_NO_ERROR, notBefore) ∧
      (Sample.svc Sample.random).PackCertTime
        { Year := 2029, Month := 8, Day := 1, Hour := 14, Minute := 11, Second := 54 } =
        (WEAVE_NO_ERROR, notAfter) ∧
      (Sample.issued Sample.random).1[6]? =
        some (TLVWriter.uintElement (ContextTag kTag_NotBefore) notBefore) ∧
      (Sample.issued Sample.random).1[7]? =
        some (TLVWriter.uintElement (ContextTag kTag_NotAfter) notAfter) :=
  Generate_validity_window (Sample.env false) (Sample.svc Sample.random)
    (Sample.server false) Sample.cert 2048 (Sample.issued Sample.random).1
    (Sample.issued Sample.random).2 (by rfl)

/-! ## The elements of an issued certificate, in order -/

/-- C28: whenever `GenerateServiceAssignedDeviceCert` issues a certificate, the certificate
structure holds, in this order: the serial number, the signature algorithm, the issuer path,
the not-before and the not-after times, the subject path, the public-key algorithm, the
curve id, the EC public key, the basic-constraints structure holding only the critical flag
(true), the key-usage structure holding the critical flag (true) and the flags
digital-signature and key-encipherment, the extended-key-usage structure holding the critical
flag (true) and the array of purposes client-auth then server-auth, the
subject-key-identifier structure holding the subject key id of the certificate data handed
in, the authority-key-identifier structure holding the subject key id of the CA, and the
ECDSA signature structure holding r then s; nothing else. -/
theorem Generate_element_order (env : Collaborators) (svc : ServiceCollaborators)
    (self : MockCAService) (certData : WeaveCertificateData) (certBufSize : Nat)
    (cert : List Token) (certLen : Nat)
    (h : (self.GenerateServiceAssignedDeviceCert env svc certData certBufSize).issued =
      some (cert, certLen)) :
    ∃ serial sigAlgo notBefore notAfter pubKeyAlgo curveId r s, cert =
      [TLVWriter.containerElement (ProfileTag kWeaveProfile_Security kTag_WeaveCertificate)
          kTLVType_Structure,
        TLVWriter.bytesElement (ContextTag kTag_SerialNumber) serial,
        TLVWriter.uintElement (ContextTag kTag_SignatureAlgorithm) sigAlgo,
        TLVWriter.containerElement (ContextTag kTag_Issuer) kTLVType_Path,
        TLVWriter.uintElement (ContextTag (kOID_AttributeType_WeaveDeviceId &&& kOID_Mask))
          svc.sTestCert_CA_Id,
        TLVWriter.endOfContainerElement,
        TLVWriter.uintElement (ContextTag kTag_NotBefore) notBefore,
        TLVWriter.uintElement (ContextTag kTag_NotAfter) notAfter,
        TLVWriter.containerElement (ContextTag kTag_Subject) kTLVType_Path,
        TLVWriter.uintElement (ContextTag (kOID_AttributeType_WeaveDeviceId &&& kOID_Mask))
          certData.SubjectDN.AttrValue.WeaveId,
        TLVWriter.endOfContainerElement,
        TLVWriter.uintElement (ContextTag kTag_PublicKeyAlgorithm) pubKeyAlgo,
        TLVWriter.uintElement (ContextTag kTag_EllipticCurveIdentifier) curveId,
        TLVWriter.bytesElement (ContextTag kTag_EllipticCurvePublicKey)
          certData.PublicKey.EC.ECPoint,
        TLVWriter.containerElement (ContextTag kTag_BasicConstraints) kTLVType_Structure,
        TLVWriter.booleanElement (ContextTag kTag_BasicConstraints_Critical) true,
        TLVWriter.endOfContainerElement,
        TLVWriter.containerElement (ContextTag kTag_KeyUsage) kTLVType_Structure,
        TLVWriter.booleanElement (ContextTag kTag_KeyUsage_Critical) true,
        TLVWriter.uintElement (ContextTag kTag_KeyUsage_KeyUsage)
          (kKeyUsageFlag_DigitalSignature ||| kKeyUsageFlag_KeyEncipherment),
        TLVWriter.endOfContainerElement,
        TLVWriter.containerElement (ContextTag kTag_ExtendedKeyUsage) kTLVType_Structure,
        TLVWriter.booleanElement (ContextTag kTag_ExtendedKeyUsage_Critical) true,
        TLVWriter.containerElement (ContextTag kTag_ExtendedKeyUsage_KeyPurposes)
          kTLVType_Array,
        TLVWriter.uintElement AnonymousTag (kOID_KeyPurpose_ClientAuth &&& kOID_Mask),
        TLVWriter.uintElement AnonymousTag (kOID_KeyPurpose_ServerAuth &&& kOID_Mask),
        TLVWriter.endOfContainerElement,
        TLVWriter.endOfContainerElement,
        TLVWriter.containerElement (ContextTag kTag_SubjectKeyIdentifier) kTLVType_Structure,
        TLVWriter.bytesElement (ContextTag kTag_SubjectKeyIdentifier_KeyIdentifier)
          certData.SubjectKeyId.Id,
        TLVWriter.endOfContainerElement,
        TLVWriter.containerElement (ContextTag kTag_AuthorityKeyIdentifier)
          kTLVType_Structure,
        TLVWriter.bytesElement (ContextTag kTag_AuthorityKeyIdentifier_KeyIdentifier)
          svc.sTestCert_CA_SubjectKeyId,
        TLVWriter.endOfContainerElement,
        TLVWriter.containerElement (ContextTag kTag_ECDSASignature) kTLVType_Structure,
        TLVWriter.bytesElement (ContextTag kTag_ECDSASignature_r) r,
        TLVWriter.bytesElement (ContextTag kTag_ECDSASignature_s) s,
        TLVWriter.endOfContainerElement,
        TLVWriter.endOfContainerElement] := by
  obtain ⟨r, s, rfl⟩ := Generate_issued _ _ _ _ _ _ _ h
  exact ⟨_, _, _, _, _, _, r, s, rfl⟩

/-- The certificate issued in the sample configuration has the 39 elements of the fixed
order. -/
theorem Generate_element_order_witness :
    ((Sample.server false).GenerateServiceAssignedDeviceCert (Sample.env false)
      (Sample.svc Sample.random) Sample.cert 2048).issued =
      some (Sample.issued Sample.random) ∧
    (Sample.issued Sample.random).1.length = 39 := by
  refine ⟨by rfl, ?_⟩
  obtain ⟨_, _, _, _, _, _, _, _, e⟩ :=
    Generate_element_order (Sample.env false) (Sample.svc Sample.random)
      (Sample.server false) Sample.cert 2048 (Sample.issued Sample.random).1
      (Sample.issued Sample.random).2 (by rfl)
  rw [e]
  rfl

/-! ## What is signed -/

/-- C29: whenever `GenerateServiceAssignedDeviceCert` issues a certificate, the conversion
to DER of the elements written between the opening of the certificate structure and the
opening of the signature structure (the reader sees the latter as the element that ends the
fields) succeeded and gave `der`; the hash left in `certData.TBSHash` is the SHA-256 of
`der`; the CA private key was decoded to a curve id and a key; the ECDSA signature was
generated for the algorithm of that curve, over that hash, with that key; and the signature
structure of the certificate holds the r value of that signature followed by its s value. -/
theorem Generate_signature (env : Collaborators) (svc : ServiceCollaborators)
    (self : MockCAService) (certData : WeaveCertificateData) (certBufSize : Nat)
    (cert : List Token) (certLen : Nat)
    (h : (self.GenerateServiceAssignedDeviceCert env svc certData certBufSize).issued =
      some (cert, certLen)) :
    ∃ tbs der caCurveId caPubKey caPrivKey ecdsaSig,
      svc.DecodeConvertTBSCert ((cert.take 35).drop 1) = (WEAVE_NO_ERROR, tbs) ∧
      svc.ASN1Writer_Finalize tbs = (WEAVE_NO_ERROR, der) ∧
      (self.GenerateServiceAssignedDeviceCert env svc certData certBufSize).certData.TBSHash =
        env.SHA256 der ∧
      svc.DecodeWeaveECPrivateKey self.mCAPrivateKey =
        (WEAVE_NO_ERROR, caCurveId, caPubKey, caPrivKey) ∧
      svc.GenerateECDSASignature (env.WeaveCurveIdToOID caCurveId) (env.SHA256 der)
        env.kHashLength caPrivKey svc.kMaxValueLength = (WEAVE_NO_ERROR, ecdsaSig) ∧
      cert[34]? =
        some (TLVWriter.containerElement (ContextTag kTag_ECDSASignature) kTLVType_Structure) ∧
      cert.drop 35 =
        [TLVWriter.bytesElement (ContextTag kTag_ECDSASignature_r) ecdsaSig.R,
          TLVWriter.bytesElement (ContextTag kTag_ECDSASignature_s) ecdsaSig.S,
          TLVWriter.endOfContainerElement, TLVWriter.endOfContainerElement] := by
  obtain ⟨der, a1, a2, a3, a4, a5, rfl⟩ := Generate_signed _ _ _ _ _ _ _ h
  refine ⟨_, der, _, _, _, _, ?_, a2, a3, Prod.ext a4 rfl, Prod.ext a5 rfl, ?_, ?_⟩
  · exact Prod.ext a1 rfl
  · simp [issuedFields]
  · simp [issuedFields]

/-- The signature of the certificate issued in the sample configuration. -/
theorem Generate_signature_witness :
    ((Sample.server false).GenerateServiceAssignedDeviceCert (Sample.env false)
      (Sample.svc Sample.random) Sample.cert 2048).issued =
      some (Sample.issued Sample.random) ∧
    ∃ tbs der caCurveId caPubKey caPrivKey ecdsaSig,
      (Sample.svc Sample.random).DecodeConvertTBSCert
        (((Sample.issued Sample.random).1.take 35).drop 1) = (WEAVE_NO_ERROR, tbs) ∧
      (Sample.svc Sample.random).ASN1Writer_Finalize tbs = (WEAVE_NO_ERROR, der) ∧
      ((Sample.server false).GenerateServiceAssignedDeviceCert (Sample.env false)
        (Sample.svc Sample.random) Sample.cert 2048).certData.TBSHash =
        (Sample.env false).SHA256 der ∧
      (Sample.svc Sample.random).DecodeWeaveECPrivateKey (Sample.server false).mCAPrivateKey =
        (WEAVE_NO_ERROR, caCurveId, caPubKey, caPrivKey) ∧
      (Sample.svc Sample.random).GenerateECDSASignature
        ((Sample.env false).WeaveCurveIdToOID caCurveId) ((Sample.env false).SHA256 der)
        (Sample.env false).kHashLength caPrivKey (Sample.svc Sample.random).kMaxValueLength =
        (WEAVE_NO_ERROR, ecdsaSig) ∧
      (Sample.issued Sample.random).1[34]? =
        some (TLVWriter.containerElement (ContextTag kTag_ECDSASignature) kTLVType_Structure) ∧
      (Sample.issued Sample.random).1.drop 35 =
        [TLVWriter.bytesElement (ContextTag kTag_ECDSASignature_r) ecdsaSig.R,
          TLVWriter.bytesElement (ContextTag kTag_ECDSASignature_s) ecdsaSig.S,
          TLVWriter.endOfContainerElement, TLVWriter.endOfContainerElement] :=
  ⟨by rfl, Generate_signature (Sample.env false) (Sample.svc Sample.random)
    (Sample.server false) Sample.cert 2048 (Sample.issued Sample.random).1
    (Sample.issued Sample.random).2 (by rfl)⟩

/-! ## Two certificates for one identity -/

theorem certSerialNumber_first_value (b : Nat) :
    ((b &&& kCertSerialNumber_FirstByteMask) ||| kCertSerialNumber_FirstBytePrefix) =
      64 + b % 64 := by
  have hm : b &&& kCertSerialNumber_FirstByteMask = b % 128 :=
    Nat.and_pow_two_sub_one_eq_mod b 7
  rw [hm]
  have hlt : b % 128 < 128 := Nat.mod_lt _ (by decide)
  have hd : b % 64 = b % 128 % 64 := by omega
  rw [hd]
  generalize b % 128 = n at hlt
  unfold kCertSerialNumber_FirstBytePrefix
  interval_cases n <;> decide

theorem certSerialNumber_eq_iff (random1 random2 : List Nat)
    (h1 : random1.length = 8) (h2 : random2.length = 8) :
    certSerialNumber random1 = certSerialNumber random2 ↔
      random1.tail = random2.tail ∧ random1.headD 0 % 64 = random2.headD 0 % 64 := by
  match random1, h1, random2, h2 with
  | b1 :: rest1, _, b2 :: rest2, _ =>
    simp only [certSerialNumber, certSerialNumber_first_value, List.cons.injEq, List.tail_cons,
      List.headD_cons]
    constructor
    · rintro ⟨a, b⟩; exact ⟨b, by omega⟩
    · rintro ⟨a, b⟩; exact ⟨by omega, a⟩

/-- C21, as the code has it: when `GenerateServiceAssignedDeviceCert` issues a certificate
for the same certificate data under two outputs of the random generator, 8 bytes each, the
two certificates agree on the opening element and on every element from the signature
algorithm to the opening of the signature structure (issuer, validity, subject, public key,
extensions); each holds as serial number its random output with the first byte masked; and
the two serial numbers are equal exactly when the two outputs agree on bytes 1 to 7 and on
the six low bits of byte 0. -/
theorem Generate_two_random_outputs (env : Collaborators) (svc : ServiceCollaborators)
    (self : MockCAService) (certData : WeaveCertificateData) (certBufSize : Nat)
    (random1 random2 : List Nat) (cert1 cert2 : List Token) (certLen1 certLen2 : Nat)
    (hl1 : random1.length = 8) (hl2 : random2.length = 8)
    (h1 : (self.GenerateServiceAssignedDeviceCert env
      { svc with GetSecureRandomData := fun _ => (WEAVE_NO_ERROR, random1) } certData
      certBufSize).issued = some (cert1, certLen1))
    (h2 : (self.GenerateServiceAssignedDeviceCert env
      { svc with GetSecureRandomData := fun _ => (WEAVE_NO_ERROR, random2) } certData
      certBufSize).issued = some (cert2, certLen2)) :
    cert1[0]? = cert2[0]? ∧
    (cert1.take 35).drop 2 = (cert2.take 35).drop 2 ∧
    cert1[1]? = some (TLVWriter.bytesElement (ContextTag kTag_SerialNumber)
      (certSerialNumber random1)) ∧
    cert2[1]? = some (TLVWriter.bytesElement (ContextTag kTag_SerialNumber)
      (certSerialNumber random2)) ∧
    (certSerialNumber random1 = certSerialNumber random2 ↔
      random1.tail = random2.tail ∧ random1.headD 0 % 64 = random2.headD 0 % 64) := by
  obtain ⟨r1, s1, rfl⟩ := Generate_issued _ _ _ _ _ _ _ h1
  obtain ⟨r2, s2, rfl⟩ := Generate_issued _ _ _ _ _ _ _ h2
  refine ⟨rfl, ?_, rfl, rfl, certSerialNumber_eq_iff _ _ hl1 hl2⟩
  simp [issuedFields, issuedCertData]

/-- C21, the counterexample: in the sample configuration the random outputs
0x00, 2, 3, 4, 5, 6, 7, 8 and 0x80, 2, 3, 4, 5, 6, 7, 8 are different, both certificates are
issued, and both hold the serial number 0x40, 2, 3, 4, 5, 6, 7, 8. -/
theorem Generate_distinct_outputs_same_serial_number :
    ([0x00, 2, 3, 4, 5, 6, 7, 8] : List Nat) ≠ [0x80, 2, 3, 4, 5, 6, 7, 8] ∧
    ((Sample.server false).GenerateServiceAssignedDeviceCert (Sample.env false)
      (Sample.svc [0x00, 2, 3, 4, 5, 6, 7, 8]) Sample.cert 2048).err = WEAVE_NO_ERROR ∧
    ((Sample.server false).GenerateServiceAssignedDeviceCert (Sample.env false)
      (Sample.svc [0x80, 2, 3, 4, 5, 6, 7, 8]) Sample.cert 2048).err = WEAVE_NO_ERROR ∧
    (Sample.issued [0x00, 2, 3, 4, 5, 6, 7, 8]).1[1]? =
      some (TLVWriter.bytesElement (ContextTag kTag_SerialNumber)
        [0x40, 2, 3, 4, 5, 6, 7, 8]) ∧
    (Sample.issued [0x80, 2, 3, 4, 5, 6, 7, 8]).1[1]? =
      some (TLVWriter.bytesElement (ContextTag kTag_SerialNumber)
        [0x40, 2, 3, 4, 5, 6, 7, 8]) := by
  refine ⟨by decide, by rfl, by rfl, by rfl, by rfl⟩

/-- Two certificates issued in the sample configuration, for the random outputs
1, 2, 3, 4, 5, 6, 7, 8 and 9, 2, 3, 4, 5, 6, 7, 8. -/
theorem Generate_two_random_outputs_witness :
    (Sample.issued [1, 2, 3, 4, 5, 6, 7, 8]).1[0]? =
      (Sample.issued [9, 2, 3, 4, 5, 6, 7, 8]).1[0]? ∧
    ((Sample.issued [1, 2, 3, 4, 5, 6, 7, 8]).1.take 35).drop 2 =
      ((Sample.issued [9, 2, 3, 4, 5, 6, 7, 8]).1.take 35).drop 2 ∧
    (Sample.issued [1, 2, 3, 4, 5, 6, 7, 8]).1[1]? =
      some (TLVWriter.bytesElement (ContextTag kTag_SerialNumber)
        (certSerialNumber [1, 2, 3, 4, 5, 6, 7, 8])) ∧
    (Sample.issued [9, 2, 3, 4, 5, 6, 7, 8]).1[1]? =
      some (TLVWriter.bytesElement (ContextTag kTag_SerialNumber)
        (certSerialNumber [9, 2, 3, 4, 5, 6, 7, 8])) ∧
    (certSerialNumber [1, 2, 3, 4, 5, 6, 7, 8] = certSerialNumber [9, 2, 3, 4, 5, 6, 7, 8] ↔
      ([1, 2, 3, 4, 5, 6, 7, 8] : List Nat).tail = [9, 2, 3, 4, 5, 6, 7, 8].tail ∧
      ([1, 2, 3, 4, 5, 6, 7, 8] : List Nat).headD 0 % 64 =
        [9, 2, 3, 4, 5, 6, 7, 8].headD 0 % 64) :=
  Generate_two_random_outputs (Sample.env false) (Sample.svc []) (Sample.server false)
    Sample.cert 2048 [1, 2, 3, 4, 5, 6, 7, 8] [9, 2, 3, 4, 5, 6, 7, 8]
    (Sample.issued [1, 2, 3, 4, 5, 6, 7, 8]).1 (Sample.issued [9, 2, 3, 4, 5, 6, 7, 8]).1
    (Sample.issued [1, 2, 3, 4, 5, 6, 7, 8]).2 (Sample.issued [9, 2, 3, 4, 5, 6, 7, 8]).2
    (by rfl) (by rfl) (by rfl) (by rfl)

/-! ## Failures of issuance -/

theorem SuccessOrExit_error_ne {α : Type} (x : WEAVE_ERROR × α) :
    ∀ e, SuccessOrExit x = .error e → e ≠ WEAVE_NO_ERROR := by
  intro e h
  unfold SuccessOrExit at h
  split at h
  · cases h
  · rename_i hx
    cases h
    exact hx

theorem SuccessOrExit_eq_error {α : Type} (x : WEAVE_ERROR × α) (e : WEAVE_ERROR) :
    SuccessOrExit x = .error e ↔ x.1 = e ∧ e ≠ WEAVE_NO_ERROR := by
  unfold SuccessOrExit
  split
  · rename_i hx
    constructor
    · intro h; cases h
    · rintro ⟨rfl, h⟩; exact absurd hx h
  · rename_i hx
    constructor
    · intro h; cases h; exact ⟨rfl, hx⟩
    · rintro ⟨rfl, _⟩; rfl

theorem bind_error_ne {α β : Type} (x : Except WEAVE_ERROR α) (f : α → Except WEAVE_ERROR β)
    (hx : ∀ e, x = .error e → e ≠ WEAVE_NO_ERROR)
    (hf : ∀ a e, f a = .error e → e ≠ WEAVE_NO_ERROR) :
    ∀ e, (x >>= f) = .error e → e ≠ WEAVE_NO_ERROR := by
  intro e h
  cases x with
  | error e' => exact hx e (by simpa [bind, Except.bind] using h)
  | ok a => exact hf a e h

theorem pure_error_ne {α : Type} (a : α) :
    ∀ e, (pure a : Except WEAVE_ERROR α) = .error e → e ≠ WEAVE_NO_ERROR := by
  intro e h
  cases h

theorem EnterContainer_error_ne (r : TLVReader) :
    ∀ e, r.EnterContainer = .error e → e ≠ WEAVE_NO_ERROR := by
  intro e h
  unfold TLVReader.EnterContainer at h
  split at h
  · cases h
  · cases h
    decide

theorem Generate_TBS_error_ne (svc : ServiceCollaborators) (certData : WeaveCertificateData)
    (certBufSize : Nat) :
    ∀ e, Generate_TBS svc certData certBufSize = .error e → e ≠ WEAVE_NO_ERROR := by
  unfold Generate_TBS Generate_SerialNumber Generate_Issuer Generate_Validity Generate_Subject
    Generate_PublicKey Generate_BasicConstraints_KeyUsage Generate_ExtendedKeyUsage
    Generate_KeyIdentifiers
  repeat (first
    | exact SuccessOrExit_error_ne _
    | exact pure_error_ne _
    | apply bind_error_ne
    | (rintro ⟨_, _⟩; dsimp only [])
    | intro _)

theorem Generate_ConvertTBS_error_ne (svc : ServiceCollaborators) (cert : List Token) :
    ∀ e, Generate_ConvertTBS svc cert = .error e → e ≠ WEAVE_NO_ERROR := by
  unfold Generate_ConvertTBS
  repeat (first
    | exact SuccessOrExit_error_ne _
    | exact EnterContainer_error_ne _
    | apply bind_error_ne
    | (rintro ⟨_, _⟩; dsimp only [])
    | intro _)

theorem Generate_Sign_error_ne (env : Collaborators) (svc : ServiceCollaborators)
    (self : MockCAService) (tbsHash : List Nat) (c c2 : TLVType) (w : TLVWriter) :
    ∀ e, Generate_Sign env svc self tbsHash c c2 w = .error e → e ≠ WEAVE_NO_ERROR := by
  unfold Generate_Sign
  repeat (first
    | exact SuccessOrExit_error_ne _
    | exact pure_error_ne _
    | apply bind_error_ne
    | (rintro ⟨_, _, _⟩; dsimp only [])
    | intro _)

theorem Generate_result (env : Collaborators) (svc : ServiceCollaborators)
    (self : MockCAService) (certData : WeaveCertificateData) (certBufSize : Nat) :
    (∀ e, Generate_TBS svc (issuedCertData svc certData) certBufSize = .error e →
      (self.GenerateServiceAssignedDeviceCert env svc certData certBufSize).err = e ∧
      (self.GenerateServiceAssignedDeviceCert env svc certData certBufSize).issued = none) ∧
    (∀ c c2 w e, Generate_TBS svc (issuedCertData svc certData) certBufSize = .ok (c, c2, w) →
      Generate_ConvertTBS svc w.written = .error e →
      (self.GenerateServiceAssignedDeviceCert env svc certData certBufSize).err = e ∧
      (self.GenerateServiceAssignedDeviceCert env svc certData certBufSize).issued = none) ∧
    (∀ c c2 w der e,
      Generate_TBS svc (issuedCertData svc certData) certBufSize = .ok (c, c2, w) →
      Generate_ConvertTBS svc w.written = .ok der →
      Generate_Sign env svc self (env.SHA256 der) c c2 w = .error e →
      (self.GenerateServiceAssignedDeviceCert env svc certData certBufSize).err = e ∧
      (self.GenerateServiceAssignedDeviceCert env svc certData certBufSize).issued = none) ∧
    (∀ c c2 w der w2,
      Generate_TBS svc (issuedCertData svc certData) certBufSize = .ok (c, c2, w) →
      Generate_ConvertTBS svc w.written = .ok der →
      Generate_Sign env svc self (env.SHA256 der) c c2 w = .ok w2 →
      (self.GenerateServiceAssignedDeviceCert env svc certData certBufSize).err =
        WEAVE_NO_ERROR ∧
      (self.GenerateServiceAssignedDeviceCert env svc certData certBufSize).issued =
        some (w2.written, w2.GetLengthWritten % 65536)) := by
  refine ⟨?_, ?_, ?_, ?_⟩
  · intro e h
    simp only [issuedCertData] at h
    simp only [GenerateServiceAssignedDeviceCert, h, and_self]
  · intro c c2 w e h1 h2
    simp only [issuedCertData] at h1
    simp only [GenerateServiceAssignedDeviceCert, h1, h2, and_self]
  · intro c c2 w der e h1 h2 h3
    simp only [issuedCertData] at h1
    simp only [GenerateServiceAssignedDeviceCert, h1, h2, h3, and_self]
  · intro c c2 w der w2 h1 h2 h3
    simp only [issuedCertData] at h1
    simp only [GenerateServiceAssignedDeviceCert, h1, h2, h3, and_self]

theorem Generate_err_issued (env : Collaborators) (svc : ServiceCollaborators)
    (self : MockCAService) (certData : WeaveCertificateData) (certBufSize : Nat) :
    ((self.GenerateServiceAssignedDeviceCert env svc certData certBufSize).err =
        WEAVE_NO_ERROR ∧
      ∃ c, (self.GenerateServiceAssignedDeviceCert env svc certData certBufSize).issued =
        some c) ∨
    ((self.GenerateServiceAssignedDeviceCert env svc certData certBufSize).err ≠
        WEAVE_NO_ERROR ∧
      (self.GenerateServiceAssignedDeviceCert env svc certData certBufSize).issued = none) := by
  obtain ⟨r1, r2, r3, r4⟩ := Generate_result env svc self certData certBufSize
  cases h1 : Generate_TBS svc (issuedCertData svc certData) certBufSize with
  | error e =>
    right
    obtain ⟨a, b⟩ := r1 e h1
    exact ⟨by rw [a]; exact Generate_TBS_error_ne _ _ _ e h1, b⟩
  | ok t =>
    obtain ⟨c, c2, w⟩ := t
    cases h2 : Generate_ConvertTBS svc w.written with
    | error e =>
      right
      obtain ⟨a, b⟩ := r2 c c2 w e h1 h2
      exact ⟨by rw [a]; exact Generate_ConvertTBS_error_ne _ _ e h2, b⟩
    | ok der =>
      cases h3 : Generate_Sign env svc self (env.SHA256 der) c c2 w with
      | error e =>
        right
        obtain ⟨a, b⟩ := r3 c c2 w der e h1 h2 h3
        exact ⟨by rw [a]; exact Generate_Sign_error_ne _ _ _ _ _ _ _ e h3, b⟩
      | ok w2 =>
        left
        obtain ⟨a, b⟩ := r4 c c2 w der w2 h1 h2 h3
        exact ⟨a, _, b⟩

theorem SuccessOrExit_of_ne {α : Type} (x : WEAVE_ERROR × α) (h : x.1 ≠ WEAVE_NO_ERROR) :
    SuccessOrExit x = .error x.1 := by
  unfold SuccessOrExit
  rw [if_neg h]

theorem SuccessOrExit_of_eq {α : Type} (x : WEAVE_ERROR × α) (h : x.1 = WEAVE_NO_ERROR) :
    SuccessOrExit x = .ok x.2 := by
  unfold SuccessOrExit
  rw [if_pos h]

/-- C23: `GenerateServiceAssignedDeviceCert` either returns `WEAVE_NO_ERROR` and assigns
`certLen`, or returns an error and leaves `certLen` unassigned. The error is that of the
first step that fails: of the part that writes the fields, of the conversion to DER, of the
part that signs; in particular the error of the random generator, of `DecodeConvertTBSCert`,
of the decoding of the CA private key and of the generation of the signature when the steps
before them succeed, and `WEAVE_ERROR_BUFFER_TOO_SMALL` for a buffer of no bytes. When
`GenerateServiceAssignedDeviceCert` returns an error, `GenerateGetCertificateResponse`
returns that error and has written nothing to the response buffer; and whenever
`GenerateGetCertificateResponse` returns an error, the handler, from the allocation of the
response buffer on, hands no GetCertificateResponse to `SendMessage`. -/
theorem Generate_failure_aborts (env : Collaborators) (svc : ServiceCollaborators)
    (self : MockCAService) (certData : WeaveCertificateData) (certBufSize : Nat) :
    (((self.GenerateServiceAssignedDeviceCert env svc certData certBufSize).err =
        WEAVE_NO_ERROR ∧
      ∃ c, (self.GenerateServiceAssignedDeviceCert env svc certData certBufSize).issued =
        some c) ∨
    ((self.GenerateServiceAssignedDeviceCert env svc certData certBufSize).err ≠
        WEAVE_NO_ERROR ∧
      (self.GenerateServiceAssignedDeviceCert env svc certData certBufSize).issued = none)) ∧
    (∀ e, Generate_TBS svc (issuedCertData svc certData) certBufSize = .error e →
      (self.GenerateServiceAssignedDeviceCert env svc certData certBufSize).err = e) ∧
    (∀ c c2 w e, Generate_TBS svc (issuedCertData svc certData) certBufSize = .ok (c, c2, w) →
      Generate_ConvertTBS svc w.written = .error e →
      (self.GenerateServiceAssignedDeviceCert env svc certData certBufSize).err = e) ∧
    (∀ c c2 w der e,
      Generate_TBS svc (issuedCertData svc certData) certBufSize = .ok (c, c2, w) →
      Generate_ConvertTBS svc w.written = .ok der →
      Generate_Sign env svc self (env.SHA256 der) c c2 w = .error e →
      (self.GenerateServiceAssignedDeviceCert env svc certData certBufSize).err = e) ∧
    (∀ c w, SuccessOrExit ((TLVWriter.Init certBufSize).StartContainer
        (ProfileTag kWeaveProfile_Security kTag_WeaveCertificate) kTLVType_Structure) =
        .ok (c, w) →
      (svc.GetSecureRandomData kCertSerialNumber_Length).1 ≠ WEAVE_NO_ERROR →
      (self.GenerateServiceAssignedDeviceCert env svc certData certBufSize).err =
        (svc.GetSecureRandomData kCertSerialNumber_Length).1) ∧
    (∀ c c2 w, Generate_TBS svc (issuedCertData svc certData) certBufSize = .ok (c, c2, w) →
      (svc.DecodeConvertTBSCert (w.written.drop 1)).1 ≠ WEAVE_NO_ERROR →
      (self.GenerateServiceAssignedDeviceCert env svc certData certBufSize).err =
        (svc.DecodeConvertTBSCert (w.written.drop 1)).1) ∧
    (∀ c c2 w der,
      Generate_TBS svc (issuedCertData svc certData) certBufSize = .ok (c, c2, w) →
      Generate_ConvertTBS svc w.written = .ok der →
      (svc.DecodeWeaveECPrivateKey self.mCAPrivateKey).1 ≠ WEAVE_NO_ERROR →
      (self.GenerateServiceAssignedDeviceCert env svc certData certBufSize).err =
        (svc.DecodeWeaveECPrivateKey self.mCAPrivateKey).1) ∧
    (∀ c c2 w der,
      Generate_TBS svc (issuedCertData svc certData) certBufSize = .ok (c, c2, w) →
      Generate_ConvertTBS svc w.written = .ok der →
      (svc.DecodeWeaveECPrivateKey self.mCAPrivateKey).1 = WEAVE_NO_ERROR →
      (svc.GenerateECDSASignature
        (env.WeaveCurveIdToOID (svc.DecodeWeaveECPrivateKey self.mCAPrivateKey).2.1)
        (env.SHA256 der) env.kHashLength (svc.DecodeWeaveECPrivateKey self.mCAPrivateKey).2.2.2
        svc.kMaxValueLength).1 ≠ WEAVE_NO_ERROR →
      (self.GenerateServiceAssignedDeviceCert env svc certData certBufSize).err =
        (svc.GenerateECDSASignature
          (env.WeaveCurveIdToOID (svc.DecodeWeaveECPrivateKey self.mCAPrivateKey).2.1)
          (env.SHA256 der) env.kHashLength
          (svc.DecodeWeaveECPrivateKey self.mCAPrivateKey).2.2.2 svc.kMaxValueLength).1) ∧
    (certBufSize = 0 →
      (self.GenerateServiceAssignedDeviceCert env svc certData certBufSize).err =
        WEAVE_ERROR_BUFFER_TOO_SMALL) ∧
    ((self.GenerateServiceAssignedDeviceCert env svc certData
        (svc.kTestCertBufSize % 65536)).err ≠ WEAVE_NO_ERROR →
      (self.GenerateGetCertificateResponse env svc certData).err =
        (self.GenerateServiceAssignedDeviceCert env svc certData
          (svc.kTestCertBufSize % 65536)).err ∧
      (self.GenerateGetCertificateResponse env svc certData).msgBuf = []) ∧
    (∀ getCertMsg events,
      getCertMsg.OperationalCertSet.Certs.head? = some certData →
      (self.GenerateGetCertificateResponse env svc certData).err ≠ WEAVE_NO_ERROR →
      HandleClientRequest_respond env svc self getCertMsg = some events →
      ∀ e ∈ events, e.isCertificateResponse = false) := by
  obtain ⟨r1, r2, r3, _⟩ := Generate_result env svc self certData certBufSize
  refine ⟨Generate_err_issued env svc self certData certBufSize, fun e h => (r1 e h).1,
    fun c c2 w e h1 h2 => (r2 c c2 w e h1 h2).1,
    fun c c2 w der e h1 h2 h3 => (r3 c c2 w der e h1 h2 h3).1, ?_, ?_, ?_, ?_, ?_, ?_, ?_⟩
  · intro c w h hne
    refine (r1 _ ?_).1
    simp only [Generate_TBS, h, Generate_SerialNumber, SuccessOrExit_of_ne _ hne, bind,
      Except.bind]
  · intro c c2 w h hne
    obtain ⟨aT, _⟩ := Generate_TBS_ok _ _ _ _ _ _ h
    refine (r2 c c2 w _ h ?_).1
    rw [aT, List.cons_append, Generate_ConvertTBS_of_structure]
    rw [aT, List.cons_append, List.drop_succ_cons, List.drop_zero] at hne
    rw [List.drop_succ_cons, List.drop_zero, SuccessOrExit_of_ne _ hne]
    rfl
  · intro c c2 w der h1 h2 hne
    refine (r3 c c2 w der _ h1 h2 ?_).1
    simp only [Generate_Sign, SuccessOrExit_of_ne _ hne, bind, Except.bind]
  · intro c c2 w der h1 h2 hk hne
    refine (r3 c c2 w der _ h1 h2 ?_).1
    simp only [Generate_Sign, SuccessOrExit_of_eq _ hk, SuccessOrExit_of_ne _ hne, bind,
      Except.bind]
  · rintro rfl
    exact (r1 _ rfl).1
  · intro hne
    rcases Generate_err_issued env svc self certData (svc.kTestCertBufSize % 65536) with
      ⟨h, _⟩ | ⟨_, h⟩
    · exact absurd h hne
    · simp only [GenerateGetCertificateResponse, h, and_self]
  · intro getCertMsg events hc hne hr
    unfold HandleClientRequest_respond at hr
    split at hr
    · simp only [hc, if_neg hne, Option.some.injEq] at hr
      subst hr
      refine (exit_failure svc _ _ _ hne ?_).1
      intro e he
      simp only [List.mem_singleton] at he
      subst he
      rfl
    · simp only [Option.some.injEq] at hr
      subst hr
      refine (exit_failure svc _ _ _ (by decide) ?_).1
      intro e he
      simp only [List.mem_singleton] at he
      subst he
      rfl

/-- In the sample configuration with a CA private key that cannot be decoded, issuance
returns the error of the decoding, assigns no length, and the response buffer stays empty. -/
theorem Generate_failure_aborts_witness :
    (Sample.svcKeyDecodeFails.DecodeWeaveECPrivateKey (Sample.server false).mCAPrivateKey).1 ≠
      WEAVE_NO_ERROR ∧
    ((Sample.server false).GenerateServiceAssignedDeviceCert (Sample.env false)
      Sample.svcKeyDecodeFails Sample.cert 2048).err = WEAVE_ERROR_INVALID_ARGUMENT ∧
    ((Sample.server false).GenerateServiceAssignedDeviceCert (Sample.env false)
      Sample.svcKeyDecodeFails Sample.cert 2048).issued = none ∧
    ((Sample.server false).GenerateGetCertificateResponse (Sample.env false)
      Sample.svcKeyDecodeFails Sample.cert).msgBuf = [] := by
  have h := Generate_failure_aborts (Sample.env false) Sample.svcKeyDecodeFails
    (Sample.server false) Sample.cert 2048
  obtain ⟨h1, _, _, _, _, _, _, _, _, h10, _⟩ := h
  have hne : ((Sample.server false).GenerateServiceAssignedDeviceCert (Sample.env false)
      Sample.svcKeyDecodeFails Sample.cert 2048).err ≠ WEAVE_NO_ERROR := by
    rw [show ((Sample.server false).GenerateServiceAssignedDeviceCert (Sample.env false)
      Sample.svcKeyDecodeFails Sample.cert 2048).err = WEAVE_ERROR_INVALID_ARGUMENT from by rfl]
    decide
  rcases h1 with ⟨h1, _⟩ | ⟨_, h1⟩
  · exact absurd h1 hne
  · exact ⟨by decide, by rfl, h1, (h10 hne).2⟩

/-! ## The certificates `Decode` records -/

theorem x509At_x509Store (a : List X509Cert) (i j : Nat) (x : X509Cert) :
    x509At (x509Store a i x) j = if j = i then x else x509At a j := by
  unfold x509At x509Store
  rw [List.getD_eq_getElem?_getD, List.getD_eq_getElem?_getD, List.getElem?_set]
  by_cases hji : j = i
  · subst hji
    simp only [if_true]
    rw [if_pos (by simp; omega)]
    rfl
  · rw [if_neg (fun h => hji h.symm), if_neg hji]
    by_cases hj : j < a.length
    · rw [List.getElem?_append_left hj]
    · have e1 : a[j]? = none := List.getElem?_eq_none (by omega)
      rw [List.getElem?_append_right (by omega), e1, List.getElem?_replicate]
      split <;> rfl

theorem OpDeviceCert_certs (env : Collaborators) (s s' : DecodeState)
    (h : Decode_OpDeviceCert env s = .ok s') :
    s'.self.ManufAttestX509CertSet = s.self.ManufAttestX509CertSet ∧
    s'.self.ManufAttestX509CertCount = s.self.ManufAttestX509CertCount ∧
    (∃ cert, s'.self.OperationalCertSet.Certs = [cert]) ∧
    1 ≤ env.kMaxCertCount := by
  simp only [Decode_OpDeviceCert, bind_eq_ok, VerifyOrExit_eq_ok, SuccessOrExit_eq_ok,
    pure, Except.pure, Except.ok.injEq, Prod.mk.injEq] at h
  obtain ⟨_, _, _, _, set, ⟨_, hset⟩, ⟨set', r1⟩, hl, r2, _, rfl⟩ := h
  refine ⟨rfl, rfl, ?_⟩
  simp only [WeaveCertificateSet.LoadCert, bind_eq_ok, VerifyOrExit_eq_ok, SuccessOrExit_eq_ok,
    pure, Except.pure, Except.ok.injEq, Prod.mk.injEq, decide_eq_true_eq] at hl
  obtain ⟨_, _, _, hlt, cert, _, r, _, rfl, _⟩ := hl
  subst hset
  refine ⟨⟨cert, rfl⟩, ?_⟩
  simp only [WeaveCertificateSet.Init, List.length_nil] at hlt
  omega

theorem OpRelatedCerts_certs (env : Collaborators) (s s' : DecodeState)
    (h : Decode_OpRelatedCerts env s = .ok s') :
    s'.self.ManufAttestX509CertSet = s.self.ManufAttestX509CertSet ∧
    s'.self.ManufAttestX509CertCount = s.self.ManufAttestX509CertCount ∧
    ∃ more, s'.self.OperationalCertSet.Certs = s.self.OperationalCertSet.Certs ++ more := by
  unfold Decode_OpRelatedCerts at h
  split at h
  · simp only [bind_eq_ok, VerifyOrExit_eq_ok, SuccessOrExit_eq_ok,
      pure, Except.pure, Except.ok.injEq, Prod.mk.injEq] at h
    obtain ⟨_, _, ⟨set', r1⟩, hl, r2, _, rfl⟩ := h
    refine ⟨rfl, rfl, ?_⟩
    simp only [WeaveCertificateSet.LoadCerts, bind_eq_ok, VerifyOrExit_eq_ok,
      SuccessOrExit_eq_ok, pure, Except.pure, Except.ok.injEq, Prod.mk.injEq] at hl
    obtain ⟨_, _, certs, _, _, _, r, _, rfl, _⟩ := hl
    exact ⟨certs, rfl⟩
  · simp only [pure, Except.pure, Except.ok.injEq] at h
    subst h
    exact ⟨rfl, rfl, [], (List.append_nil _).symm⟩

theorem OpDeviceSig_certs (env : Collaborators) (s s' : DecodeState)
    (h : Decode_OpDeviceSig env s = .ok s') :
    s'.self.ManufAttestX509CertSet = s.self.ManufAttestX509CertSet ∧
    s'.self.ManufAttestX509CertCount = s.self.ManufAttestX509CertCount ∧
    s'.self.OperationalCertSet = s.self.OperationalCertSet := by
  simp only [Decode_OpDeviceSig, bind_eq_ok, VerifyOrExit_eq_ok, SuccessOrExit_eq_ok,
    pure, Except.pure, Except.ok.injEq, Prod.mk.injEq, beq_iff_eq] at h
  obtain ⟨_, _, _, _, v, _, r1, _, ⟨sig, r2⟩, _, rfl⟩ := h
  exact ⟨rfl, rfl, rfl⟩

theorem ManufAttestSig_certs (env : Collaborators) (s s' : DecodeState)
    (h : Decode_ManufAttestSig env s = .ok s') :
    s'.self.ManufAttestX509CertSet = s.self.ManufAttestX509CertSet ∧
    s'.self.ManufAttestX509CertCount = s.self.ManufAttestX509CertCount ∧
    s'.self.OperationalCertSet = s.self.OperationalCertSet := by
  unfold Decode_ManufAttestSig at h
  split at h
  · simp only [bind_eq_ok] at h
    obtain ⟨s1, h1, h2⟩ := h
    simp only [Decode_ManufAttestSigAlgo, bind_eq_ok, VerifyOrExit_eq_ok, SuccessOrExit_eq_ok,
      pure, Except.pure, Except.ok.injEq, Prod.mk.injEq] at h1
    obtain ⟨_, _, _, _, v, _, r1, _, rfl⟩ := h1
    unfold Decode_ManufAttestSigValue at h2
    split at h2
    · simp only [bind_eq_ok, VerifyOrExit_eq_ok, SuccessOrExit_eq_ok,
        pure, Except.pure, Except.ok.injEq, Prod.mk.injEq] at h2
      obtain ⟨_, _, ⟨sig, r2⟩, _, rfl⟩ := h2
      exact ⟨rfl, rfl, rfl⟩
    · split at h2
      · simp only [bind_eq_ok, VerifyOrExit_eq_ok, SuccessOrExit_eq_ok,
          pure, Except.pure, Except.ok.injEq, Prod.mk.injEq] at h2
        obtain ⟨_, _, ⟨p, len⟩, _, rfl⟩ := h2
        exact ⟨rfl, rfl, rfl⟩
      · split at h2
        · simp only [bind_eq_ok, VerifyOrExit_eq_ok, SuccessOrExit_eq_ok,
            pure, Except.pure, Except.ok.injEq, Prod.mk.injEq] at h2
          obtain ⟨_, _, ⟨p, len⟩, _, rfl⟩ := h2
          exact ⟨rfl, rfl, rfl⟩
        · simp at h2
  · simp only [pure, Except.pure, Except.ok.injEq] at h
    subst h
    exact ⟨rfl, rfl, rfl⟩

theorem X509CertsInBuffer_store (msgBuf : List Token) (m : GetCertificateRequestMessage)
    (r : TLVReader) (p : Nat) (hall : r.all = msgBuf) (hp : r.GetDataPtr = .ok p)
    (h : m.X509CertsInBuffer msgBuf) (set : List X509Cert) (count : Nat)
    (hset : set = x509Store m.ManufAttestX509CertSet m.ManufAttestX509CertCount
      { Cert := .msgBuf p, Len := r.GetLength })
    (hcount : count = m.ManufAttestX509CertCount + 1) :
    ∀ i, i < count →
      ∃ data, SpanOfElement msgBuf (x509At set i).Cert (x509At set i).Len data := by
  intro i hi
  subst hset hcount
  rw [x509At_x509Store]
  by_cases e : i = m.ManufAttestX509CertCount
  · rw [if_pos e]
    exact span_of_GetDataPtr msgBuf r p hall hp
  · rw [if_neg e]
    exact h i (by omega)

theorem X509RelCerts_certs (env : Collaborators) (msgBuf : List Token) (fuel : Nat) :
    ∀ (err : WEAVE_ERROR) (r r' : TLVReader) (self self' : GetCertificateRequestMessage),
      Decode_X509RelCerts env fuel err r self = .ok (r', self') →
      r.all = msgBuf → self.ManufAttestX509CertCount ≤ env.kMaxCertCount →
      self.X509CertsInBuffer msgBuf →
      self'.OperationalCertSet = self.OperationalCertSet ∧
      self.ManufAttestX509CertCount ≤ self'.ManufAttestX509CertCount ∧
      self'.ManufAttestX509CertCount ≤ env.kMaxCertCount ∧
      self'.X509CertsInBuffer msgBuf := by
  induction fuel with
  | zero => intro err r r' self self' h; simp [Decode_X509RelCerts] at h
  | succ n ih =>
    intro err r r' self self' h hall hle hin
    unfold Decode_X509RelCerts at h
    split at h
    · simp only [Except.ok.injEq, Prod.mk.injEq] at h
      obtain ⟨rfl, rfl⟩ := h
      exact ⟨rfl, le_refl _, hle, hin⟩
    · simp only [bind_eq_ok, VerifyOrExit_eq_ok, SuccessOrExit_eq_ok,
        pure, Except.pure, Except.ok.injEq, Prod.mk.injEq, decide_eq_true_eq] at h
      obtain ⟨r1, ⟨_, h1⟩, _, hlt, p, hp, h⟩ := h
      subst h1
      obtain ⟨a, b, c, d⟩ := ih _ _ _ _ _ h ((Next_advances _).1.trans hall) (by simpa using hlt)
        (X509CertsInBuffer_store msgBuf self r p hall hp hin _ _ rfl rfl)
      refine ⟨a, ?_, c, d⟩
      simp only at b
      omega

theorem ManufAttest_certs (env : Collaborators) (msgBuf : List Token) (s s' : DecodeState)
    (h : Decode_ManufAttest env s = .ok s') (hall : s.reader.all = msgBuf)
    (h0 : s.self.ManufAttestX509CertCount = 0)
    (hu : s.self.mManufAttestType = kManufAttestType_Undefined)
    (hk : 1 ≤ env.kMaxCertCount) :
    s'.self.OperationalCertSet = s.self.OperationalCertSet ∧
    (s'.self.mManufAttestType = kManufAttestType_X509Cert →
      1 ≤ s'.self.ManufAttestX509CertCount ∧
      s'.self.ManufAttestX509CertCount ≤ env.kMaxCertCount) ∧
    (s'.self.mManufAttestType ≠ kManufAttestType_X509Cert →
      s'.self.ManufAttestX509CertCount = 0) ∧
    s'.self.X509CertsInBuffer msgBuf := by
  have hin : s.self.X509CertsInBuffer msgBuf := by
    intro i hi
    rw [h0] at hi
    omega
  have hin' : ∀ m : GetCertificateRequestMessage, m.ManufAttestX509CertCount = 0 →
      m.X509CertsInBuffer msgBuf := by
    intro m hm i hi
    rw [hm] at hi
    omega
  unfold Decode_ManufAttest at h
  split at h
  · simp only [Decode_ManufAttest_WeaveCert, bind_eq_ok, VerifyOrExit_eq_ok,
      SuccessOrExit_eq_ok, pure, Except.pure, Except.ok.injEq, Prod.mk.injEq] at h
    obtain ⟨set, _, ⟨set', r1⟩, hl, h⟩ := h
    try simp only at h
    split at h
    · simp only [bind_eq_ok, VerifyOrExit_eq_ok, SuccessOrExit_eq_ok,
        pure, Except.pure, Except.ok.injEq, Prod.mk.injEq] at h
      obtain ⟨⟨set2, r2⟩, hl2, r3, _, rfl⟩ := h
      refine ⟨rfl, ?_, fun _ => h0, hin' _ h0⟩
      intro e
      cases e
    · simp only [Except.ok.injEq] at h
      subst h
      refine ⟨rfl, ?_, fun _ => h0, hin' _ h0⟩
      intro e
      cases e
  · split at h
    · simp only [Decode_ManufAttest_X509Cert, bind_eq_ok, VerifyOrExit_eq_ok,
        SuccessOrExit_eq_ok, pure, Except.pure, Except.ok.injEq, Prod.mk.injEq] at h
      obtain ⟨p, hp, h⟩ := h
      have hin1 := X509CertsInBuffer_store msgBuf s.self s.reader p hall hp hin _ _ rfl rfl
      try simp only at h
      split at h
      · simp only [bind_eq_ok, VerifyOrExit_eq_ok, SuccessOrExit_eq_ok,
          pure, Except.pure, Except.ok.injEq, Prod.mk.injEq] at h
        obtain ⟨⟨o2, r2⟩, h2, ⟨r3, self3⟩, h3, r4, _, r5, _, rfl⟩ := h
        obtain ⟨_, _, _, _, _, a2, _⟩ := EnterContainer_ok _ _ _ h2
        have hall2 : r2.Next.2.all = msgBuf := by
          refine (Next_advances _).1.trans (a2.1.trans ?_)
          rw [NextExpect_snd]
          exact (Next_advances _).1.trans hall
        obtain ⟨a, b, c, d⟩ := X509RelCerts_certs env msgBuf _ _ _ _ _ _ h3 hall2
          (by simp only [h0]; omega) hin1
        simp only [h0] at b
        have b1 : 1 ≤ self3.ManufAttestX509CertCount := by omega
        exact ⟨a, fun _ => ⟨b1, c⟩, fun e => absurd rfl e, d⟩
      · simp only [Except.ok.injEq] at h
        subst h
        refine ⟨rfl, fun _ => ⟨?_, ?_⟩, fun e => absurd rfl e, hin1⟩
        · simp only [h0]; omega
        · simp only [h0]; omega
    · split at h
      · simp only [Decode_ManufAttest_HMAC, bind_eq_ok, VerifyOrExit_eq_ok,
          SuccessOrExit_eq_ok, pure, Except.pure, Except.ok.injEq, Prod.mk.injEq] at h
        obtain ⟨v, _, r1, _, h⟩ := h
        split at h
        · simp only [bind_eq_ok, VerifyOrExit_eq_ok, SuccessOrExit_eq_ok,
            pure, Except.pure, Except.ok.injEq, Prod.mk.injEq] at h
          obtain ⟨p, hp, r2, _, rfl⟩ := h
          refine ⟨rfl, ?_, fun _ => h0, hin' _ h0⟩
          intro e
          cases e
        · simp only [Except.ok.injEq] at h
          subst h
          refine ⟨rfl, ?_, fun _ => h0, hin' _ h0⟩
          intro e
          cases e
      · simp only [bind_eq_ok, VerifyOrExit_eq_ok, pure, Except.pure, Except.ok.injEq] at h
        obtain ⟨_, _, rfl⟩ := h
        refine ⟨rfl, ?_, fun _ => h0, hin⟩
        intro e
        rw [hu] at e
        cases e

theorem Decode_certs (env : Collaborators) (storage : GetCertificateRequestMessage)
    (msgBuf : List Token) (msg : GetCertificateRequestMessage)
    (h : (GetCertificateRequestMessage.new storage).Decode env msgBuf = .ok msg) :
    (∃ cert, msg.OperationalCertSet.Certs.head? = some cert) ∧
    (msg.mManufAttestType = kManufAttestType_X509Cert →
      1 ≤ msg.ManufAttestX509CertCount ∧ msg.ManufAttestX509CertCount ≤ env.kMaxCertCount) ∧
    (msg.mManufAttestType ≠ kManufAttestType_X509Cert → msg.ManufAttestX509CertCount = 0) ∧
    msg.X509CertsInBuffer msgBuf := by
  simp only [Decode, Decode_ToOpDeviceSig, Decode_ToManufAttest, Decode_ToOpDeviceCert,
    bind_eq_ok, pure, Except.pure, Except.ok.injEq] at h
  obtain ⟨s6, ⟨s5, ⟨s3, ⟨s1, h1, s2, h2, h3⟩, s4, h4, h5⟩, h6⟩, s7, h7, s8, h8, rfl⟩ := h
  obtain ⟨A1, q1, t1, c1⟩ := RequestType_ok _ _ _ h1
  obtain ⟨a2, _, st2, q2, t2, c2⟩ := Authorize_ok _ _ h2
  obtain ⟨a3, _, st3, q3, t3, c3, S3⟩ := OpDeviceCert_ok env msgBuf _ _ h3
  obtain ⟨a4, _, st4, q4, t4, c4, S4⟩ := OpRelatedCerts_ok env msgBuf _ _ h4
  obtain ⟨_, _, ⟨cert, hc3⟩, hk⟩ := OpDeviceCert_certs _ _ _ h3
  obtain ⟨_, _, more, hc4⟩ := OpRelatedCerts_certs _ _ _ h4
  have hall4 : s4.reader.all = msgBuf :=
    a4.1.trans (a3.1.trans (a2.1.trans A1.1))
  obtain ⟨o5, x5, y5, z5⟩ := ManufAttest_certs env msgBuf s4 s5 h5 hall4
    (by rw [c4, c3, c2, c1]; rfl) (by rw [t4, t3, t2, t1]; rfl) hk
  obtain ⟨_, _, _, _, _, ty6, _⟩ := OpDeviceSig_ok _ _ _ h6
  obtain ⟨_, _, _, _, ty7, _⟩ := ManufAttestSig_ok _ _ _ h7
  obtain ⟨e6, f6, o6⟩ := OpDeviceSig_certs _ _ _ h6
  obtain ⟨e7, f7, o7⟩ := ManufAttestSig_certs _ _ _ h7
  have e8 := End_ok _ _ h8
  rw [e8]
  refine ⟨⟨cert, ?_⟩, ?_, ?_, ?_⟩
  · rw [o7, o6, o5, hc4, hc3]; rfl
  · intro ht
    rw [f7, f6]
    exact x5 (by rw [← ty6, ← ty7]; exact ht)
  · intro ht
    rw [f7, f6]
    exact y5 (by rw [← ty6, ← ty7]; exact ht)
  · intro i hi
    rw [f7, f6] at hi
    rw [e7, e6]
    exact z5 i hi

/-! ## A chain longer than the capacity -/

theorem Next_of_string (r : TLVReader) (t t' : Token) (rest : List Token)
    (hc : r.cur = some t) (ht : TLVTypeHasLength t.elemType = true)
    (ha : r.after = t' :: rest) (e3 : t'.elemType ≠ kTLVElementType_EndOfContainer) :
    r.Next = (WEAVE_NO_ERROR,
      { before := r.before ++ [t], cur := some t', after := rest,
        mContainerType := r.mContainerType }) := by
  have e1 : t.elemType ≠ kTLVElementType_EndOfContainer := by
    intro e; rw [e] at ht; cases ht
  have e2 : TLVTypeIsContainer t.elemType = false := by
    cases h : t.elemType <;> simp_all [TLVTypeHasLength, TLVTypeIsContainer]
  simp [TLVReader.Next, TLVReader.Skip, TLVReader.ElementType, TLVReader.ClearElement,
    TLVReader.ReadElement, hc, ha, e1, e2, e3]

theorem X509RelCerts_overflow (env : Collaborators) :
    ∀ (more : List Token) (c : Token) (rest : List Token) (fuel : Nat) (r : TLVReader)
      (self : GetCertificateRequestMessage),
      r.cur = some c → TLVTypeHasLength c.elemType = true →
      (∀ t ∈ more, TLVTypeHasLength t.elemType = true) →
      r.after = more ++ rest → more.length + 1 ≤ fuel →
      env.kMaxCertCount < self.ManufAttestX509CertCount + 1 + more.length →
      Decode_X509RelCerts env fuel WEAVE_NO_ERROR r self =
        .error WEAVE_ERROR_BUFFER_TOO_SMALL := by
  intro more
  induction more with
  | nil =>
    intro c rest fuel r self hc ht hm ha hf hk
    match fuel, hf with
    | n + 1, _ =>
      have hlt : ¬ self.ManufAttestX509CertCount < env.kMaxCertCount := by
        simp only [List.length_nil] at hk; omega
      simp [Decode_X509RelCerts, SuccessOrExit, VerifyOrExit, hlt, bind, Except.bind]
  | cons m more ih =>
    intro c rest fuel r self hc ht hm ha hf hk
    match fuel, hf with
    | n + 1, hf =>
      by_cases hlt : self.ManufAttestX509CertCount < env.kMaxCertCount
      · have hp : r.GetDataPtr = .ok r.GetReadPoint := by
          simp [TLVReader.GetDataPtr, TLVReader.ElementType, hc, ht]
        have hn := Next_of_string r c m (more ++ rest) hc ht (by simpa using ha)
          (by intro e; have := hm m (List.mem_cons_self _ _); rw [e] at this; cases this)
        rw [Decode_X509RelCerts]
        simp only [SuccessOrExit, VerifyOrExit, hlt, hp, hn, bind, Except.bind,
          decide_True, if_true]
        simp only [show (WEAVE_NO_ERROR = WEAVE_END_OF_TLV) = False from by simp, if_false]
        refine ih m rest n _ _ rfl (hm m (List.mem_cons_self _ _))
          (fun t h => hm t (List.mem_cons_of_mem _ h)) rfl ?_ ?_
        · simp only [List.length_cons] at hf; omega
        · simp only [List.length_cons] at hk ⊢; omega
      · simp [Decode_X509RelCerts, SuccessOrExit, VerifyOrExit, hlt, bind, Except.bind]

theorem ManufAttest_X509Cert_overflow (env : Collaborators) (s : DecodeState)
    (leaf arrayHead c : Token) (more rest : List Token)
    (hc : s.reader.cur = some leaf) (hl : leaf.elemType = kTLVElementType_ByteString)
    (hlt : leaf.tag = ContextTag kTag_GetCertReqMsg_ManufAttest_X509Cert)
    (ha : s.reader.after = arrayHead :: c :: more ++ rest)
    (hh : arrayHead.elemType = kTLVElementType_Array)
    (hht : arrayHead.tag = ContextTag kTag_GetCertReqMsg_ManufAttest_X509RelCerts)
    (hm : ∀ t ∈ c :: more, TLVTypeHasLength t.elemType = true)
    (hk : env.kMaxCertCount < s.self.ManufAttestX509CertCount + 1 + (c :: more).length) :
    Decode_ManufAttest env s = .error WEAVE_ERROR_BUFFER_TOO_SMALL := by
  have hs : TLVTypeHasLength leaf.elemType = true := by rw [hl]; rfl
  have hn := Next_of_string s.reader leaf arrayHead (c :: more ++ rest) hc hs ha
    (by rw [hh]; decide)
  have hp : s.reader.GetDataPtr = .ok s.reader.GetReadPoint := by
    simp [TLVReader.GetDataPtr, TLVReader.ElementType, hc, hs]
  have hce : c.elemType ≠ kTLVElementType_EndOfContainer := by
    intro e
    have := hm c (List.mem_cons_self _ _)
    rw [e] at this
    cases this
  have hNE : s.reader.NextExpect kTLVType_Array
      (ContextTag kTag_GetCertReqMsg_ManufAttest_X509RelCerts) =
      (WEAVE_NO_ERROR,
        { before := s.reader.before ++ [leaf], cur := some arrayHead,
          after := c :: more ++ rest, mContainerType := s.reader.mContainerType }) := by
    simp only [TLVReader.NextExpect, hn, TLVReader.GetType, TLVReader.ElementType,
      TLVReader.GetTag, hh, hht, TLVElementType.toTLVType, if_true]
  have hEC : TLVReader.EnterContainer
      { before := s.reader.before ++ [leaf], cur := some arrayHead,
        after := c :: more ++ rest, mContainerType := s.reader.mContainerType } =
      .ok (s.reader.mContainerType,
        { before := s.reader.before ++ [leaf] ++ [arrayHead], cur := none,
          after := c :: more ++ rest, mContainerType := kTLVType_Array }) := by
    simp [TLVReader.EnterContainer, TLVReader.ElementType, TLVReader.GetType, hh,
      TLVTypeIsContainer, TLVReader.ClearElement, TLVElementType.toTLVType]
  have hN2 : TLVReader.Next
      { before := s.reader.before ++ [leaf] ++ [arrayHead], cur := none,
        after := c :: more ++ rest, mContainerType := kTLVType_Array } =
      (WEAVE_NO_ERROR,
        { before := s.reader.before ++ [leaf] ++ [arrayHead], cur := some c,
          after := more ++ rest, mContainerType := kTLVType_Array }) := by
    simp [TLVReader.Next, TLVReader.Skip, TLVReader.ElementType, TLVReader.ClearElement,
      TLVReader.ReadElement, TLVTypeIsContainer, hce]
  unfold Decode_ManufAttest
  rw [if_neg (by simp [TLVReader.GetType, TLVReader.ElementType, hc, hl,
    TLVElementType.toTLVType])]
  rw [if_pos (by simp [TLVReader.GetType, TLVReader.ElementType, TLVReader.GetTag, hc, hl, hlt,
    TLVElementType.toTLVType])]
  simp only [Decode_ManufAttest_X509Cert, hp, hNE, hEC, hN2, bind, Except.bind, if_true]
  rw [X509RelCerts_overflow env more c rest]
  · rfl
  · exact hm c (List.mem_cons_self _ _)
  · exact fun t h => hm t (List.mem_cons_of_mem _ h)
  · rfl
  · simp; omega
  · simp only [List.length_cons] at hk ⊢; omega

/-- C24: `Decode` of a request into a freshly constructed message behaves as follows. When
the blocks that precede the attestation succeed and leave the reader on an X.509 leaf certificate (a byte string with
the tag of the X.509 attestation) followed by the array of related certificates, and the leaf
together with byte strings `certs` that open the array are more than `kMaxCertCount`,
`Decode` returns `WEAVE_ERROR_BUFFER_TOO_SMALL`. On every successful `Decode` the count of
stored X.509 certificates is between 1 and `kMaxCertCount` when the recorded variant is the
X.509 certificate and 0 otherwise, and every stored entry below the count is a pointer and a
length that designate the payload of a string element of the request buffer. -/
theorem Decode_X509_chain_capacity (env : Collaborators)
    (storage : GetCertificateRequestMessage) (msgBuf : List Token) :
    (∀ s0 s leaf arrayHead certs rest,
      Decode_ToOpDeviceCert env (GetCertificateRequestMessage.new storage) msgBuf = .ok s0 →
      Decode_OpRelatedCerts env s0 = .ok s →
      s.reader.cur = some leaf → leaf.elemType = kTLVElementType_ByteString →
      leaf.tag = ContextTag kTag_GetCertReqMsg_ManufAttest_X509Cert →
      s.reader.after = arrayHead :: certs ++ rest →
      arrayHead.elemType = kTLVElementType_Array →
      arrayHead.tag = ContextTag kTag_GetCertReqMsg_ManufAttest_X509RelCerts →
      (∀ t ∈ certs, t.elemType = kTLVElementType_ByteString) →
      env.kMaxCertCount < 1 + certs.length →
      (GetCertificateRequestMessage.new storage).Decode env msgBuf =
        .error WEAVE_ERROR_BUFFER_TOO_SMALL) ∧
    (∀ msg, (GetCertificateRequestMessage.new storage).Decode env msgBuf = .ok msg →
      (msg.ManufAttestType = kManufAttestType_X509Cert →
        1 ≤ msg.ManufAttestX509CertCount ∧ msg.ManufAttestX509CertCount ≤ env.kMaxCertCount) ∧
      (msg.ManufAttestType ≠ kManufAttestType_X509Cert → msg.ManufAttestX509CertCount = 0) ∧
      msg.X509CertsInBuffer msgBuf) := by
  refine ⟨?_, fun msg h => (Decode_certs env storage msgBuf msg h).2⟩
  intro s0 s leaf arrayHead certs rest h0 h1 hc hl hlt ha hh hht hm hlen
  have hcount : s.self.ManufAttestX509CertCount = 0 ∧ 1 ≤ env.kMaxCertCount := by
    simp only [Decode_ToOpDeviceCert, bind_eq_ok] at h0
    obtain ⟨s1, h1', s2, h2, h3⟩ := h0
    obtain ⟨_, _, _, c1⟩ := RequestType_ok _ _ _ h1'
    obtain ⟨_, _, _, _, _, c2⟩ := Authorize_ok _ _ h2
    obtain ⟨_, _, _, _, _, c3, _⟩ := OpDeviceCert_ok env msgBuf _ _ h3
    obtain ⟨_, _, _, _, _, c4, _⟩ := OpRelatedCerts_ok env msgBuf _ _ h1
    refine ⟨?_, (OpDeviceCert_certs _ _ _ h3).2.2.2⟩
    rw [c4, c3, c2, c1]
    rfl
  obtain ⟨hcount, hk⟩ := hcount
  match certs, hm, hlen, ha with
  | [], _, hlen, _ => simp only [List.length_nil] at hlen; omega
  | c :: more, hm, hlen, ha =>
    have hov := ManufAttest_X509Cert_overflow env s leaf arrayHead c more rest hc hl hlt
      (by simpa using ha) hh hht
      (fun t ht => by rw [hm t ht]; rfl) (by rw [hcount]; omega)
    simp only [Decode, Decode_ToOpDeviceSig, Decode_ToManufAttest, h0, h1, hov, bind,
      Except.bind]

/-- In the sample configuration, of capacity 4: a request whose leaf comes with 4 related
certificates is refused with `WEAVE_ERROR_BUFFER_TOO_SMALL`, and the request whose leaf
comes with 3 is decoded with a count of 4. -/
theorem Decode_X509_chain_capacity_witness :
    (GetCertificateRequestMessage.new Sample.storage).Decode (Sample.env false)
      (Sample.requestX509 4 kOID_SigAlgo_SHA256WithRSAEncryption) =
      .error WEAVE_ERROR_BUFFER_TOO_SMALL ∧
    (Sample.decoded (Sample.env false)
      (Sample.requestX509 3 kOID_SigAlgo_SHA256WithRSAEncryption)).ManufAttestX509CertCount ≤
      (Sample.env false).kMaxCertCount := by
  refine ⟨?_, ?_⟩
  · exact (Decode_X509_chain_capacity (Sample.env false) Sample.storage
      (Sample.requestX509 4 kOID_SigAlgo_SHA256WithRSAEncryption)).1
      (Sample.stateOf (Decode_ToOpDeviceCert (Sample.env false)
        (GetCertificateRequestMessage.new Sample.storage)
        (Sample.requestX509 4 kOID_SigAlgo_SHA256WithRSAEncryption)))
      (Sample.stateOf (Decode_OpRelatedCerts (Sample.env false)
        (Sample.stateOf (Decode_ToOpDeviceCert (Sample.env false)
          (GetCertificateRequestMessage.new Sample.storage)
          (Sample.requestX509 4 kOID_SigAlgo_SHA256WithRSAEncryption)))))
      (Sample.bytesElem kTag_GetCertReqMsg_ManufAttest_X509Cert [0x30, 0])
      (Sample.arrayElem kTag_GetCertReqMsg_ManufAttest_X509RelCerts)
      ((List.range 4).map (fun i => Sample.anonBytesElem [0x30, i + 1]))
      ([Sample.endElem] ++ Sample.opSig kOID_SigAlgo_ECDSAWithSHA256 ++
        [Sample.uintElem kTag_GetCertReqMsg_ManufAttestSigAlgo
            kOID_SigAlgo_SHA256WithRSAEncryption,
          Sample.bytesElem kTag_GetCertReqMsg_ManufAttestSig_RSA [7, 7], Sample.endElem])
      (by rfl) (by rfl) (by rfl) (by rfl) (by rfl) (by rfl) (by rfl) (by rfl)
      (by decide) (by decide)
  · exact ((Decode_X509_chain_capacity (Sample.env false) Sample.storage
      (Sample.requestX509 3 kOID_SigAlgo_SHA256WithRSAEncryption)).2
      (Sample.decoded (Sample.env false)
        (Sample.requestX509 3 kOID_SigAlgo_SHA256WithRSAEncryption)) (by rfl)).1 (by rfl) |>.2

/-! ## A chain that fills the capacity -/

/-- C25, the failing input: `ValidateX509DeviceCert` rejects every chain of
`kMaxCertCount + 1` certificates with `WEAVE_ERROR_INVALID_ARGUMENT`, and for a message whose
X.509 chain holds `kMaxCertCount` certificates the validation of the attestation stores the
trusted root at index `kMaxCertCount`, one past the last index `Decode` stores to, raises the
count to `kMaxCertCount + 1` and ends with that error. In the sample configuration, of
capacity 4 and with collaborators that accept every chain, the request whose leaf comes with
3 related certificates is decoded with a count of 4, and `ProcessGetCertificateRequest`
returns `WEAVE_ERROR_INVALID_ARGUMENT` after a single call of `ValidateX509DeviceCert`, with
5 certificates. -/
theorem Process_X509_chain_at_capacity :
    (∀ (env : Collaborators) (msgBuf : List Token) (certSet : List X509Cert),
      (ValidateX509DeviceCert env msgBuf certSet (env.kMaxCertCount + 1)).ret =
        .returned WEAVE_ERROR_INVALID_ARGUMENT) ∧
    (∀ (env : Collaborators) (msgBuf : List Token) (msg : GetCertificateRequestMessage),
      msg.ManufAttestType = kManufAttestType_X509Cert →
      msg.ManufAttestX509CertCount = env.kMaxCertCount →
      (Process_ManufAttest env msgBuf msg).1 = some (.returned WEAVE_ERROR_INVALID_ARGUMENT) ∧
      x509At (Process_ManufAttest env msgBuf msg).2.1.ManufAttestX509CertSet
        env.kMaxCertCount =
        { Cert := .TestDevice_X509_RSA_RootCert,
          Len := env.TestDevice_X509_RSA_RootCert.length } ∧
      (Process_ManufAttest env msgBuf msg).2.1.ManufAttestX509CertCount =
        env.kMaxCertCount + 1) ∧
    (GetCertificateRequestMessage.new Sample.storage).Decode (Sample.env false)
      (Sample.requestX509 3 kOID_SigAlgo_SHA256WithRSAEncryption) =
      .ok (Sample.decoded (Sample.env false)
        (Sample.requestX509 3 kOID_SigAlgo_SHA256WithRSAEncryption)) ∧
    (Sample.decoded (Sample.env false)
      (Sample.requestX509 3 kOID_SigAlgo_SHA256WithRSAEncryption)).ManufAttestX509CertCount =
      (Sample.env false).kMaxCertCount ∧
    (ProcessGetCertificateRequest (Sample.env false)
      (Sample.requestX509 3 kOID_SigAlgo_SHA256WithRSAEncryption)
      (GetCertificateRequestMessage.new Sample.storage)).ret =
      .returned WEAVE_ERROR_INVALID_ARGUMENT ∧
    (ProcessGetCertificateRequest (Sample.env false)
      (Sample.requestX509 3 kOID_SigAlgo_SHA256WithRSAEncryption)
      (GetCertificateRequestMessage.new Sample.storage)).calls.filter
        (fun c => match c with | .ValidateX509DeviceCert _ _ => true | _ => false) =
      [Call.ValidateX509DeviceCert
        (x509Store (Sample.decoded (Sample.env false)
          (Sample.requestX509 3 kOID_SigAlgo_SHA256WithRSAEncryption)).ManufAttestX509CertSet 4
          { Cert := .TestDevice_X509_RSA_RootCert, Len := 1 }) 5] := by
  refine ⟨?_, ?_, by rfl, by rfl, by rfl, by rfl⟩
  · intro env msgBuf certSet
    unfold ValidateX509DeviceCert
    rw [if_neg (by omega)]
  · intro env msgBuf msg ht hc
    have hp : msg.ManufAttestPresent = true := by
      simp only [GetCertificateRequestMessage.ManufAttestType] at ht
      simp [GetCertificateRequestMessage.ManufAttestPresent, ht]
    have hv : ∀ certSet, (ValidateX509DeviceCert env msgBuf certSet
        (msg.ManufAttestX509CertCount + 1)).ret = .returned WEAVE_ERROR_INVALID_ARGUMENT := by
      intro certSet
      unfold ValidateX509DeviceCert
      rw [if_neg (by omega)]
    unfold Process_ManufAttest
    simp only [hp, ht, if_true, hv]
    refine ⟨by simp, ?_, ?_⟩
    · simp [hc, x509At_x509Store]
    · simp [hc]

/-! ## An attestation-signature algorithm that is not supported -/

/-- C30: for every request that `Decode` accepts into a freshly constructed message, with an
attestation present and an attestation-signature algorithm id that is none of
ECDSA-with-SHA256, SHA256-with-RSA and HMAC-with-SHA256: when the comparison of the pairing
information, the validation of the operational certificate and the validation of the
attestation let validation go on, the operational signature algorithm is ECDSA-with-SHA256
and the verification of the operational signature succeeds,
`ProcessGetCertificateRequest` returns `WEAVE_ERROR_UNSUPPORTED_SIGNATURE_TYPE`. -/
theorem Process_unsupported_attestation_algorithm (env : Collaborators)
    (storage : GetCertificateRequestMessage) (msgBuf : List Token)
    (msg : GetCertificateRequestMessage)
    (h : (GetCertificateRequestMessage.new storage).Decode env msgBuf = .ok msg)
    (hp : msg.ManufAttestPresent = true)
    (ha : msg.ManufAttestSigAlgo ≠ kOID_SigAlgo_ECDSAWithSHA256 ∧
      msg.ManufAttestSigAlgo ≠ kOID_SigAlgo_SHA256WithRSAEncryption ∧
      msg.ManufAttestSigAlgo ≠ kOID_SigAlgo_HMACWithSHA256)
    (hauth : (Process_Authorize env msgBuf msg).1 = none)
    (hv : env.ValidateWeaveDeviceCert msg.OperationalCertSet = WEAVE_NO_ERROR)
    (hm : (Process_ManufAttest env msgBuf msg).1 = none)
    (hs : msg.OperationalSigAlgo = kOID_SigAlgo_ECDSAWithSHA256)
    (hsig : ∀ cert tbs, msg.OperationalCertSet.Certs.head? = some cert →
      readBytes env msgBuf msg.mTBSDataStart msg.mTBSDataLen = some tbs →
      env.VerifyECDSASignature (env.WeaveCurveIdToOID cert.PubKeyCurveId) (env.SHA256 tbs)
        env.kHashLength msg.OperationalSig cert.PublicKey.EC = WEAVE_NO_ERROR) :
    (ProcessGetCertificateRequest env msgBuf (GetCertificateRequestMessage.new storage)).ret =
      .returned WEAVE_ERROR_UNSUPPORTED_SIGNATURE_TYPE := by
  obtain ⟨⟨cert, hcert⟩, _⟩ := Decode_certs env storage msgBuf msg h
  obtain ⟨outer, reqType, body, sigAlgo, sigStruct, rest, _, _, _, _, _, _, _, _, _, htbs⟩ :=
    Decode_span_of_new env storage msgBuf msg h
  obtain ⟨_, m1, m2, m3, m4, m5, m6, m7, _, _⟩ := Process_ManufAttest_spec env msgBuf msg
  have hsg : (Process_Signatures env msgBuf (Process_ManufAttest env msgBuf msg).2.1).1 =
      .returned WEAVE_ERROR_UNSUPPORTED_SIGNATURE_TYPE := by
    have hver := hsig cert _ hcert htbs
    have hp' : (Process_ManufAttest env msgBuf msg).2.1.ManufAttestPresent = true := by
      simp only [GetCertificateRequestMessage.ManufAttestPresent] at hp ⊢
      rw [m6]; exact hp
    unfold Process_Signatures
    simp only [m1, m2, m3, m4, m5, htbs, hs, hcert, hver, if_true]
    unfold Process_ManufAttestSig
    simp only [hp', m7, ha.1, ha.2.1, ha.2.2, if_true, if_false]
  rcases hA : Process_Authorize env msgBuf msg with ⟨o, calls⟩
  rw [hA] at hauth
  simp only at hauth
  subst hauth
  rcases hM : Process_ManufAttest env msgBuf msg with ⟨o, msg', calls2⟩
  rw [hM] at hm hsg
  simp only at hm hsg
  subst hm
  unfold ProcessGetCertificateRequest
  rw [h]
  unfold Process_Validate
  simp only [hA, hM, hv, if_true, hp, not_true_eq_false, and_false, if_false]
  exact hsg

/-- In the sample configuration, the request with attestation by a Weave certificate and the
attestation-signature algorithm id 999. -/
theorem Process_unsupported_attestation_algorithm_witness :
    (GetCertificateRequestMessage.new Sample.storage).Decode (Sample.env false)
      (Sample.requestWeaveCert 999) =
      .ok (Sample.decoded (Sample.env false) (Sample.requestWeaveCert 999)) ∧
    (Sample.decoded (Sample.env false) (Sample.requestWeaveCert 999)).ManufAttestPresent =
      true ∧
    (Sample.decoded (Sample.env false) (Sample.requestWeaveCert 999)).ManufAttestSigAlgo =
      999 ∧
    (ProcessGetCertificateRequest (Sample.env false) (Sample.requestWeaveCert 999)
      (GetCertificateRequestMessage.new Sample.storage)).ret =
      .returned WEAVE_ERROR_UNSUPPORTED_SIGNATURE_TYPE :=
  ⟨by rfl, by rfl, by rfl,
    Process_unsupported_attestation_algorithm (Sample.env false) Sample.storage
      (Sample.requestWeaveCert 999)
      (Sample.decoded (Sample.env false) (Sample.requestWeaveCert 999))
      (by rfl) (by rfl) (by decide) (by rfl) (by rfl) (by rfl) (by rfl)
      (fun _ _ _ _ => rfl)⟩

/-! ## `WirelessRegConfig::Encode` -/

theorem PutString_ok (w w' : TLVWriter) (tag : Tag) (data : List Nat)
    (h : SuccessOrExit (w.PutString tag data) = .ok w') :
    w'.written = w.written ++ [TLVWriter.stringElement tag data] ∧
      w'.mContainerType = w.mContainerType := by
  rw [SuccessOrExit_eq_ok] at h
  exact WriteElement_ok _ _ _ h.1 h.2

theorem Encode_SupportedRegDomains_ok (self : WirelessRegConfig) (fuel : Nat) :
    ∀ (i : Nat) (w w' : TLVWriter),
      WirelessRegConfig.Encode_SupportedRegDomains self fuel i w = .ok w' →
      w'.mContainerType = w.mContainerType ∧
      ∃ elems, w'.written = w.written ++ elems ∧
        ∀ t ∈ elems, t.tag = AnonymousTag ∧ t.elemType = kTLVElementType_UTF8String := by
  induction fuel with
  | zero => intro i w w' h; simp [WirelessRegConfig.Encode_SupportedRegDomains] at h
  | succ n ih =>
    intro i w w' h
    unfold WirelessRegConfig.Encode_SupportedRegDomains at h
    split at h
    · simp only [bind_eq_ok] at h
      obtain ⟨w1, h1, h2⟩ := h
      obtain ⟨a1, b1⟩ := PutString_ok _ _ _ _ h1
      obtain ⟨b2, elems, a2, c2⟩ := ih _ _ _ h2
      refine ⟨b2.trans b1, TLVWriter.stringElement AnonymousTag
        (regDomainAt self.SupportedRegDomains i).bytes :: elems, ?_, ?_⟩
      · rw [a2, a1]; simp
      · intro t ht
        rcases List.mem_cons.mp ht with rfl | ht
        · exact ⟨rfl, rfl⟩
        · exact c2 t ht
    · simp only [Except.ok.injEq] at h
      subst h
      exact ⟨rfl, [], by simp, by simp⟩

theorem Encode_written (c : WirelessRegConfig) (w w' : TLVWriter)
    (h : c.Encode w = .ok w') :
    ∃ arr, w'.written = w.written ++
        [TLVWriter.containerElement AnonymousTag kTLVType_Structure] ++
        (if c.IsRegDomainPresent then
          [TLVWriter.stringElement (ContextTag kTag_WirelessRegConfig_RegulatoryDomain)
            c.RegDomain.bytes] else []) ++
        (if c.IsOpLocationPresent then
          [TLVWriter.uintElement (ContextTag kTag_WirelessRegConfig_OperatingLocation)
            c.OpLocation] else []) ++
        arr ++ [TLVWriter.endOfContainerElement] ∧
      (c.NumSupportedRegDomains = 0 → arr = []) ∧
      (0 < c.NumSupportedRegDomains → ∃ elems,
        arr = [TLVWriter.containerElement
            (ContextTag kTag_WirelessRegConfig_SupportedRegulatoryDomains) kTLVType_Array] ++
          elems ++ [TLVWriter.endOfContainerElement] ∧
        ∀ t ∈ elems, t.tag = AnonymousTag ∧ t.elemType = kTLVElementType_UTF8String) := by
  simp only [WirelessRegConfig.Encode, bind_eq_ok] at h
  obtain ⟨⟨o, w1⟩, h1, w2, h2, w3, h3, w4, h4, h5⟩ := h
  obtain ⟨a1, _, _⟩ := StartContainer_ok _ _ _ _ _ h1
  obtain ⟨a5, _⟩ := EndContainer_ok _ _ _ h5
  have a2 : w2.written = w1.written ++
      (if c.IsRegDomainPresent then
        [TLVWriter.stringElement (ContextTag kTag_WirelessRegConfig_RegulatoryDomain)
          c.RegDomain.bytes] else []) := by
    unfold WirelessRegConfig.Encode_RegDomain at h2
    split at h2
    · rename_i hc
      rw [if_pos hc]
      exact (PutString_ok _ _ _ _ h2).1
    · rename_i hc
      rw [if_neg hc]
      simp only [Except.ok.injEq] at h2
      rw [← h2]; simp
  have a3 : w3.written = w2.written ++
      (if c.IsOpLocationPresent then
        [TLVWriter.uintElement (ContextTag kTag_WirelessRegConfig_OperatingLocation)
          c.OpLocation] else []) := by
    unfold WirelessRegConfig.Encode_OpLocation at h3
    split at h3
    · rename_i hc
      rw [if_pos hc]
      exact (Put_ok _ _ _ _ h3).1
    · rename_i hc
      rw [if_neg hc]
      simp only [Except.ok.injEq] at h3
      rw [← h3]; simp
  unfold WirelessRegConfig.Encode_SupportedRegDomainsArray at h4
  split at h4
  · rename_i hn
    simp only [bind_eq_ok] at h4
    obtain ⟨⟨o2, w5⟩, h6, w6, h7, h8⟩ := h4
    obtain ⟨a6, _, _⟩ := StartContainer_ok _ _ _ _ _ h6
    obtain ⟨_, elems, a7, c7⟩ := Encode_SupportedRegDomains_ok _ _ _ _ _ h7
    obtain ⟨a8, _⟩ := EndContainer_ok _ _ _ h8
    refine ⟨[TLVWriter.containerElement
      (ContextTag kTag_WirelessRegConfig_SupportedRegulatoryDomains) kTLVType_Array] ++
      elems ++ [TLVWriter.endOfContainerElement], ?_, fun h0 => by omega,
      fun _ => ⟨elems, rfl, c7⟩⟩
    rw [a5, a8, a7, a6, a3, a2, a1]
    simp
  · rename_i hn
    simp only [Except.ok.injEq] at h4
    refine ⟨[], ?_, fun _ => rfl, fun h0 => absurd h0 hn⟩
    rw [a5, ← h4, a3, a2, a1]
    simp

/-- C26, the failing input: `IsOpLocationPresent()` returns false exactly when `OpLocation`
is 0, and on success `Encode` writes the operating-location element exactly when
`OpLocation` is not 0: among the elements written, those with the tag of the operating
location are that one element, or none. For the configuration whose `OpLocation` is 0xFF
`IsOpLocationPresent()` returns true and `Encode` writes the operating location 0xFF; for
the one whose `OpLocation` is 0 it returns false and `Encode` writes no operating
location. -/
theorem IsOpLocationPresent_tests_zero :
    (∀ c : WirelessRegConfig, c.IsOpLocationPresent = false ↔ c.OpLocation = 0) ∧
    (∀ (c : WirelessRegConfig) (w w' : TLVWriter), c.Encode w = .ok w' →
      (w'.written.drop w.written.length).filter
          (fun t => t.tag == ContextTag kTag_WirelessRegConfig_OperatingLocation) =
        if c.OpLocation = 0 then []
        else [TLVWriter.uintElement (ContextTag kTag_WirelessRegConfig_OperatingLocation)
          c.OpLocation]) ∧
    (Sample.regConfig 0xFF).IsOpLocationPresent = true ∧
    Sample.encoded (Sample.regConfig 0xFF) =
      [TLVWriter.containerElement AnonymousTag kTLVType_Structure,
        TLVWriter.stringElement (ContextTag kTag_WirelessRegConfig_RegulatoryDomain)
          [0x55, 0x53],
        TLVWriter.uintElement (ContextTag kTag_WirelessRegConfig_OperatingLocation) 0xFF,
        TLVWriter.containerElement
          (ContextTag kTag_WirelessRegConfig_SupportedRegulatoryDomains) kTLVType_Array,
        TLVWriter.stringElement AnonymousTag [0x55, 0x53],
        TLVWriter.stringElement AnonymousTag [0x43, 0x41],
        TLVWriter.endOfContainerElement, TLVWriter.endOfContainerElement] ∧
    (Sample.regConfig 0).IsOpLocationPresent = false ∧
    Sample.encoded (Sample.regConfig 0) =
      [TLVWriter.containerElement AnonymousTag kTLVType_Structure,
        TLVWriter.stringElement (ContextTag kTag_WirelessRegConfig_RegulatoryDomain)
          [0x55, 0x53],
        TLVWriter.containerElement
          (ContextTag kTag_WirelessRegConfig_SupportedRegulatoryDomains) kTLVType_Array,
        TLVWriter.stringElement AnonymousTag [0x55, 0x53],
        TLVWriter.stringElement AnonymousTag [0x43, 0x41],
        TLVWriter.endOfContainerElement, TLVWriter.endOfContainerElement] := by
  refine ⟨?_, ?_, by rfl, by rfl, by rfl, by rfl⟩
  · intro c
    simp [WirelessRegConfig.IsOpLocationPresent]
  · intro c w w' h
    obtain ⟨arr, e, h0, h1⟩ := Encode_written c w w' h
    have harr : arr.filter
        (fun t => t.tag == ContextTag kTag_WirelessRegConfig_OperatingLocation) = [] := by
      rcases Nat.eq_zero_or_pos c.NumSupportedRegDomains with hz | hpos
      · rw [h0 hz]; rfl
      · obtain ⟨elems, rfl, hel⟩ := h1 hpos
        rw [List.filter_eq_nil_iff]
        intro t ht
        simp only [List.mem_append, List.mem_singleton] at ht
        rcases ht with (rfl | ht) | rfl
        · decide
        · rw [(hel t ht).1]; decide
        · decide
    rw [e]
    simp only [List.append_assoc, List.drop_left, List.filter_append, harr]
    by_cases hr : c.IsRegDomainPresent = true <;> by_cases hz : c.OpLocation = 0 <;>
      simp [WirelessRegConfig.IsOpLocationPresent, hz, hr, TLVWriter.uintElement,
        TLVWriter.stringElement, TLVWriter.containerElement, TLVWriter.endOfContainerElement,
        kTag_WirelessRegConfig_OperatingLocation, kTag_WirelessRegConfig_RegulatoryDomain]

/-! ## `WirelessRegConfig::Decode`: where the supported domains are stored -/

theorem toTLVType_eq_UTF8String (e : TLVElementType)
    (h : e.toTLVType = kTLVType_UTF8String) : e = kTLVElementType_UTF8String := by
  cases e <;> simp [TLVElementType.toTLVType] at h ⊢

theorem bytes_length_pos (t : Token) (h : t.head ≠ []) : 1 ≤ t.bytes.length := by
  unfold Token.bytes
  rw [List.length_append]
  have : 0 < t.head.length := List.length_pos.mpr h
  omega

theorem Next_bytesRead (r : TLVReader) (h : r.Next.1 = WEAVE_NO_ERROR)
    (hc : r.cur = none ∨ ∃ t, r.cur = some t ∧ TLVTypeHasLength t.elemType = true) :
    (bytesOf r.Next.2.before).length = r.bytesRead := by
  obtain ⟨_, _, hnone, hleaf⟩ := Next_rel r r.Next.2 h rfl
  rcases hc with hc | ⟨t, hc, ht⟩
  · rw [hnone hc]
    simp [TLVReader.bytesRead, hc, bytesOf]
  · obtain ⟨l1, l2⟩ := leaf_of_HasLength t ht
    rw [hleaf t hc l1 l2, bytesOf_append]
    simp [TLVReader.bytesRead, hc, bytesOf]

theorem Decode_SupportedRegDomains_stores (buf : List Token) (hbuf : ∀ t ∈ buf, t.head ≠ [])
    (max : Nat) (fuel : Nat) :
    ∀ (self : WirelessRegConfig) (reader : TLVReader) (stores : List (Nat × Nat)),
      reader.all = buf →
      (reader.cur = none ∨ ∃ t, reader.cur = some t ∧ TLVTypeHasLength t.elemType = true) →
      2 * self.NumSupportedRegDomains + 2 ≤ reader.bytesRead →
      stores.map Prod.fst = List.range self.NumSupportedRegDomains →
      (∀ s ∈ stores, WirelessRegConfig.StoreInPlace buf s) →
      (∀ r, WirelessRegConfig.Decode_SupportedRegDomains max fuel self reader stores =
          .error r →
        r.stores.map Prod.fst = List.range r.self.NumSupportedRegDomains ∧
        ∀ s ∈ r.stores, WirelessRegConfig.StoreInPlace buf s) ∧
      (∀ self' reader' stores',
        WirelessRegConfig.Decode_SupportedRegDomains max fuel self reader stores =
          .ok (self', reader', stores') →
        reader.Advances reader' ∧
        stores'.map Prod.fst = List.range self'.NumSupportedRegDomains ∧
        ∀ s ∈ stores', WirelessRegConfig.StoreInPlace buf s) := by
  induction fuel with
  | zero =>
    intro self reader stores hall hc hq hj hg
    unfold WirelessRegConfig.Decode_SupportedRegDomains
    refine ⟨?_, ?_⟩
    · intro r h
      simp only [Except.error.injEq] at h
      subst h
      exact ⟨hj, hg⟩
    · intro _ _ _ h
      cases h
  | succ n ih =>
    intro self reader stores hall hc hq hj hg
    unfold WirelessRegConfig.Decode_SupportedRegDomains
    simp only []
    by_cases hn : reader.Next.1 = WEAVE_NO_ERROR
    · rw [if_pos hn]
      obtain ⟨hadv, ⟨t1, hcur, hne⟩, _, _⟩ := Next_rel reader reader.Next.2 hn rfl
      have hbr := Next_bytesRead reader hn hc
      split
      · refine ⟨?_, fun _ _ _ h => by cases h⟩
        intro r h
        simp only [Except.error.injEq] at h
        subst h
        exact ⟨hj, hg⟩
      · split
        · refine ⟨?_, fun _ _ _ h => by cases h⟩
          intro r h
          simp only [Except.error.injEq] at h
          subst h
          exact ⟨hj, hg⟩
        · rename_i hty
          split
          · refine ⟨?_, fun _ _ _ h => by cases h⟩
            intro r h
            simp only [Except.error.injEq] at h
            subst h
            exact ⟨hj, hg⟩
          · rename_i hlen
            split
            · refine ⟨?_, fun _ _ _ h => by cases h⟩
              intro r h
              simp only [Except.error.injEq] at h
              subst h
              exact ⟨hj, hg⟩
            · rename_i data hdata
              have hty' : t1.elemType = kTLVElementType_UTF8String := by
                have : reader.Next.2.GetType = kTLVType_UTF8String := by
                  simpa using hty
                simp only [TLVReader.GetType, TLVReader.ElementType, hcur] at this
                exact toTLVType_eq_UTF8String _ this
              have hl : TLVTypeHasLength t1.elemType = true := by rw [hty']; rfl
              have hlen' : t1.data.length = 2 := by
                have : reader.Next.2.GetLength = 2 := by simpa using hlen
                simpa [TLVReader.GetLength, hcur, hl] using this
              have hall1 : reader.Next.2.all = buf := hadv.1.trans hall
              have hmem : t1 ∈ buf := by
                rw [← hall1]
                simp [TLVReader.all, hcur]
              have hhead : 1 ≤ t1.head.length := List.length_pos.mpr (hbuf t1 hmem)
              have hrp : reader.Next.2.GetReadPoint =
                  (bytesOf reader.Next.2.before).length + t1.head.length := by
                simp [TLVReader.GetReadPoint, hcur]
              have hq1 : reader.Next.2.bytesRead =
                  (bytesOf reader.Next.2.before).length + (t1.head.length + 2) := by
                simp [TLVReader.bytesRead, hcur, bytesOf, Token.bytes, hl, hlen']
              have hstore : WirelessRegConfig.StoreInPlace buf
                  (self.NumSupportedRegDomains, reader.Next.2.GetReadPoint) := by
                refine ⟨?_, reader.Next.2.before, t1, reader.Next.2.after, ?_, hty', hlen', hrp⟩
                · simp only [hrp, hbr]; omega
                · rw [← hall1]; simp [TLVReader.all, hcur]
              obtain ⟨i1, i2⟩ := ih
                { self with
                  SupportedRegDomains := regDomainStore self.SupportedRegDomains
                    self.NumSupportedRegDomains (WirelessRegDomain.ofBytes data)
                  NumSupportedRegDomains := self.NumSupportedRegDomains + 1 }
                reader.Next.2
                (stores ++ [(self.NumSupportedRegDomains, reader.Next.2.GetReadPoint)])
                hall1 (Or.inr ⟨t1, hcur, hl⟩) (by simp only [hq1, hbr]; omega)
                (by simp [hj, List.range_succ])
                (by
                  intro s hs
                  rcases List.mem_append.mp hs with hs | hs
                  · exact hg s hs
                  · simp only [List.mem_singleton] at hs
                    subst hs
                    exact hstore)
              refine ⟨i1, ?_⟩
              intro self' reader' stores' h
              obtain ⟨a, b, c⟩ := i2 self' reader' stores' h
              exact ⟨Advances_trans hadv a, b, c⟩
    · rw [if_neg hn]
      refine ⟨(fun _ h => by cases h), ?_⟩
      intro self' reader' stores' h
      simp only [Except.ok.injEq, Prod.mk.injEq] at h
      obtain ⟨rfl, rfl, rfl⟩ := h
      exact ⟨Next_advances _, hj, hg⟩

theorem bytesOf_before_mono (r r1 : TLVReader) (h : r.Advances r1) :
    (bytesOf r.before).length ≤ (bytesOf r1.before).length := by
  obtain ⟨_, ext, e⟩ := h
  rw [e, bytesOf_append, List.length_append]
  omega

theorem Decode_elements_stores (buf : List Token) (hbuf : ∀ t ∈ buf, t.head ≠ [])
    (max : Nat) (fuel : Nat) :
    ∀ (self : WirelessRegConfig) (reader : TLVReader) (stores : List (Nat × Nat)),
      reader.all = buf → 1 ≤ (bytesOf reader.before).length →
      stores.map Prod.fst = List.range self.NumSupportedRegDomains →
      (∀ s ∈ stores, WirelessRegConfig.StoreInPlace buf s) →
      (∀ r, WirelessRegConfig.Decode_elements max fuel self reader stores = .error r →
        r.stores.map Prod.fst = List.range r.self.NumSupportedRegDomains ∧
        ∀ s ∈ r.stores, WirelessRegConfig.StoreInPlace buf s) ∧
      (∀ self' reader' stores',
        WirelessRegConfig.Decode_elements max fuel self reader stores =
          .ok (self', reader', stores') →
        stores'.map Prod.fst = List.range self'.NumSupportedRegDomains ∧
        ∀ s ∈ stores', WirelessRegConfig.StoreInPlace buf s) := by
  induction fuel with
  | zero =>
    intro self reader stores hall hb hj hg
    unfold WirelessRegConfig.Decode_elements
    refine ⟨?_, fun _ _ _ h => by cases h⟩
    intro r h
    simp only [Except.error.injEq] at h
    subst h
    exact ⟨hj, hg⟩
  | succ n ih =>
    intro self reader stores hall hb hj hg
    have herr : ∀ (e : WEAVE_ERROR) (self0 : WirelessRegConfig) (r0 : TLVReader),
        self0.NumSupportedRegDomains = self.NumSupportedRegDomains →
        (∀ r, (Except.error { err := e, self := self0, reader := r0, stores := stores } :
            Except WirelessRegConfig.DecodeResult
              (WirelessRegConfig × TLVReader × List (Nat × Nat))) = .error r →
          r.stores.map Prod.fst = List.range r.self.NumSupportedRegDomains ∧
          ∀ s ∈ r.stores, WirelessRegConfig.StoreInPlace buf s) ∧
        (∀ self' reader' stores',
          (Except.error { err := e, self := self0, reader := r0, stores := stores } :
            Except WirelessRegConfig.DecodeResult
              (WirelessRegConfig × TLVReader × List (Nat × Nat))) =
            .ok (self', reader', stores') →
          stores'.map Prod.fst = List.range self'.NumSupportedRegDomains ∧
          ∀ s ∈ stores', WirelessRegConfig.StoreInPlace buf s) := by
      intro e self0 r0 h0
      refine ⟨?_, fun _ _ _ h => by cases h⟩
      intro r h
      simp only [Except.error.injEq] at h
      subst h
      exact ⟨by simpa [h0] using hj, hg⟩
    unfold WirelessRegConfig.Decode_elements
    simp only []
    by_cases hn : reader.Next.1 = WEAVE_NO_ERROR
    · rw [if_pos hn]
      have hadv := Next_advances reader
      have hall1 : reader.Next.2.all = buf := hadv.1.trans hall
      have hb1 : 1 ≤ (bytesOf reader.Next.2.before).length :=
        le_trans hb (bytesOf_before_mono _ _ hadv)
      split
      · split
        · split
          · exact herr _ _ _ rfl
          · split
            · exact herr _ _ _ rfl
            · split
              · exact herr _ _ _ rfl
              · split
                · exact herr _ _ _ rfl
                · exact ih _ _ _ hall1 hb1 hj hg
        · split
          · split
            · exact herr _ _ _ rfl
            · split
              · exact herr _ _ _ rfl
              · split
                · exact herr _ _ _ rfl
                · exact ih _ _ _ hall1 hb1 hj hg
          · split
            · split
              · exact herr _ _ _ rfl
              · split
                · exact herr _ _ _ rfl
                · rename_i hnum
                  split
                  · exact herr _ _ _ rfl
                  · rename_i o2 r2 hec
                    obtain ⟨t, hcur, hcont, hbef, hnone, hadv2, _⟩ := EnterContainer_ok _ _ _ hec
                    have hall2 : r2.all = buf := hadv2.1.trans hall1
                    have hmem : t ∈ buf := by
                      rw [← hall1]
                      simp [TLVReader.all, hcur]
                    have hq : 2 * self.NumSupportedRegDomains + 2 ≤ r2.bytesRead := by
                      have h0 : self.NumSupportedRegDomains = 0 := by
                        by_contra hne
                        exact hnum hne
                      have hp := bytes_length_pos t (hbuf t hmem)
                      simp only [TLVReader.bytesRead, hnone, hbef, bytesOf_append, h0,
                        List.length_append, Option.toList]
                      simp only [bytesOf, List.append_nil, List.length_nil]
                      omega
                    have inner := Decode_SupportedRegDomains_stores buf hbuf max
                      (r2.after.length + 1) self r2 stores hall2 (Or.inl hnone) hq hj hg
                    split
                    · rename_i r hr
                      refine ⟨?_, fun _ _ _ h => by cases h⟩
                      intro r' h
                      simp only [Except.error.injEq] at h
                      subst h
                      exact inner.1 r hr
                    · rename_i self' r3 stores' hr
                      obtain ⟨a, b, c⟩ := inner.2 _ _ _ hr
                      have hx := ExitContainer_spec r3 o2
                      have hall3 : (r3.ExitContainer o2).2.all = buf :=
                        hx.1.trans (a.1.trans hall2)
                      have hb3 : 1 ≤ (bytesOf (r3.ExitContainer o2).2.before).length := by
                        refine le_trans hb1 (le_trans (bytesOf_before_mono _ _ hadv2)
                          (le_trans (bytesOf_before_mono _ _ a) ?_))
                        exact bytesOf_before_mono _ _ ⟨hx.1, hx.2.1⟩
                      split
                      · refine ⟨?_, fun _ _ _ h => by cases h⟩
                        intro r' h
                        simp only [Except.error.injEq] at h
                        subst h
                        exact ⟨b, c⟩
                      · exact ih _ _ _ hall3 hb3 b c
            · exact ih _ _ _ hall1 hb1 hj hg
      · exact ih _ _ _ hall1 hb1 hj hg
    · rw [if_neg hn]
      refine ⟨(fun _ h => by cases h), ?_⟩
      intro self' reader' stores' h
      simp only [Except.ok.injEq, Prod.mk.injEq] at h
      obtain ⟨rfl, rfl, rfl⟩ := h
      exact ⟨hj, hg⟩

theorem Decode_stores (buf : List Token) (hbuf : ∀ t ∈ buf, t.head ≠ [])
    (self : WirelessRegConfig) (reader : TLVReader) (hall : reader.all = buf) :
    (self.Decode reader).stores.map Prod.fst =
      List.range (self.Decode reader).self.NumSupportedRegDomains ∧
    ∀ s ∈ (self.Decode reader).stores, WirelessRegConfig.StoreInPlace buf s := by
  unfold WirelessRegConfig.Decode
  simp only []
  have hfirst : (if reader.GetType = kTLVType_NotSpecified then reader.Next
      else (WEAVE_NO_ERROR, reader)).2.all = buf := by
    split
    · exact (Next_advances reader).1.trans hall
    · exact hall
  generalize (if reader.GetType = kTLVType_NotSpecified then reader.Next
      else (WEAVE_NO_ERROR, reader)) = first at hfirst
  split
  · exact ⟨rfl, fun s hs => by cases hs⟩
  · split
    · exact ⟨rfl, fun s hs => by cases hs⟩
    · split
      · exact ⟨rfl, fun s hs => by cases hs⟩
      · rename_i o r2 hec
        obtain ⟨t, hcur, hcont, hbef, hnone, hadv2, _⟩ := EnterContainer_ok _ _ _ hec
        have hall2 : r2.all = buf := hadv2.1.trans hfirst
        have hmem : t ∈ buf := by
          rw [← hfirst]
          simp [TLVReader.all, hcur]
        have hb : 1 ≤ (bytesOf r2.before).length := by
          have hp := bytes_length_pos t (hbuf t hmem)
          rw [hbef, bytesOf_append, List.length_append]
          simp only [bytesOf, List.append_nil]
          omega
        have outer := Decode_elements_stores buf hbuf self.NumSupportedRegDomains
          (r2.after.length + 1) { self with NumSupportedRegDomains := 0 } r2 [] hall2 hb rfl
          (fun s hs => by cases hs)
        split
        · rename_i r hr
          exact outer.1 r hr
        · rename_i self' r3 stores' hr
          exact outer.2 _ _ _ hr

/-- C27: `DecodeInPlace` lays the array of supported domains over the packet buffer, two
bytes per element from the start of the buffer. For every buffer whose elements each have a
control byte, every capacity and every outcome of the call: the stores into the array are
made to the elements 0, 1, 2, ... in this order, one for each domain counted in
`NumSupportedRegDomains`; and the store to element `k` copies the two payload bytes of a
UTF-8 string element of the buffer, whose first byte is at an offset `p` with
`2 * k + 2 ≤ p`. The two bytes written, at offsets `2 * k` and `2 * k + 1`, lie before the
bytes copied, which end at `p + 2`, the end of the element read: no byte of the buffer is
overwritten before the reader has read it. -/
theorem DecodeInPlace_stores_behind_reader (self : WirelessRegConfig) (buf : List Token)
    (maxDataLength : Nat) (hbuf : ∀ t ∈ buf, t.head ≠ []) :
    (self.DecodeInPlace buf maxDataLength).stores.map Prod.fst =
      List.range (self.DecodeInPlace buf maxDataLength).self.NumSupportedRegDomains ∧
    ∀ k p, (k, p) ∈ (self.DecodeInPlace buf maxDataLength).stores →
      2 * k + 2 ≤ p ∧
      ∃ pre t post, buf = pre ++ t :: post ∧ t.elemType = kTLVElementType_UTF8String ∧
        t.data.length = 2 ∧ p = (bytesOf pre).length + t.head.length := by
  obtain ⟨h1, h2⟩ := Decode_stores buf hbuf
    { self with
      SupportedRegDomains := regDomainsOfBytes (bytesOf buf)
      NumSupportedRegDomains := maxDataLength / 2 % 65536 }
    (TLVReader.Init buf) (by simp [TLVReader.all, TLVReader.Init])
  exact ⟨h1, fun k p h => h2 (k, p) h⟩

/-- The encoding of the sample configuration, decoded in place in a buffer of 64 bytes: the
two supported domains are stored to the elements 0 and 1 of the array, at the offsets 0 and
2, from the bytes at the offsets 13 and 17. -/
theorem DecodeInPlace_stores_behind_reader_witness :
    (∀ t ∈ Sample.encoded (Sample.regConfig 5), t.head ≠ []) ∧
    ((Sample.regConfig 0).Init.DecodeInPlace (Sample.encoded (Sample.regConfig 5)) 64).err =
      WEAVE_NO_ERROR ∧
    ((Sample.regConfig 0).Init.DecodeInPlace (Sample.encoded (Sample.regConfig 5)) 64).stores =
      [(0, 13), (1, 17)] ∧
    ∀ k p, (k, p) ∈
        ((Sample.regConfig 0).Init.DecodeInPlace (Sample.encoded (Sample.regConfig 5))
          64).stores →
      2 * k + 2 ≤ p ∧
      ∃ pre t post, Sample.encoded (Sample.regConfig 5) = pre ++ t :: post ∧
        t.elemType = kTLVElementType_UTF8String ∧
        t.data.length = 2 ∧ p = (bytesOf pre).length + t.head.length :=
  ⟨by decide, by rfl, by rfl,
    (DecodeInPlace_stores_behind_reader (Sample.regConfig 0).Init
      (Sample.encoded (Sample.regConfig 5)) 64 (by decide)).2⟩

/-! ## Ownership of packet buffers -/

theorem SendStatusReport_buffers (svc : ServiceCollaborators) (history : List Event)
    (statusCode : Nat) (b : Buffer) :
    (SendStatusReport svc history statusCode).2.countP (Event.allocates b) ≤ 1 ∧
    (SendStatusReport svc history statusCode).2.countP (Event.handsOver b) +
      (SendStatusReport svc history statusCode).2.countP (Event.frees b) =
      (SendStatusReport svc history statusCode).2.countP (Event.allocates b) ∧
    (b ≠ Buffer.allocated history.length →
      (SendStatusReport svc history statusCode).2.countP (Event.allocates b) = 0) ∧
    1 ≤ (SendStatusReport svc history statusCode).2.length := by
  unfold SendStatusReport
  by_cases h1 : svc.PacketBuffer_New history = true
  · by_cases h2 : svc.StatusReport_pack
        { mProfileId := kWeaveProfile_Security, mStatusCode := statusCode % 65536 } =
          WEAVE_NO_ERROR
    · by_cases hb : Buffer.allocated history.length = b
      · simp [h1, h2, hb, List.countP_cons, Event.allocates, Event.handsOver, Event.frees]
      · simp [h1, h2, hb, List.countP_cons, Event.allocates, Event.handsOver, Event.frees]
    · by_cases hb : Buffer.allocated history.length = b
      · simp [h1, h2, hb, List.countP_cons, Event.allocates, Event.handsOver, Event.frees]
      · simp [h1, h2, hb, List.countP_cons, Event.allocates, Event.handsOver, Event.frees]
  · simp [h1, List.countP_cons, Event.allocates, Event.handsOver, Event.frees]

theorem exit_buffers (svc : ServiceCollaborators) (err : WEAVE_ERROR) (pre : List Event)
    (respMsg : Option Buffer)
    (hreq : pre.countP (Event.frees Buffer.reqMsg) = 0 ∧
      pre.countP (Event.handsOver Buffer.reqMsg) = 0 ∧
      pre.countP (Event.allocates Buffer.reqMsg) = 0 ∧ respMsg ≠ some Buffer.reqMsg)
    (hpre : ∀ n, pre.countP (Event.allocates (Buffer.allocated n)) ≤ 1 ∧
      pre.countP (Event.handsOver (Buffer.allocated n)) +
        pre.countP (Event.frees (Buffer.allocated n)) +
        (if respMsg = some (Buffer.allocated n) then 1 else 0) =
        pre.countP (Event.allocates (Buffer.allocated n)))
    (hid : pre.countP (Event.allocates (Buffer.allocated pre.length)) = 0) :
    (HandleClientRequest_exit svc err pre respMsg).countP (Event.frees Buffer.reqMsg) = 1 ∧
    (HandleClientRequest_exit svc err pre respMsg).countP (Event.handsOver Buffer.reqMsg) = 0 ∧
    (HandleClientRequest_exit svc err pre respMsg).countP (Event.allocates Buffer.reqMsg) = 0 ∧
    ∀ n,
      (HandleClientRequest_exit svc err pre respMsg).countP
        (Event.allocates (Buffer.allocated n)) ≤ 1 ∧
      (HandleClientRequest_exit svc err pre respMsg).countP
          (Event.handsOver (Buffer.allocated n)) +
        (HandleClientRequest_exit svc err pre respMsg).countP
          (Event.frees (Buffer.allocated n)) =
        (HandleClientRequest_exit svc err pre respMsg).countP
          (Event.allocates (Buffer.allocated n)) := by
  obtain ⟨q1, q2, q3, q4⟩ := hreq
  have hresp : ∀ b, (match respMsg with
      | none => ([] : List Event)
      | some buf => [Event.PacketBuffer_Free buf]).countP (Event.frees b) =
        (if respMsg = some b then 1 else 0) ∧
      (match respMsg with
      | none => ([] : List Event)
      | some buf => [Event.PacketBuffer_Free buf]).countP (Event.handsOver b) = 0 ∧
      (match respMsg with
      | none => ([] : List Event)
      | some buf => [Event.PacketBuffer_Free buf]).countP (Event.allocates b) = 0 := by
    intro b
    cases respMsg with
    | none => simp
    | some buf =>
      by_cases hb : buf = b
      · simp [hb, List.countP_cons, Event.frees, Event.handsOver, Event.allocates]
      · simp [hb, List.countP_cons, Event.frees, Event.handsOver, Event.allocates]
  have hst : ∀ b, ((if err ≠ WEAVE_NO_ERROR then
        (SendStatusReport svc pre kStatusCode_UnathorizedGetCertRequest).2 else [])).countP
          (Event.allocates b) ≤ 1 ∧
      ((if err ≠ WEAVE_NO_ERROR then
        (SendStatusReport svc pre kStatusCode_UnathorizedGetCertRequest).2 else [])).countP
          (Event.handsOver b) +
        ((if err ≠ WEAVE_NO_ERROR then
          (SendStatusReport svc pre kStatusCode_UnathorizedGetCertRequest).2 else [])).countP
          (Event.frees b) =
        ((if err ≠ WEAVE_NO_ERROR then
          (SendStatusReport svc pre kStatusCode_UnathorizedGetCertRequest).2 else [])).countP
          (Event.allocates b) ∧
      (b ≠ Buffer.allocated pre.length →
        ((if err ≠ WEAVE_NO_ERROR then
          (SendStatusReport svc pre kStatusCode_UnathorizedGetCertRequest).2 else [])).countP
          (Event.allocates b) = 0) := by
    intro b
    split
    · obtain ⟨a, b1, c, _⟩ :=
        SendStatusReport_buffers svc pre kStatusCode_UnathorizedGetCertRequest b
      exact ⟨a, b1, c⟩
    · simp
  have hfree : ∀ b, [Event.PacketBuffer_Free Buffer.reqMsg].countP (Event.frees b) =
        (if b = Buffer.reqMsg then 1 else 0) ∧
      [Event.PacketBuffer_Free Buffer.reqMsg].countP (Event.handsOver b) = 0 ∧
      [Event.PacketBuffer_Free Buffer.reqMsg].countP (Event.allocates b) = 0 := by
    intro b
    by_cases hb : b = Buffer.reqMsg
    · simp [hb, List.countP_cons, Event.frees, Event.handsOver, Event.allocates]
    · have hb' : ¬ Buffer.reqMsg = b := fun h => hb h.symm
      simp [hb, hb', List.countP_cons, Event.frees, Event.handsOver, Event.allocates]
  unfold HandleClientRequest_exit
  simp only [List.countP_append]
  refine ⟨?_, ?_, ?_, ?_⟩
  · obtain ⟨s1, s2, s3⟩ := hst Buffer.reqMsg
    have s0 := s3 (by simp)
    obtain ⟨r1, _, _⟩ := hresp Buffer.reqMsg
    obtain ⟨f1, _, _⟩ := hfree Buffer.reqMsg
    rw [r1, f1, if_neg q4, if_pos rfl, q1]
    omega
  · obtain ⟨s1, s2, s3⟩ := hst Buffer.reqMsg
    have s0 := s3 (by simp)
    obtain ⟨_, r2, _⟩ := hresp Buffer.reqMsg
    obtain ⟨_, f2, _⟩ := hfree Buffer.reqMsg
    rw [r2, f2, q2]
    omega
  · obtain ⟨s1, s2, s3⟩ := hst Buffer.reqMsg
    have s0 := s3 (by simp)
    obtain ⟨_, _, r3⟩ := hresp Buffer.reqMsg
    obtain ⟨_, _, f3⟩ := hfree Buffer.reqMsg
    rw [r3, f3, q3, s0]
  · intro n
    obtain ⟨s1, s2, s3⟩ := hst (Buffer.allocated n)
    obtain ⟨r1, r2, r3⟩ := hresp (Buffer.allocated n)
    obtain ⟨f1, f2, f3⟩ := hfree (Buffer.allocated n)
    obtain ⟨p1, p2⟩ := hpre n
    have hne : ¬ (Buffer.allocated n = Buffer.reqMsg) := by intro h; cases h
    rw [r1, r2, r3, f1, f2, f3, if_neg hne]
    by_cases hn : n = pre.length
    · subst hn
      rw [hid] at p2 ⊢
      omega
    · have s0 := s3 (by simpa using hn)
      omega

/-- C31: on every path on which `HandleClientRequest` returns, and for `SendStatusReport`
on every path: the request buffer is released exactly once and is never handed to
`SendMessage`; every buffer is allocated at most once, and a buffer that was allocated is
either handed to `SendMessage` or released, exactly one of the two and exactly once; a
buffer that was not allocated is neither handed over nor released. -/
theorem Handle_buffer_ownership (env : Collaborators) (svc : ServiceCollaborators)
    (server : MockCAService) (storage : GetCertificateRequestMessage)
    (profileId msgType : Nat) (reqMsg : List Token) (events : List Event)
    (h : HandleClientRequest env svc server storage profileId msgType reqMsg = some events) :
    events.countP (Event.frees Buffer.reqMsg) = 1 ∧
    events.countP (Event.handsOver Buffer.reqMsg) = 0 ∧
    events.countP (Event.allocates Buffer.reqMsg) = 0 ∧
    (∀ n, events.countP (Event.allocates (Buffer.allocated n)) ≤ 1 ∧
      events.countP (Event.handsOver (Buffer.allocated n)) +
        events.countP (Event.frees (Buffer.allocated n)) =
        events.countP (Event.allocates (Buffer.allocated n))) ∧
    (∀ history statusCode b,
      (SendStatusReport svc history statusCode).2.countP (Event.allocates b) ≤ 1 ∧
      (SendStatusReport svc history statusCode).2.countP (Event.handsOver b) +
        (SendStatusReport svc history statusCode).2.countP (Event.frees b) =
        (SendStatusReport svc history statusCode).2.countP (Event.allocates b)) := by
  have hS : ∀ history statusCode b,
      (SendStatusReport svc history statusCode).2.countP (Event.allocates b) ≤ 1 ∧
      (SendStatusReport svc history statusCode).2.countP (Event.handsOver b) +
        (SendStatusReport svc history statusCode).2.countP (Event.frees b) =
        (SendStatusReport svc history statusCode).2.countP (Event.allocates b) :=
    fun history statusCode b =>
      ⟨(SendStatusReport_buffers svc history statusCode b).1,
        (SendStatusReport_buffers svc history statusCode b).2.1⟩
  have hnil : ∀ err, (HandleClientRequest_exit svc err [] none).countP
        (Event.frees Buffer.reqMsg) = 1 ∧
      (HandleClientRequest_exit svc err [] none).countP (Event.handsOver Buffer.reqMsg) = 0 ∧
      (HandleClientRequest_exit svc err [] none).countP (Event.allocates Buffer.reqMsg) = 0 ∧
      ∀ n, (HandleClientRequest_exit svc err [] none).countP
          (Event.allocates (Buffer.allocated n)) ≤ 1 ∧
        (HandleClientRequest_exit svc err [] none).countP
            (Event.handsOver (Buffer.allocated n)) +
          (HandleClientRequest_exit svc err [] none).countP
            (Event.frees (Buffer.allocated n)) =
          (HandleClientRequest_exit svc err [] none).countP
            (Event.allocates (Buffer.allocated n)) :=
    fun err => exit_buffers svc err [] none (by simp) (by simp) (by simp)
  unfold HandleClientRequest at h
  split at h
  · simp only [] at h
    split at h
    · cases h
    · rename_i err hret
      split at h
      · split at h
        · simp only [Option.some.injEq] at h
          subst h
          obtain ⟨a1, a2, a3, a4⟩ :=
            SendStatusReport_buffers svc [] kStatusCode_NoNewCertRequired Buffer.reqMsg
          have a0 := a3 (by simp)
          obtain ⟨x1, x2, x3, x4⟩ := exit_buffers svc
            (SendStatusReport svc [] kStatusCode_NoNewCertRequired).1
            (SendStatusReport svc [] kStatusCode_NoNewCertRequired).2 none
            ⟨by omega, by omega, a0, by simp⟩
            (fun n => by
              obtain ⟨b1, b2, _, _⟩ := SendStatusReport_buffers svc []
                kStatusCode_NoNewCertRequired (Buffer.allocated n)
              refine ⟨b1, ?_⟩
              simp only [reduceCtorEq, if_false]
              omega)
            ((SendStatusReport_buffers svc [] kStatusCode_NoNewCertRequired _).2.2.1
              (by
                intro hc
                simp only [Buffer.allocated.injEq, List.length_nil] at hc
                omega))
          exact ⟨x1, x2, x3, x4, hS⟩
        · unfold HandleClientRequest_respond at h
          split at h
          · simp only [] at h
            split at h
            · cases h
            · split at h
              · simp only [Option.some.injEq] at h
                subst h
                obtain ⟨x1, x2, x3, x4⟩ := exit_buffers svc _
                  [Event.PacketBuffer_New (some (Buffer.allocated 0)),
                    Event.SendMessage kWeaveProfile_Security kMsgType_GetCertificateResponse
                      (Buffer.allocated 0) (.tlv _) _] none
                  (by simp [List.countP_cons, Event.frees, Event.handsOver, Event.allocates])
                  (fun n => by
                    by_cases hn : 0 = n
                    · subst hn
                      simp [List.countP_cons, Event.frees, Event.handsOver, Event.allocates]
                    · simp [hn, List.countP_cons, Event.frees, Event.handsOver,
                        Event.allocates])
                  (by simp [List.countP_cons, Event.allocates])
                exact ⟨x1, x2, x3, x4, hS⟩
              · simp only [Option.some.injEq] at h
                subst h
                obtain ⟨x1, x2, x3, x4⟩ := exit_buffers svc _
                  [Event.PacketBuffer_New (some (Buffer.allocated 0))]
                  (some (Buffer.allocated 0))
                  (by simp [List.countP_cons, Event.frees, Event.handsOver, Event.allocates])
                  (fun n => by
                    by_cases hn : 0 = n
                    · subst hn
                      simp [List.countP_cons, Event.frees, Event.handsOver, Event.allocates]
                    · simp [hn, List.countP_cons, Event.frees, Event.handsOver,
                        Event.allocates])
                  (by simp [List.countP_cons, Event.allocates])
                exact ⟨x1, x2, x3, x4, hS⟩
          · simp only [Option.some.injEq] at h
            subst h
            obtain ⟨x1, x2, x3, x4⟩ := exit_buffers svc WEAVE_ERROR_NO_MEMORY
              [Event.PacketBuffer_New none] none
              (by simp [List.countP_cons, Event.frees, Event.handsOver, Event.allocates])
              (fun n => by
                simp [List.countP_cons, Event.frees, Event.handsOver, Event.allocates])
              (by simp [List.countP_cons, Event.allocates])
            exact ⟨x1, x2, x3, x4, hS⟩
      · simp only [Option.some.injEq] at h
        subst h
        obtain ⟨x1, x2, x3, x4⟩ := hnil err
        exact ⟨x1, x2, x3, x4, hS⟩
  · simp only [Option.some.injEq] at h
    subst h
    obtain ⟨x1, x2, x3, x4⟩ := hnil WEAVE_ERROR_NO_MEMORY
    exact ⟨x1, x2, x3, x4, hS⟩

set_option maxRecDepth 100000 in
/-- A sample initial request handled when every send fails: the response buffer and the
buffer of the status report are handed to `SendMessage`, the request buffer is released. -/
theorem Handle_buffer_ownership_witness :
    HandleClientRequest (Sample.env false) Sample.svcSendFails (Sample.server false)
      Sample.storage kWeaveProfile_Security kMsgType_GetCertificateRequest
      Sample.requestInitial =
      some (Sample.handle (Sample.env false) Sample.svcSendFails (Sample.server false)
        Sample.requestInitial) ∧
    (Sample.handle (Sample.env false) Sample.svcSendFails (Sample.server false)
      Sample.requestInitial).countP (Event.frees Buffer.reqMsg) = 1 ∧
    ∀ n,
      (Sample.handle (Sample.env false) Sample.svcSendFails (Sample.server false)
        Sample.requestInitial).countP (Event.allocates (Buffer.allocated n)) ≤ 1 ∧
      (Sample.handle (Sample.env false) Sample.svcSendFails (Sample.server false)
          Sample.requestInitial).countP (Event.handsOver (Buffer.allocated n)) +
        (Sample.handle (Sample.env false) Sample.svcSendFails (Sample.server false)
          Sample.requestInitial).countP (Event.frees (Buffer.allocated n)) =
        (Sample.handle (Sample.env false) Sample.svcSendFails (Sample.server false)
          Sample.requestInitial).countP (Event.allocates (Buffer.allocated n)) :=
  ⟨by rfl,
    (Handle_buffer_ownership (Sample.env false) Sample.svcSendFails (Sample.server false)
      Sample.storage kWeaveProfile_Security kMsgType_GetCertificateRequest
      Sample.requestInitial _ (by rfl)).1,
    (Handle_buffer_ownership (Sample.env false) Sample.svcSendFails (Sample.server false)
      Sample.storage kWeaveProfile_Security kMsgType_GetCertificateRequest
      Sample.requestInitial _ (by rfl)).2.2.2.1⟩

/-! ## What a request that passes validation went through -/

theorem Process_ManufAttestSig_no_error (env : Collaborators) (msgBuf : List Token)
    (msg : GetCertificateRequestMessage) (tbsHash : List Nat)
    (hp : msg.ManufAttestPresent = true)
    (h : (Process_ManufAttestSig env msgBuf msg tbsHash).1 = .returned WEAVE_NO_ERROR) :
    (msg.ManufAttestSigAlgo = kOID_SigAlgo_ECDSAWithSHA256 ∧
      ∃ cert sig, msg.ManufAttestWeaveCertSet.Certs.head? = some cert ∧
        msg.ManufAttestSig = .EC sig ∧
        env.VerifyECDSASignature (env.WeaveCurveIdToOID cert.PubKeyCurveId) tbsHash
          env.kHashLength sig cert.PublicKey.EC = WEAVE_NO_ERROR ∧
        (Process_ManufAttestSig env msgBuf msg tbsHash).2 =
          [Call.VerifyECDSASignature (env.WeaveCurveIdToOID cert.PubKeyCurveId) tbsHash
            env.kHashLength sig cert.PublicKey.EC]) ∨
    (msg.ManufAttestSigAlgo = kOID_SigAlgo_SHA256WithRSAEncryption ∧
      env.WEAVE_WITH_OPENSSL = true ∧
      ∃ sig sigBytes cert, msg.ManufAttestSig = .RSA sig ∧
        readBytes env msgBuf sig.Sig sig.Len = some sigBytes ∧
        readBytes env msgBuf (x509At msg.ManufAttestX509CertSet 0).Cert
          (x509At msg.ManufAttestX509CertSet 0).Len = some cert ∧
        env.VerifyRSASignature kOID_SigAlgo_SHA256WithRSAEncryption tbsHash env.kHashLength
          sigBytes cert = WEAVE_NO_ERROR ∧
        (Process_ManufAttestSig env msgBuf msg tbsHash).2 =
          [Call.VerifyRSASignature kOID_SigAlgo_SHA256WithRSAEncryption tbsHash
            env.kHashLength sig (x509At msg.ManufAttestX509CertSet 0).Cert
            (x509At msg.ManufAttestX509CertSet 0).Len]) ∨
    (msg.ManufAttestSigAlgo = kOID_SigAlgo_HMACWithSHA256 ∧
      ∃ sig data sigBytes, msg.ManufAttestSig = .HMAC sig ∧
        readBytes env msgBuf msg.mTBSDataStart msg.mTBSDataLen = some data ∧
        readBytes env msgBuf sig.Sig sig.Len = some sigBytes ∧
        env.VerifyHMACSignature kOID_SigAlgo_HMACWithSHA256 data sigBytes
          env.TestDevice1_ManufAttest_HMACKey = WEAVE_NO_ERROR ∧
        (Process_ManufAttestSig env msgBuf msg tbsHash).2 =
          [Call.VerifyHMACSignature kOID_SigAlgo_HMACWithSHA256 msg.mTBSDataStart
            msg.mTBSDataLen sig env.TestDevice1_ManufAttest_HMACKey
            env.TestDevice1_ManufAttest_HMACKey.length]) := by
  unfold Process_ManufAttestSig at h ⊢
  rw [if_pos hp] at h ⊢
  by_cases h1 : msg.ManufAttestSigAlgo = kOID_SigAlgo_ECDSAWithSHA256
  · left
    rw [if_pos h1] at h ⊢
    refine ⟨h1, ?_⟩
    split at h
    · rename_i cert sig hc hs
      simp only [Outcome.returned.injEq] at h
      refine ⟨cert, sig, hc, hs, h, ?_⟩
      simp only [hc, hs]
    · cases h
  · rw [if_neg h1] at h ⊢
    by_cases h2 : msg.ManufAttestSigAlgo = kOID_SigAlgo_SHA256WithRSAEncryption
    · right; left
      rw [if_pos h2] at h ⊢
      by_cases ho : env.WEAVE_WITH_OPENSSL = true
      · rw [if_pos ho] at h ⊢
        refine ⟨h2, ho, ?_⟩
        split at h
        · rename_i sig hs
          simp only [] at h
          split at h
          · rename_i sigBytes cert hb hc
            simp only [Outcome.returned.injEq] at h
            refine ⟨sig, sigBytes, cert, hs, hb, hc, h, ?_⟩
            simp only [hs, hb, hc]
          · cases h
        · cases h
      · rw [if_neg ho] at h
        cases h
    · rw [if_neg h2] at h ⊢
      by_cases h3 : msg.ManufAttestSigAlgo = kOID_SigAlgo_HMACWithSHA256
      · right; right
        rw [if_pos h3] at h ⊢
        refine ⟨h3, ?_⟩
        split at h
        · rename_i sig hs
          simp only [] at h
          split at h
          · rename_i data sigBytes hd hb
            simp only [Outcome.returned.injEq] at h
            refine ⟨sig, data, sigBytes, hs, hd, hb, h, ?_⟩
            simp only [hs, hd, hb]
          · cases h
        · cases h
      · rw [if_neg h3] at h
        cases h

/-- C32: for every request that `Decode` accepts into a freshly constructed message and on
which `ProcessGetCertificateRequest` returns `WEAVE_NO_ERROR`: the recorded attestation
variant is none or one of the three known ones, so the branch of the validation for another
variant is not taken; `ValidateWeaveDeviceCert` was called on the operational certificate
set and returned no error; the operational signature algorithm is ECDSA-with-SHA256; the
ECDSA verification of the operational signature over the hash of the signed span, with the
key of the first operational certificate, was called and returned no error; and when an
attestation is present, one verification of the attestation signature (ECDSA, RSA or HMAC,
chosen by the attestation-signature algorithm id) was called and returned no error. For a
message whose variant is none of the known ones that branch leaves with `WEAVE_NO_ERROR`
and verifies nothing. -/
theorem Process_no_error_validated (env : Collaborators)
    (storage : GetCertificateRequestMessage) (msgBuf : List Token)
    (msg0 : GetCertificateRequestMessage)
    (hd : (GetCertificateRequestMessage.new storage).Decode env msgBuf = .ok msg0)
    (h : (ProcessGetCertificateRequest env msgBuf
      (GetCertificateRequestMessage.new storage)).ret = .returned WEAVE_NO_ERROR) :
    (msg0.ManufAttestType = kManufAttestType_Undefined ∨
      msg0.ManufAttestType = kManufAttestType_WeaveCert ∨
      msg0.ManufAttestType = kManufAttestType_X509Cert ∨
      msg0.ManufAttestType = kManufAttestType_HMAC) ∧
    (ProcessGetCertificateRequest env msgBuf
      (GetCertificateRequestMessage.new storage)).msg.ManufAttestType =
      msg0.ManufAttestType ∧
    env.ValidateWeaveDeviceCert msg0.OperationalCertSet = WEAVE_NO_ERROR ∧
    Call.ValidateWeaveDeviceCert msg0.OperationalCertSet ∈
      (ProcessGetCertificateRequest env msgBuf
        (GetCertificateRequestMessage.new storage)).calls ∧
    msg0.OperationalSigAlgo = kOID_SigAlgo_ECDSAWithSHA256 ∧
    (∃ tbs cert,
      readBytes env msgBuf msg0.mTBSDataStart msg0.mTBSDataLen = some tbs ∧
      msg0.OperationalCertSet.Certs.head? = some cert ∧
      env.VerifyECDSASignature (env.WeaveCurveIdToOID cert.PubKeyCurveId) (env.SHA256 tbs)
        env.kHashLength msg0.OperationalSig cert.PublicKey.EC = WEAVE_NO_ERROR ∧
      Call.VerifyECDSASignature (env.WeaveCurveIdToOID cert.PubKeyCurveId) (env.SHA256 tbs)
        env.kHashLength msg0.OperationalSig cert.PublicKey.EC ∈
        (ProcessGetCertificateRequest env msgBuf
          (GetCertificateRequestMessage.new storage)).calls ∧
      (msg0.ManufAttestPresent = true →
        ∃ c ∈ (ProcessGetCertificateRequest env msgBuf
            (GetCertificateRequestMessage.new storage)).calls,
          (msg0.ManufAttestSigAlgo = kOID_SigAlgo_ECDSAWithSHA256 ∧
            ∃ acert sig, msg0.ManufAttestWeaveCertSet.Certs.head? = some acert ∧
              msg0.ManufAttestSig = .EC sig ∧
              env.VerifyECDSASignature (env.WeaveCurveIdToOID acert.PubKeyCurveId)
                (env.SHA256 tbs) env.kHashLength sig acert.PublicKey.EC = WEAVE_NO_ERROR ∧
              c = Call.VerifyECDSASignature (env.WeaveCurveIdToOID acert.PubKeyCurveId)
                (env.SHA256 tbs) env.kHashLength sig acert.PublicKey.EC) ∨
          (msg0.ManufAttestSigAlgo = kOID_SigAlgo_SHA256WithRSAEncryption ∧
            ∃ sig sigBytes leaf certSet, msg0.ManufAttestSig = .RSA sig ∧
              readBytes env msgBuf sig.Sig sig.Len = some sigBytes ∧
              readBytes env msgBuf (x509At certSet 0).Cert (x509At certSet 0).Len =
                some leaf ∧
              env.VerifyRSASignature kOID_SigAlgo_SHA256WithRSAEncryption (env.SHA256 tbs)
                env.kHashLength sigBytes leaf = WEAVE_NO_ERROR ∧
              c = Call.VerifyRSASignature kOID_SigAlgo_SHA256WithRSAEncryption
                (env.SHA256 tbs) env.kHashLength sig (x509At certSet 0).Cert
                (x509At certSet 0).Len) ∨
          (msg0.ManufAttestSigAlgo = kOID_SigAlgo_HMACWithSHA256 ∧
            ∃ sig data sigBytes, msg0.ManufAttestSig = .HMAC sig ∧
              readBytes env msgBuf msg0.mTBSDataStart msg0.mTBSDataLen = some data ∧
              readBytes env msgBuf sig.Sig sig.Len = some sigBytes ∧
              env.VerifyHMACSignature kOID_SigAlgo_HMACWithSHA256 data sigBytes
                env.TestDevice1_ManufAttest_HMACKey = WEAVE_NO_ERROR ∧
              c = Call.VerifyHMACSignature kOID_SigAlgo_HMACWithSHA256 msg0.mTBSDataStart
                msg0.mTBSDataLen sig env.TestDevice1_ManufAttest_HMACKey
                env.TestDevice1_ManufAttest_HMACKey.length))) ∧
    (∀ (m : GetCertificateRequestMessage) (v : Nat), m.ManufAttestType = .other v →
      Process_ManufAttest env msgBuf m = (some (.returned WEAVE_NO_ERROR), m, [])) := by
  have hty : msg0.mManufAttestType = kManufAttestType_WeaveCert ∨
      msg0.mManufAttestType = kManufAttestType_X509Cert ∨
      msg0.mManufAttestType = kManufAttestType_HMAC ∨
      msg0.mManufAttestType = kManufAttestType_Undefined := by
    rcases Decode_new_ManufAttestType env storage msgBuf msg0 hd with t | t | t | ⟨t, _⟩
    · exact Or.inl t
    · exact Or.inr (Or.inl t)
    · exact Or.inr (Or.inr (Or.inl t))
    · exact Or.inr (Or.inr (Or.inr t))
  have hother : ∀ (m : GetCertificateRequestMessage) (v : Nat),
      m.ManufAttestType = .other v →
      Process_ManufAttest env msgBuf m = (some (.returned WEAVE_NO_ERROR), m, []) := by
    intro m v hm
    have hm' : m.mManufAttestType = .other v := hm
    unfold Process_ManufAttest
    simp [GetCertificateRequestMessage.ManufAttestPresent,
      GetCertificateRequestMessage.ManufAttestType, hm']
  obtain ⟨_, m1, m2, m3, m4, m5, m6, m7, m8, m9⟩ := Process_ManufAttest_spec env msgBuf msg0
  unfold ProcessGetCertificateRequest at h ⊢
  rw [hd] at h ⊢
  simp only [] at h ⊢
  unfold Process_Validate at h ⊢
  rcases hA : Process_Authorize env msgBuf msg0 with ⟨o, calls⟩
  have hAr := Process_Authorize_ret env msgBuf msg0
  rw [hA] at hAr
  simp only [hA] at h ⊢
  cases o with
  | some out =>
    simp only [] at h
    exact absurd (by rw [h]) hAr
  | none =>
    simp only [] at h ⊢
    by_cases hv : env.ValidateWeaveDeviceCert msg0.OperationalCertSet = WEAVE_NO_ERROR
    · rw [if_pos hv] at h ⊢
      split at h
      · cases h
      · rename_i hreq
        rw [if_neg hreq]
        rcases hM : Process_ManufAttest env msgBuf msg0 with ⟨o2, msg', calls2⟩
        have hMr := Process_ManufAttest_ret env msgBuf msg0 hty
        rw [hM] at hMr m1 m2 m3 m4 m5 m6 m7 m8 m9
        simp only [] at m1 m2 m3 m4 m5 m6 m7 m8 m9
        simp only [hM] at h ⊢
        cases o2 with
        | some out =>
          simp only [] at h
          exact absurd (by rw [h]) hMr
        | none =>
          simp only [] at h ⊢
          unfold Process_Signatures at h ⊢
          simp only [m1, m2, m3, m4, m5] at h ⊢
          cases hr : readBytes env msgBuf msg0.mTBSDataStart msg0.mTBSDataLen with
          | none => rw [hr] at h; cases h
          | some tbs =>
            rw [hr] at h
            simp only [] at h ⊢
            by_cases hs : msg0.OperationalSigAlgo = kOID_SigAlgo_ECDSAWithSHA256
            · rw [if_pos hs] at h ⊢
              cases hc : msg0.OperationalCertSet.Certs.head? with
              | none => rw [hc] at h; cases h
              | some cert =>
                rw [hc] at h
                simp only [] at h ⊢
                by_cases hver : env.VerifyECDSASignature
                    (env.WeaveCurveIdToOID cert.PubKeyCurveId) (env.SHA256 tbs)
                    env.kHashLength msg0.OperationalSig cert.PublicKey.EC = WEAVE_NO_ERROR
                · rw [if_pos hver] at h ⊢
                  simp only [] at h ⊢
                  refine ⟨?_, m6, hv, by simp, hs, ⟨tbs, cert, rfl, rfl, hver, by simp, ?_⟩,
                    hother⟩
                  · rcases hty with t | t | t | t
                    · exact Or.inr (Or.inl t)
                    · exact Or.inr (Or.inr (Or.inl t))
                    · exact Or.inr (Or.inr (Or.inr t))
                    · exact Or.inl t
                  · intro hp
                    have hp' : msg'.ManufAttestPresent = true := by
                      simp only [GetCertificateRequestMessage.ManufAttestPresent] at hp ⊢
                      rw [m6]; exact hp
                    rcases Process_ManufAttestSig_no_error env msgBuf msg' (env.SHA256 tbs)
                      hp' h with ⟨a, acert, sig, b, c, d, e⟩ | ⟨a, _, sig, sb, leaf, b, c, d, e, f⟩ |
                      ⟨a, sig, data, sb, b, c, d, e, f⟩
                    · refine ⟨_, ?_, Or.inl ⟨by rw [← m7]; exact a, acert, sig,
                        by rw [← m9]; exact b, by rw [← m8]; exact c, d, rfl⟩⟩
                      rw [e]; simp
                    · refine ⟨_, ?_, Or.inr (Or.inl ⟨by rw [← m7]; exact a, sig, sb, leaf,
                        msg'.ManufAttestX509CertSet, by rw [← m8]; exact b, c, d, e, rfl⟩)⟩
                      rw [f]; simp
                    · rw [m1, m2, hr] at c
                      refine ⟨Call.VerifyHMACSignature kOID_SigAlgo_HMACWithSHA256
                        msg0.mTBSDataStart msg0.mTBSDataLen sig
                        env.TestDevice1_ManufAttest_HMACKey
                        env.TestDevice1_ManufAttest_HMACKey.length, ?_,
                        Or.inr (Or.inr ⟨by rw [← m7]; exact a, sig, data, sb,
                        by rw [← m8]; exact b, c, d, e, rfl⟩)⟩
                      rw [f, m1, m2]; simp
                · rw [if_neg hver] at h
                  simp only [Outcome.returned.injEq] at h
                  exact absurd h hver
            · rw [if_neg hs] at h
              cases h
    · rw [if_neg hv] at h
      simp only [Outcome.returned.injEq] at h
      exact absurd h hv

/-- A sample request with a Weave-certificate attestation signed with ECDSA is decoded and
processed with `WEAVE_NO_ERROR`; the certificate validation and the operational
signature verification returned no error. -/
theorem Process_no_error_validated_witness :
    (GetCertificateRequestMessage.new Sample.storage).Decode (Sample.env false)
        (Sample.requestWeaveCert kOID_SigAlgo_ECDSAWithSHA256) =
      .ok (Sample.decoded (Sample.env false)
        (Sample.requestWeaveCert kOID_SigAlgo_ECDSAWithSHA256)) ∧
    (ProcessGetCertificateRequest (Sample.env false)
      (Sample.requestWeaveCert kOID_SigAlgo_ECDSAWithSHA256)
      (GetCertificateRequestMessage.new Sample.storage)).ret = .returned WEAVE_NO_ERROR ∧
    (Sample.env false).ValidateWeaveDeviceCert
      (Sample.decoded (Sample.env false)
        (Sample.requestWeaveCert kOID_SigAlgo_ECDSAWithSHA256)).OperationalCertSet =
      WEAVE_NO_ERROR ∧
    (Sample.decoded (Sample.env false)
      (Sample.requestWeaveCert kOID_SigAlgo_ECDSAWithSHA256)).OperationalSigAlgo =
      kOID_SigAlgo_ECDSAWithSHA256 :=
  ⟨by rfl, by rfl,
    (Process_no_error_validated (Sample.env false) Sample.storage
      (Sample.requestWeaveCert kOID_SigAlgo_ECDSAWithSHA256) _ (by rfl) (by rfl)).2.2.1,
    (Process_no_error_validated (Sample.env false) Sample.storage
      (Sample.requestWeaveCert kOID_SigAlgo_ECDSAWithSHA256) _ (by rfl) (by rfl)).2.2.2.2.1⟩

/-! ## `WirelessRegConfig::Decode` keeps within the capacity of the array -/

theorem Decode_SupportedRegDomains_inv (max : Nat)
    (P : WirelessRegConfig → List (Nat × Nat) → Prop)
    (hstore : ∀ (self : WirelessRegConfig) (stores : List (Nat × Nat)) (x : WirelessRegDomain)
      (p : Nat), self.NumSupportedRegDomains < max → P self stores →
      P { self with
          SupportedRegDomains := regDomainStore self.SupportedRegDomains
            self.NumSupportedRegDomains x
          NumSupportedRegDomains := self.NumSupportedRegDomains + 1 }
        (stores ++ [(self.NumSupportedRegDomains, p)]))
    (fuel : Nat) :
    ∀ (self : WirelessRegConfig) (reader : TLVReader) (stores : List (Nat × Nat)),
      P self stores →
      (∀ r, WirelessRegConfig.Decode_SupportedRegDomains max fuel self reader stores =
          .error r → P r.self r.stores) ∧
      (∀ self' reader' stores',
        WirelessRegConfig.Decode_SupportedRegDomains max fuel self reader stores =
          .ok (self', reader', stores') → P self' stores') := by
  induction fuel with
  | zero =>
    intro self reader stores hP
    unfold WirelessRegConfig.Decode_SupportedRegDomains
    refine ⟨?_, fun _ _ _ h => by cases h⟩
    intro r h
    simp only [Except.error.injEq] at h
    subst h
    exact hP
  | succ n ih =>
    intro self reader stores hP
    unfold WirelessRegConfig.Decode_SupportedRegDomains
    simp only []
    by_cases hn : reader.Next.1 = WEAVE_NO_ERROR
    · rw [if_pos hn]
      split
      · refine ⟨?_, fun _ _ _ h => by cases h⟩
        intro r h
        simp only [Except.error.injEq] at h
        subst h
        exact hP
      · rename_i hlt
        split
        · refine ⟨?_, fun _ _ _ h => by cases h⟩
          intro r h
          simp only [Except.error.injEq] at h
          subst h
          exact hP
        · split
          · refine ⟨?_, fun _ _ _ h => by cases h⟩
            intro r h
            simp only [Except.error.injEq] at h
            subst h
            exact hP
          · split
            · refine ⟨?_, fun _ _ _ h => by cases h⟩
              intro r h
              simp only [Except.error.injEq] at h
              subst h
              exact hP
            · rename_i data hdata
              exact ih _ _ _ (hstore self stores _ _ (by simpa using hlt) hP)
    · rw [if_neg hn]
      refine ⟨(fun _ h => by cases h), ?_⟩
      intro self' reader' stores' h
      simp only [Except.ok.injEq, Prod.mk.injEq] at h
      obtain ⟨rfl, rfl, rfl⟩ := h
      exact hP

theorem Decode_elements_inv (max : Nat)
    (P : WirelessRegConfig → List (Nat × Nat) → Prop)
    (hstore : ∀ (self : WirelessRegConfig) (stores : List (Nat × Nat)) (x : WirelessRegDomain)
      (p : Nat), self.NumSupportedRegDomains < max → P self stores →
      P { self with
          SupportedRegDomains := regDomainStore self.SupportedRegDomains
            self.NumSupportedRegDomains x
          NumSupportedRegDomains := self.NumSupportedRegDomains + 1 }
        (stores ++ [(self.NumSupportedRegDomains, p)]))
    (hdom : ∀ (self : WirelessRegConfig) (stores : List (Nat × Nat)) (x : WirelessRegDomain),
      P self stores → P { self with RegDomain := x } stores)
    (hloc : ∀ (self : WirelessRegConfig) (stores : List (Nat × Nat)) (x : Nat),
      P self stores → P { self with OpLocation := x } stores)
    (fuel : Nat) :
    ∀ (self : WirelessRegConfig) (reader : TLVReader) (stores : List (Nat × Nat)),
      P self stores →
      (∀ r, WirelessRegConfig.Decode_elements max fuel self reader stores = .error r →
        P r.self r.stores) ∧
      (∀ self' reader' stores',
        WirelessRegConfig.Decode_elements max fuel self reader stores =
          .ok (self', reader', stores') → P self' stores') := by
  induction fuel with
  | zero =>
    intro self reader stores hP
    unfold WirelessRegConfig.Decode_elements
    refine ⟨?_, fun _ _ _ h => by cases h⟩
    intro r h
    simp only [Except.error.injEq] at h
    subst h
    exact hP
  | succ n ih =>
    intro self reader stores hP
    unfold WirelessRegConfig.Decode_elements
    simp only []
    by_cases hn : reader.Next.1 = WEAVE_NO_ERROR
    · rw [if_pos hn]
      split
      · rename_i tagNum htag
        split
        · split
          · refine ⟨?_, fun _ _ _ h => by cases h⟩
            intro r h
            simp only [Except.error.injEq] at h
            subst h
            exact hP
          · split
            · refine ⟨?_, fun _ _ _ h => by cases h⟩
              intro r h
              simp only [Except.error.injEq] at h
              subst h
              exact hP
            · split
              · refine ⟨?_, fun _ _ _ h => by cases h⟩
                intro r h
                simp only [Except.error.injEq] at h
                subst h
                exact hP
              · split
                · refine ⟨?_, fun _ _ _ h => by cases h⟩
                  intro r h
                  simp only [Except.error.injEq] at h
                  subst h
                  exact hP
                · exact ih _ _ _ (hdom _ _ _ hP)
        · split
          · split
            · refine ⟨?_, fun _ _ _ h => by cases h⟩
              intro r h
              simp only [Except.error.injEq] at h
              subst h
              exact hP
            · split
              · refine ⟨?_, fun _ _ _ h => by cases h⟩
                intro r h
                simp only [Except.error.injEq] at h
                subst h
                exact hloc _ _ _ hP
              · split
                · refine ⟨?_, fun _ _ _ h => by cases h⟩
                  intro r h
                  simp only [Except.error.injEq] at h
                  subst h
                  exact hloc _ _ _ hP
                · exact ih _ _ _ (hloc _ _ _ hP)
          · split
            · split
              · refine ⟨?_, fun _ _ _ h => by cases h⟩
                intro r h
                simp only [Except.error.injEq] at h
                subst h
                exact hP
              · split
                · refine ⟨?_, fun _ _ _ h => by cases h⟩
                  intro r h
                  simp only [Except.error.injEq] at h
                  subst h
                  exact hP
                · split
                  · refine ⟨?_, fun _ _ _ h => by cases h⟩
                    intro r h
                    simp only [Except.error.injEq] at h
                    subst h
                    exact hP
                  · rename_i o2 reader2 hent
                    obtain ⟨i1, i2⟩ := Decode_SupportedRegDomains_inv max P hstore
                      (reader2.after.length + 1) self reader2 stores hP
                    split
                    · rename_i r hr
                      refine ⟨?_, fun _ _ _ h => by cases h⟩
                      intro r' h
                      simp only [Except.error.injEq] at h
                      subst h
                      exact i1 _ hr
                    · rename_i self3 reader3 stores3 hr
                      have hP3 := i2 _ _ _ hr
                      split
                      · refine ⟨?_, fun _ _ _ h => by cases h⟩
                        intro r h
                        simp only [Except.error.injEq] at h
                        subst h
                        exact hP3
                      · exact ih _ _ _ hP3
            · exact ih _ _ _ hP
      · exact ih _ _ _ hP
    · rw [if_neg hn]
      refine ⟨(fun _ h => by cases h), ?_⟩
      intro self' reader' stores' h
      simp only [Except.ok.injEq, Prod.mk.injEq] at h
      obtain ⟨rfl, rfl, rfl⟩ := h
      exact hP

theorem Decode_inv (P : WirelessRegConfig → List (Nat × Nat) → Prop)
    (self : WirelessRegConfig) (reader : TLVReader)
    (hstore : ∀ (s : WirelessRegConfig) (stores : List (Nat × Nat)) (x : WirelessRegDomain)
      (p : Nat), s.NumSupportedRegDomains < self.NumSupportedRegDomains → P s stores →
      P { s with
          SupportedRegDomains := regDomainStore s.SupportedRegDomains
            s.NumSupportedRegDomains x
          NumSupportedRegDomains := s.NumSupportedRegDomains + 1 }
        (stores ++ [(s.NumSupportedRegDomains, p)]))
    (hdom : ∀ (s : WirelessRegConfig) (stores : List (Nat × Nat)) (x : WirelessRegDomain),
      P s stores → P { s with RegDomain := x } stores)
    (hloc : ∀ (s : WirelessRegConfig) (stores : List (Nat × Nat)) (x : Nat),
      P s stores → P { s with OpLocation := x } stores)
    (h0 : P { self with NumSupportedRegDomains := 0 } []) :
    P (self.Decode reader).self (self.Decode reader).stores := by
  unfold WirelessRegConfig.Decode
  simp only []
  generalize (if reader.GetType = kTLVType_NotSpecified then reader.Next
    else (WEAVE_NO_ERROR, reader)) = first
  split
  · exact h0
  · split
    · exact h0
    · split
      · exact h0
      · rename_i o r1 hent
        obtain ⟨i1, i2⟩ := Decode_elements_inv self.NumSupportedRegDomains P hstore hdom hloc
          (r1.after.length + 1) { self with NumSupportedRegDomains := 0 } r1 [] h0
        split
        · rename_i r hr
          exact i1 _ hr
        · rename_i s3 r3 st3 hr
          exact i2 _ _ _ hr

/-! ## Steps of the reader over elements that are not containers -/

theorem Skip_of_leaf_or_none (r : TLVReader)
    (hc : ∀ t, r.cur = some t → t.elemType ≠ kTLVElementType_EndOfContainer ∧
      TLVTypeIsContainer t.elemType = false) :
    r.Skip = (WEAVE_NO_ERROR, { r with before := r.before ++ r.cur.toList, cur := none }) := by
  cases hcur : r.cur with
  | none =>
    rw [Skip_of_none r hcur]
    cases r with
    | mk b c a ct =>
      simp only at hcur
      subst hcur
      simp
  | some t =>
    obtain ⟨h1, h2⟩ := hc t hcur
    rw [Skip_of_leaf r t hcur h1 h2]
    simp

theorem Next_step (r : TLVReader) (t : Token) (rest : List Token)
    (hc : ∀ t, r.cur = some t → t.elemType ≠ kTLVElementType_EndOfContainer ∧
      TLVTypeIsContainer t.elemType = false)
    (ha : r.after = t :: rest) (ht : t.elemType ≠ kTLVElementType_EndOfContainer) :
    r.Next = (WEAVE_NO_ERROR,
      { before := r.before ++ r.cur.toList, cur := some t, after := rest,
        mContainerType := r.mContainerType }) := by
  unfold TLVReader.Next
  rw [Skip_of_leaf_or_none r hc]
  simp [TLVReader.ReadElement, TLVReader.ClearElement, TLVReader.ElementType, ha, ht]

theorem Next_at_end (r : TLVReader) (t : Token) (rest : List Token)
    (hc : ∀ t, r.cur = some t → t.elemType ≠ kTLVElementType_EndOfContainer ∧
      TLVTypeIsContainer t.elemType = false)
    (ha : r.after = t :: rest) (ht : t.elemType = kTLVElementType_EndOfContainer) :
    r.Next = (WEAVE_END_OF_TLV,
      { before := r.before ++ r.cur.toList, cur := some t, after := rest,
        mContainerType := r.mContainerType }) := by
  unfold TLVReader.Next
  rw [Skip_of_leaf_or_none r hc]
  simp [TLVReader.ReadElement, TLVReader.ClearElement, TLVReader.ElementType, ha, ht]

theorem Next_at_nil (r : TLVReader)
    (hc : ∀ t, r.cur = some t → t.elemType ≠ kTLVElementType_EndOfContainer ∧
      TLVTypeIsContainer t.elemType = false)
    (ha : r.after = []) :
    r.Next = (WEAVE_END_OF_TLV,
      { before := r.before ++ r.cur.toList, cur := none, after := [],
        mContainerType := r.mContainerType }) := by
  unfold TLVReader.Next
  rw [Skip_of_leaf_or_none r hc]
  simp [TLVReader.ReadElement, TLVReader.ClearElement, ha]

theorem ExitContainer_at_end (r : TLVReader) (t : Token) (o : TLVType)
    (hc : r.cur = some t) (ht : t.elemType = kTLVElementType_EndOfContainer) :
    r.ExitContainer o = (WEAVE_NO_ERROR,
      { before := r.before ++ [t], cur := none, after := r.after, mContainerType := o }) := by
  cases r with
  | mk b c a ct =>
    simp only at hc
    subst hc
    cases a <;>
      simp [TLVReader.ExitContainer, TLVReader.SkipToEndOfContainer, TLVReader.skipLoop,
        TLVReader.elementTypeOf, ht, TLVReader.ClearElement]

theorem ExitContainer_at_nil (r : TLVReader) (o : TLVType)
    (hc : r.cur = none) (ha : r.after = []) :
    (r.ExitContainer o).1 ≠ WEAVE_NO_ERROR := by
  cases r with
  | mk b c a ct =>
    simp only at hc ha
    subst hc ha
    simp [TLVReader.ExitContainer, TLVReader.SkipToEndOfContainer, TLVReader.skipLoop,
      TLVReader.elementTypeOf]

/-! ## The bounds on the iterations of the loops of `Decode` are not reached -/

theorem Next_after_le (r : TLVReader) : r.Next.2.after.length ≤ r.after.length := by
  have hs := Skip_after r
  rw [Next_eq]
  split
  · cases ha : r.Skip.2.after with
    | nil => simp [TLVReader.ReadElement, ha, TLVReader.ClearElement]
    | cons t rest =>
      rw [ha] at hs
      simp only [List.length_cons] at hs
      simp only [TLVReader.ReadElement, ha, TLVReader.ClearElement]
      show rest.length ≤ _
      omega
  · exact hs

theorem ExitContainer_after (r : TLVReader) (o : TLVType) :
    (r.ExitContainer o).2.after.length ≤ r.after.length := by
  unfold TLVReader.ExitContainer TLVReader.SkipToEndOfContainer
  simp only []
  split
  · exact skipLoop_after _ _ _ _ _ _
  · exact skipLoop_after _ _ _ _ _ _

theorem EnterContainer_after (r r' : TLVReader) (o : TLVType)
    (h : r.EnterContainer = .ok (o, r')) : r'.after = r.after := by
  unfold TLVReader.EnterContainer at h
  split at h
  · simp only [Except.ok.injEq, Prod.mk.injEq] at h
    rw [← h.2]
    rfl
  · cases h

theorem Decode_SupportedRegDomains_fuel (max : Nat) (fuel1 : Nat) :
    ∀ (fuel2 : Nat) (self : WirelessRegConfig) (reader : TLVReader)
      (stores : List (Nat × Nat)),
      reader.after.length < fuel1 → reader.after.length < fuel2 →
      WirelessRegConfig.Decode_SupportedRegDomains max fuel1 self reader stores =
        WirelessRegConfig.Decode_SupportedRegDomains max fuel2 self reader stores := by
  induction fuel1 with
  | zero => intro _ _ _ _ h; omega
  | succ n ih =>
    intro fuel2 self reader stores h1 h2
    cases fuel2 with
    | zero => omega
    | succ k =>
      unfold WirelessRegConfig.Decode_SupportedRegDomains
      simp only []
      by_cases hn : reader.Next.1 = WEAVE_NO_ERROR
      · have hlt := Next_after_lt reader hn
        rw [if_pos hn, if_pos hn]
        split
        · rfl
        · split
          · rfl
          · split
            · rfl
            · split
              · rfl
              · exact ih _ _ _ _ (by omega) (by omega)
      · rw [if_neg hn, if_neg hn]

theorem Decode_SupportedRegDomains_after (max : Nat) (fuel : Nat) :
    ∀ (self : WirelessRegConfig) (reader : TLVReader) (stores : List (Nat × Nat))
      (self' : WirelessRegConfig) (reader' : TLVReader) (stores' : List (Nat × Nat)),
      WirelessRegConfig.Decode_SupportedRegDomains max fuel self reader stores =
        .ok (self', reader', stores') →
      reader'.after.length ≤ reader.after.length := by
  induction fuel with
  | zero =>
    intro _ _ _ _ _ _ h
    simp [WirelessRegConfig.Decode_SupportedRegDomains] at h
  | succ n ih =>
    intro self reader stores self' reader' stores' h
    unfold WirelessRegConfig.Decode_SupportedRegDomains at h
    simp only [] at h
    have hle := Next_after_le reader
    by_cases hn : reader.Next.1 = WEAVE_NO_ERROR
    · rw [if_pos hn] at h
      split at h
      · cases h
      · split at h
        · cases h
        · split at h
          · cases h
          · split at h
            · cases h
            · exact Nat.le_trans (ih _ _ _ _ _ _ h) hle
    · rw [if_neg hn] at h
      simp only [Except.ok.injEq, Prod.mk.injEq] at h
      obtain ⟨_, rfl, _⟩ := h
      exact hle

theorem Decode_elements_fuel (max : Nat) (fuel1 : Nat) :
    ∀ (fuel2 : Nat) (self : WirelessRegConfig) (reader : TLVReader)
      (stores : List (Nat × Nat)),
      reader.after.length < fuel1 → reader.after.length < fuel2 →
      WirelessRegConfig.Decode_elements max fuel1 self reader stores =
        WirelessRegConfig.Decode_elements max fuel2 self reader stores := by
  induction fuel1 with
  | zero => intro _ _ _ _ h; omega
  | succ n ih =>
    intro fuel2 self reader stores h1 h2
    cases fuel2 with
    | zero => omega
    | succ k =>
      unfold WirelessRegConfig.Decode_elements
      simp only []
      by_cases hn : reader.Next.1 = WEAVE_NO_ERROR
      · have hlt := Next_after_lt reader hn
        rw [if_pos hn, if_pos hn]
        split
        · split
          · split
            · rfl
            · split
              · rfl
              · split
                · rfl
                · split
                  · rfl
                  · exact ih _ _ _ _ (by omega) (by omega)
          · split
            · split
              · rfl
              · split
                · rfl
                · split
                  · rfl
                  · exact ih _ _ _ _ (by omega) (by omega)
            · split
              · split
                · rfl
                · split
                  · rfl
                  · split
                    · rfl
                    · rename_i o2 reader2 hent
                      have ha2 := congrArg List.length (EnterContainer_after _ _ _ hent)
                      split
                      · rfl
                      · rename_i self3 reader3 stores3 hr
                        have ha3 := Decode_SupportedRegDomains_after _ _ _ _ _ _ _ _ hr
                        have ha4 := ExitContainer_after reader3 o2
                        split
                        · rfl
                        · exact ih _ _ _ _ (by omega) (by omega)
              · exact ih _ _ _ _ (by omega) (by omega)
        · exact ih _ _ _ _ (by omega) (by omega)
      · rw [if_neg hn, if_neg hn]

/-! ## The number of supported domains `Decode` stores -/

theorem skipLoop_error (outer : TLVType) (after : List Token) :
    ∀ (nest : Nat) (before : List Token) (c : Option Token) (ct : TLVType),
      (TLVReader.skipLoop outer after nest before c ct).1 ≠ WEAVE_NO_ERROR →
      (TLVReader.skipLoop outer after nest before c ct).2.cur = none ∧
      (TLVReader.skipLoop outer after nest before c ct).2.after = [] := by
  induction after with
  | nil =>
    intro nest before c ct h
    by_cases hc : TLVReader.elementTypeOf c = kTLVElementType_EndOfContainer ∧ nest = 0
    · simp [TLVReader.skipLoop, hc] at h
    · simp [TLVReader.skipLoop, hc]
  | cons t rest ih =>
    intro nest before c ct h
    by_cases hc : TLVReader.elementTypeOf c = kTLVElementType_EndOfContainer ∧ nest = 0
    · simp [TLVReader.skipLoop, hc] at h
    · simp only [TLVReader.skipLoop, hc, if_false] at h ⊢
      exact ih _ _ _ _ h

theorem skipLoop_count (outer : TLVType) (after : List Token) :
    ∀ (nest : Nat) (before : List Token) (c : Option Token) (ct : TLVType),
      (TLVReader.skipLoop outer after nest before c ct).1 = WEAVE_NO_ERROR →
      numSupportedRegDomainElements (nest + 1) (c.toList ++ after) =
        numSupportedRegDomainElements 0
          (TLVReader.skipLoop outer after nest before c ct).2.after := by
  induction after with
  | nil =>
    intro nest before c ct h
    by_cases hc : TLVReader.elementTypeOf c = kTLVElementType_EndOfContainer ∧ nest = 0
    · cases c with
      | none => simp [TLVReader.elementTypeOf] at hc
      | some t =>
        obtain ⟨h1, h2⟩ := hc
        simp only [TLVReader.elementTypeOf] at h1
        subst h2
        simp [TLVReader.skipLoop, TLVReader.elementTypeOf, h1, numSupportedRegDomainElements]
    · simp [TLVReader.skipLoop, hc] at h
  | cons t rest ih =>
    intro nest before c ct h
    by_cases hc : TLVReader.elementTypeOf c = kTLVElementType_EndOfContainer ∧ nest = 0
    · cases c with
      | none => simp [TLVReader.elementTypeOf] at hc
      | some t0 =>
        obtain ⟨h1, h2⟩ := hc
        simp only [TLVReader.elementTypeOf] at h1
        subst h2
        simp [TLVReader.skipLoop, TLVReader.elementTypeOf, h1, numSupportedRegDomainElements]
    · simp only [TLVReader.skipLoop, hc, if_false] at h ⊢
      rw [← ih _ _ _ _ h]
      cases c with
      | none =>
        simp [TLVReader.elementTypeOf, TLVReader.skipNest, TLVTypeIsContainer]
      | some t0 =>
        simp only [TLVReader.elementTypeOf, Option.toList, List.singleton_append,
          List.cons_append, List.nil_append] at hc ⊢
        by_cases he : t0.elemType = kTLVElementType_EndOfContainer
        · have hn : nest ≠ 0 := fun h0 => hc ⟨he, h0⟩
          have e1 : nest - 1 + 1 = nest := by omega
          rw [numSupportedRegDomainElements.eq_2]
          simp [he, TLVReader.skipNest, e1]
        · rw [numSupportedRegDomainElements.eq_2]
          by_cases hk : TLVTypeIsContainer t0.elemType = true
          · simp [he, hk, TLVReader.skipNest]
          · simp [he, hk, TLVReader.skipNest]

theorem Skip_count (r : TLVReader)
    (hc : r.ElementType ≠ kTLVElementType_EndOfContainer) :
    (r.Skip.1 = WEAVE_NO_ERROR → r.Skip.2.cur = none ∧
      numSupportedRegDomainElements (if TLVTypeIsContainer r.ElementType then 1 else 0)
        r.after = numSupportedRegDomainElements 0 r.Skip.2.after) ∧
    (r.Skip.1 ≠ WEAVE_NO_ERROR → r.Skip.2.cur = none ∧ r.Skip.2.after = []) := by
  unfold TLVReader.Skip
  rw [if_neg hc]
  by_cases hk : TLVTypeIsContainer r.ElementType = true
  · rw [if_pos hk]
    simp only [TLVReader.EnterContainer, hk, if_true]
    unfold TLVReader.ExitContainer TLVReader.SkipToEndOfContainer
    simp only [TLVReader.ClearElement]
    have e1 := skipLoop_count r.GetType r.after 0 (r.before ++ r.cur.toList) none r.GetType
    have e2 := skipLoop_error r.GetType r.after 0 (r.before ++ r.cur.toList) none r.GetType
    by_cases hs : (TLVReader.skipLoop r.GetType r.after 0 (r.before ++ r.cur.toList) none
        r.GetType).1 = WEAVE_NO_ERROR
    · rw [if_pos hs]
      refine ⟨fun _ => ⟨rfl, ?_⟩, fun h => absurd rfl h⟩
      simpa using e1 hs
    · rw [if_neg hs]
      exact ⟨fun h => absurd h hs, fun _ => e2 hs⟩
  · rw [if_neg hk]
    refine ⟨fun _ => ⟨rfl, ?_⟩, fun h => absurd rfl h⟩
    simp [hk, TLVReader.ClearElement]

theorem Next_count (r : TLVReader)
    (hc : r.ElementType ≠ kTLVElementType_EndOfContainer) :
    (r.Next.1 = WEAVE_NO_ERROR → ∃ t, r.Next.2.cur = some t ∧
      t.elemType ≠ kTLVElementType_EndOfContainer ∧
      numSupportedRegDomainElements (if TLVTypeIsContainer r.ElementType then 1 else 0)
        r.after = numSupportedRegDomainElements 0 (t :: r.Next.2.after)) ∧
    (r.Next.1 ≠ WEAVE_NO_ERROR → ∀ o, (r.Next.2.ExitContainer o).1 = WEAVE_NO_ERROR →
      numSupportedRegDomainElements (if TLVTypeIsContainer r.ElementType then 1 else 0)
        r.after = 0) := by
  obtain ⟨s1, s2⟩ := Skip_count r hc
  unfold TLVReader.Next
  simp only []
  by_cases hs : r.Skip.1 = WEAVE_NO_ERROR
  · obtain ⟨c1, c2⟩ := s1 hs
    rw [if_pos hs, c2]
    cases ha : r.Skip.2.after with
    | nil =>
      simp only [TLVReader.ReadElement, ha, TLVReader.ClearElement]
      refine ⟨fun h => by simp at h, fun _ o h => ?_⟩
      simp only [] at h
      exact absurd h (ExitContainer_at_nil _ o (by simp [c1]) rfl)
    | cons t rest =>
      simp only [TLVReader.ReadElement, ha, TLVReader.ClearElement, if_true,
        TLVReader.ElementType]
      by_cases he : t.elemType = kTLVElementType_EndOfContainer
      · rw [if_pos he]
        refine ⟨fun h => by simp at h, fun _ _ _ => ?_⟩
        simp [numSupportedRegDomainElements, he]
      · rw [if_neg he]
        exact ⟨fun _ => ⟨t, rfl, he, rfl⟩, fun h => absurd rfl h⟩
  · obtain ⟨c1, c2⟩ := s2 hs
    rw [if_neg hs]
    refine ⟨fun h => absurd h hs, fun _ o h => ?_⟩
    exact absurd h (ExitContainer_at_nil _ o c1 c2)

theorem Decode_SupportedRegDomains_count (max : Nat) (fuel : Nat) :
    ∀ (self : WirelessRegConfig) (reader : TLVReader) (stores : List (Nat × Nat)),
      (∀ t, reader.cur = some t → t.elemType ≠ kTLVElementType_EndOfContainer ∧
        TLVTypeIsContainer t.elemType = false) →
      ∀ (self' : WirelessRegConfig) (reader' : TLVReader) (stores' : List (Nat × Nat)),
        WirelessRegConfig.Decode_SupportedRegDomains max fuel self reader stores =
          .ok (self', reader', stores') →
        ∀ o, (reader'.ExitContainer o).1 = WEAVE_NO_ERROR →
          self'.NumSupportedRegDomains =
            self.NumSupportedRegDomains + (containerElements 0 reader.after).length ∧
          numSupportedRegDomainElements 1 reader.after =
            numSupportedRegDomainElements 0 (reader'.ExitContainer o).2.after := by
  induction fuel with
  | zero =>
    intro _ _ _ _ _ _ _ h
    simp [WirelessRegConfig.Decode_SupportedRegDomains] at h
  | succ n ih =>
    intro self reader stores hc self' reader' stores' h o hx
    unfold WirelessRegConfig.Decode_SupportedRegDomains at h
    cases ha : reader.after with
    | nil =>
      rw [Next_at_nil reader hc ha] at h
      simp only [reduceCtorEq, if_false, Except.ok.injEq, Prod.mk.injEq] at h
      obtain ⟨_, rfl, _⟩ := h
      exact absurd hx (ExitContainer_at_nil _ o rfl rfl)
    | cons t rest =>
      by_cases he : t.elemType = kTLVElementType_EndOfContainer
      · rw [Next_at_end reader t rest hc ha he] at h
        simp only [reduceCtorEq, if_false, Except.ok.injEq, Prod.mk.injEq] at h
        obtain ⟨rfl, rfl, _⟩ := h
        rw [ExitContainer_at_end _ t o rfl he]
        simp [containerElements, numSupportedRegDomainElements, he]
      · rw [Next_step reader t rest hc ha he] at h
        simp only [if_true] at h
        split at h
        · cases h
        · split at h
          · cases h
          · rename_i hty
            split at h
            · cases h
            · split at h
              · cases h
              · have hty' : t.elemType = kTLVElementType_UTF8String := by
                  have e : t.elemType.toTLVType = kTLVType_UTF8String := by
                    simpa [TLVReader.GetType, TLVReader.ElementType] using hty
                  exact toTLVType_eq_UTF8String _ e
                have hk : TLVTypeIsContainer t.elemType = false := by rw [hty']; rfl
                obtain ⟨i1, i2⟩ := ih _ _ _ (by
                  intro t1 h1
                  simp only [Option.some.injEq] at h1
                  subst h1
                  exact ⟨he, hk⟩) _ _ _ h o hx
                simp only [] at i1 i2
                refine ⟨?_, ?_⟩
                · rw [i1]
                  simp [containerElements, he, hk]
                  omega
                · rw [← i2]
                  simp [numSupportedRegDomainElements, he, hk]

theorem Decode_elements_count (max : Nat) (fuel : Nat) :
    ∀ (self : WirelessRegConfig) (reader : TLVReader) (stores : List (Nat × Nat)),
      reader.ElementType ≠ kTLVElementType_EndOfContainer →
      ∀ (self' : WirelessRegConfig) (reader' : TLVReader) (stores' : List (Nat × Nat)),
        WirelessRegConfig.Decode_elements max fuel self reader stores =
          .ok (self', reader', stores') →
        ∀ o, (reader'.ExitContainer o).1 = WEAVE_NO_ERROR →
          self'.NumSupportedRegDomains = self.NumSupportedRegDomains +
            numSupportedRegDomainElements
              (if TLVTypeIsContainer reader.ElementType then 1 else 0) reader.after := by
  induction fuel with
  | zero =>
    intro _ _ _ _ _ _ _ h
    simp [WirelessRegConfig.Decode_elements] at h
  | succ n ih =>
    intro self reader stores hc self' reader' stores' h o hx
    unfold WirelessRegConfig.Decode_elements at h
    simp only [] at h
    by_cases hn : reader.Next.1 = WEAVE_NO_ERROR
    · obtain ⟨t, hcur, hne, hcount⟩ := (Next_count reader hc).1 hn
      rw [if_pos hn] at h
      rw [hcount]
      have hET : reader.Next.2.ElementType = t.elemType := by
        simp [TLVReader.ElementType, hcur]
      have hTag : reader.Next.2.GetTag = t.tag := by simp [TLVReader.GetTag, hcur]
      have hc1 : reader.Next.2.ElementType ≠ kTLVElementType_EndOfContainer := by
        rw [hET]; exact hne
      have hexp : numSupportedRegDomainElements 0 (t :: reader.Next.2.after) =
          (if t.tag = ContextTag kTag_WirelessRegConfig_SupportedRegulatoryDomains ∧
              t.elemType = kTLVElementType_Array
            then (containerElements 0 reader.Next.2.after).length else 0) +
          numSupportedRegDomainElements
            (if TLVTypeIsContainer t.elemType then 1 else 0) reader.Next.2.after := by
        simp [numSupportedRegDomainElements, hne]
      rw [hexp]
      have hrec : ∀ (self1 : WirelessRegConfig),
          WirelessRegConfig.Decode_elements max n self1 reader.Next.2 stores =
            .ok (self', reader', stores') →
          self1.NumSupportedRegDomains = self.NumSupportedRegDomains →
          t.tag ≠ ContextTag kTag_WirelessRegConfig_SupportedRegulatoryDomains →
          self'.NumSupportedRegDomains = self.NumSupportedRegDomains +
            ((if t.tag = ContextTag kTag_WirelessRegConfig_SupportedRegulatoryDomains ∧
                t.elemType = kTLVElementType_Array
              then (containerElements 0 reader.Next.2.after).length else 0) +
            numSupportedRegDomainElements
              (if TLVTypeIsContainer t.elemType then 1 else 0) reader.Next.2.after) := by
        intro self1 h3 h1 h2
        have := ih self1 reader.Next.2 stores hc1 _ _ _ h3 o hx
        rw [this, h1, hET, if_neg (show ¬ (t.tag =
          ContextTag kTag_WirelessRegConfig_SupportedRegulatoryDomains ∧
          t.elemType = kTLVElementType_Array) from fun hh => h2 hh.1)]
        omega
      split at h
      · rename_i tagNum htag
        have htag' : t.tag = ContextTag tagNum := by rw [← hTag]; exact htag
        split at h
        · rename_i htn
          split at h
          · cases h
          · split at h
            · cases h
            · split at h
              · cases h
              · split at h
                · cases h
                · exact hrec _ h rfl (by rw [htag', htn]; decide)
        · rename_i htn1
          split at h
          · rename_i htn
            split at h
            · cases h
            · split at h
              · cases h
              · split at h
                · cases h
                · exact hrec _ h rfl (by rw [htag', htn]; decide)
          · rename_i htn2
            split at h
            · rename_i htn
              split at h
              · cases h
              · rename_i hty
                split at h
                · cases h
                · split at h
                  · cases h
                  · rename_i o2 reader2 hent
                    split at h
                    · cases h
                    · rename_i self3 reader3 stores3 hr
                      split at h
                      · cases h
                      · rename_i hx2
                        have hx2' : (reader3.ExitContainer o2).1 = WEAVE_NO_ERROR := by
                          simpa using hx2
                        have hty' : t.elemType = kTLVElementType_Array := by
                          have e : t.elemType.toTLVType = kTLVType_Array := by
                            simpa [TLVReader.GetType, hET] using hty
                          exact toTLVType_eq_Array _ e
                        have ha2 := EnterContainer_after _ _ _ hent
                        obtain ⟨_, _, _, _, hcur2, _, _⟩ := EnterContainer_ok _ _ _ hent
                        obtain ⟨i1, i2⟩ := Decode_SupportedRegDomains_count max _ self reader2
                          stores (by intro t1 h1; rw [hcur2] at h1; cases h1) _ _ _ hr o2 hx2'
                        have hcur3 := (ExitContainer_spec reader3 o2).2.2 hx2'
                        have hc3 : (reader3.ExitContainer o2).2.ElementType ≠
                            kTLVElementType_EndOfContainer := by
                          simp [TLVReader.ElementType, hcur3]
                        have i3 := ih _ _ _ hc3 _ _ _ h o hx
                        have hz : (if TLVTypeIsContainer
                            (reader3.ExitContainer o2).2.ElementType = true then 1 else 0) =
                            0 := by
                          simp [TLVReader.ElementType, hcur3, TLVTypeIsContainer]
                        rw [hz] at i3
                        rw [i3, i1, ← i2, ha2]
                        simp [TLVTypeIsContainer, htag', htn, hty']
                        omega
            · rename_i htn
              exact hrec _ h rfl (by rw [htag']; intro e; cases e; exact htn rfl)
      · rename_i htag
        refine hrec _ h rfl ?_
        intro e
        exact htag _ (by rw [hTag, e])
    · rw [if_neg hn] at h
      simp only [Except.ok.injEq, Prod.mk.injEq] at h
      obtain ⟨rfl, rfl, rfl⟩ := h
      rw [(Next_count reader hc).2 hn o hx]
      rfl

theorem GetBytes_error_ne (r : TLVReader) (bufSize : Nat) :
    ∀ e, r.GetBytes bufSize = .error e → e ≠ WEAVE_NO_ERROR := by
  intro e h
  unfold TLVReader.GetBytes at h
  split at h
  · cases h; decide
  · split at h
    · split at h
      · cases h
      · cases h; decide
    · cases h; decide

theorem Decode_SupportedRegDomains_error_ne (max : Nat) (fuel : Nat) :
    ∀ (self : WirelessRegConfig) (reader : TLVReader) (stores : List (Nat × Nat))
      (r : WirelessRegConfig.DecodeResult),
      WirelessRegConfig.Decode_SupportedRegDomains max fuel self reader stores = .error r →
      r.err ≠ WEAVE_NO_ERROR := by
  induction fuel with
  | zero =>
    intro self reader stores r h
    simp only [WirelessRegConfig.Decode_SupportedRegDomains, Except.error.injEq] at h
    subst h
    simp [WEAVE_ERROR_INVALID_TLV_ELEMENT]
  | succ n ih =>
    intro self reader stores r h
    unfold WirelessRegConfig.Decode_SupportedRegDomains at h
    simp only [] at h
    split at h
    · split at h
      · simp only [Except.error.injEq] at h
        subst h
        simp [WEAVE_ERROR_INVALID_TLV_ELEMENT]
      · split at h
        · simp only [Except.error.injEq] at h
          subst h
          simp [WEAVE_ERROR_INVALID_TLV_ELEMENT]
        · split at h
          · simp only [Except.error.injEq] at h
            subst h
            simp [WEAVE_ERROR_INVALID_TLV_ELEMENT]
          · split at h
            · rename_i e he
              simp only [Except.error.injEq] at h
              subst h
              exact GetBytes_error_ne _ _ _ he
            · exact ih _ _ _ _ h
    · cases h

theorem Decode_elements_error_ne (max : Nat) (fuel : Nat) :
    ∀ (self : WirelessRegConfig) (reader : TLVReader) (stores : List (Nat × Nat))
      (r : WirelessRegConfig.DecodeResult),
      WirelessRegConfig.Decode_elements max fuel self reader stores = .error r →
      r.err ≠ WEAVE_NO_ERROR := by
  induction fuel with
  | zero =>
    intro self reader stores r h
    simp only [WirelessRegConfig.Decode_elements, Except.error.injEq] at h
    subst h
    simp [WEAVE_ERROR_INVALID_TLV_ELEMENT]
  | succ n ih =>
    intro self reader stores r h
    unfold WirelessRegConfig.Decode_elements at h
    simp only [] at h
    split at h
    · split at h
      · split at h
        · split at h
          · simp only [Except.error.injEq] at h
            subst h
            simp [WEAVE_ERROR_INVALID_TLV_ELEMENT]
          · split at h
            · simp only [Except.error.injEq] at h
              subst h
              simp [WEAVE_ERROR_INVALID_TLV_ELEMENT]
            · split at h
              · simp only [Except.error.injEq] at h
                subst h
                simp [WEAVE_ERROR_INVALID_TLV_ELEMENT]
              · split at h
                · rename_i e he
                  simp only [Except.error.injEq] at h
                  subst h
                  exact GetBytes_error_ne _ _ _ he
                · exact ih _ _ _ _ h
        · split at h
          · split at h
            · simp only [Except.error.injEq] at h
              subst h
              simp [WEAVE_ERROR_INVALID_TLV_ELEMENT]
            · split at h
              · rename_i hg
                simp only [Except.error.injEq] at h
                subst h
                exact hg
              · split at h
                · simp only [Except.error.injEq] at h
                  subst h
                  simp [WEAVE_ERROR_INVALID_TLV_ELEMENT]
                · exact ih _ _ _ _ h
          · split at h
            · split at h
              · simp only [Except.error.injEq] at h
                subst h
                simp [WEAVE_ERROR_INVALID_TLV_ELEMENT]
              · split at h
                · simp only [Except.error.injEq] at h
                  subst h
                  simp [WEAVE_ERROR_INVALID_TLV_ELEMENT]
                · split at h
                  · rename_i e he
                    simp only [Except.error.injEq] at h
                    subst h
                    exact EnterContainer_error_ne _ _ he
                  · split at h
                    · rename_i r1 hr
                      simp only [Except.error.injEq] at h
                      subst h
                      exact Decode_SupportedRegDomains_error_ne _ _ _ _ _ _ hr
                    · split at h
                      · rename_i hx
                        simp only [Except.error.injEq] at h
                        subst h
                        exact hx
                      · exact ih _ _ _ _ h
            · exact ih _ _ _ _ h
      · exact ih _ _ _ _ h
    · cases h

theorem Decode_count (self : WirelessRegConfig) (s : Token) (body : List Token)
    (h : (self.Decode (TLVReader.Init (s :: body))).err = WEAVE_NO_ERROR) :
    (self.Decode (TLVReader.Init (s :: body))).self.NumSupportedRegDomains =
      numSupportedRegDomainElements 0 body := by
  have hc0 : ∀ t, (TLVReader.Init (s :: body)).cur = some t →
      t.elemType ≠ kTLVElementType_EndOfContainer ∧ TLVTypeIsContainer t.elemType = false := by
    intro t ht; cases ht
  unfold WirelessRegConfig.Decode at h ⊢
  simp only [] at h ⊢
  have hg : (TLVReader.Init (s :: body)).GetType = kTLVType_NotSpecified := rfl
  rw [if_pos hg] at h ⊢
  by_cases he : s.elemType = kTLVElementType_EndOfContainer
  · rw [Next_at_end _ s body hc0 rfl he] at h
    simp at h
  · rw [Next_step _ s body hc0 rfl he] at h ⊢
    simp only [ne_eq, not_true_eq_false, if_false] at h ⊢
    split at h
    · cases h
    · rename_i hty
      rw [if_neg hty]
      split at h
      · rename_i e hent
        exact absurd h (EnterContainer_error_ne _ _ hent)
      · rename_i o r1 hent
        obtain ⟨_, _, _, _, hcur1, _, _⟩ := EnterContainer_ok _ _ _ hent
        have ha1 := EnterContainer_after _ _ _ hent
        split at h
        · rename_i r hr
          exact absurd h (Decode_elements_error_ne _ _ _ _ _ _ hr)
        · rename_i self3 r3 st3 hr
          simp only [hr]
          simp only [] at h
          have := Decode_elements_count _ _ _ _ _ (by
            simp [TLVReader.ElementType, hcur1]) _ _ _ hr o h
          rw [this, ha1]
          simp [TLVReader.ElementType, hcur1, TLVTypeIsContainer, TLVReader.Init]

/-! ## `Decode` over elements that are not containers -/

theorem regDomainAt_regDomainStore (a : List WirelessRegDomain) (i j : Nat)
    (x : WirelessRegDomain) :
    regDomainAt (regDomainStore a i x) j = if j = i then x else regDomainAt a j := by
  unfold regDomainAt regDomainStore
  rw [List.getD_eq_getElem?_getD, List.getD_eq_getElem?_getD, List.getElem?_set]
  by_cases hji : j = i
  · subst hji
    simp only [if_true]
    rw [if_pos (by simp; omega)]
    rfl
  · rw [if_neg (fun h => hji h.symm), if_neg hji]
    by_cases hj : j < a.length
    · rw [List.getElem?_append_left hj]
    · have e1 : a[j]? = none := List.getElem?_eq_none (by omega)
      rw [List.getElem?_append_right (by omega), e1, List.getElem?_replicate]
      split <;> rfl

theorem Decode_fields_Num (pre : List Token) :
    ∀ (self self' : WirelessRegConfig), self.Decode_fields pre = some self' →
      self'.NumSupportedRegDomains = self.NumSupportedRegDomains ∧
      self'.SupportedRegDomains = self.SupportedRegDomains := by
  induction pre with
  | nil =>
    intro self self' h
    simp only [WirelessRegConfig.Decode_fields, Option.some.injEq] at h
    subst h
    exact ⟨rfl, rfl⟩
  | cons t ts ih =>
    intro self self' h
    unfold WirelessRegConfig.Decode_fields at h
    split at h
    · split at h
      · split at h
        · have := ih _ _ h
          exact this
        · cases h
      · split at h
        · split at h
          · have := ih _ _ h
            exact this
          · cases h
        · split at h
          · cases h
          · exact ih _ _ h
    · exact ih _ _ h

theorem Decode_elements_fields (max : Nat) (pre : List Token) :
    ∀ (self self' : WirelessRegConfig) (reader : TLVReader) (stores : List (Nat × Nat))
      (fuel : Nat) (rest : List Token),
      (∀ t ∈ pre, t.elemType ≠ kTLVElementType_EndOfContainer ∧
        TLVTypeIsContainer t.elemType = false) →
      (∀ t, reader.cur = some t → t.elemType ≠ kTLVElementType_EndOfContainer ∧
        TLVTypeIsContainer t.elemType = false) →
      reader.after = pre ++ rest →
      self.Decode_fields pre = some self' →
      ∃ reader' : TLVReader, reader'.after = rest ∧
        (∀ t, reader'.cur = some t → t.elemType ≠ kTLVElementType_EndOfContainer ∧
          TLVTypeIsContainer t.elemType = false) ∧
        reader'.mContainerType = reader.mContainerType ∧
        WirelessRegConfig.Decode_elements max (pre.length + fuel) self reader stores =
          WirelessRegConfig.Decode_elements max fuel self' reader' stores := by
  induction pre with
  | nil =>
    intro self self' reader stores fuel rest _ hc ha hf
    simp only [WirelessRegConfig.Decode_fields, Option.some.injEq] at hf
    subst hf
    exact ⟨reader, by simpa using ha, hc, rfl, by simp⟩
  | cons t ts ih =>
    intro self self' reader stores fuel rest hpre hc ha hf
    obtain ⟨hne, hk⟩ := hpre t (List.mem_cons_self _ _)
    have hpre' : ∀ t ∈ ts, t.elemType ≠ kTLVElementType_EndOfContainer ∧
        TLVTypeIsContainer t.elemType = false :=
      fun t1 h1 => hpre t1 (List.mem_cons_of_mem _ h1)
    have hN := Next_step reader t (ts ++ rest) hc (by simpa using ha) hne
    obtain ⟨r1, hr1⟩ : ∃ r1 : TLVReader, r1 = TLVReader.mk (reader.before ++ reader.cur.toList)
        (some t) (ts ++ rest) reader.mContainerType := ⟨_, rfl⟩
    have hN : reader.Next = (WEAVE_NO_ERROR, r1) := by rw [hN, hr1]
    have hcur1 : r1.cur = some t := by rw [hr1]
    have haft1 : r1.after = ts ++ rest := by rw [hr1]
    have hct1 : r1.mContainerType = reader.mContainerType := by rw [hr1]
    have hc1 : ∀ t1, r1.cur = some t1 → t1.elemType ≠ kTLVElementType_EndOfContainer ∧
        TLVTypeIsContainer t1.elemType = false := by
      intro t1 h1
      rw [hcur1] at h1
      simp only [Option.some.injEq] at h1
      subst h1
      exact ⟨hne, hk⟩
    have hfuel : (t :: ts).length + fuel = (ts.length + fuel) + 1 := by
      simp only [List.length_cons]; omega
    rw [hfuel, WirelessRegConfig.Decode_elements.eq_2, hN]
    simp only [if_true, TLVReader.GetTag, hcur1]
    unfold WirelessRegConfig.Decode_fields at hf
    split at hf
    · rename_i tagNum htag
      try simp only [htag]
      split at hf
      · rename_i htn
        rw [if_pos htn]
        split at hf
        · rename_i hcond
          obtain ⟨c1, c2, c3⟩ := hcond
          obtain ⟨r', a1, a2, a3, a4⟩ := ih _ self' r1 stores fuel rest hpre' hc1 haft1 hf
          refine ⟨r', a1, a2, a3.trans hct1, ?_⟩
          rw [← a4]
          simp [TLVReader.GetType, TLVReader.ElementType, hcur1, c1, TLVElementType.toTLVType,
            c2, TLVReader.GetLength, TLVTypeHasLength, c3, TLVReader.GetBytes]
        · cases hf
      · rename_i htn1
        rw [if_neg htn1]
        split at hf
        · rename_i htn
          rw [if_pos htn]
          split at hf
          · rename_i hcond
            obtain ⟨c1, c2, c3⟩ := hcond
            obtain ⟨r', a1, a2, a3, a4⟩ := ih _ self' r1 stores fuel rest hpre' hc1 haft1 hf
            refine ⟨r', a1, a2, a3.trans hct1, ?_⟩
            rw [← a4]
            have hget : r1.GetUInt8 = (WEAVE_NO_ERROR, t.val % 256) := by
              simp [TLVReader.GetUInt8, TLVReader.Get, hcur1, c2]
            simp only [hget]
            simp [c1, c3]
          · cases hf
        · rename_i htn2
          rw [if_neg htn2]
          split at hf
          · cases hf
          · rename_i htn3
            rw [if_neg htn3]
            obtain ⟨r', a1, a2, a3, a4⟩ := ih _ self' r1 stores fuel rest hpre' hc1 haft1 hf
            exact ⟨r', a1, a2, a3.trans hct1, a4⟩
    · rename_i htag
      obtain ⟨r', a1, a2, a3, a4⟩ := ih _ self' r1 stores fuel rest hpre' hc1 haft1 hf
      refine ⟨r', a1, a2, a3.trans hct1, ?_⟩
      rw [← a4]

theorem Decode_SupportedRegDomains_strings (max : Nat) (elems : List Token) :
    ∀ (self : WirelessRegConfig) (reader : TLVReader) (stores : List (Nat × Nat))
      (fuel : Nat) (rest : List Token),
      (∀ t ∈ elems, t.elemType = kTLVElementType_UTF8String ∧ t.data.length = 2) →
      self.NumSupportedRegDomains + elems.length ≤ max →
      (∀ t, reader.cur = some t → t.elemType ≠ kTLVElementType_EndOfContainer ∧
        TLVTypeIsContainer t.elemType = false) →
      reader.after = elems ++ rest →
      ∃ (reader' : TLVReader) (stores' : List (Nat × Nat)) (supp' : List WirelessRegDomain),
        reader'.after = rest ∧
        (∀ t, reader'.cur = some t → t.elemType ≠ kTLVElementType_EndOfContainer ∧
          TLVTypeIsContainer t.elemType = false) ∧
        reader'.mContainerType = reader.mContainerType ∧
        (∀ i t, elems[i]? = some t →
          regDomainAt supp' (self.NumSupportedRegDomains + i) =
            WirelessRegDomain.ofBytes t.data) ∧
        (∀ j, j < self.NumSupportedRegDomains →
          regDomainAt supp' j = regDomainAt self.SupportedRegDomains j) ∧
        stores'.length = stores.length + elems.length ∧
        WirelessRegConfig.Decode_SupportedRegDomains max (elems.length + fuel) self reader
            stores =
          WirelessRegConfig.Decode_SupportedRegDomains max fuel
            { self with
              SupportedRegDomains := supp'
              NumSupportedRegDomains := self.NumSupportedRegDomains + elems.length }
            reader' stores' := by
  induction elems with
  | nil =>
    intro self reader stores fuel rest _ _ hc ha
    refine ⟨reader, stores, self.SupportedRegDomains, by simpa using ha, hc, rfl, ?_, ?_, rfl,
      ?_⟩
    · intro i t h; simp at h
    · intro j _; rfl
    · simp
  | cons t ts ih =>
    intro self reader stores fuel rest hel hcap hc ha
    obtain ⟨hty, hlen⟩ := hel t (List.mem_cons_self _ _)
    have hel' : ∀ t ∈ ts, t.elemType = kTLVElementType_UTF8String ∧ t.data.length = 2 :=
      fun t1 h1 => hel t1 (List.mem_cons_of_mem _ h1)
    have hne : t.elemType ≠ kTLVElementType_EndOfContainer := by rw [hty]; decide
    have hk : TLVTypeIsContainer t.elemType = false := by rw [hty]; rfl
    have hN := Next_step reader t (ts ++ rest) hc (by simpa using ha) hne
    obtain ⟨r1, hr1⟩ : ∃ r1 : TLVReader, r1 = TLVReader.mk (reader.before ++ reader.cur.toList)
        (some t) (ts ++ rest) reader.mContainerType := ⟨_, rfl⟩
    have hN : reader.Next = (WEAVE_NO_ERROR, r1) := by rw [hN, hr1]
    have hcur1 : r1.cur = some t := by rw [hr1]
    have haft1 : r1.after = ts ++ rest := by rw [hr1]
    have hct1 : r1.mContainerType = reader.mContainerType := by rw [hr1]
    have hc1 : ∀ t1, r1.cur = some t1 → t1.elemType ≠ kTLVElementType_EndOfContainer ∧
        TLVTypeIsContainer t1.elemType = false := by
      intro t1 h1
      rw [hcur1] at h1
      simp only [Option.some.injEq] at h1
      subst h1
      exact ⟨hne, hk⟩
    simp only [List.length_cons] at hcap
    have hfuel : (t :: ts).length + fuel = (ts.length + fuel) + 1 := by
      simp only [List.length_cons]; omega
    have hlt : self.NumSupportedRegDomains < max := by omega
    obtain ⟨r', st', supp', a1, a2, a3, a4, a5, a6, a7⟩ := ih
      { self with
        SupportedRegDomains := regDomainStore self.SupportedRegDomains
          self.NumSupportedRegDomains (WirelessRegDomain.ofBytes t.data)
        NumSupportedRegDomains := self.NumSupportedRegDomains + 1 }
      r1 (stores ++ [(self.NumSupportedRegDomains, r1.GetReadPoint)]) fuel rest hel'
      (by simp only []; omega) hc1 haft1
    simp only [] at a4 a5 a7
    refine ⟨r', st', supp', a1, a2, a3.trans hct1, ?_, ?_, ?_, ?_⟩
    · intro i t1 h1
      cases i with
      | zero =>
        simp only [List.getElem?_cons_zero, Option.some.injEq] at h1
        subst h1
        rw [Nat.add_zero, a5 _ (by omega), regDomainAt_regDomainStore, if_pos rfl]
      | succ k =>
        simp only [List.getElem?_cons_succ] at h1
        have := a4 k t1 h1
        rw [← this]
        congr 1
        omega
    · intro j hj
      rw [a5 j (by omega), regDomainAt_regDomainStore, if_neg (by omega)]
    · rw [a6]
      simp only [List.length_append, List.length_cons, List.length_nil]
      omega
    · rw [hfuel, WirelessRegConfig.Decode_SupportedRegDomains.eq_2, hN]
      have e1 : self.NumSupportedRegDomains + 1 + ts.length =
          self.NumSupportedRegDomains + (t :: ts).length := by
        simp only [List.length_cons]; omega
      rw [e1] at a7
      rw [← a7]
      simp [TLVReader.GetType, TLVReader.ElementType, hcur1, hty, TLVElementType.toTLVType,
        TLVReader.GetLength, TLVTypeHasLength, hlen, TLVReader.GetBytes, hlt]

theorem EnterContainer_of_container (r : TLVReader) (t : Token) (hc : r.cur = some t)
    (hk : TLVTypeIsContainer t.elemType = true) :
    r.EnterContainer = .ok (r.mContainerType,
      { before := r.before ++ [t], cur := none, after := r.after,
        mContainerType := t.elemType.toTLVType }) := by
  cases r with
  | mk b c a ct =>
    simp only at hc
    subst hc
    simp [TLVReader.EnterContainer, TLVReader.ElementType, hk, TLVReader.ClearElement,
      TLVReader.GetType]

theorem Decode_SupportedRegDomains_overflow (max : Nat) (elems : List Token) (x : Token)
    (rest : List Token) (self : WirelessRegConfig) (reader : TLVReader)
    (stores : List (Nat × Nat))
    (hel : ∀ t ∈ elems, t.elemType = kTLVElementType_UTF8String ∧ t.data.length = 2)
    (hcap : self.NumSupportedRegDomains + elems.length = max)
    (hc : ∀ t, reader.cur = some t → t.elemType ≠ kTLVElementType_EndOfContainer ∧
      TLVTypeIsContainer t.elemType = false)
    (ha : reader.after = elems ++ x :: rest)
    (hx : x.elemType ≠ kTLVElementType_EndOfContainer) :
    ∃ r, WirelessRegConfig.Decode_SupportedRegDomains max (reader.after.length + 1) self reader
        stores = .error r ∧
      r.err = WEAVE_ERROR_BUFFER_TOO_SMALL ∧ r.self.NumSupportedRegDomains = max ∧
      r.stores.length = stores.length + elems.length := by
  obtain ⟨r', st', supp', a1, a2, a3, a4, a5, a6, a7⟩ :=
    Decode_SupportedRegDomains_strings max elems self reader stores (rest.length + 2)
      (x :: rest) hel (by omega) hc ha
  have hfuel : reader.after.length + 1 = elems.length + (rest.length + 2) := by
    rw [ha]; simp only [List.length_append, List.length_cons]; omega
  rw [hfuel, a7, WirelessRegConfig.Decode_SupportedRegDomains.eq_2,
    Next_step r' x rest a2 a1 hx]
  simp only [if_true, hcap, Nat.lt_irrefl, not_false_eq_true]
  exact ⟨_, rfl, rfl, rfl, a6⟩

theorem Decode_elements_overflow (max : Nat) (arr : Token) (elems : List Token) (x : Token)
    (rest : List Token) (self : WirelessRegConfig) (reader : TLVReader)
    (stores : List (Nat × Nat)) (fuel : Nat)
    (htag : arr.tag = ContextTag kTag_WirelessRegConfig_SupportedRegulatoryDomains)
    (harr : arr.elemType = kTLVElementType_Array)
    (hel : ∀ t ∈ elems, t.elemType = kTLVElementType_UTF8String ∧ t.data.length = 2)
    (hnum : self.NumSupportedRegDomains = 0) (hcap : elems.length = max)
    (hc : ∀ t, reader.cur = some t → t.elemType ≠ kTLVElementType_EndOfContainer ∧
      TLVTypeIsContainer t.elemType = false)
    (ha : reader.after = arr :: elems ++ x :: rest)
    (hx : x.elemType ≠ kTLVElementType_EndOfContainer) :
    ∃ r, WirelessRegConfig.Decode_elements max (fuel + 1) self reader stores = .error r ∧
      r.err = WEAVE_ERROR_BUFFER_TOO_SMALL ∧ r.self.NumSupportedRegDomains = max ∧
      r.stores.length = stores.length + elems.length := by
  have hne : arr.elemType ≠ kTLVElementType_EndOfContainer := by rw [harr]; decide
  have hN := Next_step reader arr (elems ++ x :: rest) hc (by simpa using ha) hne
  obtain ⟨r1, hr1⟩ : ∃ r1 : TLVReader, r1 = TLVReader.mk (reader.before ++ reader.cur.toList)
      (some arr) (elems ++ x :: rest) reader.mContainerType := ⟨_, rfl⟩
  have hN : reader.Next = (WEAVE_NO_ERROR, r1) := by rw [hN, hr1]
  have hcur1 : r1.cur = some arr := by rw [hr1]
  have haft1 : r1.after = elems ++ x :: rest := by rw [hr1]
  have hE := EnterContainer_of_container r1 arr hcur1 (by rw [harr]; rfl)
  obtain ⟨r, b1, b2, b3, b4⟩ := Decode_SupportedRegDomains_overflow max elems x rest self
    { before := r1.before ++ [arr], cur := none, after := r1.after,
      mContainerType := arr.elemType.toTLVType } stores hel (by omega)
    (by intro t h; cases h) haft1 hx
  refine ⟨r, ?_, b2, b3, b4⟩
  rw [WirelessRegConfig.Decode_elements.eq_2, hN]
  simp only [if_true, TLVReader.GetTag, hcur1, htag]
  rw [if_neg (by decide), if_neg (by decide)]
  simp only [TLVReader.GetType, TLVReader.ElementType, hcur1, harr, TLVElementType.toTLVType,
    ne_eq, not_true_eq_false, if_false, hnum]
  rw [hE]
  simp only [harr, TLVElementType.toTLVType] at b1 ⊢
  rw [b1]

theorem Decode_overflow (self self' : WirelessRegConfig) (s arr x : Token)
    (pre elems rest : List Token)
    (hs : s.elemType = kTLVElementType_Structure)
    (hpre : ∀ t ∈ pre, t.elemType ≠ kTLVElementType_EndOfContainer ∧
      TLVTypeIsContainer t.elemType = false)
    (hf : WirelessRegConfig.Decode_fields { self with NumSupportedRegDomains := 0 } pre =
      some self')
    (htag : arr.tag = ContextTag kTag_WirelessRegConfig_SupportedRegulatoryDomains)
    (harr : arr.elemType = kTLVElementType_Array)
    (hel : ∀ t ∈ elems, t.elemType = kTLVElementType_UTF8String ∧ t.data.length = 2)
    (hcap : elems.length = self.NumSupportedRegDomains)
    (hx : x.elemType ≠ kTLVElementType_EndOfContainer) :
    (self.Decode (TLVReader.Init (s :: pre ++ arr :: elems ++ x :: rest))).err =
      WEAVE_ERROR_BUFFER_TOO_SMALL ∧
    (self.Decode (TLVReader.Init
      (s :: pre ++ arr :: elems ++ x :: rest))).self.NumSupportedRegDomains =
      self.NumSupportedRegDomains ∧
    (self.Decode (TLVReader.Init (s :: pre ++ arr :: elems ++ x :: rest))).stores.length =
      self.NumSupportedRegDomains := by
  have hc0 : ∀ t, (TLVReader.Init (s :: pre ++ arr :: elems ++ x :: rest)).cur = some t →
      t.elemType ≠ kTLVElementType_EndOfContainer ∧ TLVTypeIsContainer t.elemType = false := by
    intro t ht; cases ht
  have hse : s.elemType ≠ kTLVElementType_EndOfContainer := by rw [hs]; decide
  have hN := Next_step (TLVReader.Init (s :: pre ++ arr :: elems ++ x :: rest)) s
    (pre ++ arr :: elems ++ x :: rest) hc0 rfl hse
  obtain ⟨r0, hr0⟩ : ∃ r0 : TLVReader, r0 = TLVReader.mk [] (some s)
      (pre ++ arr :: elems ++ x :: rest) kTLVType_NotSpecified := ⟨_, rfl⟩
  have hN : (TLVReader.Init (s :: pre ++ arr :: elems ++ x :: rest)).Next =
      (WEAVE_NO_ERROR, r0) := by rw [hN, hr0]; rfl
  have hcur0 : r0.cur = some s := by rw [hr0]
  have hE := EnterContainer_of_container r0 s hcur0 (by rw [hs]; rfl)
  obtain ⟨r1, hr1⟩ : ∃ r1 : TLVReader, r1 = TLVReader.mk (r0.before ++ [s]) none r0.after
      s.elemType.toTLVType := ⟨_, rfl⟩
  rw [← hr1] at hE
  have haft1 : r1.after = pre ++ (arr :: elems ++ x :: rest) := by rw [hr1, hr0]; simp
  obtain ⟨r2, a1, a2, _, a4⟩ := Decode_elements_fields self.NumSupportedRegDomains pre
    { self with NumSupportedRegDomains := 0 } self' r1 []
    (elems.length + rest.length + 2 + 1) (arr :: elems ++ x :: rest) hpre
    (by intro t h; rw [hr1] at h; cases h) haft1 hf
  obtain ⟨r, b1, b2, b3, b4⟩ := Decode_elements_overflow self.NumSupportedRegDomains arr elems
    x rest self' r2 [] (elems.length + rest.length + 2) htag harr hel
    ((Decode_fields_Num pre _ _ hf).1) hcap a2 a1 hx
  have hfuel : r1.after.length + 1 =
      pre.length + (elems.length + rest.length + 2 + 1) := by
    rw [haft1]
    simp only [List.length_append, List.length_cons]
    omega
  have hD : WirelessRegConfig.Decode_elements self.NumSupportedRegDomains
      (r1.after.length + 1) { self with NumSupportedRegDomains := 0 } r1 [] = .error r := by
    rw [hfuel, a4, b1]
  have hg : (TLVReader.Init (s :: pre ++ arr :: elems ++ x :: rest)).GetType =
      kTLVType_NotSpecified := rfl
  have hty : r0.GetType = kTLVType_Structure := by
    simp [TLVReader.GetType, TLVReader.ElementType, hcur0, hs, TLVElementType.toTLVType]
  have hres : self.Decode (TLVReader.Init (s :: pre ++ arr :: elems ++ x :: rest)) = r := by
    unfold WirelessRegConfig.Decode
    simp only [hg, if_true, hN, ne_eq, not_true_eq_false, if_false, hty, hE, hD]
  rw [hres]
  refine ⟨b2, b3, ?_⟩
  rw [b4, hcap]
  simp

theorem numSupportedRegDomainElements_absent (body : List Token) :
    ∀ depth : Nat,
      (∀ t ∈ body, t.tag ≠ ContextTag kTag_WirelessRegConfig_SupportedRegulatoryDomains) →
      numSupportedRegDomainElements depth body = 0 := by
  induction body with
  | nil => intro _ _; rfl
  | cons t ts ih =>
    intro depth h
    have h1 := h t (List.mem_cons_self _ _)
    have h2 : ∀ t ∈ ts, t.tag ≠ ContextTag kTag_WirelessRegConfig_SupportedRegulatoryDomains :=
      fun t1 ht1 => h t1 (List.mem_cons_of_mem _ ht1)
    rw [numSupportedRegDomainElements.eq_2]
    split
    · split
      · rfl
      · exact ih _ h2
    · rw [ih _ h2]
      simp [h1]

/-- C34: `WirelessRegConfig::Decode` keeps within the capacity `m`, the value of
`NumSupportedRegDomains` on entry. For every reader and every outcome of the call the count
left in `NumSupportedRegDomains` is at most `m`, the stores made into the array were made to
the elements 0, 1, ..., count - 1 in this order, and each was made to an element of index
below `m`. For a buffer that holds the structure, a run of elements before the array that
the loop accepts, the array of supported domains, `m` elements of it that are UTF-8 strings
of two bytes and one more element, `Decode` returns `WEAVE_ERROR_BUFFER_TOO_SMALL` after `m`
stores. On every successful call on a buffer the count equals the number of elements of the
arrays of supported domains among the elements of the structure, which is 0 when no element
of the buffer carries the tag of the supported domains. The bounds on the iterations of the
two loops of the model are not reached: a larger bound gives the same result. -/
theorem Decode_capacity (self : WirelessRegConfig) :
    (∀ reader : TLVReader,
      (self.Decode reader).self.NumSupportedRegDomains ≤ self.NumSupportedRegDomains ∧
      (self.Decode reader).stores.map Prod.fst =
        List.range (self.Decode reader).self.NumSupportedRegDomains ∧
      ∀ s ∈ (self.Decode reader).stores, s.1 < self.NumSupportedRegDomains) ∧
    (∀ (self' : WirelessRegConfig) (s arr x : Token) (pre elems rest : List Token),
      s.elemType = kTLVElementType_Structure →
      (∀ t ∈ pre, t.elemType ≠ kTLVElementType_EndOfContainer ∧
        TLVTypeIsContainer t.elemType = false) →
      WirelessRegConfig.Decode_fields { self with NumSupportedRegDomains := 0 } pre =
        some self' →
      arr.tag = ContextTag kTag_WirelessRegConfig_SupportedRegulatoryDomains →
      arr.elemType = kTLVElementType_Array →
      (∀ t ∈ elems, t.elemType = kTLVElementType_UTF8String ∧ t.data.length = 2) →
      elems.length = self.NumSupportedRegDomains →
      x.elemType ≠ kTLVElementType_EndOfContainer →
      (self.Decode (TLVReader.Init (s :: pre ++ arr :: elems ++ x :: rest))).err =
        WEAVE_ERROR_BUFFER_TOO_SMALL ∧
      (self.Decode (TLVReader.Init
        (s :: pre ++ arr :: elems ++ x :: rest))).stores.length =
        self.NumSupportedRegDomains) ∧
    (∀ (s : Token) (body : List Token),
      (self.Decode (TLVReader.Init (s :: body))).err = WEAVE_NO_ERROR →
      (self.Decode (TLVReader.Init (s :: body))).self.NumSupportedRegDomains =
        numSupportedRegDomainElements 0 body ∧
      ((∀ t ∈ body,
          t.tag ≠ ContextTag kTag_WirelessRegConfig_SupportedRegulatoryDomains) →
        (self.Decode (TLVReader.Init (s :: body))).self.NumSupportedRegDomains = 0)) ∧
    (∀ (max fuel : Nat) (c : WirelessRegConfig) (reader : TLVReader)
      (stores : List (Nat × Nat)), reader.after.length < fuel →
      WirelessRegConfig.Decode_elements max fuel c reader stores =
        WirelessRegConfig.Decode_elements max (reader.after.length + 1) c reader stores ∧
      WirelessRegConfig.Decode_SupportedRegDomains max fuel c reader stores =
        WirelessRegConfig.Decode_SupportedRegDomains max (reader.after.length + 1) c reader
          stores) := by
  refine ⟨?_, ?_, ?_, ?_⟩
  · intro reader
    have hP := Decode_inv
      (fun (s : WirelessRegConfig) (st : List (Nat × Nat)) =>
        s.NumSupportedRegDomains ≤ self.NumSupportedRegDomains ∧
        st.map Prod.fst = List.range s.NumSupportedRegDomains)
      self reader
      (by
        intro s st x p hlt hP
        refine ⟨?_, ?_⟩
        · show s.NumSupportedRegDomains + 1 ≤ _
          omega
        · show (st ++ [(s.NumSupportedRegDomains, p)]).map Prod.fst =
            List.range (s.NumSupportedRegDomains + 1)
          rw [List.map_append, hP.2, List.range_succ]
          rfl)
      (fun _ _ _ hP => hP) (fun _ _ _ hP => hP)
      ⟨Nat.zero_le _, rfl⟩
    obtain ⟨h1, h2⟩ := hP
    refine ⟨h1, h2, ?_⟩
    intro s hs
    have : s.1 ∈ (self.Decode reader).stores.map Prod.fst := List.mem_map_of_mem _ hs
    rw [h2, List.mem_range] at this
    omega
  · intro self' s arr x pre elems rest hs hpre hf htag harr hel hcap hx
    obtain ⟨a, _, c⟩ := Decode_overflow self self' s arr x pre elems rest hs hpre hf htag harr
      hel hcap hx
    exact ⟨a, c⟩
  · intro s body h
    have hc := Decode_count self s body h
    refine ⟨hc, fun habs => ?_⟩
    rw [hc]
    exact numSupportedRegDomainElements_absent body 0 habs
  · intro max fuel c reader stores hlt
    exact ⟨Decode_elements_fuel max fuel _ c reader stores hlt (by omega),
      Decode_SupportedRegDomains_fuel max fuel _ c reader stores hlt (by omega)⟩

/-- The encoding of the sample configuration, which holds two supported domains: decoded
with capacity 2 the call succeeds and leaves the count 2, the number of elements of the
array; decoded with capacity 1 it returns `WEAVE_ERROR_BUFFER_TOO_SMALL` after one store; in
both cases the count is at most the capacity. -/
theorem Decode_capacity_witness :
    (WirelessRegConfig.Decode
      { SupportedRegDomains := [], NumSupportedRegDomains := 2, RegDomain := { Code := (0, 0) },
        OpLocation := 0 }
      (TLVReader.Init (Sample.encoded (Sample.regConfig 5)))).err = WEAVE_NO_ERROR ∧
    (WirelessRegConfig.Decode
      { SupportedRegDomains := [], NumSupportedRegDomains := 2, RegDomain := { Code := (0, 0) },
        OpLocation := 0 }
      (TLVReader.Init (Sample.encoded (Sample.regConfig 5)))).self.NumSupportedRegDomains =
      2 ∧
    numSupportedRegDomainElements 0 (Sample.encoded (Sample.regConfig 5)).tail = 2 ∧
    (WirelessRegConfig.Decode
      { SupportedRegDomains := [], NumSupportedRegDomains := 1, RegDomain := { Code := (0, 0) },
        OpLocation := 0 }
      (TLVReader.Init (Sample.encoded (Sample.regConfig 5)))).err =
      WEAVE_ERROR_BUFFER_TOO_SMALL ∧
    (WirelessRegConfig.Decode
      { SupportedRegDomains := [], NumSupportedRegDomains := 1, RegDomain := { Code := (0, 0) },
        OpLocation := 0 }
      (TLVReader.Init (Sample.encoded (Sample.regConfig 5)))).stores.length = 1 ∧
    (WirelessRegConfig.Decode
      { SupportedRegDomains := [], NumSupportedRegDomains := 1, RegDomain := { Code := (0, 0) },
        OpLocation := 0 }
      (TLVReader.Init (Sample.encoded (Sample.regConfig 5)))).self.NumSupportedRegDomains ≤
      1 :=
  ⟨by rfl, by rfl, by rfl, by rfl, by rfl,
    ((Decode_capacity
      { SupportedRegDomains := [], NumSupportedRegDomains := 1, RegDomain := { Code := (0, 0) },
        OpLocation := 0 }).1 (TLVReader.Init (Sample.encoded (Sample.regConfig 5)))).1⟩

/-! ## The loop of `Encode` over the supported domains -/

theorem Encode_SupportedRegDomains_never (self : WirelessRegConfig)
    (hn : 256 ≤ self.NumSupportedRegDomains) (fuel : Nat) :
    ∀ (i : Nat) (w : TLVWriter), i < 256 →
      ∃ e, WirelessRegConfig.Encode_SupportedRegDomains self fuel i w = .error e := by
  induction fuel with
  | zero => intro i w _; exact ⟨_, rfl⟩
  | succ n ih =>
    intro i w hi
    rw [WirelessRegConfig.Encode_SupportedRegDomains.eq_2, if_pos (by omega)]
    cases hp : SuccessOrExit
        (w.PutString AnonymousTag (regDomainAt self.SupportedRegDomains i).bytes) with
    | error e => exact ⟨e, rfl⟩
    | ok w1 =>
      obtain ⟨e, he⟩ := ih ((i + 1) % 256) w1 (Nat.mod_lt _ (by decide))
      exact ⟨e, by simpa [bind, Except.bind] using he⟩

theorem Encode_never (c : WirelessRegConfig) (hn : 256 ≤ c.NumSupportedRegDomains)
    (w : TLVWriter) : ∃ e, c.Encode w = .error e := by
  cases h : c.Encode w with
  | error e => exact ⟨e, rfl⟩
  | ok w' =>
    exfalso
    simp only [WirelessRegConfig.Encode, bind_eq_ok] at h
    obtain ⟨⟨o, w1⟩, _, w2, _, w3, _, w4, h4, _⟩ := h
    unfold WirelessRegConfig.Encode_SupportedRegDomainsArray at h4
    rw [if_pos (by omega)] at h4
    simp only [bind_eq_ok] at h4
    obtain ⟨⟨o2, w5⟩, _, w6, h7, _⟩ := h4
    obtain ⟨e, he⟩ := Encode_SupportedRegDomains_never c hn (w5.mRemainingLen + 1) 0 w5
      (by decide)
    rw [he] at h7
    cases h7

theorem stringElement_bytes_length (tag : Tag) (data : List Nat) :
    1 ≤ (TLVWriter.stringElement tag data).bytes.length := by
  simp [TLVWriter.stringElement, Token.bytes]

theorem PutString_remaining (w w' : TLVWriter) (tag : Tag) (data : List Nat)
    (h : SuccessOrExit (w.PutString tag data) = .ok w') :
    w'.mRemainingLen < w.mRemainingLen := by
  rw [SuccessOrExit_eq_ok] at h
  obtain ⟨h1, h2⟩ := h
  have hb := stringElement_bytes_length tag data
  unfold TLVWriter.PutString TLVWriter.WriteElement at h1 h2
  split at h1
  · split at h1
    · rename_i ha hb'
      simp only [ha, hb', if_true] at h2
      subst h2
      show w.mRemainingLen - _ < _
      omega
    · cases h1
  · cases h1

theorem Encode_SupportedRegDomains_fuel (self : WirelessRegConfig) (fuel1 : Nat) :
    ∀ (fuel2 i : Nat) (w : TLVWriter), w.mRemainingLen < fuel1 → w.mRemainingLen < fuel2 →
      WirelessRegConfig.Encode_SupportedRegDomains self fuel1 i w =
        WirelessRegConfig.Encode_SupportedRegDomains self fuel2 i w := by
  induction fuel1 with
  | zero => intro _ _ _ h; omega
  | succ n ih =>
    intro fuel2 i w h1 h2
    cases fuel2 with
    | zero => omega
    | succ k =>
      rw [WirelessRegConfig.Encode_SupportedRegDomains.eq_2,
        WirelessRegConfig.Encode_SupportedRegDomains.eq_2]
      split
      · cases hp : SuccessOrExit
            (w.PutString AnonymousTag (regDomainAt self.SupportedRegDomains i).bytes) with
        | error e => rfl
        | ok w1 =>
          have := PutString_remaining _ _ _ _ hp
          simp only [bind, Except.bind]
          exact ih _ _ _ (by omega) (by omega)
      · rfl

theorem Encode_SupportedRegDomains_elements (self : WirelessRegConfig)
    (hn : self.NumSupportedRegDomains ≤ 255) (fuel : Nat) :
    ∀ (i : Nat) (w w' : TLVWriter), i ≤ self.NumSupportedRegDomains →
      WirelessRegConfig.Encode_SupportedRegDomains self fuel i w = .ok w' →
      w'.written = w.written ++
        (List.range' i (self.NumSupportedRegDomains - i)).map
          (fun k => TLVWriter.stringElement AnonymousTag
            (regDomainAt self.SupportedRegDomains k).bytes) := by
  induction fuel with
  | zero => intro i w w' _ h; simp [WirelessRegConfig.Encode_SupportedRegDomains] at h
  | succ n ih =>
    intro i w w' hi h
    rw [WirelessRegConfig.Encode_SupportedRegDomains.eq_2] at h
    split at h
    · rename_i hlt
      simp only [bind_eq_ok] at h
      obtain ⟨w1, h1, h2⟩ := h
      obtain ⟨a1, _⟩ := PutString_ok _ _ _ _ h1
      have hmod : (i + 1) % 256 = i + 1 := Nat.mod_eq_of_lt (by omega)
      rw [hmod] at h2
      have := ih (i + 1) w1 w' (by omega) h2
      rw [this, a1]
      have e : self.NumSupportedRegDomains - i = (self.NumSupportedRegDomains - (i + 1)) + 1 := by
        omega
      rw [e, List.range'_succ]
      simp
    · rename_i hge
      simp only [Except.ok.injEq] at h
      subst h
      have e : self.NumSupportedRegDomains - i = 0 := by omega
      rw [e]
      simp

/-! ## `Encode` succeeds in a buffer that is large enough -/

theorem WriteElement_succeeds (w : TLVWriter) (t : Token)
    (ht : TLVWriter.tagAllowed w.mContainerType t.tag = true)
    (hb : t.bytes.length ≤ w.mRemainingLen) :
    w.WriteElement t = (WEAVE_NO_ERROR,
      { w with written := w.written ++ [t],
               mRemainingLen := w.mRemainingLen - t.bytes.length }) := by
  simp [TLVWriter.WriteElement, ht, hb]

theorem regDomain_stringElement_bytes (tag : Tag) (d : WirelessRegDomain) :
    (TLVWriter.stringElement tag d.bytes).bytes.length = tag.encoding.length + 4 := by
  simp [TLVWriter.stringElement, Token.bytes, WirelessRegDomain.bytes, fieldWidth, littleEndian,
    TLVTypeHasLength]

theorem littleEndian_len (n : Nat) : ∀ v, (littleEndian n v).length = n := by
  induction n with
  | zero => intro v; rfl
  | succ k ih => intro v; simp [littleEndian, ih]

theorem uintElement_bytes (tag : Tag) (v : Nat) :
    (TLVWriter.uintElement tag v).bytes.length ≤ tag.encoding.length + 9 := by
  have hw : fieldWidth v ≤ 8 := by
    unfold fieldWidth
    split
    · decide
    · split
      · decide
      · split <;> decide
  simp [TLVWriter.uintElement, Token.bytes, TLVTypeHasLength, littleEndian_len]
  omega

theorem Encode_SupportedRegDomains_succeeds (self : WirelessRegConfig)
    (hn : self.NumSupportedRegDomains ≤ 255) (k : Nat) :
    ∀ (fuel i : Nat) (w : TLVWriter), i + k = self.NumSupportedRegDomains →
      w.mContainerType = kTLVType_Array → 4 * k ≤ w.mRemainingLen → k < fuel →
      ∃ w', WirelessRegConfig.Encode_SupportedRegDomains self fuel i w = .ok w' ∧
        w'.mContainerType = kTLVType_Array := by
  induction k with
  | zero =>
    intro fuel i w hi hct _ hf
    cases fuel with
    | zero => omega
    | succ n =>
      rw [WirelessRegConfig.Encode_SupportedRegDomains.eq_2, if_neg (by omega)]
      exact ⟨w, rfl, hct⟩
  | succ k ih =>
    intro fuel i w hi hct hrem hf
    cases fuel with
    | zero => omega
    | succ n =>
      rw [WirelessRegConfig.Encode_SupportedRegDomains.eq_2, if_pos (by omega)]
      have hb := regDomain_stringElement_bytes AnonymousTag
        (regDomainAt self.SupportedRegDomains i)
      simp only [Tag.encoding, List.length_nil, Nat.zero_add] at hb
      have hW := WriteElement_succeeds w (TLVWriter.stringElement AnonymousTag
        (regDomainAt self.SupportedRegDomains i).bytes)
        (by rw [hct]; rfl) (by rw [hb]; omega)
      have hmod : (i + 1) % 256 = i + 1 := Nat.mod_eq_of_lt (by omega)
      obtain ⟨w', a1, a2⟩ := ih n (i + 1)
        { w with
          written := w.written ++ [TLVWriter.stringElement AnonymousTag
            (regDomainAt self.SupportedRegDomains i).bytes]
          mRemainingLen := w.mRemainingLen - (TLVWriter.stringElement AnonymousTag
            (regDomainAt self.SupportedRegDomains i).bytes).bytes.length }
        (by omega) hct (by simp only [hb]; omega) (by omega)
      refine ⟨w', ?_, a2⟩
      rw [← a1, hmod]
      simp [TLVWriter.PutString, hW, SuccessOrExit, bind, Except.bind]

theorem StartContainer_succeeds (w : TLVWriter) (tag : Tag) (ty : TLVType)
    (hty : TLVTypeIsContainer (TLVWriter.containerElementType ty) = true)
    (htag : TLVWriter.tagAllowed w.mContainerType tag = true)
    (hb : tag.encoding.length + 2 ≤ w.mRemainingLen) :
    ∃ w1, SuccessOrExit (w.StartContainer tag ty) = .ok (w.mContainerType, w1) ∧
      w1.mContainerType = ty ∧ w.mRemainingLen ≤ w1.mRemainingLen + tag.encoding.length + 2 := by
  have hlen : (TLVWriter.containerElement tag ty).bytes.length = tag.encoding.length + 1 := by
    have : TLVTypeHasLength (TLVWriter.containerElementType ty) = false := by
      cases ty <;> rfl
    simp [TLVWriter.containerElement, Token.bytes, this]
  have hW := WriteElement_succeeds { w with mRemainingLen := w.mRemainingLen - 1 }
    (TLVWriter.containerElement tag ty) htag (by rw [hlen]; show _ ≤ w.mRemainingLen - 1; omega)
  have hS : SuccessOrExit (w.StartContainer tag ty) = .ok (w.mContainerType,
      { written := w.written ++ [TLVWriter.containerElement tag ty],
        mRemainingLen := w.mRemainingLen - 1 -
          (TLVWriter.containerElement tag ty).bytes.length,
        mContainerType := ty }) := by
    simp only [SuccessOrExit, TLVWriter.StartContainer, hty, if_true,
      show 1 ≤ w.mRemainingLen from by omega, hW]
  refine ⟨_, hS, rfl, ?_⟩
  show w.mRemainingLen ≤ w.mRemainingLen - 1 - _ + _ + 2
  rw [hlen]
  omega

theorem Encode_RegDomain_succeeds (c : WirelessRegConfig) (w : TLVWriter)
    (hct : w.mContainerType = kTLVType_Structure) (hb : 5 ≤ w.mRemainingLen) :
    ∃ w', c.Encode_RegDomain w = .ok w' ∧ w'.mContainerType = kTLVType_Structure ∧
      w.mRemainingLen ≤ w'.mRemainingLen + 5 := by
  unfold WirelessRegConfig.Encode_RegDomain
  split
  · have hl := regDomain_stringElement_bytes
      (ContextTag kTag_WirelessRegConfig_RegulatoryDomain) c.RegDomain
    simp only [Tag.encoding, List.length_singleton] at hl
    have hW := WriteElement_succeeds w (TLVWriter.stringElement
      (ContextTag kTag_WirelessRegConfig_RegulatoryDomain) c.RegDomain.bytes)
      (by rw [hct]; rfl) (by rw [hl]; omega)
    have hS : SuccessOrExit (w.PutString
        (ContextTag kTag_WirelessRegConfig_RegulatoryDomain) c.RegDomain.bytes) =
        .ok { w with
          written := w.written ++ [TLVWriter.stringElement
            (ContextTag kTag_WirelessRegConfig_RegulatoryDomain) c.RegDomain.bytes]
          mRemainingLen := w.mRemainingLen - (TLVWriter.stringElement
            (ContextTag kTag_WirelessRegConfig_RegulatoryDomain)
            c.RegDomain.bytes).bytes.length } := by
      simp only [TLVWriter.PutString, hW, SuccessOrExit, if_true]
    refine ⟨_, hS, hct, ?_⟩
    show w.mRemainingLen ≤ w.mRemainingLen - _ + 5
    rw [hl]
    omega
  · exact ⟨w, rfl, hct, by omega⟩

theorem Encode_OpLocation_succeeds (c : WirelessRegConfig) (w : TLVWriter)
    (hct : w.mContainerType = kTLVType_Structure) (hb : 10 ≤ w.mRemainingLen) :
    ∃ w', c.Encode_OpLocation w = .ok w' ∧ w'.mContainerType = kTLVType_Structure ∧
      w.mRemainingLen ≤ w'.mRemainingLen + 10 := by
  unfold WirelessRegConfig.Encode_OpLocation
  split
  · have hl := uintElement_bytes
      (ContextTag kTag_WirelessRegConfig_OperatingLocation) c.OpLocation
    simp only [Tag.encoding, List.length_singleton] at hl
    have hW := WriteElement_succeeds w (TLVWriter.uintElement
      (ContextTag kTag_WirelessRegConfig_OperatingLocation) c.OpLocation)
      (by rw [hct]; rfl) (by omega)
    have hS : SuccessOrExit (w.Put
        (ContextTag kTag_WirelessRegConfig_OperatingLocation) c.OpLocation) =
        .ok { w with
          written := w.written ++ [TLVWriter.uintElement
            (ContextTag kTag_WirelessRegConfig_OperatingLocation) c.OpLocation]
          mRemainingLen := w.mRemainingLen - (TLVWriter.uintElement
            (ContextTag kTag_WirelessRegConfig_OperatingLocation)
            c.OpLocation).bytes.length } := by
      simp only [TLVWriter.Put, hW, SuccessOrExit, if_true]
    refine ⟨_, hS, hct, ?_⟩
    show w.mRemainingLen ≤ w.mRemainingLen - _ + 10
    omega
  · exact ⟨w, rfl, hct, by omega⟩

theorem EndContainer_succeeds (w : TLVWriter) (o : TLVType)
    (hct : TLVTypeIsContainer (TLVWriter.containerElementType w.mContainerType) = true) :
    ∃ w', SuccessOrExit (w.EndContainer o) = .ok w' ∧ w'.mContainerType = o ∧
      w'.mRemainingLen = w.mRemainingLen := by
  have hS : SuccessOrExit (w.EndContainer o) =
      .ok { written := w.written ++ [TLVWriter.endOfContainerElement],
            mRemainingLen := w.mRemainingLen, mContainerType := o } := by
    simp only [SuccessOrExit, TLVWriter.EndContainer, hct, if_true]
  exact ⟨_, hS, rfl, rfl⟩

theorem Encode_SupportedRegDomainsArray_succeeds (c : WirelessRegConfig) (w : TLVWriter)
    (hn : c.NumSupportedRegDomains ≤ 255)
    (hct : w.mContainerType = kTLVType_Structure)
    (hb : 4 * c.NumSupportedRegDomains + 3 ≤ w.mRemainingLen) :
    ∃ w', c.Encode_SupportedRegDomainsArray w = .ok w' ∧
      w'.mContainerType = kTLVType_Structure := by
  unfold WirelessRegConfig.Encode_SupportedRegDomainsArray
  split
  · obtain ⟨w1, a1, a2, a3⟩ := StartContainer_succeeds w
      (ContextTag kTag_WirelessRegConfig_SupportedRegulatoryDomains) kTLVType_Array rfl
      (by rw [hct]; rfl) (by simp only [Tag.encoding, List.length_singleton]; omega)
    simp only [Tag.encoding, List.length_singleton] at a3
    obtain ⟨w2, b1, b2⟩ := Encode_SupportedRegDomains_succeeds c hn c.NumSupportedRegDomains
      (w1.mRemainingLen + 1) 0 w1 (by omega) a2 (by omega) (by omega)
    obtain ⟨w3, c1, c2, _⟩ := EndContainer_succeeds w2 w.mContainerType (by rw [b2]; rfl)
    refine ⟨w3, ?_, c2.trans hct⟩
    simp only [a1, bind, Except.bind, b1, c1]
  · exact ⟨w, rfl, hct⟩

theorem Encode_succeeds (c : WirelessRegConfig) (maxLen : Nat)
    (hn : c.NumSupportedRegDomains ≤ 255)
    (hb : 4 * c.NumSupportedRegDomains + 20 ≤ maxLen) :
    ∃ w', c.Encode (TLVWriter.Init maxLen) = .ok w' := by
  obtain ⟨w1, a1, a2, a3⟩ := StartContainer_succeeds (TLVWriter.Init maxLen) AnonymousTag
    kTLVType_Structure rfl rfl (by
      simp only [Tag.encoding, List.length_nil, TLVWriter.Init]; omega)
  simp only [Tag.encoding, List.length_nil, TLVWriter.Init, Nat.add_zero] at a3
  obtain ⟨w2, b1, b2, b3⟩ := Encode_RegDomain_succeeds c w1 a2 (by omega)
  obtain ⟨w3, c1, c2, c3⟩ := Encode_OpLocation_succeeds c w2 b2 (by omega)
  obtain ⟨w4, d1, d2⟩ := Encode_SupportedRegDomainsArray_succeeds c w3 hn c2 (by omega)
  obtain ⟨w5, e1, _, _⟩ := EndContainer_succeeds w4 (TLVWriter.Init maxLen).mContainerType
    (by rw [d2]; rfl)
  refine ⟨w5, ?_⟩
  simp only [WirelessRegConfig.Encode, a1, bind, Except.bind, b1, c1, d1, e1]

theorem Encode_encoding (c : WirelessRegConfig) (w w' : TLVWriter)
    (h : c.Encode w = .ok w') :
    c.NumSupportedRegDomains ≤ 255 ∧ w'.written = w.written ++ c.encoding := by
  have hn : c.NumSupportedRegDomains ≤ 255 := by
    by_cases hn : c.NumSupportedRegDomains ≤ 255
    · exact hn
    · obtain ⟨e, he⟩ := Encode_never c (by omega) w
      rw [he] at h
      cases h
  refine ⟨hn, ?_⟩
  simp only [WirelessRegConfig.Encode, bind_eq_ok] at h
  obtain ⟨⟨o, w1⟩, h1, w2, h2, w3, h3, w4, h4, h5⟩ := h
  obtain ⟨a1, _, _⟩ := StartContainer_ok _ _ _ _ _ h1
  obtain ⟨a5, _⟩ := EndContainer_ok _ _ _ h5
  have a2 : w2.written = w1.written ++
      (if c.IsRegDomainPresent then
        [TLVWriter.stringElement (ContextTag kTag_WirelessRegConfig_RegulatoryDomain)
          c.RegDomain.bytes] else []) := by
    unfold WirelessRegConfig.Encode_RegDomain at h2
    split at h2
    · rename_i hc
      rw [if_pos hc]
      exact (PutString_ok _ _ _ _ h2).1
    · rename_i hc
      rw [if_neg hc]
      simp only [Except.ok.injEq] at h2
      rw [← h2]; simp
  have a3 : w3.written = w2.written ++
      (if c.IsOpLocationPresent then
        [TLVWriter.uintElement (ContextTag kTag_WirelessRegConfig_OperatingLocation)
          c.OpLocation] else []) := by
    unfold WirelessRegConfig.Encode_OpLocation at h3
    split at h3
    · rename_i hc
      rw [if_pos hc]
      exact (Put_ok _ _ _ _ h3).1
    · rename_i hc
      rw [if_neg hc]
      simp only [Except.ok.injEq] at h3
      rw [← h3]; simp
  unfold WirelessRegConfig.encoding WirelessRegConfig.encodingFields
    WirelessRegConfig.encodingArray
  unfold WirelessRegConfig.Encode_SupportedRegDomainsArray at h4
  split at h4
  · rename_i hpos
    simp only [bind_eq_ok] at h4
    obtain ⟨⟨o2, w5⟩, h6, w6, h7, h8⟩ := h4
    obtain ⟨a6, _, _⟩ := StartContainer_ok _ _ _ _ _ h6
    have a7 := Encode_SupportedRegDomains_elements c hn _ 0 _ _ (Nat.zero_le _) h7
    obtain ⟨a8, _⟩ := EndContainer_ok _ _ _ h8
    rw [a5, a8, a7, a6, a3, a2, a1, if_pos hpos, List.range_eq_range']
    simp
  · rename_i hpos
    simp only [Except.ok.injEq] at h4
    rw [a5, ← h4, a3, a2, a1, if_neg hpos]
    simp

/-! ## `Decode` reads back what `Encode` writes -/

theorem Decode_elements_end (max : Nat) (e : Token) (rest : List Token)
    (self : WirelessRegConfig) (reader : TLVReader) (stores : List (Nat × Nat)) (fuel : Nat)
    (hc : ∀ t, reader.cur = some t → t.elemType ≠ kTLVElementType_EndOfContainer ∧
      TLVTypeIsContainer t.elemType = false)
    (ha : reader.after = e :: rest) (he : e.elemType = kTLVElementType_EndOfContainer) :
    WirelessRegConfig.Decode_elements max (fuel + 1) self reader stores =
      .ok (self, { before := reader.before ++ reader.cur.toList, cur := some e, after := rest,
                   mContainerType := reader.mContainerType }, stores) := by
  rw [WirelessRegConfig.Decode_elements.eq_2, Next_at_end reader e rest hc ha he]
  simp

theorem Decode_elements_array (max : Nat) (arr : Token) (elems : List Token) (e : Token)
    (rest : List Token) (self : WirelessRegConfig) (reader : TLVReader)
    (stores : List (Nat × Nat)) (fuel : Nat)
    (htag : arr.tag = ContextTag kTag_WirelessRegConfig_SupportedRegulatoryDomains)
    (harr : arr.elemType = kTLVElementType_Array)
    (hel : ∀ t ∈ elems, t.elemType = kTLVElementType_UTF8String ∧ t.data.length = 2)
    (hnum : self.NumSupportedRegDomains = 0) (hcap : elems.length ≤ max)
    (hc : ∀ t, reader.cur = some t → t.elemType ≠ kTLVElementType_EndOfContainer ∧
      TLVTypeIsContainer t.elemType = false)
    (ha : reader.after = arr :: elems ++ e :: rest)
    (he : e.elemType = kTLVElementType_EndOfContainer) :
    ∃ (reader' : TLVReader) (stores' : List (Nat × Nat)) (supp' : List WirelessRegDomain),
      reader'.after = rest ∧ reader'.cur = none ∧
      reader'.mContainerType = reader.mContainerType ∧
      (∀ i t, elems[i]? = some t → regDomainAt supp' i = WirelessRegDomain.ofBytes t.data) ∧
      WirelessRegConfig.Decode_elements max (fuel + 1) self reader stores =
        WirelessRegConfig.Decode_elements max fuel
          { self with SupportedRegDomains := supp', NumSupportedRegDomains := elems.length }
          reader' stores' := by
  have hne : arr.elemType ≠ kTLVElementType_EndOfContainer := by rw [harr]; decide
  have hN := Next_step reader arr (elems ++ e :: rest) hc (by simpa using ha) hne
  obtain ⟨r1, hr1⟩ : ∃ r1 : TLVReader, r1 = TLVReader.mk (reader.before ++ reader.cur.toList)
      (some arr) (elems ++ e :: rest) reader.mContainerType := ⟨_, rfl⟩
  have hN : reader.Next = (WEAVE_NO_ERROR, r1) := by rw [hN, hr1]
  have hcur1 : r1.cur = some arr := by rw [hr1]
  have haft1 : r1.after = elems ++ e :: rest := by rw [hr1]
  have hct1 : r1.mContainerType = reader.mContainerType := by rw [hr1]
  have hE := EnterContainer_of_container r1 arr hcur1 (by rw [harr]; rfl)
  obtain ⟨r2, hr2⟩ : ∃ r2 : TLVReader, r2 = TLVReader.mk (r1.before ++ [arr]) none r1.after
      arr.elemType.toTLVType := ⟨_, rfl⟩
  rw [← hr2] at hE
  have haft2 : r2.after = elems ++ e :: rest := by rw [hr2, haft1]
  obtain ⟨r3, st3, supp', a1, a2, _, a4, _, _, a7⟩ :=
    Decode_SupportedRegDomains_strings max elems self r2 stores (rest.length + 1 + 1)
      (e :: rest) hel (by omega) (by intro t h; rw [hr2] at h; cases h) haft2
  have hfuel : r2.after.length + 1 = elems.length + (rest.length + 1 + 1) := by
    rw [haft2]; simp only [List.length_append, List.length_cons]; omega
  have hin : WirelessRegConfig.Decode_SupportedRegDomains max (r2.after.length + 1) self r2
      stores = .ok ({ self with
          SupportedRegDomains := supp'
          NumSupportedRegDomains := self.NumSupportedRegDomains + elems.length },
        { before := r3.before ++ r3.cur.toList, cur := some e, after := rest,
          mContainerType := r3.mContainerType }, st3) := by
    rw [hfuel, a7, WirelessRegConfig.Decode_SupportedRegDomains.eq_2,
      Next_at_end r3 e rest a2 a1 he]
    simp
  have hX := ExitContainer_at_end
    { before := r3.before ++ r3.cur.toList, cur := some e, after := rest,
      mContainerType := r3.mContainerType } e r1.mContainerType rfl he
  refine ⟨TLVReader.mk (r3.before ++ r3.cur.toList ++ [e]) none rest r1.mContainerType, st3,
    supp', ?_, ?_, ?_, ?_, ?_⟩
  rotate_left 4
  · rw [WirelessRegConfig.Decode_elements.eq_2, hN]
    simp only [if_true, TLVReader.GetTag, hcur1, htag]
    rw [if_neg (by decide), if_neg (by decide)]
    simp only [TLVReader.GetType, TLVReader.ElementType, hcur1, harr, TLVElementType.toTLVType,
      ne_eq, not_true_eq_false, if_false, hnum, if_true]
    rw [hE]
    simp only []
    rw [hin]
    simp only [hX, ne_eq, not_true_eq_false, if_false, hnum, Nat.zero_add]
  · rfl
  · rfl
  · exact hct1
  · intro i t h
    have := a4 i t h
    rw [hnum, Nat.zero_add] at this
    exact this

theorem ofBytes_bytes (d : WirelessRegDomain) : WirelessRegDomain.ofBytes d.bytes = d := by
  cases d with
  | mk code => cases code; rfl

theorem encodingFields_leaves (c : WirelessRegConfig) :
    ∀ t ∈ c.encodingFields, t.elemType ≠ kTLVElementType_EndOfContainer ∧
      TLVTypeIsContainer t.elemType = false := by
  intro t ht
  unfold WirelessRegConfig.encodingFields at ht
  rcases List.mem_append.mp ht with h | h
  · split at h
    · simp only [List.mem_singleton] at h
      subst h
      exact ⟨by simp [TLVWriter.stringElement], rfl⟩
    · cases h
  · split at h
    · simp only [List.mem_singleton] at h
      subst h
      exact ⟨by simp [TLVWriter.uintElement], rfl⟩
    · cases h

theorem Decode_fields_RegDomain (self : WirelessRegConfig) (d : WirelessRegDomain)
    (ts : List Token) (h : self.IsRegDomainPresent = false) :
    self.Decode_fields (TLVWriter.stringElement
        (ContextTag kTag_WirelessRegConfig_RegulatoryDomain) d.bytes :: ts) =
      WirelessRegConfig.Decode_fields { self with RegDomain := d } ts := by
  rw [WirelessRegConfig.Decode_fields.eq_2]
  simp [TLVWriter.stringElement, h, WirelessRegDomain.bytes, WirelessRegDomain.ofBytes]

theorem Decode_fields_OpLocation (self : WirelessRegConfig) (v : Nat)
    (ts : List Token) (h : self.IsOpLocationPresent = false) (hv : v % 256 ≠ 0) :
    self.Decode_fields (TLVWriter.uintElement
        (ContextTag kTag_WirelessRegConfig_OperatingLocation) v :: ts) =
      WirelessRegConfig.Decode_fields { self with OpLocation := v % 256 } ts := by
  rw [WirelessRegConfig.Decode_fields.eq_2]
  simp [TLVWriter.uintElement, h, hv, kTag_WirelessRegConfig_RegulatoryDomain,
    kTag_WirelessRegConfig_OperatingLocation]

theorem Decode_fields_encodingFields (c : WirelessRegConfig)
    (storage : List WirelessRegDomain) (hop : c.OpLocation < 256) :
    WirelessRegConfig.Decode_fields
        { SupportedRegDomains := storage, NumSupportedRegDomains := 0,
          RegDomain := { Code := (0, 0) }, OpLocation := 0 } c.encodingFields =
      some { SupportedRegDomains := storage, NumSupportedRegDomains := 0,
             RegDomain := if c.IsRegDomainPresent then c.RegDomain else { Code := (0, 0) },
             OpLocation := c.OpLocation } := by
  have hmod : c.OpLocation % 256 = c.OpLocation := Nat.mod_eq_of_lt hop
  unfold WirelessRegConfig.encodingFields
  by_cases hd : c.IsRegDomainPresent = true
  · by_cases hl : c.IsOpLocationPresent = true
    · have hl' : c.OpLocation % 256 ≠ 0 := by
        rw [hmod]
        simpa [WirelessRegConfig.IsOpLocationPresent] using hl
      rw [if_pos hd, if_pos hl, if_pos hd, List.singleton_append,
        Decode_fields_RegDomain, Decode_fields_OpLocation,
        WirelessRegConfig.Decode_fields.eq_1, hmod]
      all_goals first | rfl | exact hl'
    · have hl' : c.OpLocation = 0 := by
        simpa [WirelessRegConfig.IsOpLocationPresent] using hl
      rw [if_pos hd, if_neg hl, if_pos hd, List.append_nil,
        Decode_fields_RegDomain, WirelessRegConfig.Decode_fields.eq_1, hl']
      all_goals rfl
  · by_cases hl : c.IsOpLocationPresent = true
    · have hl' : c.OpLocation % 256 ≠ 0 := by
        rw [hmod]
        simpa [WirelessRegConfig.IsOpLocationPresent] using hl
      rw [if_neg hd, if_pos hl, if_neg hd, List.nil_append,
        Decode_fields_OpLocation, WirelessRegConfig.Decode_fields.eq_1, hmod]
      all_goals first | rfl | exact hl'
    · have hl' : c.OpLocation = 0 := by
        simpa [WirelessRegConfig.IsOpLocationPresent] using hl
      rw [if_neg hd, if_neg hl, if_neg hd, List.append_nil,
        WirelessRegConfig.Decode_fields.eq_1, hl']

theorem Decode_elements_encodingArray (c : WirelessRegConfig) (max : Nat)
    (hn : c.NumSupportedRegDomains ≤ max) (e : Token) (rest : List Token)
    (self : WirelessRegConfig) (reader : TLVReader) (stores : List (Nat × Nat))
    (hnum : self.NumSupportedRegDomains = 0)
    (hc : ∀ t, reader.cur = some t → t.elemType ≠ kTLVElementType_EndOfContainer ∧
      TLVTypeIsContainer t.elemType = false)
    (ha : reader.after = c.encodingArray ++ e :: rest)
    (he : e.elemType = kTLVElementType_EndOfContainer) :
    ∃ (self' : WirelessRegConfig) (reader' : TLVReader) (stores' : List (Nat × Nat)),
      WirelessRegConfig.Decode_elements max (reader.after.length + 1) self reader stores =
        .ok (self', reader', stores') ∧
      reader'.cur = some e ∧ reader'.after = rest ∧
      self'.RegDomain = self.RegDomain ∧ self'.OpLocation = self.OpLocation ∧
      self'.NumSupportedRegDomains = c.NumSupportedRegDomains ∧
      ∀ i, i < c.NumSupportedRegDomains →
        regDomainAt self'.SupportedRegDomains i = regDomainAt c.SupportedRegDomains i := by
  unfold WirelessRegConfig.encodingArray at ha
  by_cases hpos : 0 < c.NumSupportedRegDomains
  · rw [if_pos hpos] at ha
    obtain ⟨elems, helems⟩ : ∃ elems : List Token, elems =
        (List.range c.NumSupportedRegDomains).map
          (fun k => TLVWriter.stringElement AnonymousTag
            (regDomainAt c.SupportedRegDomains k).bytes) := ⟨_, rfl⟩
    rw [← helems] at ha
    have hlen : elems.length = c.NumSupportedRegDomains := by
      rw [helems]; simp
    have hel : ∀ t ∈ elems, t.elemType = kTLVElementType_UTF8String ∧ t.data.length = 2 := by
      intro t ht
      rw [helems] at ht
      obtain ⟨k, _, rfl⟩ := List.mem_map.mp ht
      exact ⟨rfl, rfl⟩
    have ha' : reader.after = TLVWriter.containerElement
        (ContextTag kTag_WirelessRegConfig_SupportedRegulatoryDomains) kTLVType_Array ::
        elems ++ TLVWriter.endOfContainerElement :: (e :: rest) := by
      rw [ha]; simp
    have hfuel : reader.after.length + 1 = (elems.length + rest.length + 2 + 1) + 1 := by
      rw [ha']
      simp only [List.length_append, List.length_cons]
      omega
    obtain ⟨r3, st3, supp', a1, a2, a3, a4, a5⟩ := Decode_elements_array max _ elems
      TLVWriter.endOfContainerElement (e :: rest) self reader stores
      (elems.length + rest.length + 2 + 1) rfl rfl hel hnum (by omega) hc ha' rfl
    have a6 := Decode_elements_end max e rest
      { self with SupportedRegDomains := supp', NumSupportedRegDomains := elems.length }
      r3 st3 (elems.length + rest.length + 2)
      (by intro t h; rw [a2] at h; cases h) a1 he
    refine ⟨{ self with SupportedRegDomains := supp', NumSupportedRegDomains := elems.length },
      TLVReader.mk (r3.before ++ r3.cur.toList) (some e) rest r3.mContainerType, st3,
      by rw [hfuel, a5, a6], rfl, rfl, rfl, rfl, hlen, ?_⟩
    intro i hi
    have hget : elems[i]? = some (TLVWriter.stringElement AnonymousTag
        (regDomainAt c.SupportedRegDomains i).bytes) := by
      rw [helems, List.getElem?_map, List.getElem?_range hi]
      rfl
    have := a4 i _ hget
    simp only [] at this ⊢
    rw [this]
    exact ofBytes_bytes _
  · rw [if_neg hpos, List.nil_append] at ha
    have hfuel : reader.after.length + 1 = (rest.length + 1) + 1 := by
      rw [ha]; simp only [List.length_cons]
    have a6 := Decode_elements_end max e rest self reader stores (rest.length + 1) hc ha he
    refine ⟨self, TLVReader.mk (reader.before ++ reader.cur.toList) (some e) rest
      reader.mContainerType, stores, by rw [hfuel, a6], rfl, rfl, rfl, rfl, by omega, ?_⟩
    intro i hi
    omega

theorem Decode_encoding (c : WirelessRegConfig) (storage : List WirelessRegDomain) (m : Nat)
    (hn : c.NumSupportedRegDomains ≤ m) (hop : c.OpLocation < 256) :
    (WirelessRegConfig.Decode
      { SupportedRegDomains := storage, NumSupportedRegDomains := m,
        RegDomain := { Code := (0, 0) }, OpLocation := 0 }
      (TLVReader.Init c.encoding)).err = WEAVE_NO_ERROR ∧
    (WirelessRegConfig.Decode
      { SupportedRegDomains := storage, NumSupportedRegDomains := m,
        RegDomain := { Code := (0, 0) }, OpLocation := 0 }
      (TLVReader.Init c.encoding)).self.RegDomain =
      (if c.IsRegDomainPresent then c.RegDomain else { Code := (0, 0) }) ∧
    (WirelessRegConfig.Decode
      { SupportedRegDomains := storage, NumSupportedRegDomains := m,
        RegDomain := { Code := (0, 0) }, OpLocation := 0 }
      (TLVReader.Init c.encoding)).self.OpLocation = c.OpLocation ∧
    (WirelessRegConfig.Decode
      { SupportedRegDomains := storage, NumSupportedRegDomains := m,
        RegDomain := { Code := (0, 0) }, OpLocation := 0 }
      (TLVReader.Init c.encoding)).self.NumSupportedRegDomains = c.NumSupportedRegDomains ∧
    ∀ i, i < c.NumSupportedRegDomains →
      regDomainAt (WirelessRegConfig.Decode
        { SupportedRegDomains := storage, NumSupportedRegDomains := m,
          RegDomain := { Code := (0, 0) }, OpLocation := 0 }
        (TLVReader.Init c.encoding)).self.SupportedRegDomains i =
      regDomainAt c.SupportedRegDomains i := by
  obtain ⟨s, hs⟩ : ∃ s : Token, s = TLVWriter.containerElement AnonymousTag
    kTLVType_Structure := ⟨_, rfl⟩
  obtain ⟨body, hbody⟩ : ∃ body : List Token, body =
    c.encodingFields ++ (c.encodingArray ++ [TLVWriter.endOfContainerElement]) := ⟨_, rfl⟩
  have henc : c.encoding = s :: body := by
    rw [hs, hbody]; unfold WirelessRegConfig.encoding; simp
  have hst : s.elemType = kTLVElementType_Structure := by rw [hs]; rfl
  rw [henc]
  have hc0 : ∀ t, (TLVReader.Init (s :: body)).cur = some t →
      t.elemType ≠ kTLVElementType_EndOfContainer ∧ TLVTypeIsContainer t.elemType = false := by
    intro t ht; cases ht
  have hse : s.elemType ≠ kTLVElementType_EndOfContainer := by rw [hst]; decide
  have hN := Next_step (TLVReader.Init (s :: body)) s body hc0 rfl hse
  obtain ⟨r0, hr0⟩ : ∃ r0 : TLVReader, r0 = TLVReader.mk [] (some s) body
      kTLVType_NotSpecified := ⟨_, rfl⟩
  have hN : (TLVReader.Init (s :: body)).Next = (WEAVE_NO_ERROR, r0) := by
    rw [hN, hr0]; rfl
  have hcur0 : r0.cur = some s := by rw [hr0]
  have hE := EnterContainer_of_container r0 s hcur0 (by rw [hst]; rfl)
  obtain ⟨r1, hr1⟩ : ∃ r1 : TLVReader, r1 = TLVReader.mk (r0.before ++ [s]) none r0.after
      s.elemType.toTLVType := ⟨_, rfl⟩
  rw [← hr1] at hE
  have haft1 : r1.after = c.encodingFields ++
      (c.encodingArray ++ [TLVWriter.endOfContainerElement]) := by rw [hr1, hr0, hbody]
  obtain ⟨r2, a1, a2, _, a4⟩ := Decode_elements_fields m c.encodingFields
    { SupportedRegDomains := storage, NumSupportedRegDomains := 0,
      RegDomain := { Code := (0, 0) }, OpLocation := 0 } _ r1 []
    ((c.encodingArray ++ [TLVWriter.endOfContainerElement]).length + 1)
    (c.encodingArray ++ [TLVWriter.endOfContainerElement]) (encodingFields_leaves c)
    (by intro t h; rw [hr1] at h; cases h) haft1 (Decode_fields_encodingFields c storage hop)
  obtain ⟨s3, r3, st3, b1, b2, b3, b4, b5, b6, b7⟩ := Decode_elements_encodingArray c m hn
    TLVWriter.endOfContainerElement []
    { SupportedRegDomains := storage, NumSupportedRegDomains := 0,
      RegDomain := if c.IsRegDomainPresent then c.RegDomain else { Code := (0, 0) },
      OpLocation := c.OpLocation } r2 [] rfl a2 a1 rfl
  rw [a1] at b1
  have hfuel : r1.after.length + 1 = c.encodingFields.length +
      ((c.encodingArray ++ [TLVWriter.endOfContainerElement]).length + 1) := by
    rw [haft1, List.length_append]
    omega
  have hD : WirelessRegConfig.Decode_elements m (r1.after.length + 1)
      { SupportedRegDomains := storage, NumSupportedRegDomains := 0,
        RegDomain := { Code := (0, 0) }, OpLocation := 0 } r1 [] = .ok (s3, r3, st3) := by
    rw [hfuel, a4, b1]
  have hX := ExitContainer_at_end r3 TLVWriter.endOfContainerElement r0.mContainerType b2 rfl
  have hg : (TLVReader.Init (s :: body)).GetType = kTLVType_NotSpecified := rfl
  have hty : r0.GetType = kTLVType_Structure := by
    simp [TLVReader.GetType, TLVReader.ElementType, hcur0, hst, TLVElementType.toTLVType]
  have hres : WirelessRegConfig.Decode
      { SupportedRegDomains := storage, NumSupportedRegDomains := m,
        RegDomain := { Code := (0, 0) }, OpLocation := 0 }
      (TLVReader.Init (s :: body)) =
      { err := WEAVE_NO_ERROR, self := s3,
        reader := TLVReader.mk (r3.before ++ [TLVWriter.endOfContainerElement]) none r3.after
          r0.mContainerType,
        stores := st3 } := by
    unfold WirelessRegConfig.Decode
    simp only [hg, if_true, hN, ne_eq, not_true_eq_false, if_false, hty, hE, hD, hX]
  rw [hres]
  exact ⟨rfl, b4, b5, b6, b7⟩

/-- C33, the failing input: a configuration with 256 supported domains or more. The counter
of the loop of `Encode` over the supported domains is a `uint8_t` compared with the 16-bit
`NumSupportedRegDomains`: with 256 domains or more the comparison never fails, the loop goes
on until the writer refuses an element, and `Encode` returns an error whatever the writer
and the size of its buffer: such a configuration has no encoding to decode. With 255 domains
at most `Encode` succeeds in every buffer of `4 * n + 20` bytes, and whenever `Encode`
succeeds, `Decode` of what it wrote, into a configuration reset by `Init` and given an array
and a capacity `m` of at least `n`, returns `WEAVE_NO_ERROR` and leaves the regulatory
domain of the configuration (zero when it is absent), its operating location, the count `n`
and the `n` supported domains in their order. The bound on the iterations of the loop of the
model is not reached: a larger bound gives the same result. -/
theorem Encode_Decode_round_trip (c : WirelessRegConfig) :
    (256 ≤ c.NumSupportedRegDomains → ∀ w : TLVWriter, ∃ e, c.Encode w = .error e) ∧
    (c.NumSupportedRegDomains ≤ 255 → ∀ maxLen : Nat,
      4 * c.NumSupportedRegDomains + 20 ≤ maxLen →
      ∃ w', c.Encode (TLVWriter.Init maxLen) = .ok w') ∧
    (∀ (maxLen : Nat) (w' : TLVWriter) (x : WirelessRegConfig)
      (storage : List WirelessRegDomain) (m : Nat),
      c.Encode (TLVWriter.Init maxLen) = .ok w' → c.OpLocation < 256 →
      c.NumSupportedRegDomains ≤ m →
      c.NumSupportedRegDomains ≤ 255 ∧
      (WirelessRegConfig.Decode
        { x.Init with SupportedRegDomains := storage, NumSupportedRegDomains := m }
        (TLVReader.Init w'.written)).err = WEAVE_NO_ERROR ∧
      (WirelessRegConfig.Decode
        { x.Init with SupportedRegDomains := storage, NumSupportedRegDomains := m }
        (TLVReader.Init w'.written)).self.RegDomain =
        (if c.IsRegDomainPresent then c.RegDomain else { Code := (0, 0) }) ∧
      (WirelessRegConfig.Decode
        { x.Init with SupportedRegDomains := storage, NumSupportedRegDomains := m }
        (TLVReader.Init w'.written)).self.OpLocation = c.OpLocation ∧
      (WirelessRegConfig.Decode
        { x.Init with SupportedRegDomains := storage, NumSupportedRegDomains := m }
        (TLVReader.Init w'.written)).self.NumSupportedRegDomains =
        c.NumSupportedRegDomains ∧
      ∀ i, i < c.NumSupportedRegDomains →
        regDomainAt (WirelessRegConfig.Decode
          { x.Init with SupportedRegDomains := storage, NumSupportedRegDomains := m }
          (TLVReader.Init w'.written)).self.SupportedRegDomains i =
        regDomainAt c.SupportedRegDomains i) ∧
    (∀ (fuel i : Nat) (w : TLVWriter), w.mRemainingLen < fuel →
      WirelessRegConfig.Encode_SupportedRegDomains c fuel i w =
        WirelessRegConfig.Encode_SupportedRegDomains c (w.mRemainingLen + 1) i w) := by
  refine ⟨fun hn w => Encode_never c hn w, fun hn maxLen hb => Encode_succeeds c maxLen hn hb,
    ?_, fun fuel i w h => Encode_SupportedRegDomains_fuel c fuel _ i w h (by omega)⟩
  intro maxLen w' x storage m h hop hm
  obtain ⟨hn, hw⟩ := Encode_encoding c _ _ h
  have hw' : w'.written = c.encoding := by
    rw [hw]; rfl
  rw [hw']
  exact ⟨hn, Decode_encoding c storage m hm hop⟩

/-- The configuration with 256 supported domains: `Encode` returns an error in every writer;
in a buffer of 64 bytes the loop writes domains until the buffer is full and the error is
`WEAVE_ERROR_BUFFER_TOO_SMALL`, where the configuration with two supported domains is
encoded and decoded back. -/
theorem Encode_256_domains_fails :
    (∀ w : TLVWriter, ∃ e, Sample.regConfig256.Encode w = .error e) ∧
    Sample.regConfig256.Encode (TLVWriter.Init 64) = .error WEAVE_ERROR_BUFFER_TOO_SMALL ∧
    (∃ w', (Sample.regConfig 5).Encode (TLVWriter.Init 64) = .ok w') ∧
    (WirelessRegConfig.Decode
      { SupportedRegDomains := [], NumSupportedRegDomains := 2, RegDomain := { Code := (0, 0) },
        OpLocation := 0 }
      (TLVReader.Init (Sample.encoded (Sample.regConfig 5)))).self =
      Sample.regConfig 5 :=
  ⟨fun w => Encode_never Sample.regConfig256 (by decide) w, by rfl, ⟨_, rfl⟩, by rfl⟩

end Weave
